import Mathlib

/-!
SD-card SPI driver (SDCard.c): shallow embedding and verified properties.

The driver of `src/src/SDCard.c` is embedded as pure Lean functions over an explicit
machine state.  Machine integers are natural numbers reduced modulo `2^w` at every place
where the C code stores into a `uint8_t` / `uint32_t` / `uint64_t` object.
-/

namespace SDCard

/-! ## CRC7 engine (SDCard.c, lines 79-106) -/

/-- Inner loop of `SD_CRC7_GenTable` (`for (j = 1; j < 8; ++j)`): `n` remaining rounds of
`SD_CRC7_Table[i] <<= 1; if (SD_CRC7_Table[i] & 0x80) SD_CRC7_Table[i] ^= polynom;`
on the `uint8_t` table cell holding `t`. -/
def SD_CRC7_GenTable_rounds (polynom : Nat) : Nat → Nat → Nat
  | 0, t => t
  | n + 1, t =>
    let t1 := (t <<< 1) % 256
    let t2 := if t1 &&& 0x80 ≠ 0 then (t1 ^^^ polynom) % 256 else t1
    SD_CRC7_GenTable_rounds polynom n t2

/-- Body of the outer loop of `SD_CRC7_GenTable` for index `i`: the value finally left in
`SD_CRC7_Table[i]`. -/
def SD_CRC7_GenTable_entry (i : Nat) : Nat :=
  let polynom := 0x89
  let t0 := (if i &&& 0x80 ≠ 0 then i ^^^ polynom else i) % 256
  SD_CRC7_GenTable_rounds polynom 7 t0

/-- Outer loop of `SD_CRC7_GenTable` run for indices `i, i+1, ..., i+n-1` on the table
`tbl` (the global `SD_CRC7_Table`, a map from index to cell content). -/
def SD_CRC7_GenTable_from (tbl : Nat → Nat) : Nat → Nat → (Nat → Nat)
  | 0, _ => tbl
  | n + 1, i =>
    SD_CRC7_GenTable_from (fun k => if k = i then SD_CRC7_GenTable_entry i else tbl k) n (i + 1)

/-- `SD_CRC7_GenTable`: `for (i = 0; i < 256; ++i)` over the previous table contents. -/
def SD_CRC7_GenTable (tbl : Nat → Nat) : Nat → Nat :=
  SD_CRC7_GenTable_from tbl 256 0

/-- `SD_CRC7_GetCRC(buffer, len)`: `crc = 0; for i < len: crc = SD_CRC7_Table[(crc << 1) ^ buffer[i]]`.
The table is the global `SD_CRC7_Table`; `crc` is a `uint8_t`. -/
def SD_CRC7_GetCRC (tbl : Nat → Nat) (buffer : List Nat) (len : Nat) : Nat :=
  (buffer.take len).foldl (fun crc b => tbl ((crc <<< 1) ^^^ b) % 256) 0

/-- Specification side of the CRC refinement: one step of the bit-serial CRC-7 shift
register with generator `x^7 + x^3 + 1` fed with the data bit `d`. -/
def crc7BitStep (crc : Nat) (d : Bool) : Nat :=
  let fb := (crc / 64) % 2 ≠ (if d then 1 else 0)
  let sh := (crc * 2) % 128
  if fb then sh ^^^ 0x09 else sh

/-- Specification side: the eight bits of a byte, most significant first. -/
def bitsMsbFirst (b : Nat) : List Bool :=
  [7, 6, 5, 4, 3, 2, 1, 0].map (fun k => (b / 2 ^ k) % 2 = 1)

/-- Specification side: bit-by-bit CRC-7 of one byte starting from register value `crc`. -/
def crc7BitwiseByte (crc b : Nat) : Nat :=
  (bitsMsbFirst b).foldl crc7BitStep crc

/-- Specification side: bit-by-bit CRC-7 (polynomial 0x89, seed 0) of a byte sequence. -/
def crc7Bitwise (bytes : List Nat) : Nat :=
  bytes.foldl crc7BitwiseByte 0


/-! ## Enumerations and constants (SDCard.h, SDCard_SPI.h) -/

/-- Return value of the SD API functions (`SD_Error_t`, SDCard.h lines 28-35). -/
inductive SD_Error_t where
  | SD_OK
  | SD_INCORRECT_RESPONSE
  | SD_CRC_ERROR
  | SD_WRITE_ERROR
  | SD_ERROR
  deriving DecidableEq, Repr

/-- Integer value of an `SD_Error_t` enumerator. -/
def SD_Error_t.toNat : SD_Error_t → Nat
  | .SD_OK => 0
  | .SD_INCORRECT_RESPONSE => 1
  | .SD_CRC_ERROR => 2
  | .SD_WRITE_ERROR => 3
  | .SD_ERROR => 4

/-- Card states (`SD_State_t`). -/
inductive SD_State_t where
  | SD_STATE_INACTIVE
  | SD_STATE_IDLE
  | SD_STATE_READY
  | SD_STATE_STANDBY
  | SD_STATE_SENDING
  | SD_STATE_RECEIVE
  deriving DecidableEq, Repr

/-- Card modes (`SD_Mode_t`). -/
inductive SD_Mode_t where
  | SD_MODE_INACTIVE
  | SD_MODE_IDENTIFICATION
  | SD_MODE_TRANSFER
  deriving DecidableEq, Repr

/-- Capacity classes (`SD_Type_t`). -/
inductive SD_Type_t where
  | SD_TYPE_SDSC
  | SD_TYPE_SDHC
  | SD_TYPE_SDXC
  deriving DecidableEq, Repr

/-- Return value of the SPI transfer functions (`SD_SPI_Status_t`). -/
inductive SD_SPI_Status_t where
  | SD_SPI_OK
  | SD_SPI_ERROR
  deriving DecidableEq, Repr

/-- Integer value of an `SD_SPI_Status_t` enumerator. -/
def SD_SPI_Status_t.toNat : SD_SPI_Status_t → Nat
  | .SD_SPI_OK => 0
  | .SD_SPI_ERROR => 1

/-- Arguments of `SD_SPI_SetSpeed` (`SD_SPI_Speed_t`). -/
inductive SD_SPI_Speed_t where
  | SD_SPI_INIT_SPEED
  | SD_SPI_TRANSFER_SPEED
  deriving DecidableEq, Repr

open SD_Error_t SD_State_t SD_Mode_t SD_Type_t SD_SPI_Status_t SD_SPI_Speed_t

abbrev SD_TIMEOUT : Nat := 1000

abbrev SD_CMD_0 : Nat := 0
abbrev SD_CMD_8 : Nat := 8
abbrev SD_CMD_9 : Nat := 9
abbrev SD_CMD_10 : Nat := 10
abbrev SD_CMD_12 : Nat := 12
abbrev SD_CMD_13 : Nat := 13
abbrev SD_CMD_16 : Nat := 16
abbrev SD_CMD_17 : Nat := 17
abbrev SD_CMD_18 : Nat := 18
abbrev SD_CMD_24 : Nat := 24
abbrev SD_CMD_25 : Nat := 25
abbrev SD_CMD_55 : Nat := 55
abbrev SD_CMD_58 : Nat := 58
abbrev SD_ACMD_22 : Nat := 22
abbrev SD_ACMD_41 : Nat := 41

abbrev SD_R1_NORMAL_STATE : Nat := 0x00
abbrev SD_R1_IDLE_STATE : Nat := 0x01
abbrev SD_R1_ILLEGAL_CMD : Nat := 0x04
abbrev SD_R1_ALWAYS_ZERO : Nat := 0x80

abbrev SD_START_RMW_BLOCK_TOKEN : Nat := 0xFE
abbrev SD_START_WM_BLOCK_TOKEN : Nat := 0xFC
abbrev SD_STOP_WE_BLOCK_TOKEN : Nat := 0xFD

abbrev SD_DATA_ACCEPTED : Nat := 0x05
abbrev SD_DATA_CRC_ERROR : Nat := 0x0B
abbrev SD_DATA_WRITE_ERROR : Nat := 0x0D

/-! ## Machine state -/

/-- The session structure `SD_Parameters_t` (SDCard.h lines 257-292).  The peripheral
handles `SPIx` and `CS_Port` are fixed for a session and carry no data of their own. -/
structure SD_Parameters_t where
  SPIx_Clk : Nat
  CS_Pin : Nat
  state : SD_State_t
  mode : SD_Mode_t
  version : Nat
  type : SD_Type_t
  lastR1 : Nat
  lastR2 : Nat
  writtenBlocks : Nat
  rawOCR : List Nat
  rawCID : List Nat
  rawCSD : List Nat
  blockSize : Nat
  capacity : Nat

/-- One call of a collaborator of `SDCard.c` (SPI transport, chip select), as observed
from the driver: the bytes handed over or stored, and the status returned. -/
inductive Event where
  | send8 (data : List Nat) (st : SD_SPI_Status_t)
  | recv8 (len : Nat) (st : SD_SPI_Status_t) (data : List Nat)
  | send16 (data : List Nat) (st : SD_SPI_Status_t)
  | recv16 (len : Nat) (st : SD_SPI_Status_t) (data : List Nat)
  | csSet
  | csReset
  | setSpeed (speed : SD_SPI_Speed_t)
  | config
  deriving DecidableEq, Repr

/-- One assignment to `sd->mode` or to `sd->state`. -/
inductive FieldWrite where
  | mode (v : SD_Mode_t)
  | state (v : SD_State_t)
  deriving DecidableEq, Repr

/-- Outcome of one receiving call of the SPI transport: the status returned, the items
(bytes for the 8-bit function, words read from `SPIx->DR` for the 16-bit function) that
arrive, and, for a failing call, how many items had been stored when the call gave up.
A call that returns `SD_SPI_OK` has stored every item asked for. -/
structure RxOutcome where
  st : SD_SPI_Status_t
  item : Nat → Nat
  stored : Nat

/-- Number of items a receiving call asked for `len` items leaves in the buffer. -/
def RxOutcome.count (r : RxOutcome) (len : Nat) : Nat :=
  if r.st = SD_SPI_Status_t.SD_SPI_OK then len else min r.stored len

/-- Everything the driver can read or change: the session `sd`, the global
`SD_CRC7_Table`, the global `SystemCoreClock`, and the hardware environment.

The environment is a family of response streams: `tx8 k` is the status that the `k`-th
coming call of `SD_SPI_Send8Data` returns, `rx8 k` the outcome of the `k`-th coming call
of `SD_SPI_Receive8Data`, `tx16`/`rx16` likewise for the 16-bit functions, and `cycles k`
is the `k`-th coming reading of `DWT->CYCCNT`.  `log` records the collaborator calls made
so far, the newest first, and `writes` the assignments made so far to `sd->mode` and
`sd->state`, the newest first. -/
structure Machine where
  sd : SD_Parameters_t
  SD_CRC7_Table : Nat → Nat
  SystemCoreClock : Nat
  tx8 : Nat → SD_SPI_Status_t
  rx8 : Nat → RxOutcome
  tx16 : Nat → SD_SPI_Status_t
  rx16 : Nat → RxOutcome
  cycles : Nat → Nat
  log : List Event
  writes : List FieldWrite

/-- The assignment `sd->state = v`. -/
def Machine.setState (m : Machine) (v : SD_State_t) : Machine :=
  { m with sd := { m.sd with state := v }, writes := FieldWrite.state v :: m.writes }

/-- The assignment `sd->mode = v`. -/
def Machine.setMode (m : Machine) (v : SD_Mode_t) : Machine :=
  { m with sd := { m.sd with mode := v }, writes := FieldWrite.mode v :: m.writes }

/-- The assignment `sd->version = v`. -/
def Machine.setVersion (m : Machine) (v : Nat) : Machine :=
  { m with sd := { m.sd with version := v } }

/-- The assignment `sd->type = v`. -/
def Machine.setType (m : Machine) (v : SD_Type_t) : Machine :=
  { m with sd := { m.sd with type := v } }

/-- The assignment `sd->lastR1 = v`. -/
def Machine.setLastR1 (m : Machine) (v : Nat) : Machine :=
  { m with sd := { m.sd with lastR1 := v } }

/-- The assignment `sd->lastR2 = v`. -/
def Machine.setLastR2 (m : Machine) (v : Nat) : Machine :=
  { m with sd := { m.sd with lastR2 := v } }

/-- The assignment `sd->writtenBlocks = v`. -/
def Machine.setWrittenBlocks (m : Machine) (v : Nat) : Machine :=
  { m with sd := { m.sd with writtenBlocks := v } }

/-- The assignment `sd->rawOCR = v`. -/
def Machine.setRawOCR (m : Machine) (v : List Nat) : Machine :=
  { m with sd := { m.sd with rawOCR := v } }

/-- The assignment `sd->rawCID = v`. -/
def Machine.setRawCID (m : Machine) (v : List Nat) : Machine :=
  { m with sd := { m.sd with rawCID := v } }

/-- The assignment `sd->rawCSD = v`. -/
def Machine.setRawCSD (m : Machine) (v : List Nat) : Machine :=
  { m with sd := { m.sd with rawCSD := v } }

/-- The assignment `sd->blockSize = v`. -/
def Machine.setBlockSize (m : Machine) (v : Nat) : Machine :=
  { m with sd := { m.sd with blockSize := v } }

/-- The assignment `sd->capacity = v`. -/
def Machine.setCapacity (m : Machine) (v : Nat) : Machine :=
  { m with sd := { m.sd with capacity := v } }

/-- Memory effect of storing the bytes `new` at the start of the buffer `old`. -/
def storeBytes (old new : List Nat) : List Nat :=
  new ++ old.drop new.length

/-- Memory effect of storing the bytes `new` at offset `off` of the buffer `old`. -/
def storeBytesAt (old : List Nat) (off : Nat) (new : List Nat) : List Nat :=
  old.take off ++ storeBytes (old.drop off) new

/-- Value of a C `int` (32-bit two's complement, wrapping) whose mathematical value is `x`. -/
def toInt32 (x : Int) : Int :=
  (x + 2147483648) % 4294967296 - 2147483648

/-- Conversion of a C `int` value to `uint64_t`. -/
def toUInt64 (x : Int) : Nat :=
  (x % 18446744073709551616).toNat

/-! ## Collaborators: SPI transport (SDCard_SPI.c) and cycle counter (Utils.c)

The register-level polling of the SPI peripheral is not modelled; a call takes its
outcome from the environment streams of the machine and is recorded in the log. -/

/-- `SD_SPI_CS_Set`: chip select high (card deselected). -/
def SD_SPI_CS_Set (m : Machine) : Machine :=
  { m with log := Event.csSet :: m.log }

/-- `SD_SPI_CS_Reset`: chip select low (card selected). -/
def SD_SPI_CS_Reset (m : Machine) : Machine :=
  { m with log := Event.csReset :: m.log }

/-- `SD_SPI_SetSpeed`. -/
def SD_SPI_SetSpeed (m : Machine) (speed : SD_SPI_Speed_t) : Machine :=
  { m with log := Event.setSpeed speed :: m.log }

/-- `SD_SPI_Config`. -/
def SD_SPI_Config (m : Machine) : Machine :=
  { m with log := Event.config :: m.log }

/-- `SD_SPI_Send8Data(SPIx, data, len)`: sends the first `len` bytes of `data`. -/
def SD_SPI_Send8Data (m : Machine) (data : List Nat) (len : Nat) : SD_SPI_Status_t × Machine :=
  (m.tx8 0,
   { m with tx8 := fun k => m.tx8 (k + 1),
            log := Event.send8 (data.take len) (m.tx8 0) :: m.log })

/-- `SD_SPI_Receive8Data(SPIx, data, len)`: returns the status and the bytes stored at the
start of `data`. -/
def SD_SPI_Receive8Data (m : Machine) (len : Nat) : SD_SPI_Status_t × List Nat × Machine :=
  let st := (m.rx8 0).st
  let bytes := (List.range ((m.rx8 0).count len)).map (fun j => (m.rx8 0).item j % 256)
  (st, bytes,
   { m with rx8 := fun k => m.rx8 (k + 1),
            log := Event.recv8 len st bytes :: m.log })

/-- `SD_SPI_Send16Data(SPIx, data, len, ENABLE)`: sends `len` 16-bit words, that is the
first `2 * len` bytes of the byte buffer `data` in buffer order, followed by the CRC16. -/
def SD_SPI_Send16Data (m : Machine) (data : List Nat) (len : Nat) : SD_SPI_Status_t × Machine :=
  (m.tx16 0,
   { m with tx16 := fun k => m.tx16 (k + 1),
            log := Event.send16 (data.take (2 * len)) (m.tx16 0) :: m.log })

/-- `SD_SPI_Receive16Data(SPIx, data, len, ENABLE)`: receives `len` 16-bit words `tmp`
and stores `(tmp >> 8) | (tmp << 8)` in a `uint16_t` array, so that the byte buffer gets
`tmp >> 8` followed by `tmp & 0xFF` for every word; returns the status (which covers the
CRC16 check) and the bytes stored. -/
def SD_SPI_Receive16Data (m : Machine) (len : Nat) : SD_SPI_Status_t × List Nat × Machine :=
  let st := (m.rx16 0).st
  let bytes := (List.range ((m.rx16 0).count len)).flatMap
    (fun j => [((m.rx16 0).item j % 65536) >>> 8, (m.rx16 0).item j % 256])
  (st, bytes,
   { m with rx16 := fun k => m.rx16 (k + 1),
            log := Event.recv16 len st bytes :: m.log })

/-- `DWT_GetCycle`: the current value of the 32-bit cycle counter. -/
def DWT_GetCycle (m : Machine) : Nat × Machine :=
  (m.cycles 0 % 4294967296, { m with cycles := fun k => m.cycles (k + 1) })

/-- `DWT_CyclesInMs`: `SystemCoreClock / 1000`. -/
def DWT_CyclesInMs (m : Machine) : Nat :=
  (m.SystemCoreClock % 4294967296) / 1000

/-- `DWT_Timeout(timeout_ms, timestamp)`: 0 while
`timeout_ms * DWT_CyclesInMs() >= DWT_GetCycle() - timestamp` in `uint32_t` arithmetic,
1 afterwards. -/
def DWT_Timeout (m : Machine) (timeout_ms timestamp : Nat) : Nat × Machine :=
  let timeout := (timeout_ms * DWT_CyclesInMs m) % 4294967296
  let c := DWT_GetCycle m
  if timeout ≥ (c.1 + 4294967296 - timestamp % 4294967296) % 4294967296 then (0, c.2) else (1, c.2)

/-! ## Command/response layer (SDCard.c, lines 116-225) -/

/-- Polling loop of `SD_GetR1` with `repeats` tries left and `response` the byte read
last.  `none` is the early `return SD_ERROR` on a transport error; otherwise the values of
`response` and `repeats` at loop exit. -/
def SD_GetR1_poll : Nat → Machine → Nat → Option (Nat × Nat) × Machine
  | 0, m, response => (some (response, 0), m)
  | repeats + 1, m, response =>
    if response &&& SD_R1_ALWAYS_ZERO ≠ 0 then
      let r := SD_SPI_Receive8Data m 1
      if r.1 = SD_SPI_ERROR then (none, r.2.2)
      else SD_GetR1_poll repeats r.2.2 (r.2.1.headD response)
    else (some (response, repeats + 1), m)

/-- `SD_GetR1(sd, correctResponse)`. -/
def SD_GetR1 (m : Machine) (correctResponse : Nat) : SD_Error_t × Machine :=
  let p := SD_GetR1_poll 10 m 0xFF
  match p.1 with
  | none => (SD_ERROR, p.2)
  | some (response, repeats) =>
    if repeats = 0 then (SD_ERROR, p.2)
    else
      let m1 := (p.2.setLastR1 response)
      if response ≠ correctResponse then (SD_INCORRECT_RESPONSE, m1) else (SD_OK, m1)

/-- The 6-byte `frame` built by `SD_SendCMD` (lines 118-126). -/
def SD_SendCMD_frame (tbl : Nat → Nat) (cmd argument : Nat) : List Nat :=
  let frame0 := ((cmd % 256) &&& 0x7F) ||| 0x40
  let frame1 := (argument >>> 24) % 256
  let frame2 := (argument >>> 16) % 256
  let frame3 := (argument >>> 8) % 256
  let frame4 := argument % 256
  let frame5 :=
    (((SD_CRC7_GetCRC tbl [frame0, frame1, frame2, frame3, frame4] 5) <<< 1) ||| 0x01) % 256
  [frame0, frame1, frame2, frame3, frame4, frame5]

/-- `SD_SendCMD(sd, cmd, argument, correctResponse)`. -/
def SD_SendCMD (m : Machine) (cmd argument correctResponse : Nat) : SD_Error_t × Machine :=
  let s := SD_SPI_Send8Data m (SD_SendCMD_frame m.SD_CRC7_Table cmd argument) 6
  if s.1 ≠ SD_SPI_OK then (SD_ERROR, s.2)
  else SD_GetR1 s.2 correctResponse

/-- `SD_SendACMD(sd, acmd, argument, correctResponse)`. -/
def SD_SendACMD (m : Machine) (acmd argument correctResponse : Nat) : SD_Error_t × Machine :=
  let response := if m.sd.mode = SD_MODE_TRANSFER then SD_R1_NORMAL_STATE else SD_R1_IDLE_STATE
  let r := SD_SendCMD m SD_CMD_55 0 response
  if r.1 = SD_ERROR then (SD_ERROR, r.2)
  else SD_SendCMD r.2 acmd argument correctResponse

/-- `SD_GetResponse(sd, response, len)`: the status and the bytes stored in `response`. -/
def SD_GetResponse (m : Machine) (len : Nat) : SD_Error_t × List Nat × Machine :=
  let r := SD_SPI_Receive8Data m len
  if r.1 = SD_SPI_ERROR then (SD_ERROR, r.2.1, r.2.2) else (SD_OK, r.2.1, r.2.2)

/-- `SD_SendToken(sd, token)`. -/
def SD_SendToken (m : Machine) (token : Nat) : SD_Error_t × Machine :=
  let s := SD_SPI_Send8Data m [token] 1
  if s.1 = SD_SPI_ERROR then (SD_ERROR, s.2) else (SD_OK, s.2)

/-- Polling loop of `SD_GetToken`; the loop condition is `(response & (~token)) && repeats`
with `~token` taken in 32-bit arithmetic. -/
def SD_GetToken_poll (token : Nat) : Nat → Machine → Nat → Option (Nat × Nat) × Machine
  | 0, m, response => (some (response, 0), m)
  | repeats + 1, m, response =>
    if response &&& (0xFFFFFFFF - token) ≠ 0 then
      let r := SD_SPI_Receive8Data m 1
      if r.1 = SD_SPI_ERROR then (none, r.2.2)
      else SD_GetToken_poll token repeats r.2.2 (r.2.1.headD response)
    else (some (response, repeats + 1), m)

/-- `SD_GetToken(sd, token)`. -/
def SD_GetToken (m : Machine) (token : Nat) : SD_Error_t × Machine :=
  let p := SD_GetToken_poll token 100 m 0xFF
  match p.1 with
  | none => (SD_ERROR, p.2)
  | some (_, repeats) => if repeats = 0 then (SD_ERROR, p.2) else (SD_OK, p.2)

/-! ## Block data transfer (SDCard.c, lines 233-327)

The loops that are bounded by the cycle counter only (`SD_WaitForBusy`, `SD_WriteData`,
`SD_StopTransfer`, `SD_GoToTransferMode`) take a number `fuel` of iterations they may run.
A function built on them returns `none` as its result, together with the machine reached
so far, when such a loop is still running after `fuel` iterations. -/

/-- `SD_ReadData(sd, data, len)`: the status and the bytes stored at the start of `data`. -/
def SD_ReadData (m : Machine) (len : Nat) : SD_Error_t × List Nat × Machine :=
  let r := SD_SPI_Receive16Data m (len >>> 1)
  if r.1 = SD_SPI_ERROR then (SD_ERROR, r.2.1, r.2.2) else (SD_OK, r.2.1, r.2.2)

/-- Busy loop of `SD_WaitForBusy` (`while (busy != 0xFF)`), at most `fuel` iterations. -/
def SD_WaitForBusy_loop (timestamp : Nat) : Nat → Machine → Nat → Option SD_Error_t × Machine
  | 0, m, _ => (none, m)
  | fuel + 1, m, busy =>
    if busy ≠ 0xFF then
      let r := SD_SPI_Receive8Data m 1
      if r.1 = SD_SPI_ERROR then (some SD_ERROR, r.2.2)
      else
        let t := DWT_Timeout r.2.2 SD_TIMEOUT timestamp
        if t.1 ≠ 0 then (some SD_ERROR, t.2)
        else SD_WaitForBusy_loop timestamp fuel t.2 (r.2.1.headD busy)
    else (some SD_OK, m)

/-- `SD_WaitForBusy(sd)`. -/
def SD_WaitForBusy (fuel : Nat) (m : Machine) : Option SD_Error_t × Machine :=
  let c := DWT_GetCycle m
  SD_WaitForBusy_loop c.1 fuel c.2 0

/-- Data-response loop of `SD_WriteData`, at most `fuel` iterations.  The result
`some none` is the early `return SD_ERROR`, `some (some token)` the value of `token` at
loop exit. -/
def SD_WriteData_loop (timestamp : Nat) : Nat → Machine → Nat → Option (Option Nat) × Machine
  | 0, m, _ => (none, m)
  | fuel + 1, m, token =>
    if token ≠ SD_DATA_ACCEPTED ∧ token ≠ SD_DATA_CRC_ERROR ∧ token ≠ SD_DATA_WRITE_ERROR then
      let r := SD_SPI_Receive8Data m 1
      if r.1 = SD_SPI_ERROR then (some none, r.2.2)
      else
        let t := DWT_Timeout r.2.2 SD_TIMEOUT timestamp
        if t.1 ≠ 0 then (some none, t.2)
        else SD_WriteData_loop timestamp fuel t.2 ((r.2.1.headD token) &&& 0x1F)
    else (some (some token), m)

/-- `SD_WriteData(sd, data, len)`. -/
def SD_WriteData (fuel : Nat) (m : Machine) (data : List Nat) (len : Nat) :
    Option SD_Error_t × Machine :=
  let s := SD_SPI_Send16Data m data (len >>> 1)
  if s.1 = SD_SPI_ERROR then (some SD_ERROR, s.2)
  else
    let c := DWT_GetCycle s.2
    let l := SD_WriteData_loop c.1 fuel c.2 0xFF
    match l.1 with
    | none => (none, l.2)
    | some none => (some SD_ERROR, l.2)
    | some (some token) =>
      if token = SD_DATA_CRC_ERROR then (some SD_CRC_ERROR, l.2)
      else if token = SD_DATA_WRITE_ERROR then (some SD_WRITE_ERROR, l.2)
      else
        let w := SD_WaitForBusy fuel l.2
        match w.1 with
        | none => (none, w.2)
        | some e => if e ≠ SD_OK then (some SD_ERROR, w.2) else (some SD_OK, w.2)

/-- `SD_SendDummyByte(sd, num)`. -/
def SD_SendDummyByte : Machine → Nat → SD_Error_t × Machine
  | m, 0 => (SD_OK, m)
  | m, num + 1 =>
    let r := SD_SPI_Receive8Data m 1
    if r.1 = SD_SPI_ERROR then (SD_ERROR, r.2.2)
    else SD_SendDummyByte r.2.2 num

/-- Drain loop of `SD_StopTransfer` (`while (token != 0xFF)`), at most `fuel` iterations. -/
def SD_StopTransfer_loop (timestamp : Nat) : Nat → Machine → Nat → Option SD_Error_t × Machine
  | 0, m, _ => (none, m)
  | fuel + 1, m, token =>
    if token ≠ 0xFF then
      let r := SD_SPI_Receive8Data m 1
      if r.1 = SD_SPI_ERROR then (some SD_ERROR, r.2.2)
      else
        let t := DWT_Timeout r.2.2 SD_TIMEOUT timestamp
        if t.1 ≠ 0 then (some SD_ERROR, t.2)
        else SD_StopTransfer_loop timestamp fuel t.2 (r.2.1.headD token)
    else (some SD_OK, m)

/-- `SD_StopTransfer(sd)`: the result of the CMD12 exchange is not looked at. -/
def SD_StopTransfer (fuel : Nat) (m : Machine) : Option SD_Error_t × Machine :=
  let r := SD_SendCMD m SD_CMD_12 0 SD_R1_NORMAL_STATE
  let c := DWT_GetCycle r.2
  SD_StopTransfer_loop c.1 fuel c.2 0

/-! ## Card setup (SDCard.c, lines 333-558) -/

/-- `SD_ErrorHandler(sd)`. -/
def SD_ErrorHandler (m : Machine) : Machine :=
  SD_SPI_CS_Set ((m.setState SD_STATE_INACTIVE).setMode SD_MODE_INACTIVE)

/-- `SD_GoToIdleMode(sd)`. -/
def SD_GoToIdleMode (m : Machine) : SD_Error_t × Machine :=
  let r := SD_SendCMD m SD_CMD_0 0 SD_R1_IDLE_STATE
  if r.1 ≠ SD_OK then (SD_ERROR, r.2)
  else (SD_OK, ((r.2.setMode SD_MODE_IDENTIFICATION).setState SD_STATE_IDLE))

/-- Loop of `SD_GoToTransferMode` (`while (sd->lastR1 != SD_R1_NORMAL_STATE)`), at most
`fuel` iterations. -/
def SD_GoToTransferMode_loop (timestamp : Nat) : Nat → Machine → Option SD_Error_t × Machine
  | 0, m => (none, m)
  | fuel + 1, m =>
    if m.sd.lastR1 ≠ SD_R1_NORMAL_STATE then
      let t := DWT_Timeout m SD_TIMEOUT timestamp
      if t.1 ≠ 0 then (some SD_ERROR, t.2)
      else
        let r := SD_SendACMD t.2 SD_ACMD_41 0 SD_R1_NORMAL_STATE
        if r.1 = SD_ERROR then (some SD_ERROR, r.2)
        else SD_GoToTransferMode_loop timestamp fuel r.2
    else (some SD_OK, m)

/-- `SD_GoToTransferMode(sd)`. -/
def SD_GoToTransferMode (fuel : Nat) (m : Machine) : Option SD_Error_t × Machine :=
  let argument := if m.sd.version = 2 then 1 <<< 30 else 0
  let r := SD_SendACMD m SD_ACMD_41 argument SD_R1_IDLE_STATE
  if r.1 ≠ SD_OK then (some SD_ERROR, r.2)
  else
    let c := DWT_GetCycle r.2
    let l := SD_GoToTransferMode_loop c.1 fuel c.2
    match l.1 with
    | none => (none, l.2)
    | some e =>
      if e ≠ SD_OK then (some SD_ERROR, l.2)
      else (some SD_OK,
        ((l.2.setMode SD_MODE_TRANSFER).setState SD_STATE_STANDBY))

/-- `SD_CheckVoltage(sd)`; `response` is the local array `{0xFF, 0xFF, 0xFF, 0xFF}`. -/
def SD_CheckVoltage (m : Machine) : SD_Error_t × Machine :=
  let r := SD_SendCMD m SD_CMD_8 0x01AA SD_R1_IDLE_STATE
  if r.1 = SD_ERROR then (SD_ERROR, r.2)
  else if r.2.sd.lastR1 &&& SD_R1_ILLEGAL_CMD ≠ 0 then
    (SD_OK, (r.2.setVersion 1))
  else
    let g := SD_GetResponse r.2 4
    let response := storeBytes [0xFF, 0xFF, 0xFF, 0xFF] g.2.1
    if g.1 = SD_ERROR then (SD_ERROR, g.2.2)
    else if ¬ (response.getD 2 0 = 0x01 ∧ response.getD 3 0 = 0xAA) then (SD_ERROR, g.2.2)
    else (SD_OK, (g.2.2.setVersion 2))

/-- `SD_ReadOCR(sd)`. -/
def SD_ReadOCR (m : Machine) : SD_Error_t × Machine :=
  let r := SD_SendCMD m SD_CMD_58 0 SD_R1_NORMAL_STATE
  if r.1 ≠ SD_OK then (SD_ERROR, r.2)
  else
    let g := SD_GetResponse r.2 4
    let m1 := (g.2.2.setRawOCR (storeBytes g.2.2.sd.rawOCR g.2.1))
    if g.1 ≠ SD_OK then (SD_ERROR, m1)
    else if m1.sd.rawOCR.getD 0 0 &&& 0x40 ≠ 0 then
      (SD_OK, (m1.setType SD_TYPE_SDHC))
    else (SD_OK, m1)

/-- `SD_ReadCID(sd)`. -/
def SD_ReadCID (m : Machine) : SD_Error_t × Machine :=
  let r := SD_SendCMD m SD_CMD_10 0 SD_R1_NORMAL_STATE
  if r.1 ≠ SD_OK then (SD_ERROR, r.2)
  else
    let t := SD_GetToken r.2 SD_START_RMW_BLOCK_TOKEN
    if t.1 = SD_ERROR then (SD_ERROR, t.2)
    else
      let d := SD_ReadData t.2 16
      (d.1, (d.2.2.setRawCID (storeBytes d.2.2.sd.rawCID d.2.1)))

/-- `SD_SetBlockLength(sd, blockLen)`. -/
def SD_SetBlockLength (m : Machine) (blockLen : Nat) : SD_Error_t × Machine :=
  SD_SendCMD m SD_CMD_16 (blockLen % 65536) SD_R1_NORMAL_STATE

/-- The `int` expression `((rawCSD[7] & 0x3f) << 16) | (rawCSD[8] << 8) | rawCSD[9]` of
`SD_ReadCSD` (line 446) and `SD_GetCSD_v2` (line 947). -/
def SD_CSDv2_cSize (rawCSD : List Nat) : Nat :=
  ((rawCSD.getD 7 0 &&& 0x3f) <<< 16) ||| (rawCSD.getD 8 0 <<< 8) ||| rawCSD.getD 9 0

/-- The `int` expression
`((rawCSD[6] & 0x3) << 10) | (rawCSD[7] << 2) | ((rawCSD[8] >> 6) & 0x3)` of `SD_ReadCSD`
(line 459) and `SD_GetCSD_v1` (line 906). -/
def SD_CSDv1_cSize (rawCSD : List Nat) : Nat :=
  ((rawCSD.getD 6 0 &&& 0x3) <<< 10) ||| (rawCSD.getD 7 0 <<< 2) ||| ((rawCSD.getD 8 0 >>> 6) &&& 0x3)

/-- The `int` expression `((rawCSD[9] & 0x3) << 1) | ((rawCSD[10] >> 7) & 0x1)` of
`SD_ReadCSD` (line 457) and `SD_GetCSD_v1` (line 901). -/
def SD_CSDv1_sizeMultiplier (rawCSD : List Nat) : Nat :=
  ((rawCSD.getD 9 0 &&& 0x3) <<< 1) ||| ((rawCSD.getD 10 0 >>> 7) &&& 0x1)

/-- `SD_ReadCSD(sd)`.  The capacity expressions are evaluated in C `int` arithmetic
(`uint8_t` operands are promoted to `int`); the version-2 expression is converted to
`uint64_t` after the shift by 9 and before the shift by 10; `mult` is a `uint8_t`. -/
def SD_ReadCSD (m : Machine) : SD_Error_t × Machine :=
  let r := SD_SendCMD m SD_CMD_9 0 SD_R1_NORMAL_STATE
  if r.1 ≠ SD_OK then (SD_ERROR, r.2)
  else
    let t := SD_GetToken r.2 SD_START_RMW_BLOCK_TOKEN
    if t.1 = SD_ERROR then (SD_ERROR, t.2)
    else
      let d := SD_ReadData t.2 16
      let m1 := (d.2.2.setRawCSD (storeBytes d.2.2.sd.rawCSD d.2.1))
      if d.1 = SD_ERROR then (SD_ERROR, m1)
      else if m1.sd.version = 2 then
        let capacity : Nat :=
          (toUInt64 (toInt32 (((SD_CSDv2_cSize m1.sd.rawCSD : Nat) + 1) * 2 ^ 9)) <<< 10)
            % 18446744073709551616
        let m2 := ((m1.setBlockSize 512).setCapacity capacity)
        if capacity > 34360000000 then
          (SD_OK, (m2.setType SD_TYPE_SDXC))
        else (SD_OK, m2)
      else
        let m2 := (m1.setBlockSize 512)
        let b := SD_SetBlockLength m2 m2.sd.blockSize
        if b.1 ≠ SD_OK then (SD_ERROR, b.2)
        else
          let mult : Nat := (1 <<< (SD_CSDv1_sizeMultiplier b.2.sd.rawCSD + 2)) % 256
          let capacity : Nat :=
            toUInt64 (toInt32
              (toInt32 (((SD_CSDv1_cSize b.2.sd.rawCSD : Nat) + 1) * (mult : Int)) * 2 ^ 9))
          (SD_OK, (b.2.setCapacity capacity))

/-- `SD_Init(sd)`. -/
def SD_Init (fuel : Nat) (m : Machine) : Option SD_Error_t × Machine :=
  let m0 := { m with SD_CRC7_Table := SD_CRC7_GenTable m.SD_CRC7_Table }
  let m1 := SD_SPI_SetSpeed (SD_SPI_Config m0) SD_SPI_INIT_SPEED
  let d := SD_SendDummyByte m1 9
  if d.1 ≠ SD_OK then (some SD_ERROR, SD_ErrorHandler d.2)
  else
    let m2 := SD_SPI_CS_Reset
      (((d.2.setType SD_TYPE_SDSC).setState SD_STATE_READY).setMode SD_MODE_IDENTIFICATION)
    let i := SD_GoToIdleMode m2
    if i.1 ≠ SD_OK then (some SD_ERROR, SD_ErrorHandler i.2)
    else
      let v := SD_CheckVoltage i.2
      if v.1 ≠ SD_OK then (some SD_ERROR, SD_ErrorHandler v.2)
      else
        let g := SD_GoToTransferMode fuel v.2
        match g.1 with
        | none => (none, g.2)
        | some e =>
          if e ≠ SD_OK then (some SD_ERROR, SD_ErrorHandler g.2)
          else
            let o := if g.2.sd.version = 2 then SD_ReadOCR g.2 else (SD_OK, g.2)
            if o.1 ≠ SD_OK then (some SD_ERROR, SD_ErrorHandler o.2)
            else
              let m3 := SD_SPI_SetSpeed o.2 SD_SPI_TRANSFER_SPEED
              let ci := SD_ReadCID m3
              if ci.1 ≠ SD_OK then (some SD_ERROR, SD_ErrorHandler ci.2)
              else
                let cs := SD_ReadCSD ci.2
                if cs.1 ≠ SD_OK then (some SD_ERROR, SD_ErrorHandler cs.2)
                else (some SD_OK, SD_SPI_CS_Set cs.2)

/-! ## Public operations (SDCard.c, lines 564-825) -/

/-- `SD_ReadStatus(sd)`: the received byte is stored in `sd->lastR2`. -/
def SD_ReadStatus (m : Machine) : SD_Error_t × Machine :=
  let m0 := SD_SPI_CS_Reset m
  let r := SD_SendCMD m0 SD_CMD_13 0 SD_R1_NORMAL_STATE
  if r.1 ≠ SD_OK then (SD_ERROR, SD_ErrorHandler r.2)
  else
    let g := SD_GetResponse r.2 1
    let m1 := (g.2.2.setLastR2 (g.2.1.headD g.2.2.sd.lastR2))
    if g.1 ≠ SD_OK then (SD_ERROR, SD_ErrorHandler m1)
    else (SD_OK, SD_SPI_CS_Set m1)

/-- `SD_GetWrittenBlocks(sd)`.  The local array `temp` has no defined initial contents (taken
as zeros here); it is overwritten by the four bytes that `SD_ReadData` stores.  The `int`
value of the shift expression is converted to `uint32_t` by the assignment. -/
def SD_GetWrittenBlocks (m : Machine) : SD_Error_t × Machine :=
  let m0 := SD_SPI_CS_Reset m
  let a := SD_SendACMD m0 SD_ACMD_22 0 SD_R1_NORMAL_STATE
  if a.1 ≠ SD_OK then (SD_ERROR, SD_ErrorHandler a.2)
  else
    let t := SD_GetToken a.2 SD_START_RMW_BLOCK_TOKEN
    if t.1 ≠ SD_OK then (SD_ERROR, SD_ErrorHandler t.2)
    else
      let d := SD_ReadData t.2 4
      let temp := storeBytes [0, 0, 0, 0] d.2.1
      if d.1 ≠ SD_OK then (SD_ERROR, SD_ErrorHandler d.2.2)
      else
        let writtenBlocks :=
          ((temp.getD 0 0 <<< 24) ||| (temp.getD 1 0 <<< 16) ||| (temp.getD 2 0 <<< 8)
            ||| temp.getD 3 0) % 4294967296
        (SD_OK, SD_SPI_CS_Set (d.2.2.setWrittenBlocks writtenBlocks))

/-- `SD_ReadBlock(sd, address, data)`: returns the result and the contents of `data`
afterwards.  The statement `sd->state == SD_STATE_STANDBY;` of line 643 has no effect. -/
def SD_ReadBlock (m : Machine) (address : Nat) (data : List Nat) :
    SD_Error_t × List Nat × Machine :=
  let m0 := SD_SPI_CS_Reset m
  let m1 := (m0.setState SD_STATE_RECEIVE)
  let address1 :=
    if m1.sd.type = SD_TYPE_SDSC then (address * m1.sd.blockSize) % 4294967296 else address
  let r := SD_SendCMD m1 SD_CMD_17 address1 SD_R1_NORMAL_STATE
  if r.1 ≠ SD_OK then (SD_ERROR, data, SD_ErrorHandler r.2)
  else
    let t := SD_GetToken r.2 SD_START_RMW_BLOCK_TOKEN
    if t.1 ≠ SD_OK then (SD_ERROR, data, SD_ErrorHandler t.2)
    else
      let d := SD_ReadData t.2 t.2.sd.blockSize
      if d.1 ≠ SD_OK then (SD_ERROR, storeBytes data d.2.1, SD_ErrorHandler d.2.2)
      else (SD_OK, storeBytes data d.2.1, SD_SPI_CS_Set d.2.2)

/-- Block loop of `SD_ReadMultipleBlock` (`while (num--)`); `off` is the distance the
pointer `data` has advanced.  `SD_OK` means that the loop ran to its end. -/
def SD_ReadMultipleBlock_loop : Nat → Machine → List Nat → Nat → SD_Error_t × List Nat × Machine
  | 0, m, data, _ => (SD_OK, data, m)
  | num + 1, m, data, off =>
    let t := SD_GetToken m SD_START_RMW_BLOCK_TOKEN
    if t.1 ≠ SD_OK then (SD_ERROR, data, SD_ErrorHandler t.2)
    else
      let d := SD_ReadData t.2 t.2.sd.blockSize
      if d.1 ≠ SD_OK then (SD_ERROR, storeBytesAt data off d.2.1, SD_ErrorHandler d.2.2)
      else
        SD_ReadMultipleBlock_loop num d.2.2 (storeBytesAt data off d.2.1) (off + d.2.2.sd.blockSize)

/-- `SD_ReadMultipleBlock(sd, address, data, num)`. -/
def SD_ReadMultipleBlock (fuel : Nat) (m : Machine) (address : Nat) (data : List Nat) (num : Nat) :
    Option SD_Error_t × List Nat × Machine :=
  let m0 := SD_SPI_CS_Reset m
  let m1 := (m0.setState SD_STATE_RECEIVE)
  let address1 :=
    if m1.sd.type = SD_TYPE_SDSC then (address * m1.sd.blockSize) % 4294967296 else address
  let r := SD_SendCMD m1 SD_CMD_18 address1 SD_R1_NORMAL_STATE
  if r.1 ≠ SD_OK then (some SD_ERROR, data, SD_ErrorHandler r.2)
  else
    let l := SD_ReadMultipleBlock_loop num r.2 data 0
    if l.1 ≠ SD_OK then (some l.1, l.2.1, l.2.2)
    else
      let s := SD_StopTransfer fuel l.2.2
      match s.1 with
      | none => (none, l.2.1, s.2)
      | some e =>
        if e ≠ SD_OK then (some SD_ERROR, l.2.1, SD_ErrorHandler s.2)
        else
          (some SD_OK, l.2.1,
            SD_SPI_CS_Set (s.2.setState SD_STATE_STANDBY))

/-- `SD_WriteBlock(sd, address, data)`.  Line 716 compares the `SD_Error_t` result of
`SD_SendToken` with the enumerator `SD_SPI_ERROR` of `SD_SPI_Status_t`. -/
def SD_WriteBlock (fuel : Nat) (m : Machine) (address : Nat) (data : List Nat) :
    Option SD_Error_t × Machine :=
  let m0 := SD_SPI_CS_Reset m
  let m1 := (m0.setState SD_STATE_SENDING)
  let address1 :=
    if m1.sd.type = SD_TYPE_SDSC then (address * m1.sd.blockSize) % 4294967296 else address
  let r := SD_SendCMD m1 SD_CMD_24 address1 SD_R1_NORMAL_STATE
  if r.1 ≠ SD_OK then (some SD_ERROR, SD_ErrorHandler r.2)
  else
    let t := SD_SendToken r.2 SD_START_RMW_BLOCK_TOKEN
    if t.1.toNat = SD_SPI_ERROR.toNat then (some SD_ERROR, SD_ErrorHandler t.2)
    else
      let w := SD_WriteData fuel t.2 data t.2.sd.blockSize
      match w.1 with
      | none => (none, w.2)
      | some e =>
        if e ≠ SD_OK then (some SD_ERROR, SD_ErrorHandler (SD_ReadStatus w.2).2)
        else
          let b := SD_WaitForBusy fuel w.2
          match b.1 with
          | none => (none, b.2)
          | some e2 =>
            if e2 ≠ SD_OK then (some SD_ERROR, SD_ErrorHandler b.2)
            else
              let s := SD_ReadStatus b.2
              if s.1 ≠ SD_OK then (some SD_ERROR, SD_ErrorHandler s.2)
              else
                (some SD_OK,
                  SD_SPI_CS_Set (s.2.setState SD_STATE_STANDBY))

/-- Block loop of `SD_WriteMultipleBlock` (`while (num--)`); `data` is the buffer from the
current position of the pointer on.  `some SD_OK` means that the loop ran to its end,
`some SD_ERROR` is the `return SD_ERROR` inside the loop. -/
def SD_WriteMultipleBlock_loop (fuel : Nat) : Nat → Machine → List Nat → Option SD_Error_t × Machine
  | 0, m, _ => (some SD_OK, m)
  | num + 1, m, data =>
    let t := SD_SendToken m SD_START_WM_BLOCK_TOKEN
    if t.1 ≠ SD_OK then (some SD_ERROR, SD_ErrorHandler t.2)
    else
      let w := SD_WriteData fuel t.2 data t.2.sd.blockSize
      match w.1 with
      | none => (none, w.2)
      | some error =>
        if error = SD_ERROR then (some SD_ERROR, SD_ErrorHandler w.2)
        else if error = SD_CRC_ERROR ∨ error = SD_WRITE_ERROR then
          let s := SD_StopTransfer fuel w.2
          match s.1 with
          | none => (none, s.2)
          | some _ => (some SD_ERROR, SD_ErrorHandler (SD_GetWrittenBlocks s.2).2)
        else SD_WriteMultipleBlock_loop fuel num w.2 (data.drop w.2.sd.blockSize)

/-- `SD_WriteMultipleBlock(sd, address, data, num)`. -/
def SD_WriteMultipleBlock (fuel : Nat) (m : Machine) (address : Nat) (data : List Nat) (num : Nat) :
    Option SD_Error_t × Machine :=
  let m0 := SD_SPI_CS_Reset m
  let m1 := (m0.setState SD_STATE_SENDING)
  let address1 :=
    if m1.sd.type = SD_TYPE_SDSC then (address * m1.sd.blockSize) % 4294967296 else address
  let r := SD_SendCMD m1 SD_CMD_25 address1 SD_R1_NORMAL_STATE
  if r.1 ≠ SD_OK then (some SD_ERROR, SD_ErrorHandler r.2)
  else
    let d := SD_SendDummyByte r.2 1
    if d.1 ≠ SD_OK then (some SD_ERROR, SD_ErrorHandler d.2)
    else
      let l := SD_WriteMultipleBlock_loop fuel num d.2 data
      match l.1 with
      | none => (none, l.2)
      | some e =>
        if e ≠ SD_OK then (some e, l.2)
        else
          let t := SD_SendToken l.2 SD_STOP_WE_BLOCK_TOKEN
          if t.1 ≠ SD_OK then (some SD_ERROR, SD_ErrorHandler t.2)
          else
            let d2 := SD_SendDummyByte t.2 1
            if d2.1 ≠ SD_OK then (some SD_ERROR, SD_ErrorHandler d2.2)
            else
              let b := SD_WaitForBusy fuel d2.2
              match b.1 with
              | none => (none, b.2)
              | some e2 =>
                if e2 ≠ SD_OK then (some SD_ERROR, SD_ErrorHandler b.2)
                else
                  let m2 := SD_SPI_CS_Set (b.2.setState SD_STATE_STANDBY)
                  let s := SD_ReadStatus m2
                  if s.1 ≠ SD_OK then (some SD_ERROR, SD_ErrorHandler s.2)
                  else (some SD_OK, s.2)


/-! ## Register decoders (SDCard.c, lines 826-961; structures of SDCard.h, lines 135-252)

Every member of the result structures is a bit-field or an unsigned integer; an assignment
stores the value of the `int` expression reduced modulo `2^width`. -/

/-- The structure `SD_OCR_t`. -/
structure SD_OCR_t where
  reserved : Nat
  LVR : Nat
  reserved1 : Nat
  v27_28 : Nat
  v28_29 : Nat
  v29_30 : Nat
  v30_31 : Nat
  v31_32 : Nat
  v32_33 : Nat
  v33_34 : Nat
  v34_35 : Nat
  v35_36 : Nat
  S18A : Nat
  reserved2 : Nat
  UHSII_Status : Nat
  CCS : Nat
  busy : Nat
  deriving DecidableEq, Repr

/-- The structure `SD_CID_t`. -/
structure SD_CID_t where
  reserved : Nat
  crc : Nat
  MDT : Nat
  reserved1 : Nat
  PSN : Nat
  PRV : Nat
  PNM : List Nat
  OID : Nat
  MID : Nat
  deriving DecidableEq, Repr

/-- The structure `SD_CSDv1_t`. -/
structure SD_CSDv1_t where
  reserved : Nat
  crc : Nat
  reserved1 : Nat
  fileFormat : Nat
  tmpWriteProtect : Nat
  permWriteProtect : Nat
  copyFlag : Nat
  fileFormatGrp : Nat
  reserved2 : Nat
  writeBlockPartial : Nat
  writeBlockLen : Nat
  r2wFactor : Nat
  reserved3 : Nat
  wpGrpEnable : Nat
  wpGrpSize : Nat
  sectorSize : Nat
  eraseBlockEnable : Nat
  sizeMultiplier : Nat
  vddWriteCurrentMax : Nat
  vddWriteCurrentMin : Nat
  vddReadCurrentMax : Nat
  vddReadCurrentMin : Nat
  cSize : Nat
  reserved4 : Nat
  DSRImp : Nat
  readBlockMisalignment : Nat
  writeBlockMisalignment : Nat
  readBlockPartial : Nat
  readBlockLen : Nat
  CCC : Nat
  transferSpeed : Nat
  NSAC : Nat
  TAAC : Nat
  reserved5 : Nat
  CSDStructure : Nat
  deriving DecidableEq, Repr

/-- The structure `SD_CSDv2_t`. -/
structure SD_CSDv2_t where
  reserved : Nat
  crc : Nat
  reserved1 : Nat
  fileFormat : Nat
  tmpWriteProtect : Nat
  permWriteProtect : Nat
  copyFlag : Nat
  fileFormatGrp : Nat
  reserved2 : Nat
  writeBlockPartial : Nat
  writeBlockLen : Nat
  r2wFactor : Nat
  reserved3 : Nat
  wpGrpEnable : Nat
  wpGrpSize : Nat
  sectorSize : Nat
  eraseBlockEnable : Nat
  reserved4 : Nat
  cSize : Nat
  reserved5 : Nat
  DSRImp : Nat
  readBlockMisalignment : Nat
  writeBlockMisalignment : Nat
  readBlockPartial : Nat
  readBlockLen : Nat
  CCC : Nat
  transferSpeed : Nat
  NSAC : Nat
  TAAC : Nat
  reserved6 : Nat
  CSDStructure : Nat
  deriving DecidableEq, Repr

/-- `SD_GetOCR(sd)`. -/
def SD_GetOCR (sd : SD_Parameters_t) : SD_OCR_t :=
  { reserved := (sd.rawOCR.getD 3 0 &&& 0x7F) % 2 ^ 7
    LVR := (sd.rawOCR.getD 3 0 >>> 7) % 2 ^ 1
    reserved1 := (sd.rawOCR.getD 2 0 &&& 0x7F) % 2 ^ 7
    v27_28 := (sd.rawOCR.getD 2 0 >>> 7) % 2 ^ 1
    v28_29 := (sd.rawOCR.getD 1 0 &&& 0x01) % 2 ^ 1
    v29_30 := ((sd.rawOCR.getD 1 0 >>> 1) &&& 0x01) % 2 ^ 1
    v30_31 := ((sd.rawOCR.getD 1 0 >>> 2) &&& 0x01) % 2 ^ 1
    v31_32 := ((sd.rawOCR.getD 1 0 >>> 3) &&& 0x01) % 2 ^ 1
    v32_33 := ((sd.rawOCR.getD 1 0 >>> 4) &&& 0x01) % 2 ^ 1
    v33_34 := ((sd.rawOCR.getD 1 0 >>> 5) &&& 0x01) % 2 ^ 1
    v34_35 := ((sd.rawOCR.getD 1 0 >>> 6) &&& 0x01) % 2 ^ 1
    v35_36 := ((sd.rawOCR.getD 1 0 >>> 7) &&& 0x01) % 2 ^ 1
    S18A := (sd.rawOCR.getD 0 0 &&& 0x01) % 2 ^ 1
    reserved2 := ((sd.rawOCR.getD 0 0 >>> 1) &&& 0x0F) % 2 ^ 4
    UHSII_Status := ((sd.rawOCR.getD 0 0 >>> 5) &&& 0x01) % 2 ^ 1
    CCS := ((sd.rawOCR.getD 0 0 >>> 6) &&& 0x01) % 2 ^ 1
    busy := ((sd.rawOCR.getD 0 0 >>> 7) &&& 0x01) % 2 ^ 8 }

/-- `SD_GetCID(sd)`.  The `int` value of the `PSN` expression is converted to `uint32_t`
by the assignment. -/
def SD_GetCID (sd : SD_Parameters_t) : SD_CID_t :=
  { reserved := (sd.rawCID.getD 15 0 &&& 0x01) % 2 ^ 1
    crc := (sd.rawCID.getD 15 0 >>> 1) % 2 ^ 7
    MDT := (((sd.rawCID.getD 13 0 &&& 0x0F) <<< 8) ||| sd.rawCID.getD 14 0) % 2 ^ 12
    reserved1 := 0
    PSN := ((sd.rawCID.getD 9 0 <<< 24) ||| (sd.rawCID.getD 10 0 <<< 16)
      ||| (sd.rawCID.getD 11 0 <<< 8) ||| sd.rawCID.getD 12 0) % 2 ^ 32
    PRV := sd.rawCID.getD 8 0 % 2 ^ 8
    PNM := [sd.rawCID.getD 3 0 % 2 ^ 8, sd.rawCID.getD 4 0 % 2 ^ 8, sd.rawCID.getD 5 0 % 2 ^ 8,
      sd.rawCID.getD 6 0 % 2 ^ 8, sd.rawCID.getD 7 0 % 2 ^ 8]
    OID := ((sd.rawCID.getD 1 0 <<< 8) ||| sd.rawCID.getD 2 0) % 2 ^ 16
    MID := sd.rawCID.getD 0 0 % 2 ^ 8 }

/-- `SD_GetCSD_v1(sd)`. -/
def SD_GetCSD_v1 (sd : SD_Parameters_t) : SD_CSDv1_t :=
  { reserved := 1
    crc := (sd.rawCSD.getD 15 0 >>> 1) % 2 ^ 7
    reserved1 := 0
    fileFormat := ((sd.rawCSD.getD 14 0 >>> 2) &&& 0x3) % 2 ^ 2
    tmpWriteProtect := ((sd.rawCSD.getD 14 0 >>> 4) &&& 0x1) % 2 ^ 1
    permWriteProtect := ((sd.rawCSD.getD 14 0 >>> 5) &&& 0x1) % 2 ^ 1
    copyFlag := ((sd.rawCSD.getD 14 0 >>> 6) &&& 0x1) % 2 ^ 1
    fileFormatGrp := ((sd.rawCSD.getD 14 0 >>> 7) &&& 0x1) % 2 ^ 1
    reserved2 := 0
    writeBlockPartial := ((sd.rawCSD.getD 13 0 >>> 5) &&& 0x1) % 2 ^ 1
    writeBlockLen :=
      (((sd.rawCSD.getD 12 0 &&& 0x3) <<< 2) ||| ((sd.rawCSD.getD 13 0 >>> 6) &&& 0x3)) % 2 ^ 4
    r2wFactor := ((sd.rawCSD.getD 12 0 >>> 2) &&& 0x7) % 2 ^ 3
    reserved3 := 0
    wpGrpEnable := ((sd.rawCSD.getD 12 0 >>> 7) &&& 0x1) % 2 ^ 1
    wpGrpSize := (sd.rawCSD.getD 11 0 &&& 0x7F) % 2 ^ 7
    sectorSize :=
      (((sd.rawCSD.getD 10 0 &&& 0x3F) <<< 1) ||| ((sd.rawCSD.getD 11 0 >>> 7) &&& 0x1)) % 2 ^ 7
    eraseBlockEnable := ((sd.rawCSD.getD 10 0 >>> 6) &&& 0x1) % 2 ^ 1
    sizeMultiplier := SD_CSDv1_sizeMultiplier sd.rawCSD % 2 ^ 3
    vddWriteCurrentMax := ((sd.rawCSD.getD 9 0 >>> 2) &&& 0x7) % 2 ^ 3
    vddWriteCurrentMin := ((sd.rawCSD.getD 9 0 >>> 5) &&& 0x7) % 2 ^ 3
    vddReadCurrentMax := (sd.rawCSD.getD 8 0 &&& 0x7) % 2 ^ 3
    vddReadCurrentMin := ((sd.rawCSD.getD 8 0 >>> 3) &&& 0x7) % 2 ^ 3
    cSize := SD_CSDv1_cSize sd.rawCSD % 2 ^ 12
    reserved4 := 0
    DSRImp := ((sd.rawCSD.getD 6 0 >>> 4) &&& 0x1) % 2 ^ 1
    readBlockMisalignment := ((sd.rawCSD.getD 6 0 >>> 5) &&& 0x1) % 2 ^ 1
    writeBlockMisalignment := ((sd.rawCSD.getD 6 0 >>> 6) &&& 0x1) % 2 ^ 1
    readBlockPartial := ((sd.rawCSD.getD 6 0 >>> 7) &&& 0x1) % 2 ^ 1
    readBlockLen := (sd.rawCSD.getD 5 0 &&& 0x0F) % 2 ^ 4
    CCC := ((sd.rawCSD.getD 4 0 <<< 8) ||| ((sd.rawCSD.getD 5 0 >>> 4) &&& 0xF)) % 2 ^ 12
    transferSpeed := sd.rawCSD.getD 3 0 % 2 ^ 16
    NSAC := sd.rawCSD.getD 2 0 % 2 ^ 16
    TAAC := sd.rawCSD.getD 1 0 % 2 ^ 16
    reserved5 := 0
    CSDStructure := ((sd.rawCSD.getD 0 0 >>> 6) &&& 0x3) % 2 ^ 2 }

/-- `SD_GetCSD_v2(sd)`. -/
def SD_GetCSD_v2 (sd : SD_Parameters_t) : SD_CSDv2_t :=
  { reserved := 1
    crc := (sd.rawCSD.getD 15 0 >>> 1) % 2 ^ 7
    reserved1 := 0
    fileFormat := ((sd.rawCSD.getD 14 0 >>> 2) &&& 0x3) % 2 ^ 2
    tmpWriteProtect := ((sd.rawCSD.getD 14 0 >>> 4) &&& 0x1) % 2 ^ 1
    permWriteProtect := ((sd.rawCSD.getD 14 0 >>> 5) &&& 0x1) % 2 ^ 1
    copyFlag := ((sd.rawCSD.getD 14 0 >>> 6) &&& 0x1) % 2 ^ 1
    fileFormatGrp := ((sd.rawCSD.getD 14 0 >>> 7) &&& 0x1) % 2 ^ 1
    reserved2 := 0
    writeBlockPartial := ((sd.rawCSD.getD 13 0 >>> 5) &&& 0x1) % 2 ^ 1
    writeBlockLen :=
      (((sd.rawCSD.getD 12 0 &&& 0x3) <<< 2) ||| ((sd.rawCSD.getD 13 0 >>> 6) &&& 0x3)) % 2 ^ 4
    r2wFactor := ((sd.rawCSD.getD 12 0 >>> 2) &&& 0x7) % 2 ^ 3
    reserved3 := 0
    wpGrpEnable := ((sd.rawCSD.getD 12 0 >>> 7) &&& 0x1) % 2 ^ 1
    wpGrpSize := (sd.rawCSD.getD 11 0 &&& 0x7F) % 2 ^ 7
    sectorSize :=
      (((sd.rawCSD.getD 10 0 &&& 0x3F) <<< 1) ||| ((sd.rawCSD.getD 11 0 >>> 7) &&& 0x1)) % 2 ^ 7
    eraseBlockEnable := ((sd.rawCSD.getD 10 0 >>> 6) &&& 0x1) % 2 ^ 1
    reserved4 := 0
    cSize := SD_CSDv2_cSize sd.rawCSD % 2 ^ 22
    reserved5 := 0
    DSRImp := ((sd.rawCSD.getD 6 0 >>> 4) &&& 0x1) % 2 ^ 1
    readBlockMisalignment := ((sd.rawCSD.getD 6 0 >>> 5) &&& 0x1) % 2 ^ 1
    writeBlockMisalignment := ((sd.rawCSD.getD 6 0 >>> 6) &&& 0x1) % 2 ^ 1
    readBlockPartial := ((sd.rawCSD.getD 6 0 >>> 7) &&& 0x1) % 2 ^ 1
    readBlockLen := (sd.rawCSD.getD 5 0 &&& 0x0F) % 2 ^ 4
    CCC := ((sd.rawCSD.getD 4 0 <<< 8) ||| ((sd.rawCSD.getD 5 0 >>> 4) &&& 0xF)) % 2 ^ 12
    transferSpeed := sd.rawCSD.getD 3 0 % 2 ^ 16
    NSAC := sd.rawCSD.getD 2 0 % 2 ^ 16
    TAAC := sd.rawCSD.getD 1 0 % 2 ^ 16
    reserved6 := 0
    CSDStructure := ((sd.rawCSD.getD 0 0 >>> 6) &&& 0x3) % 2 ^ 2 }
/-! ## Auxiliary definitions used in the proofs -/

/-- First statement of the outer loop body of `SD_CRC7_GenTable` on the index `u`. -/
def crcReduce (u : Nat) : Nat :=
  (if u &&& 0x80 ≠ 0 then u ^^^ 0x89 else u) % 256

/-- Shift of a byte by one position inside 8 bits. -/
def shl8 (b : Nat) : Nat := (b <<< 1) % 256

/-- Shift register after the `k` leading bits of the byte `b` went in. -/
def crcSerial : Nat → Nat → Nat → Nat
  | 0, r, _ => r
  | k + 1, r, b => crcSerial k (crc7BitStep r (decide (b &&& 0x80 ≠ 0))) (shl8 b)

/-- Session contents used for the concrete runs below: a version-2 SDHC card in transfer
mode with 512-byte blocks. -/
def sessionReady : SD_Parameters_t :=
  { SPIx_Clk := 72000000, CS_Pin := 4, state := SD_STATE_STANDBY, mode := SD_MODE_TRANSFER,
    version := 2, type := SD_TYPE_SDHC, lastR1 := 0x55, lastR2 := 0, writtenBlocks := 0,
    rawOCR := [0, 0, 0, 0], rawCID := List.replicate 16 0, rawCSD := List.replicate 16 0,
    blockSize := 512, capacity := 0 }

/-- A machine whose transport never fails, whose `k`-th single-byte read delivers
`rx8.getD k 0xFF`, whose `k`-th 16-bit read delivers the words `rx16.getD k []` (missing
words read as 0xFFFF), whose cycle counter advances by one per reading, and whose CRC7
table has been generated; nothing has been logged yet. -/
def scriptedMachine (sd : SD_Parameters_t) (rx8 : List Nat) (rx16 : List (List Nat)) : Machine :=
  { sd := sd, SD_CRC7_Table := SD_CRC7_GenTable (fun _ => 0), SystemCoreClock := 72000000,
    tx8 := fun _ => SD_SPI_OK,
    rx8 := fun k => { st := SD_SPI_OK, item := fun _ => rx8.getD k 0xFF, stored := 0 },
    tx16 := fun _ => SD_SPI_OK,
    rx16 := fun k => { st := SD_SPI_OK, item := fun j => (rx16.getD k []).getD j 0xFFFF, stored := 0 },
    cycles := fun k => k, log := [], writes := [] }

/-- An event is a single-byte call of `SD_SPI_Receive8Data`. -/
def Event.isRecv8 : Event → Bool
  | .recv8 1 _ _ => true
  | _ => false

/-- An event is a call of `SD_SPI_Send16Data` (a data block going out). -/
def Event.isSend16 : Event → Bool
  | .send16 _ _ => true
  | _ => false

/-- `m` is reached from `m0` by collaborator calls only: the log has grown and the CRC7
table is the same. -/
def LogExt (m0 m : Machine) : Prop :=
  m.SD_CRC7_Table = m0.SD_CRC7_Table ∧ ∃ l, m.log = l ++ m0.log

/-- `m` is reached from `m0` without sending a data block and without touching the CRC7
table. -/
def QuietExt (m0 m : Machine) : Prop :=
  m.SD_CRC7_Table = m0.SD_CRC7_Table ∧ ∃ l, m.log = l ++ m0.log ∧ ∀ e ∈ l, e.isSend16 = false

/-- The five bytes of a command frame that precede the CRC byte. -/
def frameHead (cmd argument : Nat) : List Nat :=
  [((cmd % 256) &&& 0x7F) ||| 0x40, (argument >>> 24) % 256, (argument >>> 16) % 256,
   (argument >>> 8) % 256, argument % 256]

/-- The machine after `k` further single-byte reads. -/
def afterReads (m : Machine) : Nat → Machine
  | 0 => m
  | k + 1 => afterReads (SD_SPI_Receive8Data m 1).2.2 k


/-- A version-2 card that answers CMD9 with R1 `0x00`, the start token `0xFE` and a CSD
whose 22-bit C_SIZE field is `0x3FFFFF` (a 2 TiB card). -/
def machineCSDv2Max : Machine :=
  scriptedMachine sessionReady [0x00, 0xFE]
    [[0x400E, 0x0032, 0x5B59, 0x003F, 0xFFFF, 0x7F80, 0x0A40, 0x0001]]

/-- A version-1 card that answers CMD9 with R1 `0x00`, the start token `0xFE` and the CSD
`00 26 00 32 5F 59 83 C8 AD DB CF FF D2 40 40 A5` (C_SIZE 3874, C_SIZE_MULT 7), and CMD16 with
R1 `0x00`. -/
def machineCSDv1 : Machine :=
  scriptedMachine { sessionReady with version := 1, type := SD_TYPE_SDSC } [0x00, 0xFE, 0x00]
    [[0x0026, 0x0032, 0x5F59, 0x83C8, 0xADDB, 0xCFFF, 0xD240, 0x40A5]]

/-- On the way from `m0` to `m` the card was selected and the first transfer after that
was the command frame for `cmd` with argument `arg` (built with the CRC7 table of `m0`). -/
def SentFirst (m0 m : Machine) (cmd arg : Nat) : Prop :=
  ∃ l, m.log =
    l ++ Event.send8 (SD_SendCMD_frame m0.SD_CRC7_Table cmd arg) (m0.tx8 0) :: Event.csReset :: m0.log

/-- The events logged on the way from `m0` to `m`, the newest first. -/
def newLog (m0 m : Machine) : List Event :=
  m.log.take (m.log.length - m0.log.length)

/-- A card with 4-byte blocks in a multiple-block write of five blocks: it accepts CMD25 and
the first two data blocks (data response `0xE5`), answers the third block with `0xEB` (data
response code `0x0B`, CRC error), accepts CMD12, CMD55 and ACMD22, and then delivers the start
token and the four bytes `00 01 00 02`. -/
def machineWriteCrc : Machine :=
  scriptedMachine { sessionReady with blockSize := 4 }
    [0x00, 0xFF, 0xE5, 0xFF, 0xE5, 0xFF, 0xEB, 0x00, 0xFF, 0x00, 0x00, 0xFE] [[0x0001, 0x0002]]

/-- `m` is reached from `m0` without an assignment to the session other than to
`sd->lastR1`, and without an assignment to `sd->mode` or `sd->state`. -/
def OnlyR1 (m0 m : Machine) : Prop :=
  m.writes = m0.writes ∧ ∃ r, m.sd = { m0.sd with lastR1 := r }

/-- `m` is reached from `m0` without an assignment to `sd->mode` or `sd->state`. -/
def Keeps (m0 m : Machine) : Prop :=
  m.sd.mode = m0.sd.mode ∧ m.sd.state = m0.sd.state ∧ m.writes = m0.writes

/-- The session is marked inactive and the last collaborator call was the deassertion of
chip select, as `SD_ErrorHandler` leaves it. -/
def Deactivated (m : Machine) : Prop :=
  m.sd.mode = SD_MODE_INACTIVE ∧ m.sd.state = SD_STATE_INACTIVE ∧ m.log.head? = some Event.csSet

/-- The part of `SD_Init` from the reading of the OCR (line 527) to the end, run on the
machine that `SD_GoToTransferMode` has left. -/
def SD_Init_registers (g2 : Machine) : Option SD_Error_t × Machine :=
  let o := if g2.sd.version = 2 then SD_ReadOCR g2 else (SD_OK, g2)
  if o.1 ≠ SD_OK then (some SD_ERROR, SD_ErrorHandler o.2)
  else
    let m3 := SD_SPI_SetSpeed o.2 SD_SPI_TRANSFER_SPEED
    let ci := SD_ReadCID m3
    if ci.1 ≠ SD_OK then (some SD_ERROR, SD_ErrorHandler ci.2)
    else
      let cs := SD_ReadCSD ci.2
      if cs.1 ≠ SD_OK then (some SD_ERROR, SD_ErrorHandler cs.2)
      else (some SD_OK, SD_SPI_CS_Set cs.2)

/-- The part of `SD_Init` from `SD_GoToIdleMode` (line 509) to the end, run on the machine
with chip select asserted. -/
def SD_Init_modes (fuel : Nat) (m2 : Machine) : Option SD_Error_t × Machine :=
  let i := SD_GoToIdleMode m2
  if i.1 ≠ SD_OK then (some SD_ERROR, SD_ErrorHandler i.2)
  else
    let v := SD_CheckVoltage i.2
    if v.1 ≠ SD_OK then (some SD_ERROR, SD_ErrorHandler v.2)
    else
      let g := SD_GoToTransferMode fuel v.2
      match g.1 with
      | none => (none, g.2)
      | some e =>
        if e ≠ SD_OK then (some SD_ERROR, SD_ErrorHandler g.2)
        else SD_Init_registers g.2

/-- The values assigned to `sd->mode` by the assignments `w` (newest first), oldest first. -/
def modeWrites (w : List FieldWrite) : List SD_Mode_t :=
  (w.filterMap fun x => match x with
    | FieldWrite.mode v => some v
    | FieldWrite.state _ => none).reverse

/-- The values assigned to `sd->state` by the assignments `w` (newest first), oldest first. -/
def stateWrites (w : List FieldWrite) : List SD_State_t :=
  (w.filterMap fun x => match x with
    | FieldWrite.mode _ => none
    | FieldWrite.state v => some v).reverse

/-- A version-1 card that goes through `SD_Init`: it clocks out the nine dummy bytes, answers
CMD0 with `0x01`, CMD8 with `0x05` (illegal command), the first CMD55/ACMD41 pair with
`0x01`, `0x01`, the second with `0x01`, `0x00`, then CMD10 with `0x00`, the start token and
a CID, CMD9 with `0x00`, the start token and a CSD, and CMD16 with `0x00`. -/
def machineInitV1 : Machine :=
  scriptedMachine { sessionReady with mode := SD_MODE_INACTIVE, state := SD_STATE_INACTIVE }
    [0xFF, 0xFF, 0xFF, 0xFF, 0xFF, 0xFF, 0xFF, 0xFF, 0xFF, 0x01, 0x05, 0x01, 0x01, 0x01, 0x00,
     0x00, 0xFE, 0x00, 0xFE, 0x00]
    [[0x0353, 0x4453, 0x4430, 0x3247, 0x8012, 0x3456, 0x7800, 0xF5A1],
     [0x0026, 0x0032, 0x5F59, 0x83C8, 0xADDB, 0xCFFF, 0xD240, 0x40A5]]

/-- A card with 4-byte blocks that answers CMD17 with R1 `0x00`, the start token `0xFE` and
the block `01 02 03 04`. -/
def machineReadOne : Machine :=
  scriptedMachine { sessionReady with blockSize := 4 } [0x00, 0xFE] [[0x0102, 0x0304]]

/-- A card with 4-byte blocks that accepts CMD24 and answers the data block with `0xEB`
(data response code `0x0B`, CRC error), then answers CMD13 with `0x00` and the status byte
`0x00`. -/
def machineWriteOneCrc : Machine :=
  scriptedMachine { sessionReady with blockSize := 4 } [0x00, 0xEB, 0x00, 0x00] []

/-- Bit `n` of a register that the `len` bytes of `raw` hold most significant byte first:
bit `n mod 8` of `raw[len - 1 - n / 8]`. -/
def regBit (raw : List Nat) (len n : Nat) : Bool :=
  (raw.getD (len - 1 - n / 8) 0).testBit (n % 8)

/-- Value of the `w` register bits `lo + w - 1 .. lo`. -/
def regBits (raw : List Nat) (len lo : Nat) : Nat → Nat
  | 0 => 0
  | w + 1 => regBits raw len lo w + (regBit raw len (lo + w)).toNat * 2 ^ w

/-- The register field of the bits `[hi:lo]`. -/
def regField (raw : List Nat) (len hi lo : Nat) : Nat :=
  regBits raw len lo (hi + 1 - lo)

/-- Calls logged by the block loop of a multiple-block read, the newest first.  `blocks`
lists, in the order the blocks were read, the polls made for the start token of a block
(the newest first) and the bytes of the block; `words` is the length of each 16-bit
read. -/
def blockReadLog (words : Nat) : List (List Event × List Nat) → List Event
  | [] => []
  | b :: rest => blockReadLog words rest ++ (Event.recv16 words SD_SPI_OK b.2 :: b.1)

/-- The buffer `data` after the blocks were stored in turn, the first one at offset
`i * bs`, each following one `bs` bytes further. -/
def storeBlocks (bs : Nat) : List (List Nat) → Nat → List Nat → List Nat
  | [], _, data => data
  | b :: rest, i, data => storeBlocks bs rest (i + 1) (storeBytesAt data (i * bs) b)

/-- A card with 4-byte blocks that answers CMD18 with R1 `0x00`, sends the start token
(after one idle byte) and the block `01 02 03 04`, the start token and the block
`05 06 07 08`, answers CMD12 with R1 `0x00` and is busy for one byte. -/
def machineReadTwo : Machine :=
  scriptedMachine { sessionReady with blockSize := 4 }
    [0x00, 0xFF, 0xFE, 0xFE, 0x00, 0x00, 0xFF] [[0x0102, 0x0304], [0x0506, 0x0708]]

/-- The log entries, the newest first, of `k` successful single-byte reads made from the
machine `m`. -/
def readsLog (m : Machine) (k : Nat) : List Event :=
  (List.range k).reverse.map fun i => Event.recv8 1 SD_SPI_OK [(m.rx8 i).item 0 % 256]

/-- The byte strings handed to `SD_SPI_Send8Data` by the calls logged in `l` (newest first),
in the order they were sent. -/
def sentFrames : List Event → List (List Nat)
  | [] => []
  | Event.send8 d _ :: l => sentFrames l ++ [d]
  | _ :: l => sentFrames l

/-- A card in transfer mode that answers CMD55 with R1 `0x01` (the idle state, where `0x00`
is expected) and the application command with `0x00`. -/
def machineAcmdMismatch : Machine :=
  scriptedMachine sessionReady [0x01, 0x00] []

/-- A machine like `scriptedMachine` whose `k`-th call of `SD_SPI_Receive8Data` delivers the
bytes `rx8.getD k []` (missing bytes read as `0xFF`), so that a call may deliver several
different bytes. -/
def scriptedMachineBytes (sd : SD_Parameters_t) (rx8 : List (List Nat))
    (rx16 : List (List Nat)) : Machine :=
  { scriptedMachine sd [] rx16 with
    rx8 := fun k =>
      { st := SD_SPI_OK, item := fun j => (rx8.getD k []).getD j 0xFF, stored := 0 } }

/-- The value `timeout_ms * DWT_CyclesInMs()` (32-bit) that `DWT_Timeout` compares with when
called with `SD_TIMEOUT`. -/
def timeoutCycles (m : Machine) : Nat :=
  (SD_TIMEOUT * DWT_CyclesInMs m) % 4294967296

/-- The value `DWT_GetCycle() - timestamp` (32-bit) at the `k`-th coming reading of the cycle
counter. -/
def cyclesSince (m : Machine) (timestamp k : Nat) : Nat :=
  (m.cycles k % 4294967296 + 4294967296 - timestamp % 4294967296) % 4294967296

/-- The machine after `k` further rounds of one single-byte read and one reading of the
cycle counter, as made by the loops that poll under a time budget. -/
def afterTimedReads (m : Machine) : Nat → Machine
  | 0 => m
  | k + 1 => afterTimedReads (DWT_GetCycle (SD_SPI_Receive8Data m 1).2.2).2 k

/-- A card that answers a data block with two idle bytes and then the data response `b`,
and after that is busy for two bytes. -/
def machineDataResponse (b : Nat) : Machine :=
  scriptedMachine { sessionReady with blockSize := 4 } [0xFF, 0xFF, b, 0x00, 0x00, 0xFF] []

/-- A card with 4-byte blocks whose every byte is `0x00`: it accepts CMD24 at once and then
never answers the data block nor releases the line; the cycle counter advances by one per
reading. -/
def machineBusyForever : Machine :=
  { scriptedMachine { sessionReady with blockSize := 4 } [] [] with
    rx8 := fun _ => { st := SD_SPI_OK, item := fun _ => 0x00, stored := 0 } }

/-- On the way from `m0` to `m` the calls of `SD_SPI_Send8Data` handed over exactly the byte
strings `fs`, in this order, and the CRC7 table was not touched. -/
def FramesExt (m0 m : Machine) (fs : List (List Nat)) : Prop :=
  m.SD_CRC7_Table = m0.SD_CRC7_Table ∧ ∃ l, m.log = l ++ m0.log ∧ sentFrames l = fs

/-- The frames of `j` polls of `SD_GoToTransferMode` after the first one: CMD55 and ACMD41
with argument 0, `j` times. -/
def pollFrames (tbl : Nat → Nat) (j : Nat) : List (List Nat) :=
  (List.replicate j
    [SD_SendCMD_frame tbl SD_CMD_55 0, SD_SendCMD_frame tbl SD_ACMD_41 0]).flatten

/-- The machine after `i` rounds of the loop of `SD_GoToTransferMode`: a reading of the cycle
counter (made by `DWT_Timeout`) followed by the ACMD41 exchange with argument 0. -/
def afterPolls : Nat → Machine → Machine
  | 0, m => m
  | i + 1, m =>
    afterPolls i (SD_SendACMD (DWT_GetCycle m).2 SD_ACMD_41 0 SD_R1_NORMAL_STATE).2

/-- A version-2 card in identification mode that answers the first CMD55/ACMD41 pair with
`0x01`, `0x01` and the second pair with `0x01`, `0x00`. -/
def machinePollTwice : Machine :=
  scriptedMachine { sessionReady with mode := SD_MODE_IDENTIFICATION, state := SD_STATE_IDLE }
    [0x01, 0x01, 0x01, 0x00] []

/-- A version-2 card in identification mode that answers CMD55 with `0x01` and the first
ACMD41 with `0x00` already. -/
def machineReadyAtOnce : Machine :=
  scriptedMachine { sessionReady with mode := SD_MODE_IDENTIFICATION, state := SD_STATE_IDLE }
    [0x01, 0x00] []

/-- The session fields `version`, `type` and `rawOCR` are the same in `m` as in `m0`. -/
def SameCard (m0 m : Machine) : Prop :=
  m.sd.version = m0.sd.version ∧ m.sd.type = m0.sd.type ∧ m.sd.rawOCR = m0.sd.rawOCR

/-- A version-2 high-capacity card that goes through `SD_Init`: nine dummy bytes, CMD0
answered with `0x01`, CMD8 with `0x01` and the echo `00 00 01 AA`, two CMD55/ACMD41 pairs
answered `0x01`, `0x01` and `0x01`, `0x00`, CMD58 with `0x00` and the OCR `C0 FF 80 00`,
CMD10 with `0x00`, the start token and a CID, CMD9 with `0x00`, the start token and a
version-2 CSD. -/
def machineInitV2 : Machine :=
  scriptedMachineBytes
    { sessionReady with mode := SD_MODE_INACTIVE, state := SD_STATE_INACTIVE, version := 0,
                        type := SD_TYPE_SDSC }
    [[0xFF], [0xFF], [0xFF], [0xFF], [0xFF], [0xFF], [0xFF], [0xFF], [0xFF], [0x01], [0x01],
     [0x00, 0x00, 0x01, 0xAA], [0x01], [0x01], [0x01], [0x00], [0x00], [0xC0, 0xFF, 0x80, 0x00],
     [0x00], [0xFE], [0x00], [0xFE]]
    [[0x0353, 0x4453, 0x4430, 0x3247, 0x8012, 0x3456, 0x7800, 0xF5A1],
     [0x400E, 0x0032, 0x5B59, 0x0000, 0x1D8A, 0x7F80, 0x0A40, 0x0001]]

/-- The frames of the register-reading part of `SD_Init`: CMD58 for a version-2 card, CMD10,
CMD9, and CMD16 with argument 512 for a card of another version. -/
def registerFrames (tbl : Nat → Nat) (version : Nat) : List (List Nat) :=
  (if version = 2 then [SD_SendCMD_frame tbl SD_CMD_58 0] else []) ++
    [SD_SendCMD_frame tbl SD_CMD_10 0, SD_SendCMD_frame tbl SD_CMD_9 0] ++
    (if version = 2 then [] else [SD_SendCMD_frame tbl SD_CMD_16 512])

/-- The frames of a successful `SD_Init` with `j` polls after the first ACMD41: CMD0, CMD8
with argument `0x1AA`, CMD55 and ACMD41 (HCS set for version 2), the polls, and the
register-reading commands. -/
def initFrames (tbl : Nat → Nat) (version j : Nat) : List (List Nat) :=
  [SD_SendCMD_frame tbl SD_CMD_0 0, SD_SendCMD_frame tbl SD_CMD_8 0x01AA,
    SD_SendCMD_frame tbl SD_CMD_55 0,
    SD_SendCMD_frame tbl SD_ACMD_41 (if version = 2 then 0x40000000 else 0)] ++
    pollFrames tbl j ++ registerFrames tbl version

/-- A card that answers CMD58 with R1 `0x00` and the OCR `C0 FF 80 00` (power-up finished,
CCS set). -/
def machineOcrHighCapacity : Machine :=
  scriptedMachineBytes { sessionReady with version := 2, type := SD_TYPE_SDSC }
    [[0x00], [0xC0, 0xFF, 0x80, 0x00]] []

/-- The machine `m` with the member `mode` of the session holding `v`; nothing else differs
(no assignment is recorded). -/
def Machine.withMode (m : Machine) (v : SD_Mode_t) : Machine :=
  { m with sd := { m.sd with mode := v } }

/-- A session that an earlier error has left inactive, on a card with 4-byte blocks that
answers CMD17 with R1 `0x00`, the start token `0xFE` and the block `01 02 03 04`. -/
def machineInactiveRead : Machine :=
  scriptedMachine
    { sessionReady with blockSize := 4, mode := SD_MODE_INACTIVE, state := SD_STATE_INACTIVE }
    [0x00, 0xFE] [[0x0102, 0x0304]]

/-- A session that an earlier error has left inactive, on a card with 4-byte blocks that
accepts CMD24, answers the data block with `0xE5` (accepted), is not busy, and answers CMD13
with `0x00` and the status byte `0x00`. -/
def machineInactiveWrite : Machine :=
  scriptedMachine
    { sessionReady with blockSize := 4, mode := SD_MODE_INACTIVE, state := SD_STATE_INACTIVE }
    [0x00, 0xE5, 0xFF, 0xFF, 0x00, 0x00] []

/-- A card with 4-byte blocks on a transport whose second call of `SD_SPI_Send8Data` fails
(the first sends the CMD24 frame, the second the start token): the card accepts CMD24,
answers the data block with `0xE5` (accepted), is not busy, and answers CMD13 with `0x00`
and the status byte `0x00`. -/
def machineTokenFails : Machine :=
  { scriptedMachine { sessionReady with blockSize := 4 } [0x00, 0xE5, 0xFF, 0xFF, 0x00, 0x00] []
      with tx8 := fun k => if k = 1 then SD_SPI_ERROR else SD_SPI_OK }

/-- A card with 4-byte blocks in a multiple-block write of one block: it accepts CMD25 and
the data block (data response `0xE5`), is not busy, and answers the final CMD13 with R1
`0x00` and the status byte `0x20` (write-protect violation). -/
def machineStatusFlag : Machine :=
  scriptedMachine { sessionReady with blockSize := 4 }
    [0x00, 0xFF, 0xE5, 0xFF, 0xFF, 0xFF, 0x00, 0x20] []

/-- `m` is reached from `m0` by calls that leave `SystemCoreClock` as it is and take the
coming readings of the cycle counter in their order: `m` has consumed some `j` of them. -/
def ClockExt (m0 m : Machine) : Prop :=
  m.SystemCoreClock = m0.SystemCoreClock ∧ ∃ j, ∀ k, m.cycles k = m0.cycles (k + j)

/-- The cycle counter advances between two consecutive readings by at least one and at most
`D` cycles (`cycles k` is the count without the 32-bit wrap). -/
def Ticking (D : Nat) (m : Machine) : Prop :=
  ∀ k, m.cycles k < m.cycles (k + 1) ∧ m.cycles (k + 1) ≤ m.cycles k + D

/-- The cycle counter advances with every reading, by a step that cannot jump over the part
of the 32-bit range that lies beyond the time budget, and `fuel` covers the polls of one
budget. -/
def Timely (fuel : Nat) (m : Machine) : Prop :=
  ∃ D, Ticking D m ∧ timeoutCycles m + D < 4294967296 ∧ timeoutCycles m + 2 ≤ fuel

/-- A card with 4-byte blocks in a multiple-block read of two blocks that never sends the
start token `0xFE`: it answers CMD18 with R1 `0x00`, holds the line at `0x00` for one byte
before each of the two blocks, answers CMD12 with R1 `0x00` and then releases the line. -/
def machineReadNoToken : Machine :=
  scriptedMachine { sessionReady with blockSize := 4 }
    [0x00, 0x00, 0x00, 0x00, 0xFF] [[0x0102, 0x0304], [0x0506, 0x0708]]

/-- A card as `machineWriteCrc` up to the CRC-error response to the third block, which from
then on holds the line at `0x00`; the cycle counter advances by one per reading for the
first eleven readings and stands at `80000000 * k` from the twelfth on, so that the drain
loop of `SD_StopTransfer` (whose time stamp is the eleventh reading) ends by time-out at its
first poll. -/
def machineWriteCrcStuck : Machine :=
  { scriptedMachine { sessionReady with blockSize := 4 } [] [[0x0001, 0x0002]] with
    rx8 := fun k =>
      { st := SD_SPI_OK,
        item := fun _ => [0x00, 0xFF, 0xE5, 0xFF, 0xE5, 0xFF, 0xEB].getD k 0x00,
        stored := 0 },
    cycles := fun k => if k < 11 then k else 80000000 * k }

/-- A card with 4-byte blocks that accepts CMD24, answers the data block at once with the
data response `0xE5` (accepted) and then holds the line at `0x00` for good; the cycle counter
advances by 1000 per reading. -/
def machineBusyAfterAccept : Machine :=
  { scriptedMachine { sessionReady with blockSize := 4 } [] [] with
    rx8 := fun k => { st := SD_SPI_OK, item := fun _ => [0x00, 0xE5].getD k 0x00, stored := 0 },
    cycles := fun k => 1000 * k }

/-- The card answers the commands sent next as the list says, one entry `(j, b)` per command
and in this order: the frame goes out, the `j` single-byte reads that follow it (fewer than
nine) deliver bytes with bit 7 set, and the next read delivers the R1 byte `b`, whose bit 7
is clear; none of these transport calls fails.  Only the response streams of the transport
are looked at. -/
def CardAnswers (tx : Nat → SD_SPI_Status_t) (rx : Nat → RxOutcome) : List (Nat × Nat) → Prop
  | [] => True
  | x :: xs =>
    tx 0 = SD_SPI_OK ∧ x.1 < 9 ∧
    (∀ i < x.1, (rx i).st = SD_SPI_OK ∧ ((rx i).item 0 % 256) &&& 0x80 ≠ 0) ∧
    (rx x.1).st = SD_SPI_OK ∧ (rx x.1).item 0 % 256 = x.2 ∧ x.2 &&& 0x80 = 0 ∧
    CardAnswers (fun k => tx (k + 1)) (fun k => rx (k + (x.1 + 1))) xs

/-- The answers of a run of ACMD41 polls in the order the card gives them: each poll has
the answer to its CMD55 and the answer to its ACMD41. -/
def pollAnswers : List ((Nat × Nat) × (Nat × Nat)) → List (Nat × Nat)
  | [] => []
  | p :: ps => p.1 :: p.2 :: pollAnswers ps

/-- A card in identification mode that answers the first CMD55/ACMD41 pair with `0x01`,
`0x01`, the next CMD55 with `0x01`, and the ACMD41 after it with `0x00` on the tenth read
only (nine idle bytes `0xFF` come first). -/
def machineReadyOnTenthRead : Machine :=
  scriptedMachine { sessionReady with mode := SD_MODE_IDENTIFICATION, state := SD_STATE_IDLE }
    [0x01, 0x01, 0x01, 0xFF, 0xFF, 0xFF, 0xFF, 0xFF, 0xFF, 0xFF, 0xFF, 0xFF, 0x00] []

/-- A card in identification mode that answers CMD55 after two idle bytes and the first
ACMD41 at once with `0x01`, then one pair with `0x05`, `0x01`, and then CMD55 with `0x01` and
ACMD41, on the ninth read, with `0x00`. -/
def machinePollSlow : Machine :=
  scriptedMachine { sessionReady with mode := SD_MODE_IDENTIFICATION, state := SD_STATE_IDLE }
    [0xFF, 0xFF, 0x01, 0x01, 0x05, 0x01, 0x01,
     0xFF, 0xFF, 0xFF, 0xFF, 0xFF, 0xFF, 0xFF, 0xFF, 0x00] []
/-! ## CRC7: the table and the bit-serial register -/

theorem gen_closed (tbl : Nat → Nat) (n i k : Nat) :
    SD_CRC7_GenTable_from tbl n i k =
      if i ≤ k ∧ k < i + n then SD_CRC7_GenTable_entry k else tbl k := by
  induction n generalizing tbl i with
  | zero =>
    have : ¬ (i ≤ k ∧ k < i) := by omega
    simp [SD_CRC7_GenTable_from, this]
  | succ n ih =>
    rw [SD_CRC7_GenTable_from, ih]
    by_cases h1 : k = i
    · subst h1; simp
    · by_cases h2 : i ≤ k ∧ k < i + (n + 1)
      · have : i + 1 ≤ k ∧ k < i + 1 + n := by omega
        simp [h2, this]
      · have : ¬ (i + 1 ≤ k ∧ k < i + 1 + n) := by omega
        simp [h2, this, h1]

theorem genTable_apply (tbl : Nat → Nat) (k : Nat) (hk : k < 256) :
    SD_CRC7_GenTable tbl k = SD_CRC7_GenTable_entry k := by
  have : 0 ≤ k ∧ k < 0 + 256 := by omega
  simp [SD_CRC7_GenTable, gen_closed, this]

theorem entry_eq_bitwise : ∀ b < 256, SD_CRC7_GenTable_entry b = crc7Bitwise [b] := by
  decide!

theorem entry_lt : ∀ x < 256, SD_CRC7_GenTable_entry x < 128 := by
  decide!

theorem crcReduce_eq : ∀ u < 256,
    crcReduce u = (u &&& 0x7F) ^^^ (if u &&& 0x80 ≠ 0 then 9 else 0) := by
  decide!

theorem step_lt : ∀ r < 128, ∀ d : Bool, crc7BitStep r d < 128 := by
  decide!

theorem shl_facts : ∀ r < 128,
    (r <<< 1) &&& 0x7F = (r * 2) % 128 ∧
    ((r <<< 1) &&& 0x80 = if (r / 64) % 2 = 1 then 0x80 else 0) := by
  decide!

theorem top_cases : ∀ b < 256, (b &&& 0x80 = 0 ∨ b &&& 0x80 = 0x80) ∧
    ((b &&& 0x7F) <<< 1 = shl8 b) ∧ shl8 b < 256 := by
  decide!

theorem shiftLeft_one_xor (a b : Nat) : (a ^^^ b) <<< 1 = (a <<< 1) ^^^ (b <<< 1) := by
  apply Nat.eq_of_testBit_eq
  intro i
  simp only [Nat.testBit_shiftLeft, Nat.testBit_xor]
  cases decide (i ≥ 1) <;> simp

theorem reduce_step (r B : Nat) (hr : r < 128) (hB : B < 256) :
    crcReduce ((r <<< 1) ^^^ B) =
      crc7BitStep r (decide (B &&& 0x80 ≠ 0)) ^^^ (B &&& 0x7F) := by
  have hu : (r <<< 1) ^^^ B < 256 := by
    have h1 : r <<< 1 < 2 ^ 8 := by rw [Nat.shiftLeft_eq]; omega
    have h2 : B < 2 ^ 8 := by omega
    exact Nat.xor_lt_two_pow h1 h2
  rw [crcReduce_eq _ hu, Nat.and_xor_distrib_right, Nat.and_xor_distrib_right]
  obtain ⟨f1, f2⟩ := shl_facts r hr
  obtain ⟨f3, -, -⟩ := top_cases B hB
  rw [f1, f2]
  unfold crc7BitStep
  by_cases hb : (r / 64) % 2 = 1 <;> rcases f3 with f3 | f3 <;>
    simp [hb, f3, Nat.xor_assoc, Nat.xor_comm]
  all_goals rw [← Nat.xor_assoc, Nat.xor_comm 9 _, Nat.xor_assoc]


theorem rounds_succ_reduce (n t : Nat) :
    SD_CRC7_GenTable_rounds 0x89 (n + 1) t = SD_CRC7_GenTable_rounds 0x89 n (crcReduce (shl8 t)) := by
  rw [SD_CRC7_GenTable_rounds]
  congr 1
  simp only [crcReduce, shl8]
  split_ifs <;> simp [Nat.mod_mod]

theorem rounds_serial (n : Nat) : ∀ r B, r < 128 → B < 256 →
    SD_CRC7_GenTable_rounds 0x89 n (crcReduce ((r <<< 1) ^^^ B)) =
      crcSerial (n + 1) r B ^^^ (shl8^[n] B &&& 0x7F) := by
  induction n with
  | zero =>
    intro r B hr hB
    rw [SD_CRC7_GenTable_rounds, reduce_step r B hr hB]
    rfl
  | succ n ih =>
    intro r B hr hB
    obtain ⟨-, f2, f3⟩ := top_cases B hB
    have hr1 := step_lt r hr (decide (B &&& 0x80 ≠ 0))
    rw [rounds_succ_reduce, reduce_step r B hr hB]
    have hlt : crc7BitStep r (decide (B &&& 0x80 ≠ 0)) ^^^ (B &&& 0x7F) < 128 := by
      have h2 : B &&& 0x7F < 2 ^ 7 := by
        have := Nat.and_pow_two_sub_one_eq_mod B 7
        have h3 : B &&& 0x7F = B % 2 ^ 7 := by simpa using this
        rw [h3]; exact Nat.mod_lt _ (by norm_num)
      have h1 : crc7BitStep r (decide (B &&& 0x80 ≠ 0)) < 2 ^ 7 := by simpa using hr1
      simpa using Nat.xor_lt_two_pow h1 h2
    have hs : shl8 (crc7BitStep r (decide (B &&& 0x80 ≠ 0)) ^^^ (B &&& 0x7F)) =
        (crc7BitStep r (decide (B &&& 0x80 ≠ 0)) <<< 1) ^^^ shl8 B := by
      rw [← f2, ← shiftLeft_one_xor]
      unfold shl8
      apply Nat.mod_eq_of_lt
      rw [Nat.shiftLeft_eq]; omega
    rw [hs, ih _ _ hr1 f3]
    rw [Function.iterate_succ_apply]
    rfl

theorem bits_facts : ∀ b < 256,
    bitsMsbFirst b =
      [decide (b &&& 0x80 ≠ 0), decide (shl8 b &&& 0x80 ≠ 0),
       decide (shl8^[2] b &&& 0x80 ≠ 0), decide (shl8^[3] b &&& 0x80 ≠ 0),
       decide (shl8^[4] b &&& 0x80 ≠ 0), decide (shl8^[5] b &&& 0x80 ≠ 0),
       decide (shl8^[6] b &&& 0x80 ≠ 0), decide (shl8^[7] b &&& 0x80 ≠ 0)] ∧
    shl8^[7] b &&& 0x7F = 0 := by
  decide!

theorem serial_eq_bitwise (r b : Nat) (hb : b < 256) :
    crcSerial 8 r b = crc7BitwiseByte r b := by
  obtain ⟨h, -⟩ := bits_facts b hb
  rw [crc7BitwiseByte, h]
  simp [crcSerial, Function.iterate_succ_apply]

theorem entry_step (c b : Nat) (hc : c < 128) (hb : b < 256) :
    SD_CRC7_GenTable_entry ((c <<< 1) ^^^ b) = crc7BitwiseByte c b := by
  have h := rounds_serial 7 c b hc hb
  obtain ⟨-, h0⟩ := bits_facts b hb
  rw [h0, Nat.xor_zero, serial_eq_bitwise c b hb] at h
  rw [← h]
  rfl


theorem getCRC_fold (tbl : Nat → Nat) (bytes : List Nat) (h : ∀ b ∈ bytes, b < 256) :
    ∀ crc, crc < 128 →
      bytes.foldl (fun crc b => SD_CRC7_GenTable tbl ((crc <<< 1) ^^^ b) % 256) crc =
        bytes.foldl crc7BitwiseByte crc ∧ bytes.foldl crc7BitwiseByte crc < 128 := by
  induction bytes with
  | nil => intro crc hc; exact ⟨rfl, hc⟩
  | cons b bs ih =>
    intro crc hc
    have hb : b < 256 := h b (List.mem_cons_self _ _)
    have hidx : (crc <<< 1) ^^^ b < 256 := by
      have h1 : crc <<< 1 < 2 ^ 8 := by rw [Nat.shiftLeft_eq]; omega
      have h2 : b < 2 ^ 8 := by omega
      exact Nat.xor_lt_two_pow h1 h2
    have hlt := entry_lt _ hidx
    have hstep : SD_CRC7_GenTable tbl ((crc <<< 1) ^^^ b) % 256 = crc7BitwiseByte crc b := by
      rw [genTable_apply tbl _ hidx, Nat.mod_eq_of_lt (by omega), entry_step crc b hc hb]
    have hlt2 : crc7BitwiseByte crc b < 128 := by
      rw [← entry_step crc b hc hb]; exact hlt
    simp only [List.foldl_cons, hstep]
    exact ih (fun x hx => h x (List.mem_cons_of_mem _ hx)) _ hlt2

theorem getCRC_eq_bitwise (tbl : Nat → Nat) (buffer : List Nat) (len : Nat)
    (h : ∀ b ∈ buffer, b < 256) :
    SD_CRC7_GetCRC (SD_CRC7_GenTable tbl) buffer len = crc7Bitwise (buffer.take len) ∧
      SD_CRC7_GetCRC (SD_CRC7_GenTable tbl) buffer len < 128 := by
  have h2 : ∀ b ∈ buffer.take len, b < 256 := fun b hb => h b (List.mem_of_mem_take hb)
  have := getCRC_fold tbl (buffer.take len) h2 0 (by norm_num)
  unfold SD_CRC7_GetCRC crc7Bitwise
  rw [this.1]
  exact ⟨rfl, this.2⟩

/-- C2: for every byte sequence, the table-driven `SD_CRC7_GetCRC` (seed 0, table built by
`SD_CRC7_GenTable` over any previous table contents) equals the bit-by-bit CRC-7 with
generator x^7 + x^3 + 1 that takes every byte most significant bit first. -/
theorem C2_getCRC_refines_bitwise (tbl : Nat → Nat) (buffer : List Nat)
    (h : ∀ b ∈ buffer, b < 256) :
    SD_CRC7_GetCRC (SD_CRC7_GenTable tbl) buffer buffer.length = crc7Bitwise buffer := by
  have := (getCRC_eq_bitwise tbl buffer buffer.length h).1
  rwa [List.take_length] at this

theorem C2_getCRC_refines_bitwise_witness :
    (∀ b ∈ [0x51, 0x00, 0x00, 0x02, 0x00], b < 256) ∧
    SD_CRC7_GetCRC (SD_CRC7_GenTable (fun _ => 0)) [0x51, 0x00, 0x00, 0x02, 0x00] 5 =
      crc7Bitwise [0x51, 0x00, 0x00, 0x02, 0x00] :=
  ⟨by decide, C2_getCRC_refines_bitwise (fun _ => 0) [0x51, 0x00, 0x00, 0x02, 0x00] (by decide)⟩

/-- C3: for every byte value `b` in 0..255 the entry `SD_CRC7_Table[b]` left by
`SD_CRC7_GenTable` equals the bit-by-bit CRC7 (polynomial 0x89, seed 0) of the single
byte `b`. -/
theorem C3_table_entry_eq_bitwise (tbl : Nat → Nat) (b : Nat) (hb : b < 256) :
    SD_CRC7_GenTable tbl b = crc7Bitwise [b] := by
  rw [genTable_apply tbl b hb]
  exact entry_eq_bitwise b hb

theorem C3_table_entry_eq_bitwise_witness :
    0x51 < 256 ∧ SD_CRC7_GenTable (fun _ => 0) 0x51 = crc7Bitwise [0x51] :=
  ⟨by decide, C3_table_entry_eq_bitwise (fun _ => 0) 0x51 (by decide)⟩

/-! ## Growth of the collaborator log -/

theorem QuietExt.qrefl (m : Machine) : QuietExt m m :=
  ⟨rfl, [], rfl, by simp⟩

theorem QuietExt.toLogExt {m0 m : Machine} (h : QuietExt m0 m) : LogExt m0 m := by
  obtain ⟨t, l, hl, -⟩ := h
  exact ⟨t, l, hl⟩

theorem LogExt.lrefl (m : Machine) : LogExt m m := ⟨rfl, [], rfl⟩

theorem LogExt.lsame {m0 m m1 : Machine} (h : LogExt m0 m)
    (ht : m1.SD_CRC7_Table = m.SD_CRC7_Table) (hl : m1.log = m.log) : LogExt m0 m1 := by
  obtain ⟨t, l, e⟩ := h
  exact ⟨ht.trans t, l, by rw [hl, e]⟩

theorem LogExt.ltrans {m0 m1 m2 : Machine} (h1 : LogExt m0 m1) (h2 : LogExt m1 m2) : LogExt m0 m2 := by
  obtain ⟨t1, l1, e1⟩ := h1
  obtain ⟨t2, l2, e2⟩ := h2
  exact ⟨t2.trans t1, l2 ++ l1, by rw [e2, e1, List.append_assoc]⟩

theorem QuietExt.qtrans {m0 m1 m2 : Machine} (h1 : QuietExt m0 m1) (h2 : QuietExt m1 m2) :
    QuietExt m0 m2 := by
  obtain ⟨t1, l1, e1, q1⟩ := h1
  obtain ⟨t2, l2, e2, q2⟩ := h2
  refine ⟨t2.trans t1, l2 ++ l1, by rw [e2, e1, List.append_assoc], ?_⟩
  intro e he
  rcases List.mem_append.1 he with h | h
  · exact q2 e h
  · exact q1 e h

/-- One more quiet event. -/
theorem QuietExt.step {m0 m m1 : Machine} (e : Event) (h : QuietExt m0 m)
    (ht : m1.SD_CRC7_Table = m.SD_CRC7_Table) (hl : m1.log = e :: m.log)
    (he : e.isSend16 = false) : QuietExt m0 m1 := by
  refine h.qtrans ⟨ht, [e], by simp [hl], ?_⟩
  intro x hx
  simp at hx
  rw [hx]; exact he

theorem QuietExt.qsame {m0 m m1 : Machine} (h : QuietExt m0 m)
    (ht : m1.SD_CRC7_Table = m.SD_CRC7_Table) (hl : m1.log = m.log) : QuietExt m0 m1 := by
  refine h.qtrans ⟨ht, [], by simp [hl], by simp⟩

theorem quiet_setState (m0 m : Machine) (v : SD_State_t) (h : QuietExt m0 m) :
    QuietExt m0 (m.setState v) :=
  h.qsame rfl rfl

theorem quiet_setMode (m0 m : Machine) (v : SD_Mode_t) (h : QuietExt m0 m) :
    QuietExt m0 (m.setMode v) :=
  h.qsame rfl rfl

theorem quiet_setVersion (m0 m : Machine) (v : Nat) (h : QuietExt m0 m) :
    QuietExt m0 (m.setVersion v) :=
  h.qsame rfl rfl

theorem quiet_setType (m0 m : Machine) (v : SD_Type_t) (h : QuietExt m0 m) :
    QuietExt m0 (m.setType v) :=
  h.qsame rfl rfl

theorem quiet_setLastR1 (m0 m : Machine) (v : Nat) (h : QuietExt m0 m) :
    QuietExt m0 (m.setLastR1 v) :=
  h.qsame rfl rfl

theorem quiet_setLastR2 (m0 m : Machine) (v : Nat) (h : QuietExt m0 m) :
    QuietExt m0 (m.setLastR2 v) :=
  h.qsame rfl rfl

theorem quiet_setWrittenBlocks (m0 m : Machine) (v : Nat) (h : QuietExt m0 m) :
    QuietExt m0 (m.setWrittenBlocks v) :=
  h.qsame rfl rfl

theorem quiet_setRawOCR (m0 m : Machine) (v : List Nat) (h : QuietExt m0 m) :
    QuietExt m0 (m.setRawOCR v) :=
  h.qsame rfl rfl

theorem quiet_setRawCID (m0 m : Machine) (v : List Nat) (h : QuietExt m0 m) :
    QuietExt m0 (m.setRawCID v) :=
  h.qsame rfl rfl

theorem quiet_setRawCSD (m0 m : Machine) (v : List Nat) (h : QuietExt m0 m) :
    QuietExt m0 (m.setRawCSD v) :=
  h.qsame rfl rfl

theorem quiet_setBlockSize (m0 m : Machine) (v : Nat) (h : QuietExt m0 m) :
    QuietExt m0 (m.setBlockSize v) :=
  h.qsame rfl rfl

theorem quiet_setCapacity (m0 m : Machine) (v : Nat) (h : QuietExt m0 m) :
    QuietExt m0 (m.setCapacity v) :=
  h.qsame rfl rfl

theorem quiet_CS_Set (m0 m : Machine) (h : QuietExt m0 m) : QuietExt m0 (SD_SPI_CS_Set m) :=
  h.step Event.csSet rfl rfl rfl

theorem quiet_CS_Reset (m0 m : Machine) (h : QuietExt m0 m) :
    QuietExt m0 (SD_SPI_CS_Reset m) :=
  h.step Event.csReset rfl rfl rfl

theorem quiet_Send8 (m0 m : Machine) (d : List Nat) (n : Nat) (h : QuietExt m0 m) :
    QuietExt m0 (SD_SPI_Send8Data m d n).2 :=
  h.step _ rfl rfl rfl

theorem quiet_Recv8 (m0 m : Machine) (n : Nat) (h : QuietExt m0 m) :
    QuietExt m0 (SD_SPI_Receive8Data m n).2.2 :=
  h.step _ rfl rfl rfl

theorem quiet_Recv16 (m0 m : Machine) (n : Nat) (h : QuietExt m0 m) :
    QuietExt m0 (SD_SPI_Receive16Data m n).2.2 :=
  h.step _ rfl rfl rfl

theorem quiet_GetCycle (m0 m : Machine) (h : QuietExt m0 m) :
    QuietExt m0 (DWT_GetCycle m).2 :=
  h.qsame rfl rfl

theorem quiet_Timeout (m0 m : Machine) (a b : Nat) (h : QuietExt m0 m) :
    QuietExt m0 (DWT_Timeout m a b).2 := by
  unfold DWT_Timeout
  simp only []
  split_ifs <;> exact h.qsame rfl rfl

theorem quiet_GetR1_poll (n : Nat) : ∀ (m0 m : Machine) (r : Nat), QuietExt m0 m →
    QuietExt m0 (SD_GetR1_poll n m r).2 := by
  induction n with
  | zero => intro m0 m r h; exact h
  | succ n ih =>
    intro m0 m r h
    unfold SD_GetR1_poll
    simp only []
    split_ifs
    · exact quiet_Recv8 _ _ _ h
    · exact ih _ _ _ (quiet_Recv8 _ _ _ h)
    · exact h

theorem quiet_GetR1 (m0 m : Machine) (c : Nat) (h : QuietExt m0 m) :
    QuietExt m0 (SD_GetR1 m c).2 := by
  have hp := quiet_GetR1_poll 10 m0 m 0xFF h
  unfold SD_GetR1
  simp only []
  split
  · exact hp
  · split_ifs
    · exact hp
    · exact quiet_setLastR1 _ _ _ hp
    · exact quiet_setLastR1 _ _ _ hp

theorem quiet_SendCMD (m0 m : Machine) (a b c : Nat) (h : QuietExt m0 m) :
    QuietExt m0 (SD_SendCMD m a b c).2 := by
  have hs := quiet_Send8 m0 m (SD_SendCMD_frame m.SD_CRC7_Table a b) 6 h
  unfold SD_SendCMD
  simp only []
  split_ifs
  · exact hs
  · exact quiet_GetR1 _ _ _ hs

theorem quiet_SendACMD (m0 m : Machine) (a b c : Nat) (h : QuietExt m0 m) :
    QuietExt m0 (SD_SendACMD m a b c).2 := by
  have h1 := fun r => quiet_SendCMD m0 m SD_CMD_55 0 r h
  unfold SD_SendACMD
  simp only []
  split_ifs <;> first | exact h1 _ | exact quiet_SendCMD _ _ _ _ _ (h1 _)

theorem quiet_GetResponse (m0 m : Machine) (n : Nat) (h : QuietExt m0 m) :
    QuietExt m0 (SD_GetResponse m n).2.2 := by
  unfold SD_GetResponse
  simp only []
  split_ifs <;> exact quiet_Recv8 _ _ _ h

theorem quiet_SendToken (m0 m : Machine) (t : Nat) (h : QuietExt m0 m) :
    QuietExt m0 (SD_SendToken m t).2 := by
  unfold SD_SendToken
  simp only []
  split_ifs <;> exact quiet_Send8 _ _ _ _ h

theorem quiet_GetToken_poll (t n : Nat) : ∀ (m0 m : Machine) (r : Nat), QuietExt m0 m →
    QuietExt m0 (SD_GetToken_poll t n m r).2 := by
  induction n with
  | zero => intro m0 m r h; exact h
  | succ n ih =>
    intro m0 m r h
    unfold SD_GetToken_poll
    simp only []
    split_ifs
    · exact quiet_Recv8 _ _ _ h
    · exact ih _ _ _ (quiet_Recv8 _ _ _ h)
    · exact h

theorem quiet_GetToken (m0 m : Machine) (t : Nat) (h : QuietExt m0 m) :
    QuietExt m0 (SD_GetToken m t).2 := by
  have hp := quiet_GetToken_poll t 100 m0 m 0xFF h
  unfold SD_GetToken
  simp only []
  split <;> [skip; split_ifs] <;> exact hp

theorem quiet_ReadData (m0 m : Machine) (n : Nat) (h : QuietExt m0 m) :
    QuietExt m0 (SD_ReadData m n).2.2 := by
  unfold SD_ReadData
  simp only []
  split_ifs <;> exact quiet_Recv16 _ _ _ h

theorem quiet_ErrorHandler (m0 m : Machine) (h : QuietExt m0 m) :
    QuietExt m0 (SD_ErrorHandler m) := by
  unfold SD_ErrorHandler
  exact quiet_CS_Set _ _ (quiet_setMode _ _ _ (quiet_setState _ _ _ h))

theorem quiet_SendDummyByte (n : Nat) : ∀ (m0 m : Machine), QuietExt m0 m →
    QuietExt m0 (SD_SendDummyByte m n).2 := by
  induction n with
  | zero => intro m0 m h; exact h
  | succ n ih =>
    intro m0 m h
    unfold SD_SendDummyByte
    simp only []
    split_ifs
    · exact quiet_Recv8 _ _ _ h
    · exact ih _ _ (quiet_Recv8 _ _ _ h)

theorem quiet_WaitForBusy_loop (ts n : Nat) : ∀ (m0 m : Machine) (r : Nat), QuietExt m0 m →
    QuietExt m0 (SD_WaitForBusy_loop ts n m r).2 := by
  induction n with
  | zero => intro m0 m r h; exact h
  | succ n ih =>
    intro m0 m r h
    unfold SD_WaitForBusy_loop
    simp only []
    split_ifs
    · exact quiet_Recv8 _ _ _ h
    · exact quiet_Timeout _ _ _ _ (quiet_Recv8 _ _ _ h)
    · exact ih _ _ _ (quiet_Timeout _ _ _ _ (quiet_Recv8 _ _ _ h))
    · exact h

theorem quiet_WaitForBusy (m0 m : Machine) (n : Nat) (h : QuietExt m0 m) :
    QuietExt m0 (SD_WaitForBusy n m).2 := by
  unfold SD_WaitForBusy
  exact quiet_WaitForBusy_loop _ _ _ _ _ (quiet_GetCycle _ _ h)

theorem quiet_StopTransfer_loop (ts n : Nat) : ∀ (m0 m : Machine) (r : Nat), QuietExt m0 m →
    QuietExt m0 (SD_StopTransfer_loop ts n m r).2 := by
  induction n with
  | zero => intro m0 m r h; exact h
  | succ n ih =>
    intro m0 m r h
    unfold SD_StopTransfer_loop
    simp only []
    split_ifs
    · exact quiet_Recv8 _ _ _ h
    · exact quiet_Timeout _ _ _ _ (quiet_Recv8 _ _ _ h)
    · exact ih _ _ _ (quiet_Timeout _ _ _ _ (quiet_Recv8 _ _ _ h))
    · exact h

theorem quiet_StopTransfer (m0 m : Machine) (n : Nat) (h : QuietExt m0 m) :
    QuietExt m0 (SD_StopTransfer n m).2 := by
  unfold SD_StopTransfer
  exact quiet_StopTransfer_loop _ _ _ _ _ (quiet_GetCycle _ _ (quiet_SendCMD _ _ _ _ _ h))

theorem quiet_WriteData_loop (ts n : Nat) : ∀ (m0 m : Machine) (r : Nat), QuietExt m0 m →
    QuietExt m0 (SD_WriteData_loop ts n m r).2 := by
  induction n with
  | zero => intro m0 m r h; exact h
  | succ n ih =>
    intro m0 m r h
    unfold SD_WriteData_loop
    simp only []
    split_ifs
    · exact quiet_Recv8 _ _ _ h
    · exact quiet_Timeout _ _ _ _ (quiet_Recv8 _ _ _ h)
    · exact ih _ _ _ (quiet_Timeout _ _ _ _ (quiet_Recv8 _ _ _ h))
    · exact h

theorem quiet_ReadStatus (m0 m : Machine) (h : QuietExt m0 m) :
    QuietExt m0 (SD_ReadStatus m).2 := by
  have h1 := quiet_SendCMD _ _ SD_CMD_13 0 SD_R1_NORMAL_STATE (quiet_CS_Reset _ _ h)
  have h2 := quiet_GetResponse _ _ 1 h1
  unfold SD_ReadStatus
  simp only []
  split_ifs
  · exact quiet_ErrorHandler _ _ h1
  · exact quiet_ErrorHandler _ _ (quiet_setLastR2 _ _ _ h2)
  · exact quiet_CS_Set _ _ (quiet_setLastR2 _ _ _ h2)

theorem quiet_GetWrittenBlocks (m0 m : Machine) (h : QuietExt m0 m) :
    QuietExt m0 (SD_GetWrittenBlocks m).2 := by
  have ha := quiet_SendACMD _ _ SD_ACMD_22 0 SD_R1_NORMAL_STATE (quiet_CS_Reset _ _ h)
  have ht := quiet_GetToken _ _ SD_START_RMW_BLOCK_TOKEN ha
  have hd := quiet_ReadData _ _ 4 ht
  unfold SD_GetWrittenBlocks
  simp only []
  split_ifs
  · exact quiet_ErrorHandler _ _ ha
  · exact quiet_ErrorHandler _ _ ht
  · exact quiet_ErrorHandler _ _ hd
  · exact quiet_CS_Set _ _ (quiet_setWrittenBlocks _ _ _ hd)

/-! ### Log growth of the functions that send data blocks -/

theorem LogExt.of_quiet {m0 m m1 : Machine} (h : LogExt m0 m) (q : QuietExt m m1) : LogExt m0 m1 :=
  h.ltrans q.toLogExt

theorem log_setState (m0 m : Machine) (v : SD_State_t) (h : LogExt m0 m) :
    LogExt m0 (m.setState v) :=
  h.lsame rfl rfl

theorem log_setMode (m0 m : Machine) (v : SD_Mode_t) (h : LogExt m0 m) :
    LogExt m0 (m.setMode v) :=
  h.lsame rfl rfl

theorem log_setVersion (m0 m : Machine) (v : Nat) (h : LogExt m0 m) :
    LogExt m0 (m.setVersion v) :=
  h.lsame rfl rfl

theorem log_setType (m0 m : Machine) (v : SD_Type_t) (h : LogExt m0 m) :
    LogExt m0 (m.setType v) :=
  h.lsame rfl rfl

theorem log_setLastR1 (m0 m : Machine) (v : Nat) (h : LogExt m0 m) :
    LogExt m0 (m.setLastR1 v) :=
  h.lsame rfl rfl

theorem log_setLastR2 (m0 m : Machine) (v : Nat) (h : LogExt m0 m) :
    LogExt m0 (m.setLastR2 v) :=
  h.lsame rfl rfl

theorem log_setWrittenBlocks (m0 m : Machine) (v : Nat) (h : LogExt m0 m) :
    LogExt m0 (m.setWrittenBlocks v) :=
  h.lsame rfl rfl

theorem log_setRawOCR (m0 m : Machine) (v : List Nat) (h : LogExt m0 m) :
    LogExt m0 (m.setRawOCR v) :=
  h.lsame rfl rfl

theorem log_setRawCID (m0 m : Machine) (v : List Nat) (h : LogExt m0 m) :
    LogExt m0 (m.setRawCID v) :=
  h.lsame rfl rfl

theorem log_setRawCSD (m0 m : Machine) (v : List Nat) (h : LogExt m0 m) :
    LogExt m0 (m.setRawCSD v) :=
  h.lsame rfl rfl

theorem log_setBlockSize (m0 m : Machine) (v : Nat) (h : LogExt m0 m) :
    LogExt m0 (m.setBlockSize v) :=
  h.lsame rfl rfl

theorem log_setCapacity (m0 m : Machine) (v : Nat) (h : LogExt m0 m) :
    LogExt m0 (m.setCapacity v) :=
  h.lsame rfl rfl

theorem setState_log (m : Machine) (v : SD_State_t) : (m.setState v).log = m.log := rfl

theorem setMode_log (m : Machine) (v : SD_Mode_t) : (m.setMode v).log = m.log := rfl

theorem setVersion_log (m : Machine) (v : Nat) : (m.setVersion v).log = m.log := rfl

theorem setType_log (m : Machine) (v : SD_Type_t) : (m.setType v).log = m.log := rfl

theorem setLastR1_log (m : Machine) (v : Nat) : (m.setLastR1 v).log = m.log := rfl

theorem setLastR2_log (m : Machine) (v : Nat) : (m.setLastR2 v).log = m.log := rfl

theorem setWrittenBlocks_log (m : Machine) (v : Nat) : (m.setWrittenBlocks v).log = m.log := rfl

theorem setRawOCR_log (m : Machine) (v : List Nat) : (m.setRawOCR v).log = m.log := rfl

theorem setRawCID_log (m : Machine) (v : List Nat) : (m.setRawCID v).log = m.log := rfl

theorem setRawCSD_log (m : Machine) (v : List Nat) : (m.setRawCSD v).log = m.log := rfl

theorem setBlockSize_log (m : Machine) (v : Nat) : (m.setBlockSize v).log = m.log := rfl

theorem setCapacity_log (m : Machine) (v : Nat) : (m.setCapacity v).log = m.log := rfl

theorem log_CS_Set (m0 m : Machine) (h : LogExt m0 m) : LogExt m0 (SD_SPI_CS_Set m) :=
  h.of_quiet (quiet_CS_Set _ _ (QuietExt.qrefl m))

theorem log_ErrorHandler (m0 m : Machine) (h : LogExt m0 m) : LogExt m0 (SD_ErrorHandler m) :=
  h.of_quiet (quiet_ErrorHandler _ _ (QuietExt.qrefl m))

theorem log_SendCMD (m0 m : Machine) (a b c : Nat) (h : LogExt m0 m) :
    LogExt m0 (SD_SendCMD m a b c).2 :=
  h.of_quiet (quiet_SendCMD _ _ a b c (QuietExt.qrefl m))

theorem log_GetToken (m0 m : Machine) (t : Nat) (h : LogExt m0 m) :
    LogExt m0 (SD_GetToken m t).2 :=
  h.of_quiet (quiet_GetToken _ _ t (QuietExt.qrefl m))

theorem log_SendToken (m0 m : Machine) (t : Nat) (h : LogExt m0 m) :
    LogExt m0 (SD_SendToken m t).2 :=
  h.of_quiet (quiet_SendToken _ _ t (QuietExt.qrefl m))

theorem log_ReadData (m0 m : Machine) (n : Nat) (h : LogExt m0 m) :
    LogExt m0 (SD_ReadData m n).2.2 :=
  h.of_quiet (quiet_ReadData _ _ n (QuietExt.qrefl m))

theorem log_SendDummyByte (m0 m : Machine) (n : Nat) (h : LogExt m0 m) :
    LogExt m0 (SD_SendDummyByte m n).2 :=
  h.of_quiet (quiet_SendDummyByte n _ _ (QuietExt.qrefl m))

theorem log_WaitForBusy (m0 m : Machine) (n : Nat) (h : LogExt m0 m) :
    LogExt m0 (SD_WaitForBusy n m).2 :=
  h.of_quiet (quiet_WaitForBusy _ _ n (QuietExt.qrefl m))

theorem log_StopTransfer (m0 m : Machine) (n : Nat) (h : LogExt m0 m) :
    LogExt m0 (SD_StopTransfer n m).2 :=
  h.of_quiet (quiet_StopTransfer _ _ n (QuietExt.qrefl m))

theorem log_ReadStatus (m0 m : Machine) (h : LogExt m0 m) :
    LogExt m0 (SD_ReadStatus m).2 :=
  h.of_quiet (quiet_ReadStatus _ _ (QuietExt.qrefl m))

theorem log_GetWrittenBlocks (m0 m : Machine) (h : LogExt m0 m) :
    LogExt m0 (SD_GetWrittenBlocks m).2 :=
  h.of_quiet (quiet_GetWrittenBlocks _ _ (QuietExt.qrefl m))

theorem log_GetCycle (m0 m : Machine) (h : LogExt m0 m) : LogExt m0 (DWT_GetCycle m).2 :=
  h.of_quiet (quiet_GetCycle _ _ (QuietExt.qrefl m))

theorem log_WriteData_loop (m0 m : Machine) (ts n r : Nat) (h : LogExt m0 m) :
    LogExt m0 (SD_WriteData_loop ts n m r).2 :=
  h.of_quiet (quiet_WriteData_loop ts n _ _ r (QuietExt.qrefl m))

theorem log_Send16 (m0 m : Machine) (d : List Nat) (n : Nat) (h : LogExt m0 m) :
    LogExt m0 (SD_SPI_Send16Data m d n).2 :=
  h.ltrans ⟨rfl, [_], rfl⟩

theorem log_WriteData (m0 m : Machine) (f : Nat) (d : List Nat) (n : Nat) (h : LogExt m0 m) :
    LogExt m0 (SD_WriteData f m d n).2 := by
  have hs := log_Send16 m0 m d (n >>> 1) h
  have hl := fun ts => log_WriteData_loop m0 _ ts f 0xFF (log_GetCycle _ _ hs)
  have hw := fun ts => log_WaitForBusy _ _ f (hl ts)
  unfold SD_WriteData
  simp only []
  split_ifs
  · exact hs
  · split
    · exact hl _
    · exact hl _
    · split_ifs
      · exact hl _
      · exact hl _
      · split
        · exact hw _
        · split_ifs <;> exact hw _

theorem log_ReadMultipleBlock_loop (n : Nat) : ∀ (m0 m : Machine) (d : List Nat) (o : Nat),
    LogExt m0 m → LogExt m0 (SD_ReadMultipleBlock_loop n m d o).2.2 := by
  induction n with
  | zero => intro m0 m d o h; exact h
  | succ n ih =>
    intro m0 m d o h
    have ht := log_GetToken _ _ SD_START_RMW_BLOCK_TOKEN h
    have hd := fun k => log_ReadData _ _ k ht
    unfold SD_ReadMultipleBlock_loop
    simp only []
    split_ifs
    · exact log_ErrorHandler _ _ ht
    · exact log_ErrorHandler _ _ (hd _)
    · exact ih _ _ _ _ (hd _)

theorem log_WriteMultipleBlock_loop (f n : Nat) : ∀ (m0 m : Machine) (d : List Nat),
    LogExt m0 m → LogExt m0 (SD_WriteMultipleBlock_loop f n m d).2 := by
  induction n with
  | zero => intro m0 m d h; exact h
  | succ n ih =>
    intro m0 m d h
    have ht := log_SendToken _ _ SD_START_WM_BLOCK_TOKEN h
    have hw := fun k => log_WriteData _ _ f d k ht
    have hs := fun k => log_StopTransfer _ _ f (hw k)
    unfold SD_WriteMultipleBlock_loop
    simp only []
    split_ifs
    · exact log_ErrorHandler _ _ ht
    · split
      · exact hw _
      · split_ifs
        · exact log_ErrorHandler _ _ (hw _)
        · split
          · exact hs _
          · exact log_ErrorHandler _ _ (log_GetWrittenBlocks _ _ (hs _))
        · exact ih _ _ _ (hw _)

/-! ## Command frames and R1 polling -/

theorem frameHead_lt (cmd argument : Nat) : ∀ b ∈ frameHead cmd argument, b < 256 := by
  have h0 : ((cmd % 256) &&& 0x7F) ||| 0x40 < 256 := by
    have h1 : (cmd % 256) &&& 0x7F < 2 ^ 8 := Nat.and_lt_two_pow _ (by norm_num)
    have h2 : 0x40 < 2 ^ 8 := by norm_num
    simpa using Nat.or_lt_two_pow h1 h2
  intro b hb
  simp only [frameHead, List.mem_cons, List.mem_singleton, List.not_mem_nil, or_false] at hb
  rcases hb with h | h | h | h | h <;> subst h <;> first | exact h0 | exact Nat.mod_lt _ (by norm_num)

theorem frame_eq_bitwise (tbl : Nat → Nat) (cmd argument : Nat) :
    SD_SendCMD_frame (SD_CRC7_GenTable tbl) cmd argument =
      frameHead cmd argument ++ [(crc7Bitwise (frameHead cmd argument) <<< 1) ||| 0x01] := by
  have h := getCRC_eq_bitwise tbl (frameHead cmd argument) 5 (frameHead_lt cmd argument)
  have ht : (frameHead cmd argument).take 5 = frameHead cmd argument := rfl
  rw [ht] at h
  have hlt : ∀ c < 128, ((c <<< 1) ||| 0x01) % 256 = (c <<< 1) ||| 0x01 := by decide!
  have h2 := hlt _ h.2
  rw [h.1] at h2
  unfold SD_SendCMD_frame
  simp only []
  change [_, _, _, _, _, ((SD_CRC7_GetCRC (SD_CRC7_GenTable tbl) (frameHead cmd argument) 5 <<< 1) ||| 0x01) % 256] = _
  rw [h.1, h2]
  rfl

theorem cmd_byte : ∀ cmd < 64, ((cmd % 256) &&& 0x7F) ||| 0x40 = 0x40 ||| cmd := by
  decide!

theorem frameHead_eq (cmd argument : Nat) (hc : cmd < 64) :
    frameHead cmd argument =
      [0x40 ||| cmd, argument / 16777216 % 256, argument / 65536 % 256, argument / 256 % 256,
       argument % 256] := by
  unfold frameHead
  rw [cmd_byte cmd hc]
  simp [Nat.shiftRight_eq_div_pow]

theorem afterReads_succ (m : Machine) (k : Nat) :
    afterReads m (k + 1) = (SD_SPI_Receive8Data (afterReads m k) 1).2.2 := by
  induction k generalizing m with
  | zero => rfl
  | succ k ih =>
    show afterReads (SD_SPI_Receive8Data m 1).2.2 (k + 1) = _
    rw [ih]
    rfl

theorem afterReads_facts (m : Machine) (k : Nat) :
    (afterReads m k).sd = m.sd ∧ (afterReads m k).SD_CRC7_Table = m.SD_CRC7_Table ∧
    (∀ i, (afterReads m k).rx8 i = m.rx8 (i + k)) ∧
    ∃ l, (afterReads m k).log = l ++ m.log ∧ l.length = k ∧ ∀ e ∈ l, e.isRecv8 = true := by
  induction k with
  | zero => exact ⟨rfl, rfl, fun i => rfl, [], rfl, rfl, by simp⟩
  | succ k ih =>
    obtain ⟨h1, h2, h3, l, h4, h5, h6⟩ := ih
    rw [afterReads_succ]
    refine ⟨h1, h2, ?_, ?_⟩
    · intro i
      show (afterReads m k).rx8 (i + 1) = _
      rw [h3]
      congr 1
      omega
    · obtain ⟨st, d, hr⟩ : ∃ st d, (SD_SPI_Receive8Data (afterReads m k) 1).2.2.log =
          Event.recv8 1 st d :: (afterReads m k).log := ⟨_, _, rfl⟩
      refine ⟨Event.recv8 1 st d :: l, ?_, by simp [h5], ?_⟩
      · rw [hr, h4]
        rfl
      · intro e he
        rcases List.mem_cons.1 he with h | h
        · subst h; rfl
        · exact h6 e h

theorem GetR1_poll_reads (n : Nat) : ∀ (m : Machine) (r : Nat),
    ∃ k, k ≤ n ∧ (SD_GetR1_poll n m r).2 = afterReads m k := by
  induction n with
  | zero => intro m r; exact ⟨0, le_refl _, rfl⟩
  | succ n ih =>
    intro m r
    unfold SD_GetR1_poll
    simp only []
    split_ifs
    · exact ⟨1, by omega, rfl⟩
    · obtain ⟨k, hk, e⟩ := ih (SD_SPI_Receive8Data m 1).2.2 ((SD_SPI_Receive8Data m 1).2.1.headD r)
      exact ⟨k + 1, by omega, e⟩
    · exact ⟨0, by omega, rfl⟩

theorem GetR1_reads (m : Machine) (c : Nat) :
    ∃ k, k ≤ 10 ∧ (SD_GetR1 m c).2.SD_CRC7_Table = m.SD_CRC7_Table ∧
      (∀ i, (SD_GetR1 m c).2.rx8 i = m.rx8 (i + k)) ∧
      ∃ l, (SD_GetR1 m c).2.log = l ++ m.log ∧ l.length = k ∧ ∀ e ∈ l, e.isRecv8 = true := by
  obtain ⟨k, hk, e⟩ := GetR1_poll_reads 10 m 0xFF
  obtain ⟨-, h2, h3, h4⟩ := afterReads_facts m k
  rw [← e] at h2 h3 h4
  refine ⟨k, hk, ?_⟩
  unfold SD_GetR1
  simp only []
  split <;> [skip; split_ifs] <;> exact ⟨h2, h3, h4⟩

theorem SendCMD_log (m : Machine) (cmd argument c : Nat) :
    ∃ l, (SD_SendCMD m cmd argument c).2.log =
        l ++ Event.send8 (SD_SendCMD_frame m.SD_CRC7_Table cmd argument) (m.tx8 0) :: m.log ∧
      l.length ≤ 10 ∧ ∀ e ∈ l, e.isRecv8 = true := by
  unfold SD_SendCMD
  simp only []
  split_ifs
  · exact ⟨[], rfl, by simp, by simp⟩
  · obtain ⟨k, hk, -, -, l, h1, h2, h3⟩ :=
      GetR1_reads (SD_SPI_Send8Data m (SD_SendCMD_frame m.SD_CRC7_Table cmd argument) 6).2 c
    exact ⟨l, h1, by omega, h3⟩

theorem frame_format (tbl : Nat → Nat) (cmd argument : Nat) (hc : cmd < 64) :
    SD_SendCMD_frame (SD_CRC7_GenTable tbl) cmd argument =
      [0x40 ||| cmd, argument / 16777216 % 256, argument / 65536 % 256, argument / 256 % 256,
       argument % 256,
       (SD_CRC7_GetCRC (SD_CRC7_GenTable tbl)
          [0x40 ||| cmd, argument / 16777216 % 256, argument / 65536 % 256,
           argument / 256 % 256, argument % 256] 5 <<< 1) ||| 1] := by
  have hb := getCRC_eq_bitwise tbl (frameHead cmd argument) 5 (frameHead_lt cmd argument)
  have ht : (frameHead cmd argument).take 5 = frameHead cmd argument := rfl
  rw [ht] at hb
  rw [frame_eq_bitwise, ← hb.1, frameHead_eq cmd argument hc]
  rfl

/-- C1: for every command index below 64 and every 32-bit argument the frame built by
`SD_SendCMD` (with the generated CRC7 table) is the command byte `0x40 | cmd`, the four
argument bytes most significant first (they recompose to the argument), and
`(crc7 of the first five bytes << 1) | 1`; this frame is what `SD_SendCMD` hands to the
transport before any read; it does not depend on the earlier table contents, so building
it again gives the same bytes; for CMD17 with argument 0x200 the first five bytes are
`51 00 00 02 00` and the sixth is `(SD_CRC7_GetCRC of them << 1) | 1`. -/
theorem C1_sendCMD_frame_format (tbl : Nat → Nat) (cmd argument : Nat) (hc : cmd < 64)
    (ha : argument < 4294967296) :
    (SD_SendCMD_frame (SD_CRC7_GenTable tbl) cmd argument =
      [0x40 ||| cmd, argument / 16777216 % 256, argument / 65536 % 256, argument / 256 % 256,
       argument % 256,
       (SD_CRC7_GetCRC (SD_CRC7_GenTable tbl)
          [0x40 ||| cmd, argument / 16777216 % 256, argument / 65536 % 256,
           argument / 256 % 256, argument % 256] 5 <<< 1) ||| 1]) ∧
    ((argument / 16777216 % 256) * 16777216 + (argument / 65536 % 256) * 65536 +
       (argument / 256 % 256) * 256 + argument % 256 = argument) ∧
    (∀ (m : Machine) (correctResponse : Nat), m.SD_CRC7_Table = SD_CRC7_GenTable tbl →
      ∃ l, (SD_SendCMD m cmd argument correctResponse).2.log =
          l ++ Event.send8 (SD_SendCMD_frame (SD_CRC7_GenTable tbl) cmd argument) (m.tx8 0) :: m.log ∧
        ∀ e ∈ l, e.isRecv8 = true) ∧
    (∀ tbl2 : Nat → Nat, SD_SendCMD_frame (SD_CRC7_GenTable tbl2) cmd argument =
      SD_SendCMD_frame (SD_CRC7_GenTable tbl) cmd argument) ∧
    (SD_SendCMD_frame (SD_CRC7_GenTable tbl) 17 0x00000200 =
      [0x51, 0x00, 0x00, 0x02, 0x00,
       (SD_CRC7_GetCRC (SD_CRC7_GenTable tbl) [0x51, 0x00, 0x00, 0x02, 0x00] 5 <<< 1) ||| 1]) := by
  refine ⟨frame_format tbl cmd argument hc, by omega, ?_, ?_, ?_⟩
  · intro m c hm
    obtain ⟨l, h1, -, h3⟩ := SendCMD_log m cmd argument c
    rw [hm] at h1
    exact ⟨l, h1, h3⟩
  · intro tbl2
    rw [frame_eq_bitwise, frame_eq_bitwise]
  · exact frame_format tbl 17 0x200 (by norm_num)

theorem C1_sendCMD_frame_format_witness :
    SD_SendCMD_frame (SD_CRC7_GenTable (fun _ => 0)) 17 0x00000200 =
      [0x40 ||| 17, 0x200 / 16777216 % 256, 0x200 / 65536 % 256, 0x200 / 256 % 256, 0x200 % 256,
       (SD_CRC7_GetCRC (SD_CRC7_GenTable (fun _ => 0))
          [0x40 ||| 17, 0x200 / 16777216 % 256, 0x200 / 65536 % 256,
           0x200 / 256 % 256, 0x200 % 256] 5 <<< 1) ||| 1] :=
  (C1_sendCMD_frame_format (fun _ => 0) 17 0x200 (by decide) (by decide)).1


/-! ## R1 acquisition -/

theorem Recv8_one_ok (m : Machine) (h : (m.rx8 0).st = SD_SPI_OK) :
    (SD_SPI_Receive8Data m 1).1 = SD_SPI_OK ∧
    (SD_SPI_Receive8Data m 1).2.1 = [(m.rx8 0).item 0 % 256] := by
  refine ⟨h, ?_⟩
  simp only [SD_SPI_Receive8Data, RxOutcome.count, h, if_true]
  rfl

theorem GetR1_poll_all_high (n : Nat) : ∀ (m : Machine) (r : Nat), r &&& 0x80 ≠ 0 →
    (∀ i < n, (m.rx8 i).st = SD_SPI_OK ∧ ((m.rx8 i).item 0 % 256) &&& 0x80 ≠ 0) →
    ∃ x, SD_GetR1_poll n m r = (some (x, 0), afterReads m n) := by
  induction n with
  | zero => intro m r _ _; exact ⟨r, rfl⟩
  | succ n ih =>
    intro m r hr h
    obtain ⟨h0, h0b⟩ := h 0 (by omega)
    obtain ⟨e1, e2⟩ := Recv8_one_ok m h0
    unfold SD_GetR1_poll
    simp only [SD_R1_ALWAYS_ZERO, hr, ne_eq, not_false_eq_true, if_true, e1, e2]
    simp only [List.headD_cons]
    have hne : ¬ (SD_SPI_OK = SD_SPI_ERROR) := by decide
    simp only [hne, if_false]
    exact ih _ _ h0b (fun i hi => h (i + 1) (by omega))

theorem GetR1_poll_first_low (n : Nat) : ∀ (m : Machine) (r k b : Nat), r &&& 0x80 ≠ 0 → k < n →
    (∀ i < k, (m.rx8 i).st = SD_SPI_OK ∧ ((m.rx8 i).item 0 % 256) &&& 0x80 ≠ 0) →
    (m.rx8 k).st = SD_SPI_OK → (m.rx8 k).item 0 % 256 = b → b &&& 0x80 = 0 →
    SD_GetR1_poll n m r = (some (b, n - 1 - k), afterReads m (k + 1)) := by
  induction n with
  | zero => intro m r k b _ hk; omega
  | succ n ih =>
    intro m r k b hr hk h hok hb hlow
    have hne : ¬ (SD_SPI_OK = SD_SPI_ERROR) := by decide
    cases k with
    | zero =>
      obtain ⟨e1, e2⟩ := Recv8_one_ok m hok
      unfold SD_GetR1_poll
      simp only [SD_R1_ALWAYS_ZERO, hr, ne_eq, not_false_eq_true, if_true, e1, e2, hne, if_false,
        List.headD_cons, hb]
      cases n with
      | zero => rfl
      | succ n =>
        unfold SD_GetR1_poll
        simp only [SD_R1_ALWAYS_ZERO, hlow, ne_eq, not_true_eq_false, if_false]
        rfl
    | succ k =>
      obtain ⟨h0, h0b⟩ := h 0 (by omega)
      obtain ⟨e1, e2⟩ := Recv8_one_ok m h0
      unfold SD_GetR1_poll
      simp only [SD_R1_ALWAYS_ZERO, hr, ne_eq, not_false_eq_true, if_true, e1, e2, hne, if_false,
        List.headD_cons]
      have := ih (SD_SPI_Receive8Data m 1).2.2 ((m.rx8 0).item 0 % 256) k b h0b (by omega)
        (fun i hi => h (i + 1) (by omega)) hok hb hlow
      rw [this]
      have e : n - 1 - k = n + 1 - 1 - (k + 1) := by omega
      rw [e]
      rfl

/-- For a valid R1 byte that arrives with one of the first nine reads, `SD_GetR1` stores it
and classifies it. -/
theorem GetR1_accepts_within_nine (m : Machine) (c k b : Nat) (hk : k < 9)
    (h : ∀ i < k, (m.rx8 i).st = SD_SPI_OK ∧ ((m.rx8 i).item 0 % 256) &&& 0x80 ≠ 0)
    (hok : (m.rx8 k).st = SD_SPI_OK) (hb : (m.rx8 k).item 0 % 256 = b) (hlow : b &&& 0x80 = 0) :
    (SD_GetR1 m c).1 = (if b = c then SD_OK else SD_INCORRECT_RESPONSE) ∧
    (SD_GetR1 m c).2.sd.lastR1 = b := by
  have hp := GetR1_poll_first_low 10 m 0xFF k b (by decide) (by omega) h hok hb hlow
  unfold SD_GetR1
  simp only [hp]
  have h9 : ¬ (10 - 1 - k = 0) := by omega
  simp only [h9, if_false]
  by_cases hbc : b = c
  · simp [hbc, Machine.setLastR1]
  · simp [hbc, Machine.setLastR1]

/-- A valid R1 byte that arrives with the tenth read is not accepted. -/
theorem GetR1_rejects_tenth (m : Machine) (c b : Nat)
    (h : ∀ i < 9, (m.rx8 i).st = SD_SPI_OK ∧ ((m.rx8 i).item 0 % 256) &&& 0x80 ≠ 0)
    (hok : (m.rx8 9).st = SD_SPI_OK) (hb : (m.rx8 9).item 0 % 256 = b) (hlow : b &&& 0x80 = 0) :
    (SD_GetR1 m c).1 = SD_ERROR ∧ (SD_GetR1 m c).2.sd = m.sd := by
  have hp := GetR1_poll_first_low 10 m 0xFF 9 b (by decide) (by omega) h hok hb hlow
  unfold SD_GetR1
  simp only [hp]
  exact ⟨rfl, (afterReads_facts m 10).1⟩

/-- Whatever the transport does, a result other than `SD_ERROR` of `SD_GetR1` means that
`lastR1` holds a byte with bit 7 clear, and the result is `SD_OK` exactly when that byte is
the expected one. -/
theorem GetR1_classifies (m : Machine) (c : Nat) (h : (SD_GetR1 m c).1 ≠ SD_ERROR) :
    ((SD_GetR1 m c).1 = SD_OK ↔ (SD_GetR1 m c).2.sd.lastR1 = c) ∧
    ((SD_GetR1 m c).1 = SD_OK ∨ (SD_GetR1 m c).1 = SD_INCORRECT_RESPONSE) := by
  revert h
  unfold SD_GetR1
  simp only []
  split
  · intro h; exact absurd rfl h
  · split_ifs with h1 h2
    · intro h; exact absurd rfl h
    · intro _
      refine ⟨⟨fun h => (by cases h), fun h => absurd h h2⟩, Or.inr rfl⟩
    · intro _
      have h3 := not_not.1 h2
      exact ⟨⟨fun _ => h3, fun _ => rfl⟩, Or.inl rfl⟩

/-- C4 (failing input): with a transport that answers `0xFF` nine times and then `0x00`,
`SD_GetR1` with expected response `0x00` performs ten reads, the tenth delivering `0x00`,
and then returns `SD_ERROR` without storing the byte in `lastR1`. -/
theorem C4_valid_r1_on_tenth_read_is_rejected :
    (SD_GetR1 (scriptedMachine sessionReady
        [0xFF, 0xFF, 0xFF, 0xFF, 0xFF, 0xFF, 0xFF, 0xFF, 0xFF, 0x00] []) 0x00).1 = SD_ERROR ∧
    (SD_GetR1 (scriptedMachine sessionReady
        [0xFF, 0xFF, 0xFF, 0xFF, 0xFF, 0xFF, 0xFF, 0xFF, 0xFF, 0x00] []) 0x00).2.sd.lastR1 = 0x55 ∧
    (SD_GetR1 (scriptedMachine sessionReady
        [0xFF, 0xFF, 0xFF, 0xFF, 0xFF, 0xFF, 0xFF, 0xFF, 0xFF, 0x00] []) 0x00).2.log =
      Event.recv8 1 SD_SPI_OK [0x00] :: List.replicate 9 (Event.recv8 1 SD_SPI_OK [0xFF]) := by
  decide!

/-- C5: when every single-byte read delivers a byte with bit 7 set, `SD_GetR1` performs
exactly ten reads, returns `SD_ERROR` and leaves the session (so also `lastR1`) unchanged;
and with any transport `SD_GetR1` performs at most ten reads and no other transport call. -/
theorem C5_getR1_gives_up_after_ten_reads (m : Machine) (correctResponse : Nat) :
    ((∀ i < 10, (m.rx8 i).st = SD_SPI_OK ∧ ((m.rx8 i).item 0 % 256) &&& 0x80 ≠ 0) →
      (SD_GetR1 m correctResponse).1 = SD_ERROR ∧
      (SD_GetR1 m correctResponse).2.sd = m.sd ∧
      ∃ l, (SD_GetR1 m correctResponse).2.log = l ++ m.log ∧ l.length = 10 ∧
        ∀ e ∈ l, e.isRecv8 = true) ∧
    (∃ k, k ≤ 10 ∧ (∀ i, (SD_GetR1 m correctResponse).2.rx8 i = m.rx8 (i + k)) ∧
      ∃ l, (SD_GetR1 m correctResponse).2.log = l ++ m.log ∧ l.length = k ∧
        ∀ e ∈ l, e.isRecv8 = true) := by
  constructor
  · intro h
    obtain ⟨x, hp⟩ := GetR1_poll_all_high 10 m 0xFF (by decide) h
    obtain ⟨h1, -, -, h4⟩ := afterReads_facts m 10
    unfold SD_GetR1
    simp only [hp]
    exact ⟨rfl, h1, h4⟩
  · obtain ⟨k, hk, -, h3, h4⟩ := GetR1_reads m correctResponse
    exact ⟨k, hk, h3, h4⟩

theorem C5_getR1_gives_up_after_ten_reads_witness :
    (SD_GetR1 (scriptedMachine sessionReady [] []) 0x00).1 = SD_ERROR ∧
    (SD_GetR1 (scriptedMachine sessionReady [] []) 0x00).2.sd = sessionReady ∧
    ∃ l, (SD_GetR1 (scriptedMachine sessionReady [] []) 0x00).2.log = l ++ [] ∧ l.length = 10 ∧
      ∀ e ∈ l, e.isRecv8 = true :=
  (C5_getR1_gives_up_after_ten_reads (scriptedMachine sessionReady [] []) 0x00).1
    (fun i _ => ⟨rfl, by simp [scriptedMachine]⟩)

/-- C6 (failing input): with a transport that answers `0xFF` nine times and then the valid
R1 byte `0x05`, `SD_GetR1` with expected response `0x01` returns `SD_ERROR`, not
`SD_INCORRECT_RESPONSE`, and does not store `0x05` in `lastR1`. -/
theorem C6_valid_r1_on_tenth_read_is_not_classified :
    (SD_GetR1 (scriptedMachine sessionReady
        [0xFF, 0xFF, 0xFF, 0xFF, 0xFF, 0xFF, 0xFF, 0xFF, 0xFF, 0x05] []) 0x01).1 = SD_ERROR ∧
    (SD_GetR1 (scriptedMachine sessionReady
        [0xFF, 0xFF, 0xFF, 0xFF, 0xFF, 0xFF, 0xFF, 0xFF, 0xFF, 0x05] []) 0x01).2.sd.lastR1 = 0x55 ∧
    (SD_GetR1 (scriptedMachine sessionReady
        [0xFF, 0xFF, 0xFF, 0xFF, 0xFF, 0xFF, 0xFF, 0xFF, 0xFF, 0x05] []) 0x01).2.log.head? =
      some (Event.recv8 1 SD_SPI_OK [0x05]) := by
  decide!

/-! ## Capacity decoding in `SD_ReadCSD` -/

/-! The two capacity expressions of `SD_ReadCSD` on the field values for which no
intermediate result leaves its C type. -/

theorem csd_v2_capacity_in_range (c : Nat) (hc : c < 4194303) :
    (toUInt64 (toInt32 (((c : Nat) + 1) * 2 ^ 9)) <<< 10) % 18446744073709551616 =
      (c + 1) * 524288 := by
  have h1 : toInt32 (((c : Nat) + 1) * 2 ^ 9) = (((c + 1) * 512 : Nat) : Int) := by
    unfold toInt32
    push_cast
    omega
  rw [h1]
  unfold toUInt64
  rw [Nat.shiftLeft_eq]
  omega

theorem csd_v1_capacity_in_range (c mm : Nat) (hc : c < 4096) (hm : mm ≤ 5) :
    toUInt64 (toInt32 (toInt32 (((c : Nat) + 1) * (((1 <<< (mm + 2)) % 256 : Nat) : Int)) * 2 ^ 9)) =
      (c + 1) * 2 ^ (mm + 2) * 512 := by
  have hmm : mm = 0 ∨ mm = 1 ∨ mm = 2 ∨ mm = 3 ∨ mm = 4 ∨ mm = 5 := by omega
  rcases hmm with h | h | h | h | h | h <;> subst h <;>
  · simp only [Nat.shiftLeft_eq, toInt32, toUInt64]
    norm_num
    omega

/-- C7 (failing input): for a version-2 card whose CSD has C_SIZE `0x3FFFFF`, `SD_ReadCSD`
succeeds with block size 512 but stores the capacity `2^64 - 2^41`, not
`(C_SIZE + 1) * 524288 = 2^41`: the `int` shift by 9 wraps to a negative value before the
conversion to `uint64_t`. -/
theorem C7_csd_v2_capacity_wraps_at_max_c_size :
    (SD_ReadCSD machineCSDv2Max).1 = SD_OK ∧
    (SD_ReadCSD machineCSDv2Max).2.sd.rawCSD =
      [0x40, 0x0E, 0x00, 0x32, 0x5B, 0x59, 0x00, 0x3F, 0xFF, 0xFF, 0x7F, 0x80, 0x0A, 0x40, 0x00, 0x01] ∧
    SD_CSDv2_cSize (SD_ReadCSD machineCSDv2Max).2.sd.rawCSD = 4194303 ∧
    (SD_ReadCSD machineCSDv2Max).2.sd.blockSize = 512 ∧
    (SD_ReadCSD machineCSDv2Max).2.sd.capacity = 18446741874686296064 ∧
    (SD_ReadCSD machineCSDv2Max).2.sd.capacity ≠ (4194303 + 1) * 524288 := by
  decide!

/-- C8 (failing input): for a version-1 card whose CSD has C_SIZE 3874 and C_SIZE_MULT 7,
`SD_ReadCSD` succeeds with block size 512 but stores the capacity 0, not
`(3874 + 1) * 2^(7 + 2) * 512`: the multiplier `2^9` does not fit the `uint8_t mult`. -/
theorem C8_csd_v1_capacity_lost_for_large_mult :
    (SD_ReadCSD machineCSDv1).1 = SD_OK ∧
    (SD_ReadCSD machineCSDv1).2.sd.rawCSD =
      [0x00, 0x26, 0x00, 0x32, 0x5F, 0x59, 0x83, 0xC8, 0xAD, 0xDB, 0xCF, 0xFF, 0xD2, 0x40, 0x40, 0xA5] ∧
    SD_CSDv1_cSize (SD_ReadCSD machineCSDv1).2.sd.rawCSD = 3874 ∧
    SD_CSDv1_sizeMultiplier (SD_ReadCSD machineCSDv1).2.sd.rawCSD = 7 ∧
    (SD_ReadCSD machineCSDv1).2.sd.blockSize = 512 ∧
    (SD_ReadCSD machineCSDv1).2.sd.capacity = 0 ∧
    (SD_ReadCSD machineCSDv1).2.sd.capacity ≠ (3874 + 1) * 2 ^ (7 + 2) * 512 := by
  decide!

/-! ## Log and table of the composed functions, as rewriting rules -/

theorem LogExt.log_eq {m0 m : Machine} (h : LogExt m0 m) : m.log = newLog m0 m ++ m0.log := by
  obtain ⟨-, l, hl⟩ := h
  unfold newLog
  rw [hl]
  simp

theorem logExt_of (m0 m : Machine) (ht : m.SD_CRC7_Table = m0.SD_CRC7_Table)
    (hl : m0.log <:+ m.log) : LogExt m0 m := by
  obtain ⟨l, h⟩ := hl
  exact ⟨ht, l, h.symm⟩

theorem ErrorHandler_log (m : Machine) : (SD_ErrorHandler m).log = [Event.csSet] ++ m.log := rfl

theorem ErrorHandler_table (m : Machine) :
    (SD_ErrorHandler m).SD_CRC7_Table = m.SD_CRC7_Table := rfl

theorem CS_Set_log (m : Machine) : (SD_SPI_CS_Set m).log = [Event.csSet] ++ m.log := rfl

theorem CS_Set_table (m : Machine) : (SD_SPI_CS_Set m).SD_CRC7_Table = m.SD_CRC7_Table := rfl

theorem CS_Reset_log (m : Machine) : (SD_SPI_CS_Reset m).log = [Event.csReset] ++ m.log := rfl

theorem CS_Reset_table (m : Machine) : (SD_SPI_CS_Reset m).SD_CRC7_Table = m.SD_CRC7_Table := rfl

theorem setState_table (m : Machine) (v) : (m.setState v).SD_CRC7_Table = m.SD_CRC7_Table := rfl

theorem setMode_table (m : Machine) (v) : (m.setMode v).SD_CRC7_Table = m.SD_CRC7_Table := rfl

theorem setVersion_table (m : Machine) (v) : (m.setVersion v).SD_CRC7_Table = m.SD_CRC7_Table := rfl

theorem setType_table (m : Machine) (v) : (m.setType v).SD_CRC7_Table = m.SD_CRC7_Table := rfl

theorem setLastR1_table (m : Machine) (v) : (m.setLastR1 v).SD_CRC7_Table = m.SD_CRC7_Table := rfl

theorem setLastR2_table (m : Machine) (v) : (m.setLastR2 v).SD_CRC7_Table = m.SD_CRC7_Table := rfl

theorem setWrittenBlocks_table (m : Machine) (v) : (m.setWrittenBlocks v).SD_CRC7_Table = m.SD_CRC7_Table := rfl

theorem setRawOCR_table (m : Machine) (v) : (m.setRawOCR v).SD_CRC7_Table = m.SD_CRC7_Table := rfl

theorem setRawCID_table (m : Machine) (v) : (m.setRawCID v).SD_CRC7_Table = m.SD_CRC7_Table := rfl

theorem setRawCSD_table (m : Machine) (v) : (m.setRawCSD v).SD_CRC7_Table = m.SD_CRC7_Table := rfl

theorem setBlockSize_table (m : Machine) (v) : (m.setBlockSize v).SD_CRC7_Table = m.SD_CRC7_Table := rfl

theorem setCapacity_table (m : Machine) (v) : (m.setCapacity v).SD_CRC7_Table = m.SD_CRC7_Table := rfl

theorem GetToken_log (m : Machine) (t : Nat) :
    (SD_GetToken m t).2.log = newLog m (SD_GetToken m t).2 ++ m.log :=
  (log_GetToken m m t (LogExt.lrefl m)).log_eq

theorem GetToken_table (m : Machine) (t : Nat) :
    (SD_GetToken m t).2.SD_CRC7_Table = m.SD_CRC7_Table :=
  (log_GetToken m m t (LogExt.lrefl m)).1

theorem ReadData_log (m : Machine) (n : Nat) :
    (SD_ReadData m n).2.2.log = newLog m (SD_ReadData m n).2.2 ++ m.log :=
  (log_ReadData m m n (LogExt.lrefl m)).log_eq

theorem ReadData_table (m : Machine) (n : Nat) :
    (SD_ReadData m n).2.2.SD_CRC7_Table = m.SD_CRC7_Table :=
  (log_ReadData m m n (LogExt.lrefl m)).1

theorem SendToken_log (m : Machine) (t : Nat) :
    (SD_SendToken m t).2.log = newLog m (SD_SendToken m t).2 ++ m.log :=
  (log_SendToken m m t (LogExt.lrefl m)).log_eq

theorem SendToken_table (m : Machine) (t : Nat) :
    (SD_SendToken m t).2.SD_CRC7_Table = m.SD_CRC7_Table :=
  (log_SendToken m m t (LogExt.lrefl m)).1

theorem WriteData_log (m : Machine) (f : Nat) (d : List Nat) (n : Nat) :
    (SD_WriteData f m d n).2.log = newLog m (SD_WriteData f m d n).2 ++ m.log :=
  (log_WriteData m m f d n (LogExt.lrefl m)).log_eq

theorem WriteData_table (m : Machine) (f : Nat) (d : List Nat) (n : Nat) :
    (SD_WriteData f m d n).2.SD_CRC7_Table = m.SD_CRC7_Table :=
  (log_WriteData m m f d n (LogExt.lrefl m)).1

theorem WaitForBusy_log (m : Machine) (f : Nat) :
    (SD_WaitForBusy f m).2.log = newLog m (SD_WaitForBusy f m).2 ++ m.log :=
  (log_WaitForBusy m m f (LogExt.lrefl m)).log_eq

theorem WaitForBusy_table (m : Machine) (f : Nat) :
    (SD_WaitForBusy f m).2.SD_CRC7_Table = m.SD_CRC7_Table :=
  (log_WaitForBusy m m f (LogExt.lrefl m)).1

theorem ReadStatus_log (m : Machine) :
    (SD_ReadStatus m).2.log = newLog m (SD_ReadStatus m).2 ++ m.log :=
  (log_ReadStatus m m (LogExt.lrefl m)).log_eq

theorem ReadStatus_table (m : Machine) :
    (SD_ReadStatus m).2.SD_CRC7_Table = m.SD_CRC7_Table :=
  (log_ReadStatus m m (LogExt.lrefl m)).1

theorem GetWrittenBlocks_log (m : Machine) :
    (SD_GetWrittenBlocks m).2.log = newLog m (SD_GetWrittenBlocks m).2 ++ m.log :=
  (log_GetWrittenBlocks m m (LogExt.lrefl m)).log_eq

theorem GetWrittenBlocks_table (m : Machine) :
    (SD_GetWrittenBlocks m).2.SD_CRC7_Table = m.SD_CRC7_Table :=
  (log_GetWrittenBlocks m m (LogExt.lrefl m)).1

theorem SendDummyByte_log (m : Machine) (n : Nat) :
    (SD_SendDummyByte m n).2.log = newLog m (SD_SendDummyByte m n).2 ++ m.log :=
  (log_SendDummyByte m m n (LogExt.lrefl m)).log_eq

theorem SendDummyByte_table (m : Machine) (n : Nat) :
    (SD_SendDummyByte m n).2.SD_CRC7_Table = m.SD_CRC7_Table :=
  (log_SendDummyByte m m n (LogExt.lrefl m)).1

theorem StopTransfer_log (m : Machine) (f : Nat) :
    (SD_StopTransfer f m).2.log = newLog m (SD_StopTransfer f m).2 ++ m.log :=
  (log_StopTransfer m m f (LogExt.lrefl m)).log_eq

theorem StopTransfer_table (m : Machine) (f : Nat) :
    (SD_StopTransfer f m).2.SD_CRC7_Table = m.SD_CRC7_Table :=
  (log_StopTransfer m m f (LogExt.lrefl m)).1

theorem SendCMD_table (m : Machine) (a b c : Nat) :
    (SD_SendCMD m a b c).2.SD_CRC7_Table = m.SD_CRC7_Table :=
  (log_SendCMD m m a b c (LogExt.lrefl m)).1

theorem ReadMultipleBlock_loop_log (n : Nat) (m : Machine) (d : List Nat) (o : Nat) :
    (SD_ReadMultipleBlock_loop n m d o).2.2.log = newLog m (SD_ReadMultipleBlock_loop n m d o).2.2 ++ m.log :=
  (log_ReadMultipleBlock_loop n m m d o (LogExt.lrefl m)).log_eq

theorem ReadMultipleBlock_loop_table (n : Nat) (m : Machine) (d : List Nat) (o : Nat) :
    (SD_ReadMultipleBlock_loop n m d o).2.2.SD_CRC7_Table = m.SD_CRC7_Table :=
  (log_ReadMultipleBlock_loop n m m d o (LogExt.lrefl m)).1

theorem WriteMultipleBlock_loop_log (f n : Nat) (m : Machine) (d : List Nat) :
    (SD_WriteMultipleBlock_loop f n m d).2.log = newLog m (SD_WriteMultipleBlock_loop f n m d).2 ++ m.log :=
  (log_WriteMultipleBlock_loop f n m m d (LogExt.lrefl m)).log_eq

theorem WriteMultipleBlock_loop_table (f n : Nat) (m : Machine) (d : List Nat) :
    (SD_WriteMultipleBlock_loop f n m d).2.SD_CRC7_Table = m.SD_CRC7_Table :=
  (log_WriteMultipleBlock_loop f n m m d (LogExt.lrefl m)).1


/-! ## Address translation of the transfer commands -/

theorem sentFirst_of_SendCMD (m mf : Machine) (v : SD_State_t) (cmd arg c : Nat)
    (h : LogExt (SD_SendCMD ((SD_SPI_CS_Reset m).setState v) cmd arg c).2 mf) :
    SentFirst m mf cmd arg := by
  obtain ⟨l, h1, -, -⟩ := SendCMD_log ((SD_SPI_CS_Reset m).setState v) cmd arg c
  obtain ⟨-, l2, h2⟩ := h
  refine ⟨l2 ++ l, ?_⟩
  rw [h2, h1, List.append_assoc]
  rfl

theorem ReadBlock_log (m : Machine) (address : Nat) (data : List Nat) :
    let m1 : Machine := (SD_SPI_CS_Reset m).setState SD_STATE_RECEIVE
    let address1 :=
      if m1.sd.type = SD_TYPE_SDSC then (address * m1.sd.blockSize) % 4294967296 else address
    LogExt (SD_SendCMD m1 SD_CMD_17 address1 SD_R1_NORMAL_STATE).2 (SD_ReadBlock m address data).2.2 := by
  intro m1 address1
  simp only [m1, address1, SD_ReadBlock]
  split_ifs <;>
  · refine logExt_of _ _ ?_ ?_
    · simp only [ErrorHandler_table, CS_Set_table, GetToken_table, ReadData_table]
    · simp only [ErrorHandler_log, CS_Set_log, GetToken_log, ReadData_log]
      try simp only [← List.append_assoc]
      exact List.suffix_append _ _

theorem ReadMultipleBlock_log (fuel : Nat) (m : Machine) (address : Nat) (data : List Nat)
    (num : Nat) :
    let m1 : Machine := (SD_SPI_CS_Reset m).setState SD_STATE_RECEIVE
    let address1 :=
      if m1.sd.type = SD_TYPE_SDSC then (address * m1.sd.blockSize) % 4294967296 else address
    LogExt (SD_SendCMD m1 SD_CMD_18 address1 SD_R1_NORMAL_STATE).2
      (SD_ReadMultipleBlock fuel m address data num).2.2 := by
  intro m1 address1
  simp only [m1, address1, SD_ReadMultipleBlock]
  split_ifs <;> (try split) <;> (try split_ifs) <;>
  · refine logExt_of _ _ ?_ ?_
    · simp only [ErrorHandler_table, CS_Set_table, setState_table, ReadMultipleBlock_loop_table,
        StopTransfer_table]
    · simp only [ErrorHandler_log, CS_Set_log, setState_log, ReadMultipleBlock_loop_log,
        StopTransfer_log]
      try simp only [← List.append_assoc]
      exact List.suffix_append _ _

theorem WriteBlock_log (fuel : Nat) (m : Machine) (address : Nat) (data : List Nat) :
    let m1 : Machine := (SD_SPI_CS_Reset m).setState SD_STATE_SENDING
    let address1 :=
      if m1.sd.type = SD_TYPE_SDSC then (address * m1.sd.blockSize) % 4294967296 else address
    LogExt (SD_SendCMD m1 SD_CMD_24 address1 SD_R1_NORMAL_STATE).2
      (SD_WriteBlock fuel m address data).2 := by
  intro m1 address1
  simp only [m1, address1, SD_WriteBlock]
  split_ifs <;> (try split) <;> (try split_ifs) <;> (try split) <;> (try split_ifs) <;>
  · refine logExt_of _ _ ?_ ?_
    · simp only [ErrorHandler_table, CS_Set_table, setState_table, SendToken_table,
        WriteData_table, WaitForBusy_table, ReadStatus_table]
    · simp only [ErrorHandler_log, CS_Set_log, setState_log, SendToken_log, WriteData_log,
        WaitForBusy_log, ReadStatus_log]
      try simp only [← List.append_assoc]
      exact List.suffix_append _ _

set_option maxHeartbeats 2000000 in
theorem WriteMultipleBlock_log (fuel : Nat) (m : Machine) (address : Nat) (data : List Nat)
    (num : Nat) :
    let m1 : Machine := (SD_SPI_CS_Reset m).setState SD_STATE_SENDING
    let address1 :=
      if m1.sd.type = SD_TYPE_SDSC then (address * m1.sd.blockSize) % 4294967296 else address
    LogExt (SD_SendCMD m1 SD_CMD_25 address1 SD_R1_NORMAL_STATE).2
      (SD_WriteMultipleBlock fuel m address data num).2 := by
  intro m1 address1
  simp only [m1, address1, SD_WriteMultipleBlock]
  split_ifs <;> (try split) <;> (try split_ifs) <;> (try split) <;> (try split_ifs) <;>
  · refine logExt_of _ _ ?_ ?_
    · simp only [ErrorHandler_table, CS_Set_table, setState_table, SendToken_table,
        WaitForBusy_table, ReadStatus_table, SendDummyByte_table, WriteMultipleBlock_loop_table]
    · simp only [ErrorHandler_log, CS_Set_log, setState_log, SendToken_log, WaitForBusy_log,
        ReadStatus_log, SendDummyByte_log, WriteMultipleBlock_loop_log]
      try simp only [← List.append_assoc]
      exact List.suffix_append _ _

theorem transfer_sent (fuel : Nat) (m : Machine) (address : Nat) (data : List Nat) (num : Nat) :
    SentFirst m (SD_ReadBlock m address data).2.2 SD_CMD_17
        (if m.sd.type = SD_TYPE_SDSC then address * m.sd.blockSize % 4294967296 else address) ∧
    SentFirst m (SD_ReadMultipleBlock fuel m address data num).2.2 SD_CMD_18
        (if m.sd.type = SD_TYPE_SDSC then address * m.sd.blockSize % 4294967296 else address) ∧
    SentFirst m (SD_WriteBlock fuel m address data).2 SD_CMD_24
        (if m.sd.type = SD_TYPE_SDSC then address * m.sd.blockSize % 4294967296 else address) ∧
    SentFirst m (SD_WriteMultipleBlock fuel m address data num).2 SD_CMD_25
        (if m.sd.type = SD_TYPE_SDSC then address * m.sd.blockSize % 4294967296 else address) :=
  ⟨sentFirst_of_SendCMD m _ _ _ _ _ (ReadBlock_log m address data),
   sentFirst_of_SendCMD m _ _ _ _ _ (ReadMultipleBlock_log fuel m address data num),
   sentFirst_of_SendCMD m _ _ _ _ _ (WriteBlock_log fuel m address data),
   sentFirst_of_SendCMD m _ _ _ _ _ (WriteMultipleBlock_log fuel m address data num)⟩

/-- C9: in `SD_ReadBlock`, `SD_ReadMultipleBlock`, `SD_WriteBlock` and
`SD_WriteMultipleBlock` the first transfer after selecting the card is the frame of
CMD17, CMD18, CMD24, CMD25 respectively, and its 32-bit argument is `address * blockSize`
(in `uint32_t` arithmetic) when `type` is `SD_TYPE_SDSC` and `address` itself for SDHC and
SDXC; with block size 512 and address 10 the argument is 5120 for SDSC and 10 otherwise. -/
theorem C9_transfer_command_argument (fuel : Nat) (m : Machine) (address : Nat)
    (data : List Nat) (num : Nat) :
    (m.sd.type = SD_TYPE_SDSC →
      SentFirst m (SD_ReadBlock m address data).2.2 SD_CMD_17
        (address * m.sd.blockSize % 4294967296) ∧
      SentFirst m (SD_ReadMultipleBlock fuel m address data num).2.2 SD_CMD_18
        (address * m.sd.blockSize % 4294967296) ∧
      SentFirst m (SD_WriteBlock fuel m address data).2 SD_CMD_24
        (address * m.sd.blockSize % 4294967296) ∧
      SentFirst m (SD_WriteMultipleBlock fuel m address data num).2 SD_CMD_25
        (address * m.sd.blockSize % 4294967296)) ∧
    (m.sd.type = SD_TYPE_SDHC ∨ m.sd.type = SD_TYPE_SDXC →
      SentFirst m (SD_ReadBlock m address data).2.2 SD_CMD_17 address ∧
      SentFirst m (SD_ReadMultipleBlock fuel m address data num).2.2 SD_CMD_18 address ∧
      SentFirst m (SD_WriteBlock fuel m address data).2 SD_CMD_24 address ∧
      SentFirst m (SD_WriteMultipleBlock fuel m address data num).2 SD_CMD_25 address) ∧
    (m.sd.blockSize = 512 → m.sd.type = SD_TYPE_SDSC →
      SentFirst m (SD_ReadBlock m 10 data).2.2 SD_CMD_17 5120 ∧
      SentFirst m (SD_ReadMultipleBlock fuel m 10 data num).2.2 SD_CMD_18 5120 ∧
      SentFirst m (SD_WriteBlock fuel m 10 data).2 SD_CMD_24 5120 ∧
      SentFirst m (SD_WriteMultipleBlock fuel m 10 data num).2 SD_CMD_25 5120) ∧
    (m.sd.type = SD_TYPE_SDHC ∨ m.sd.type = SD_TYPE_SDXC →
      SentFirst m (SD_ReadBlock m 10 data).2.2 SD_CMD_17 10 ∧
      SentFirst m (SD_ReadMultipleBlock fuel m 10 data num).2.2 SD_CMD_18 10 ∧
      SentFirst m (SD_WriteBlock fuel m 10 data).2 SD_CMD_24 10 ∧
      SentFirst m (SD_WriteMultipleBlock fuel m 10 data num).2 SD_CMD_25 10) := by
  have hne : m.sd.type = SD_TYPE_SDHC ∨ m.sd.type = SD_TYPE_SDXC → ¬ m.sd.type = SD_TYPE_SDSC := by
    intro ht
    rcases ht with h | h <;> rw [h] <;> decide
  refine ⟨?_, ?_, ?_, ?_⟩
  · intro ht
    have h := transfer_sent fuel m address data num
    rw [if_pos ht] at h
    exact h
  · intro ht
    have h := transfer_sent fuel m address data num
    rw [if_neg (hne ht)] at h
    exact h
  · intro hb ht
    have h := transfer_sent fuel m 10 data num
    rw [if_pos ht, hb] at h
    exact h
  · intro ht
    have h := transfer_sent fuel m 10 data num
    rw [if_neg (hne ht)] at h
    exact h

theorem C9_transfer_command_argument_witness :
    SentFirst (scriptedMachine { sessionReady with type := SD_TYPE_SDSC } [] [])
      (SD_WriteMultipleBlock 8 (scriptedMachine { sessionReady with type := SD_TYPE_SDSC } [] [])
        10 [] 5).2 SD_CMD_25 5120 :=
  ((C9_transfer_command_argument 8 (scriptedMachine { sessionReady with type := SD_TYPE_SDSC } [] [])
    10 [] 5).2.2.1 rfl rfl).2.2.2

/-! ## Error path of the multiple-block write -/

theorem Timeout_sd (m : Machine) (a b : Nat) : (DWT_Timeout m a b).2.sd = m.sd := by
  simp only [DWT_Timeout]
  split_ifs <;> rfl

theorem Timeout_rx8 (m : Machine) (a b : Nat) : (DWT_Timeout m a b).2.rx8 = m.rx8 := by
  simp only [DWT_Timeout]
  split_ifs <;> rfl

theorem WaitForBusy_loop_sd (ts n : Nat) : ∀ (m : Machine) (r : Nat),
    (SD_WaitForBusy_loop ts n m r).2.sd = m.sd := by
  induction n with
  | zero => intro m r; rfl
  | succ n ih =>
    intro m r
    simp only [SD_WaitForBusy_loop]
    split_ifs
    · rfl
    · exact Timeout_sd _ _ _
    · rw [ih, Timeout_sd]
      rfl
    · rfl

theorem WriteData_loop_sd (ts n : Nat) : ∀ (m : Machine) (r : Nat),
    (SD_WriteData_loop ts n m r).2.sd = m.sd := by
  induction n with
  | zero => intro m r; rfl
  | succ n ih =>
    intro m r
    simp only [SD_WriteData_loop]
    split_ifs
    · rfl
    · exact Timeout_sd _ _ _
    · rw [ih, Timeout_sd]
      rfl
    · rfl

theorem WriteData_sd (fuel : Nat) (m : Machine) (data : List Nat) (len : Nat) :
    (SD_WriteData fuel m data len).2.sd = m.sd := by
  simp only [SD_WriteData]
  split_ifs
  · rfl
  · split
    · rw [WriteData_loop_sd]; rfl
    · rw [WriteData_loop_sd]; rfl
    · split_ifs
      · rw [WriteData_loop_sd]; rfl
      · rw [WriteData_loop_sd]; rfl
      · split
        · simp only [SD_WaitForBusy]
          rw [WaitForBusy_loop_sd]
          show (SD_WriteData_loop _ _ _ _).2.sd = _
          rw [WriteData_loop_sd]; rfl
        · split_ifs <;>
          · simp only [SD_WaitForBusy]
            rw [WaitForBusy_loop_sd]
            show (SD_WriteData_loop _ _ _ _).2.sd = _
            rw [WriteData_loop_sd]; rfl

theorem SendToken_sd (m : Machine) (t : Nat) : (SD_SendToken m t).2.sd = m.sd := by
  simp only [SD_SendToken]
  split_ifs <;> rfl

theorem WriteMultipleBlock_loop_add (fuel n : Nat) : ∀ (k : Nat) (m mk : Machine) (data : List Nat),
    SD_WriteMultipleBlock_loop fuel k m data = (some SD_OK, mk) →
    mk.sd = m.sd ∧
    SD_WriteMultipleBlock_loop fuel (k + n) m data =
      SD_WriteMultipleBlock_loop fuel n mk (data.drop (k * m.sd.blockSize)) := by
  intro k
  induction k with
  | zero =>
    intro m mk data h
    simp only [SD_WriteMultipleBlock_loop, Prod.mk.injEq, true_and] at h
    subst h
    simp
  | succ k ih =>
    intro m mk data h
    rw [show k + 1 + n = (k + n) + 1 by omega]
    simp only [SD_WriteMultipleBlock_loop] at h ⊢
    by_cases ht : (SD_SendToken m SD_START_WM_BLOCK_TOKEN).1 = SD_OK
    · simp only [ht, ne_eq, not_true_eq_false, if_false] at h ⊢
      rcases hw : (SD_WriteData fuel (SD_SendToken m SD_START_WM_BLOCK_TOKEN).2 data
          (SD_SendToken m SD_START_WM_BLOCK_TOKEN).2.sd.blockSize).1 with _ | e
      · simp [hw] at h
      · simp only [hw] at h ⊢
        by_cases he : e = SD_ERROR
        · simp [he] at h
        · by_cases he2 : e = SD_CRC_ERROR ∨ e = SD_WRITE_ERROR
          · simp only [he, he2, if_true, if_false] at h
            split at h <;> simp at h
          · simp only [he, he2, if_false] at h ⊢
            obtain ⟨h1, h2⟩ := ih _ mk _ h
            rw [WriteData_sd, SendToken_sd] at h1
            refine ⟨h1, ?_⟩
            rw [h2, List.drop_drop, WriteData_sd, SendToken_sd]
            congr 2
            ring
    · simp [ht] at h

theorem StopTransfer_loop_done (ts fuel : Nat) (m : Machine) :
    (SD_StopTransfer_loop ts (fuel + 1) m 0xFF).1 = some SD_OK := by
  simp [SD_StopTransfer_loop]

theorem StopTransfer_loop_ends (ts : Nat) : ∀ (n fuel : Nat) (m : Machine) (token : Nat),
    n + 1 < fuel → ((m.rx8 n).st = SD_SPI_ERROR ∨ (m.rx8 n).item 0 % 256 = 0xFF) →
    (SD_StopTransfer_loop ts fuel m token).1 ≠ none := by
  intro n
  induction n with
  | zero =>
    intro fuel m token hf h
    obtain ⟨f, rfl⟩ : ∃ f, fuel = f + 1 + 1 := ⟨fuel - 2, by omega⟩
    rw [SD_StopTransfer_loop]
    simp only []
    split_ifs with h1 h2 h3
    · simp
    · simp
    · have hst : (m.rx8 0).st = SD_SPI_OK := by
        have : (SD_SPI_Receive8Data m 1).1 = (m.rx8 0).st := rfl
        rw [this] at h2
        cases hc : (m.rx8 0).st
        · rfl
        · exact absurd hc h2
      have hb : (SD_SPI_Receive8Data m 1).2.1.headD token = 0xFF := by
        rcases h with h | h
        · rw [hst] at h; cases h
        · simp only [SD_SPI_Receive8Data, RxOutcome.count, hst, if_true]
          exact h
      rw [hb, StopTransfer_loop_done]
      simp
    · simp
  | succ n ih =>
    intro fuel m token hf h
    obtain ⟨f, rfl⟩ : ∃ f, fuel = f + 1 := ⟨fuel - 1, by omega⟩
    rw [SD_StopTransfer_loop]
    simp only []
    split_ifs with h1 h2 h3
    · simp
    · simp
    · apply ih f _ _ (by omega)
      rw [Timeout_rx8]
      exact h
    · simp

theorem StopTransfer_ends (fuel n : Nat) (m : Machine) (hf : n + 1 < fuel)
    (h : ((SD_SendCMD m SD_CMD_12 0 SD_R1_NORMAL_STATE).2.rx8 n).st = SD_SPI_ERROR ∨
      ((SD_SendCMD m SD_CMD_12 0 SD_R1_NORMAL_STATE).2.rx8 n).item 0 % 256 = 0xFF) :
    (SD_StopTransfer fuel m).1 ≠ none := by
  simp only [SD_StopTransfer]
  exact StopTransfer_loop_ends _ n fuel _ 0 hf h

theorem StopTransfer_loop_reads (ts n : Nat) : ∀ (m : Machine) (r : Nat),
    ∃ l, (SD_StopTransfer_loop ts n m r).2.log = l ++ m.log ∧ ∀ e ∈ l, e.isRecv8 = true := by
  induction n with
  | zero => intro m r; exact ⟨[], rfl, by simp⟩
  | succ n ih =>
    intro m r
    obtain ⟨st, d, hr⟩ : ∃ st d, (SD_SPI_Receive8Data m 1).2.2.log =
        Event.recv8 1 st d :: m.log := ⟨_, _, rfl⟩
    have ht : ∀ a b, (DWT_Timeout (SD_SPI_Receive8Data m 1).2.2 a b).2.log =
        Event.recv8 1 st d :: m.log := by
      intro a b
      rw [← hr]
      simp only [DWT_Timeout]
      split_ifs <;> rfl
    simp only [SD_StopTransfer_loop]
    split_ifs
    · exact ⟨[Event.recv8 1 st d], hr, by simp [Event.isRecv8]⟩
    · exact ⟨[Event.recv8 1 st d], ht _ _, by simp [Event.isRecv8]⟩
    · obtain ⟨l, h1, h2⟩ := ih (DWT_Timeout (SD_SPI_Receive8Data m 1).2.2 SD_TIMEOUT ts).2
        ((SD_SPI_Receive8Data m 1).2.1.headD r)
      refine ⟨l ++ [Event.recv8 1 st d], ?_, ?_⟩
      · rw [h1, ht]
        simp
      · intro e he
        rcases List.mem_append.1 he with h | h
        · exact h2 e h
        · simp only [List.mem_singleton] at h
          subst h; rfl
    · exact ⟨[], rfl, by simp⟩

theorem StopTransfer_reads (fuel : Nat) (m : Machine) :
    ∃ l, (SD_StopTransfer fuel m).2.log =
        l ++ Event.send8 (SD_SendCMD_frame m.SD_CRC7_Table SD_CMD_12 0) (m.tx8 0) :: m.log ∧
      ∀ e ∈ l, e.isRecv8 = true := by
  obtain ⟨l1, h1, -, h2⟩ := SendCMD_log m SD_CMD_12 0 SD_R1_NORMAL_STATE
  obtain ⟨l2, h3, h4⟩ := StopTransfer_loop_reads
    (DWT_GetCycle (SD_SendCMD m SD_CMD_12 0 SD_R1_NORMAL_STATE).2).1 fuel
    (DWT_GetCycle (SD_SendCMD m SD_CMD_12 0 SD_R1_NORMAL_STATE).2).2 0
  refine ⟨l2 ++ l1, ?_, ?_⟩
  · simp only [SD_StopTransfer]
    rw [h3]
    show l2 ++ (SD_SendCMD m SD_CMD_12 0 SD_R1_NORMAL_STATE).2.log = _
    rw [h1, List.append_assoc]
  · intro e he
    rcases List.mem_append.1 he with h | h
    · exact h4 e h
    · exact h2 e h

theorem GetToken_poll_reads (t n : Nat) : ∀ (m : Machine) (r : Nat),
    ∃ k, k ≤ n ∧ (SD_GetToken_poll t n m r).2 = afterReads m k := by
  induction n with
  | zero => intro m r; exact ⟨0, le_refl _, rfl⟩
  | succ n ih =>
    intro m r
    unfold SD_GetToken_poll
    simp only []
    split_ifs
    · exact ⟨1, by omega, rfl⟩
    · obtain ⟨k, hk, e⟩ := ih (SD_SPI_Receive8Data m 1).2.2 ((SD_SPI_Receive8Data m 1).2.1.headD r)
      exact ⟨k + 1, by omega, e⟩
    · exact ⟨0, by omega, rfl⟩

theorem GetToken_reads (m : Machine) (t : Nat) :
    (SD_GetToken m t).2.sd = m.sd ∧ (SD_GetToken m t).2.rx16 = m.rx16 ∧
    ∃ l, (SD_GetToken m t).2.log = l ++ m.log ∧ l.length ≤ 100 ∧ ∀ e ∈ l, e.isRecv8 = true := by
  obtain ⟨k, hk, e⟩ := GetToken_poll_reads t 100 m 0xFF
  obtain ⟨h1, -, -, l, h4, h5, h6⟩ := afterReads_facts m k
  have h7 : (afterReads m k).rx16 = m.rx16 := by
    clear h1 h4 h5 h6 e hk
    induction k generalizing m with
    | zero => rfl
    | succ k ih => exact ih (SD_SPI_Receive8Data m 1).2.2
  rw [← e] at h1 h4 h7
  unfold SD_GetToken
  simp only []
  split <;> [skip; split_ifs] <;> exact ⟨h1, h7, l, h4, by omega, h6⟩

theorem not_send16_of_recv8 (e : Event) (h : e.isRecv8 = true) : e.isSend16 = false := by
  cases e <;> first | rfl | cases h

theorem quiet_SendACMD_tail (m : Machine) (a b c : Nat) :
    ∃ resp, QuietExt (SD_SendCMD m SD_CMD_55 0 resp).2 (SD_SendACMD m a b c).2 := by
  refine ⟨if m.sd.mode = SD_MODE_TRANSFER then SD_R1_NORMAL_STATE else SD_R1_IDLE_STATE, ?_⟩
  unfold SD_SendACMD
  simp only []
  generalize (if m.sd.mode = SD_MODE_TRANSFER then SD_R1_NORMAL_STATE else SD_R1_IDLE_STATE) = resp
  split_ifs
  · exact QuietExt.qrefl _
  · exact quiet_SendCMD _ _ _ _ _ (QuietExt.qrefl _)

theorem GetWrittenBlocks_shape (m : Machine) :
    ∃ l, (SD_GetWrittenBlocks m).2.log =
        l ++ Event.send8 (SD_SendCMD_frame m.SD_CRC7_Table SD_CMD_55 0) (m.tx8 0) ::
          Event.csReset :: m.log ∧
      ∀ e ∈ l, e.isSend16 = false := by
  obtain ⟨resp, ha⟩ := quiet_SendACMD_tail (SD_SPI_CS_Reset m) SD_ACMD_22 0 SD_R1_NORMAL_STATE
  have ht := quiet_GetToken _ _ SD_START_RMW_BLOCK_TOKEN ha
  have hd := quiet_ReadData _ _ 4 ht
  have hq : QuietExt (SD_SendCMD (SD_SPI_CS_Reset m) SD_CMD_55 0 resp).2
      (SD_GetWrittenBlocks m).2 := by
    unfold SD_GetWrittenBlocks
    simp only []
    split_ifs
    · exact quiet_ErrorHandler _ _ ha
    · exact quiet_ErrorHandler _ _ ht
    · exact quiet_ErrorHandler _ _ hd
    · exact quiet_CS_Set _ _ (quiet_setWrittenBlocks _ _ _ hd)
  obtain ⟨-, l1, h1, h2⟩ := hq
  obtain ⟨l2, h3, -, h4⟩ := SendCMD_log (SD_SPI_CS_Reset m) SD_CMD_55 0 resp
  refine ⟨l1 ++ l2, ?_, ?_⟩
  · rw [h1, h3, List.append_assoc]
    rfl
  · intro e he
    rcases List.mem_append.1 he with h | h
    · exact h2 e h
    · exact not_send16_of_recv8 e (h4 e h)

theorem SendACMD_ok_log (m : Machine) (a b c : Nat) (h : (SD_SendACMD m a b c).1 = SD_OK) :
    ∃ la lb st, (SD_SendACMD m a b c).2.log =
        lb ++ Event.send8 (SD_SendCMD_frame m.SD_CRC7_Table a b) st ::
          (la ++ Event.send8 (SD_SendCMD_frame m.SD_CRC7_Table SD_CMD_55 0) (m.tx8 0) :: m.log) ∧
      (∀ e ∈ la, e.isRecv8 = true) ∧ (∀ e ∈ lb, e.isRecv8 = true) := by
  unfold SD_SendACMD at h ⊢
  simp only [] at h ⊢
  generalize (if m.sd.mode = SD_MODE_TRANSFER then SD_R1_NORMAL_STATE else SD_R1_IDLE_STATE) = resp
    at h ⊢
  by_cases hr : (SD_SendCMD m SD_CMD_55 0 resp).1 = SD_ERROR
  · simp [hr] at h
  · simp only [hr, if_false]
    obtain ⟨la, h1, -, h2⟩ := SendCMD_log m SD_CMD_55 0 resp
    obtain ⟨lb, h3, -, h4⟩ := SendCMD_log (SD_SendCMD m SD_CMD_55 0 resp).2 a b c
    rw [SendCMD_table, h1] at h3
    exact ⟨la, lb, _, h3, h2, h4⟩

theorem ReadData_four_ok (m : Machine) (h : (m.rx16 0).st = SD_SPI_OK) :
    ∃ bytes, bytes.length = 4 ∧ (SD_ReadData m 4).2.1 = bytes ∧
      (SD_ReadData m 4).2.2.log = Event.recv16 2 SD_SPI_OK bytes :: m.log ∧
      storeBytes [0, 0, 0, 0] bytes = bytes ∧ ∀ b ∈ bytes, b < 256 := by
  refine ⟨[((m.rx16 0).item 0 % 65536) >>> 8, (m.rx16 0).item 0 % 256,
    ((m.rx16 0).item 1 % 65536) >>> 8, (m.rx16 0).item 1 % 256], rfl, ?_, ?_, rfl, ?_⟩
  · simp only [SD_ReadData, SD_SPI_Receive16Data, RxOutcome.count, h, if_true]
    split_ifs <;> rfl
  · simp only [SD_ReadData, SD_SPI_Receive16Data, RxOutcome.count, h, if_true]
    split_ifs <;> rfl
  · intro b hb
    simp only [List.mem_cons, List.mem_singleton, List.not_mem_nil, or_false,
      Nat.shiftRight_eq_div_pow] at hb
    rcases hb with hb | hb | hb | hb <;> omega

theorem GetWrittenBlocks_ok (m : Machine) (h : (SD_GetWrittenBlocks m).1 = SD_OK) :
    ∃ bytes la lb st,
      (SD_GetWrittenBlocks m).2.log =
        Event.csSet :: Event.recv16 2 SD_SPI_OK bytes ::
          (lb ++ Event.send8 (SD_SendCMD_frame m.SD_CRC7_Table SD_ACMD_22 0) st ::
            (la ++ Event.send8 (SD_SendCMD_frame m.SD_CRC7_Table SD_CMD_55 0) (m.tx8 0) ::
              Event.csReset :: m.log)) ∧
      (∀ e ∈ la, e.isRecv8 = true) ∧ (∀ e ∈ lb, e.isRecv8 = true) ∧
      bytes.length = 4 ∧
      (SD_GetWrittenBlocks m).2.sd.writtenBlocks =
        ((bytes.getD 0 0 <<< 24) ||| (bytes.getD 1 0 <<< 16) ||| (bytes.getD 2 0 <<< 8)
          ||| bytes.getD 3 0) % 4294967296 ∧
      ∀ b ∈ bytes, b < 256 := by
  by_cases ha : (SD_SendACMD (SD_SPI_CS_Reset m) SD_ACMD_22 0 SD_R1_NORMAL_STATE).1 = SD_OK
  swap
  · simp [SD_GetWrittenBlocks, ha] at h
  by_cases ht : (SD_GetToken (SD_SendACMD (SD_SPI_CS_Reset m) SD_ACMD_22 0
      SD_R1_NORMAL_STATE).2 SD_START_RMW_BLOCK_TOKEN).1 = SD_OK
  swap
  · simp [SD_GetWrittenBlocks, ha, ht] at h
  by_cases hd : (SD_ReadData (SD_GetToken (SD_SendACMD (SD_SPI_CS_Reset m) SD_ACMD_22 0
      SD_R1_NORMAL_STATE).2 SD_START_RMW_BLOCK_TOKEN).2 4).1 = SD_OK
  swap
  · simp [SD_GetWrittenBlocks, ha, ht, hd] at h
  simp only [SD_GetWrittenBlocks, ha, ht, hd, ne_eq, not_true_eq_false, if_false]
  obtain ⟨la, lb, st, h1, h2, h3⟩ := SendACMD_ok_log _ _ _ _ ha
  obtain ⟨-, -, lc, h4, -, h5⟩ := GetToken_reads
    (SD_SendACMD (SD_SPI_CS_Reset m) SD_ACMD_22 0 SD_R1_NORMAL_STATE).2 SD_START_RMW_BLOCK_TOKEN
  generalize (SD_GetToken (SD_SendACMD (SD_SPI_CS_Reset m) SD_ACMD_22 0
      SD_R1_NORMAL_STATE).2 SD_START_RMW_BLOCK_TOKEN).2 = mt at h4 hd ⊢
  have hst : (mt.rx16 0).st = SD_SPI_OK := by
    cases hc : (mt.rx16 0).st
    · rfl
    · simp [SD_ReadData, SD_SPI_Receive16Data, hc] at hd
  obtain ⟨bytes, hb1, hb2, hb3, hb4, hb5⟩ := ReadData_four_ok mt hst
  refine ⟨bytes, la, lc ++ lb, st, ?_, h2, ?_, hb1, ?_, hb5⟩
  · show Event.csSet :: (SD_ReadData mt 4).2.2.log = _
    rw [hb3, h4, h1, List.append_assoc]
    rfl
  · intro e he
    rcases List.mem_append.1 he with h | h
    · exact h5 e h
    · exact h3 e h
  · rw [hb2, hb4]
    rfl

theorem SendDummyByte_sd : ∀ (n : Nat) (m : Machine), (SD_SendDummyByte m n).2.sd = m.sd := by
  intro n
  induction n with
  | zero => intro m; rfl
  | succ n ih =>
    intro m
    simp only [SD_SendDummyByte]
    split_ifs
    · rfl
    · rw [ih]; rfl

theorem GetR1_blockSize (m : Machine) (c : Nat) :
    (SD_GetR1 m c).2.sd.blockSize = m.sd.blockSize := by
  obtain ⟨k, -, e⟩ := GetR1_poll_reads 10 m 0xFF
  obtain ⟨h1, -⟩ := afterReads_facts m k
  rw [← e] at h1
  unfold SD_GetR1
  simp only []
  split <;> [skip; split_ifs] <;> simp only [Machine.setLastR1, h1]

theorem SendCMD_blockSize (m : Machine) (a b c : Nat) :
    (SD_SendCMD m a b c).2.sd.blockSize = m.sd.blockSize := by
  unfold SD_SendCMD
  simp only []
  split_ifs
  · rfl
  · rw [GetR1_blockSize]; rfl

theorem WriteMultipleBlock_loop_error (fuel j : Nat) (m mt mw : Machine) (data : List Nat)
    (e : SD_Error_t) (htoken : SD_SendToken m SD_START_WM_BLOCK_TOKEN = (SD_OK, mt))
    (hwrite : SD_WriteData fuel mt data m.sd.blockSize = (some e, mw))
    (he : e = SD_CRC_ERROR ∨ e = SD_WRITE_ERROR) (hs : (SD_StopTransfer fuel mw).1 ≠ none) :
    SD_WriteMultipleBlock_loop fuel (j + 1) m data =
      (some SD_ERROR, SD_ErrorHandler (SD_GetWrittenBlocks (SD_StopTransfer fuel mw).2).2) := by
  have hsd : mt.sd.blockSize = m.sd.blockSize := by
    have := SendToken_sd m SD_START_WM_BLOCK_TOKEN
    rw [htoken] at this
    exact congrArg SD_Parameters_t.blockSize this
  have hne : e ≠ SD_ERROR := by
    rcases he with h | h <;> rw [h] <;> decide
  rw [SD_WriteMultipleBlock_loop]
  simp only [htoken, hsd, hwrite, he, hne, ne_eq, not_true_eq_false, if_true, if_false]
  rcases hs2 : (SD_StopTransfer fuel mw).1 with _ | es
  · exact absurd hs2 hs
  · rfl

theorem WriteMultipleBlock_error_result (fuel : Nat) (m mc md mk mt mw : Machine)
    (address : Nat) (data : List Nat) (k j : Nat) (e : SD_Error_t)
    (hcmd : SD_SendCMD ((SD_SPI_CS_Reset m).setState SD_STATE_SENDING) SD_CMD_25
      (if m.sd.type = SD_TYPE_SDSC then address * m.sd.blockSize % 4294967296 else address)
      SD_R1_NORMAL_STATE = (SD_OK, mc))
    (hdummy : SD_SendDummyByte mc 1 = (SD_OK, md))
    (hfirst : SD_WriteMultipleBlock_loop fuel k md data = (some SD_OK, mk))
    (htoken : SD_SendToken mk SD_START_WM_BLOCK_TOKEN = (SD_OK, mt))
    (hwrite : SD_WriteData fuel mt (data.drop (k * m.sd.blockSize)) m.sd.blockSize = (some e, mw))
    (he : e = SD_CRC_ERROR ∨ e = SD_WRITE_ERROR) (hs : (SD_StopTransfer fuel mw).1 ≠ none) :
    SD_WriteMultipleBlock fuel m address data (k + 1 + j) =
      (some SD_ERROR, SD_ErrorHandler (SD_GetWrittenBlocks (SD_StopTransfer fuel mw).2).2) ∧
    mw.SD_CRC7_Table = m.SD_CRC7_Table := by
  have hmc : mc.sd.blockSize = m.sd.blockSize ∧ mc.SD_CRC7_Table = m.SD_CRC7_Table := by
    have h1 := SendCMD_blockSize ((SD_SPI_CS_Reset m).setState SD_STATE_SENDING) SD_CMD_25
      (if m.sd.type = SD_TYPE_SDSC then address * m.sd.blockSize % 4294967296 else address)
      SD_R1_NORMAL_STATE
    have h2 := SendCMD_table ((SD_SPI_CS_Reset m).setState SD_STATE_SENDING) SD_CMD_25
      (if m.sd.type = SD_TYPE_SDSC then address * m.sd.blockSize % 4294967296 else address)
      SD_R1_NORMAL_STATE
    rw [hcmd] at h1 h2
    exact ⟨h1, h2⟩
  have hmd : md.sd.blockSize = m.sd.blockSize ∧ md.SD_CRC7_Table = m.SD_CRC7_Table := by
    have h1 := SendDummyByte_sd 1 mc
    have h2 := SendDummyByte_table mc 1
    rw [hdummy] at h1 h2
    exact ⟨(congrArg SD_Parameters_t.blockSize h1).trans hmc.1, h2.trans hmc.2⟩
  obtain ⟨hk1, hk2⟩ := WriteMultipleBlock_loop_add fuel (j + 1) k md mk data hfirst
  have hmk : mk.sd.blockSize = m.sd.blockSize ∧ mk.SD_CRC7_Table = m.SD_CRC7_Table := by
    have h2 := WriteMultipleBlock_loop_table fuel k md data
    rw [hfirst] at h2
    exact ⟨(congrArg SD_Parameters_t.blockSize hk1).trans hmd.1, h2.trans hmd.2⟩
  have hmw : mw.SD_CRC7_Table = m.SD_CRC7_Table := by
    have h1 := SendToken_table mk SD_START_WM_BLOCK_TOKEN
    have h2 := WriteData_table mt fuel (data.drop (k * m.sd.blockSize)) m.sd.blockSize
    rw [htoken] at h1
    rw [hwrite] at h2
    exact h2.trans (h1.trans hmk.2)
  refine ⟨?_, hmw⟩
  have hloop : SD_WriteMultipleBlock_loop fuel (k + 1 + j) md data =
      (some SD_ERROR, SD_ErrorHandler (SD_GetWrittenBlocks (SD_StopTransfer fuel mw).2).2) := by
    rw [show k + 1 + j = k + (j + 1) by omega, hk2]
    apply WriteMultipleBlock_loop_error fuel j mk mt mw _ e htoken _ he hs
    rw [hmd.1, hmk.1]
    exact hwrite
  have hcmd2 : SD_SendCMD ((SD_SPI_CS_Reset m).setState SD_STATE_SENDING) SD_CMD_25
      (if ((SD_SPI_CS_Reset m).setState SD_STATE_SENDING).sd.type = SD_TYPE_SDSC then
        address * ((SD_SPI_CS_Reset m).setState SD_STATE_SENDING).sd.blockSize % 4294967296
        else address) SD_R1_NORMAL_STATE = (SD_OK, mc) := hcmd
  unfold SD_WriteMultipleBlock
  simp only [hcmd2, hdummy, hloop, ne_eq, not_true_eq_false, if_false]
  rfl

theorem WriteData_error_code (fuel : Nat) (m : Machine) (data : List Nat) (len : Nat) :
    ((SD_WriteData fuel m data len).1 = some SD_CRC_ERROR ↔
      (SD_SPI_Send16Data m data (len >>> 1)).1 ≠ SD_SPI_ERROR ∧
      (SD_WriteData_loop (DWT_GetCycle (SD_SPI_Send16Data m data (len >>> 1)).2).1 fuel
        (DWT_GetCycle (SD_SPI_Send16Data m data (len >>> 1)).2).2 0xFF).1 =
          some (some SD_DATA_CRC_ERROR)) ∧
    ((SD_WriteData fuel m data len).1 = some SD_WRITE_ERROR ↔
      (SD_SPI_Send16Data m data (len >>> 1)).1 ≠ SD_SPI_ERROR ∧
      (SD_WriteData_loop (DWT_GetCycle (SD_SPI_Send16Data m data (len >>> 1)).2).1 fuel
        (DWT_GetCycle (SD_SPI_Send16Data m data (len >>> 1)).2).2 0xFF).1 =
          some (some SD_DATA_WRITE_ERROR)) := by
  unfold SD_WriteData
  simp only []
  by_cases hs : (SD_SPI_Send16Data m data (len >>> 1)).1 = SD_SPI_ERROR
  · simp [hs]
  · simp only [hs, if_false, ne_eq, not_false_eq_true, true_and]
    rcases hl : (SD_WriteData_loop (DWT_GetCycle (SD_SPI_Send16Data m data (len >>> 1)).2).1 fuel
        (DWT_GetCycle (SD_SPI_Send16Data m data (len >>> 1)).2).2 0xFF).1 with _ | _ | token
    · simp
    · simp
    · simp only []
      by_cases h1 : token = SD_DATA_CRC_ERROR
      · simp [h1]
      · by_cases h2 : token = SD_DATA_WRITE_ERROR
        · simp [h2]
        · simp only [h1, h2, if_false]
          rcases hw : (SD_WaitForBusy fuel (SD_WriteData_loop
              (DWT_GetCycle (SD_SPI_Send16Data m data (len >>> 1)).2).1 fuel
              (DWT_GetCycle (SD_SPI_Send16Data m data (len >>> 1)).2).2 0xFF).2).1 with _ | e2
          · simp [h1, h2]
          · by_cases h3 : e2 = SD_OK <;> simp [h1, h2, h3]

/-- The run of `SD_WriteMultipleBlock` on `machineWriteCrc`, event by event (newest first). -/
theorem machineWriteCrc_run :
    (SD_WriteMultipleBlock 20 machineWriteCrc 0 (List.range 20) 5).1 = some SD_ERROR ∧
    (SD_WriteMultipleBlock 20 machineWriteCrc 0 (List.range 20) 5).2.sd.writtenBlocks = 65538 ∧
    (SD_WriteMultipleBlock 20 machineWriteCrc 0 (List.range 20) 5).2.log =
      [Event.csSet, Event.csSet,
       Event.recv16 2 SD_SPI_OK [0, 1, 0, 2],
       Event.recv8 1 SD_SPI_OK [254],
       Event.recv8 1 SD_SPI_OK [0],
       Event.send8 [86, 0, 0, 0, 0, 67] SD_SPI_OK,
       Event.recv8 1 SD_SPI_OK [0],
       Event.send8 [119, 0, 0, 0, 0, 101] SD_SPI_OK,
       Event.csReset,
       Event.recv8 1 SD_SPI_OK [255],
       Event.recv8 1 SD_SPI_OK [0],
       Event.send8 [76, 0, 0, 0, 0, 97] SD_SPI_OK,
       Event.recv8 1 SD_SPI_OK [235],
       Event.send16 [8, 9, 10, 11] SD_SPI_OK,
       Event.send8 [252] SD_SPI_OK,
       Event.recv8 1 SD_SPI_OK [255],
       Event.recv8 1 SD_SPI_OK [229],
       Event.send16 [4, 5, 6, 7] SD_SPI_OK,
       Event.send8 [252] SD_SPI_OK,
       Event.recv8 1 SD_SPI_OK [255],
       Event.recv8 1 SD_SPI_OK [229],
       Event.send16 [0, 1, 2, 3] SD_SPI_OK,
       Event.send8 [252] SD_SPI_OK,
       Event.recv8 1 SD_SPI_OK [255],
       Event.recv8 1 SD_SPI_OK [0],
       Event.send8 [89, 0, 0, 0, 0, 3] SD_SPI_OK,
       Event.csReset] := by
  decide!

/-! ## Assignments to the session -/

theorem OnlyR1.orefl (m : Machine) : OnlyR1 m m := ⟨rfl, m.sd.lastR1, rfl⟩

theorem OnlyR1.osame {m0 m m1 : Machine} (h : OnlyR1 m0 m) (hs : m1.sd = m.sd)
    (hw : m1.writes = m.writes) : OnlyR1 m0 m1 := by
  obtain ⟨w, r, e⟩ := h
  exact ⟨hw.trans w, r, hs.trans e⟩

theorem OnlyR1.toKeeps {m0 m : Machine} (h : OnlyR1 m0 m) : Keeps m0 m := by
  obtain ⟨w, r, e⟩ := h
  exact ⟨by rw [e], by rw [e], w⟩

theorem only_setLastR1 (m0 m : Machine) (v : Nat) (h : OnlyR1 m0 m) :
    OnlyR1 m0 (m.setLastR1 v) := by
  obtain ⟨w, r, e⟩ := h
  refine ⟨w, v, ?_⟩
  show { m.sd with lastR1 := v } = _
  rw [e]

theorem only_CS_Set (m0 m : Machine) (h : OnlyR1 m0 m) : OnlyR1 m0 (SD_SPI_CS_Set m) :=
  h.osame rfl rfl

theorem only_Send8 (m0 m : Machine) (d : List Nat) (n : Nat) (h : OnlyR1 m0 m) :
    OnlyR1 m0 (SD_SPI_Send8Data m d n).2 :=
  h.osame rfl rfl

theorem only_Send16 (m0 m : Machine) (d : List Nat) (n : Nat) (h : OnlyR1 m0 m) :
    OnlyR1 m0 (SD_SPI_Send16Data m d n).2 :=
  h.osame rfl rfl

theorem only_Recv8 (m0 m : Machine) (n : Nat) (h : OnlyR1 m0 m) :
    OnlyR1 m0 (SD_SPI_Receive8Data m n).2.2 :=
  h.osame rfl rfl

theorem only_Recv16 (m0 m : Machine) (n : Nat) (h : OnlyR1 m0 m) :
    OnlyR1 m0 (SD_SPI_Receive16Data m n).2.2 :=
  h.osame rfl rfl

theorem only_GetCycle (m0 m : Machine) (h : OnlyR1 m0 m) :
    OnlyR1 m0 (DWT_GetCycle m).2 :=
  h.osame rfl rfl

theorem only_Timeout (m0 m : Machine) (a b : Nat) (h : OnlyR1 m0 m) :
    OnlyR1 m0 (DWT_Timeout m a b).2 := by
  unfold DWT_Timeout
  simp only []
  split_ifs <;> exact h.osame rfl rfl

theorem only_GetR1_poll (n : Nat) : ∀ (m0 m : Machine) (r : Nat), OnlyR1 m0 m →
    OnlyR1 m0 (SD_GetR1_poll n m r).2 := by
  induction n with
  | zero => intro m0 m r h; exact h
  | succ n ih =>
    intro m0 m r h
    unfold SD_GetR1_poll
    simp only []
    split_ifs
    · exact only_Recv8 _ _ _ h
    · exact ih _ _ _ (only_Recv8 _ _ _ h)
    · exact h

theorem only_GetR1 (m0 m : Machine) (c : Nat) (h : OnlyR1 m0 m) :
    OnlyR1 m0 (SD_GetR1 m c).2 := by
  have hp := only_GetR1_poll 10 m0 m 0xFF h
  unfold SD_GetR1
  simp only []
  split
  · exact hp
  · split_ifs
    · exact hp
    · exact only_setLastR1 _ _ _ hp
    · exact only_setLastR1 _ _ _ hp

theorem only_SendCMD (m0 m : Machine) (a b c : Nat) (h : OnlyR1 m0 m) :
    OnlyR1 m0 (SD_SendCMD m a b c).2 := by
  have hs := only_Send8 m0 m (SD_SendCMD_frame m.SD_CRC7_Table a b) 6 h
  unfold SD_SendCMD
  simp only []
  split_ifs
  · exact hs
  · exact only_GetR1 _ _ _ hs

theorem only_SendACMD (m0 m : Machine) (a b c : Nat) (h : OnlyR1 m0 m) :
    OnlyR1 m0 (SD_SendACMD m a b c).2 := by
  have h1 := fun r => only_SendCMD m0 m SD_CMD_55 0 r h
  unfold SD_SendACMD
  simp only []
  split_ifs <;> first | exact h1 _ | exact only_SendCMD _ _ _ _ _ (h1 _)

theorem only_GetResponse (m0 m : Machine) (n : Nat) (h : OnlyR1 m0 m) :
    OnlyR1 m0 (SD_GetResponse m n).2.2 := by
  unfold SD_GetResponse
  simp only []
  split_ifs <;> exact only_Recv8 _ _ _ h

theorem only_SendToken (m0 m : Machine) (t : Nat) (h : OnlyR1 m0 m) :
    OnlyR1 m0 (SD_SendToken m t).2 := by
  unfold SD_SendToken
  simp only []
  split_ifs <;> exact only_Send8 _ _ _ _ h

theorem only_GetToken_poll (t n : Nat) : ∀ (m0 m : Machine) (r : Nat), OnlyR1 m0 m →
    OnlyR1 m0 (SD_GetToken_poll t n m r).2 := by
  induction n with
  | zero => intro m0 m r h; exact h
  | succ n ih =>
    intro m0 m r h
    unfold SD_GetToken_poll
    simp only []
    split_ifs
    · exact only_Recv8 _ _ _ h
    · exact ih _ _ _ (only_Recv8 _ _ _ h)
    · exact h

theorem only_GetToken (m0 m : Machine) (t : Nat) (h : OnlyR1 m0 m) :
    OnlyR1 m0 (SD_GetToken m t).2 := by
  have hp := only_GetToken_poll t 100 m0 m 0xFF h
  unfold SD_GetToken
  simp only []
  split <;> [skip; split_ifs] <;> exact hp

theorem only_ReadData (m0 m : Machine) (n : Nat) (h : OnlyR1 m0 m) :
    OnlyR1 m0 (SD_ReadData m n).2.2 := by
  unfold SD_ReadData
  simp only []
  split_ifs <;> exact only_Recv16 _ _ _ h

theorem only_SendDummyByte (n : Nat) : ∀ (m0 m : Machine), OnlyR1 m0 m →
    OnlyR1 m0 (SD_SendDummyByte m n).2 := by
  induction n with
  | zero => intro m0 m h; exact h
  | succ n ih =>
    intro m0 m h
    unfold SD_SendDummyByte
    simp only []
    split_ifs
    · exact only_Recv8 _ _ _ h
    · exact ih _ _ (only_Recv8 _ _ _ h)

theorem only_WaitForBusy_loop (ts n : Nat) : ∀ (m0 m : Machine) (r : Nat), OnlyR1 m0 m →
    OnlyR1 m0 (SD_WaitForBusy_loop ts n m r).2 := by
  induction n with
  | zero => intro m0 m r h; exact h
  | succ n ih =>
    intro m0 m r h
    unfold SD_WaitForBusy_loop
    simp only []
    split_ifs
    · exact only_Recv8 _ _ _ h
    · exact only_Timeout _ _ _ _ (only_Recv8 _ _ _ h)
    · exact ih _ _ _ (only_Timeout _ _ _ _ (only_Recv8 _ _ _ h))
    · exact h

theorem only_WaitForBusy (m0 m : Machine) (n : Nat) (h : OnlyR1 m0 m) :
    OnlyR1 m0 (SD_WaitForBusy n m).2 := by
  unfold SD_WaitForBusy
  exact only_WaitForBusy_loop _ _ _ _ _ (only_GetCycle _ _ h)

theorem only_StopTransfer_loop (ts n : Nat) : ∀ (m0 m : Machine) (r : Nat), OnlyR1 m0 m →
    OnlyR1 m0 (SD_StopTransfer_loop ts n m r).2 := by
  induction n with
  | zero => intro m0 m r h; exact h
  | succ n ih =>
    intro m0 m r h
    unfold SD_StopTransfer_loop
    simp only []
    split_ifs
    · exact only_Recv8 _ _ _ h
    · exact only_Timeout _ _ _ _ (only_Recv8 _ _ _ h)
    · exact ih _ _ _ (only_Timeout _ _ _ _ (only_Recv8 _ _ _ h))
    · exact h

theorem only_StopTransfer (m0 m : Machine) (n : Nat) (h : OnlyR1 m0 m) :
    OnlyR1 m0 (SD_StopTransfer n m).2 := by
  unfold SD_StopTransfer
  exact only_StopTransfer_loop _ _ _ _ _ (only_GetCycle _ _ (only_SendCMD _ _ _ _ _ h))

theorem only_WriteData_loop (ts n : Nat) : ∀ (m0 m : Machine) (r : Nat), OnlyR1 m0 m →
    OnlyR1 m0 (SD_WriteData_loop ts n m r).2 := by
  induction n with
  | zero => intro m0 m r h; exact h
  | succ n ih =>
    intro m0 m r h
    unfold SD_WriteData_loop
    simp only []
    split_ifs
    · exact only_Recv8 _ _ _ h
    · exact only_Timeout _ _ _ _ (only_Recv8 _ _ _ h)
    · exact ih _ _ _ (only_Timeout _ _ _ _ (only_Recv8 _ _ _ h))
    · exact h

theorem only_WriteData (m0 m : Machine) (f : Nat) (d : List Nat) (n : Nat) (h : OnlyR1 m0 m) :
    OnlyR1 m0 (SD_WriteData f m d n).2 := by
  have hs := only_Send16 m0 m d (n >>> 1) h
  have hl := fun ts => only_WriteData_loop ts f m0 _ 0xFF (only_GetCycle _ _ hs)
  have hw := fun ts => only_WaitForBusy _ _ f (hl ts)
  unfold SD_WriteData
  simp only []
  split_ifs
  · exact hs
  · split
    · exact hl _
    · exact hl _
    · split_ifs
      · exact hl _
      · exact hl _
      · split
        · exact hw _
        · split_ifs <;> exact hw _

theorem Keeps.krefl (m : Machine) : Keeps m m := ⟨rfl, rfl, rfl⟩

theorem Keeps.ksame {m0 m m1 : Machine} (h : Keeps m0 m) (h1 : m1.sd.mode = m.sd.mode)
    (h2 : m1.sd.state = m.sd.state) (h3 : m1.writes = m.writes) : Keeps m0 m1 :=
  ⟨h1.trans h.1, h2.trans h.2.1, h3.trans h.2.2⟩

theorem Keeps.only {m0 m m1 : Machine} (h : Keeps m0 m) (o : OnlyR1 m m1) : Keeps m0 m1 :=
  h.ksame o.toKeeps.1 o.toKeeps.2.1 o.toKeeps.2.2

theorem keeps_SendCMD (m0 m : Machine) (a b c : Nat) (h : Keeps m0 m) :
    Keeps m0 (SD_SendCMD m a b c).2 :=
  h.only (only_SendCMD _ _ _ _ _ (OnlyR1.orefl m))

theorem keeps_GetResponse (m0 m : Machine) (n : Nat) (h : Keeps m0 m) :
    Keeps m0 (SD_GetResponse m n).2.2 :=
  h.only (only_GetResponse _ _ _ (OnlyR1.orefl m))

theorem keeps_GetToken (m0 m : Machine) (t : Nat) (h : Keeps m0 m) :
    Keeps m0 (SD_GetToken m t).2 :=
  h.only (only_GetToken _ _ _ (OnlyR1.orefl m))

theorem keeps_ReadData (m0 m : Machine) (n : Nat) (h : Keeps m0 m) :
    Keeps m0 (SD_ReadData m n).2.2 :=
  h.only (only_ReadData _ _ _ (OnlyR1.orefl m))

theorem keeps_setVersion (m0 m : Machine) (v : Nat) (h : Keeps m0 m) :
    Keeps m0 (m.setVersion v) :=
  ⟨h.1, h.2.1, h.2.2⟩

theorem keeps_setType (m0 m : Machine) (v : SD_Type_t) (h : Keeps m0 m) :
    Keeps m0 (m.setType v) :=
  ⟨h.1, h.2.1, h.2.2⟩

theorem keeps_setLastR1 (m0 m : Machine) (v : Nat) (h : Keeps m0 m) :
    Keeps m0 (m.setLastR1 v) :=
  ⟨h.1, h.2.1, h.2.2⟩

theorem keeps_setLastR2 (m0 m : Machine) (v : Nat) (h : Keeps m0 m) :
    Keeps m0 (m.setLastR2 v) :=
  ⟨h.1, h.2.1, h.2.2⟩

theorem keeps_setWrittenBlocks (m0 m : Machine) (v : Nat) (h : Keeps m0 m) :
    Keeps m0 (m.setWrittenBlocks v) :=
  ⟨h.1, h.2.1, h.2.2⟩

theorem keeps_setRawOCR (m0 m : Machine) (v : List Nat) (h : Keeps m0 m) :
    Keeps m0 (m.setRawOCR v) :=
  ⟨h.1, h.2.1, h.2.2⟩

theorem keeps_setRawCID (m0 m : Machine) (v : List Nat) (h : Keeps m0 m) :
    Keeps m0 (m.setRawCID v) :=
  ⟨h.1, h.2.1, h.2.2⟩

theorem keeps_setRawCSD (m0 m : Machine) (v : List Nat) (h : Keeps m0 m) :
    Keeps m0 (m.setRawCSD v) :=
  ⟨h.1, h.2.1, h.2.2⟩

theorem keeps_setBlockSize (m0 m : Machine) (v : Nat) (h : Keeps m0 m) :
    Keeps m0 (m.setBlockSize v) :=
  ⟨h.1, h.2.1, h.2.2⟩

theorem keeps_setCapacity (m0 m : Machine) (v : Nat) (h : Keeps m0 m) :
    Keeps m0 (m.setCapacity v) :=
  ⟨h.1, h.2.1, h.2.2⟩

theorem keeps_CS_Set (m0 m : Machine) (h : Keeps m0 m) : Keeps m0 (SD_SPI_CS_Set m) :=
  ⟨h.1, h.2.1, h.2.2⟩

theorem keeps_CS_Reset (m0 m : Machine) (h : Keeps m0 m) : Keeps m0 (SD_SPI_CS_Reset m) :=
  ⟨h.1, h.2.1, h.2.2⟩

theorem keeps_SetSpeed (m0 m : Machine) (s : SD_SPI_Speed_t) (h : Keeps m0 m) :
    Keeps m0 (SD_SPI_SetSpeed m s) :=
  ⟨h.1, h.2.1, h.2.2⟩

theorem keeps_Config (m0 m : Machine) (h : Keeps m0 m) : Keeps m0 (SD_SPI_Config m) :=
  ⟨h.1, h.2.1, h.2.2⟩

theorem keeps_CheckVoltage (m : Machine) : Keeps m (SD_CheckVoltage m).2 := by
  have h1 := keeps_SendCMD m m SD_CMD_8 0x01AA SD_R1_IDLE_STATE (Keeps.krefl m)
  have h2 := keeps_GetResponse _ _ 4 h1
  unfold SD_CheckVoltage
  simp only []
  split_ifs
  · exact h1
  · exact keeps_setVersion _ _ _ h1
  · exact h2
  · exact h2
  · exact keeps_setVersion _ _ _ h2

theorem keeps_ReadOCR (m : Machine) : Keeps m (SD_ReadOCR m).2 := by
  have h1 := keeps_SendCMD m m SD_CMD_58 0 SD_R1_NORMAL_STATE (Keeps.krefl m)
  have h2 := keeps_GetResponse _ _ 4 h1
  have h3 := fun v => keeps_setRawOCR _ _ v h2
  unfold SD_ReadOCR
  simp only []
  split_ifs
  · exact h1
  · exact h3 _
  · exact keeps_setType _ _ _ (h3 _)
  · exact h3 _

theorem keeps_ReadCID (m : Machine) : Keeps m (SD_ReadCID m).2 := by
  have h1 := keeps_SendCMD m m SD_CMD_10 0 SD_R1_NORMAL_STATE (Keeps.krefl m)
  have h2 := keeps_GetToken _ _ SD_START_RMW_BLOCK_TOKEN h1
  have h3 := keeps_ReadData _ _ 16 h2
  unfold SD_ReadCID
  simp only []
  split_ifs
  · exact h1
  · exact h2
  · exact keeps_setRawCID _ _ _ h3

theorem keeps_ReadCSD (m : Machine) : Keeps m (SD_ReadCSD m).2 := by
  have h1 := keeps_SendCMD m m SD_CMD_9 0 SD_R1_NORMAL_STATE (Keeps.krefl m)
  have h2 := keeps_GetToken _ _ SD_START_RMW_BLOCK_TOKEN h1
  have h3 := keeps_ReadData _ _ 16 h2
  have h4 := fun v => keeps_setRawCSD _ _ v h3
  have h5 := fun v => keeps_setBlockSize _ _ 512 (h4 v)
  have h6 := fun v k => keeps_SendCMD _ _ SD_CMD_16 k SD_R1_NORMAL_STATE (h5 v)
  unfold SD_ReadCSD SD_SetBlockLength
  simp only []
  split_ifs
  · exact h1
  · exact h2
  · exact h4 _
  · exact keeps_setType _ _ _ (keeps_setCapacity _ _ _ (h5 _))
  · exact keeps_setCapacity _ _ _ (h5 _)
  · exact h6 _ _
  · exact keeps_setCapacity _ _ _ (h6 _ _)

/-! ## Results of the public operations -/

theorem ErrorHandler_deactivated (m : Machine) : Deactivated (SD_ErrorHandler m) :=
  ⟨rfl, rfl, rfl⟩

theorem ReadStatus_result (m : Machine) :
    (SD_ReadStatus m).1 = SD_OK ∨
      ((SD_ReadStatus m).1 = SD_ERROR ∧ Deactivated (SD_ReadStatus m).2) := by
  unfold SD_ReadStatus
  simp only []
  split_ifs
  · exact Or.inr ⟨rfl, ErrorHandler_deactivated _⟩
  · exact Or.inr ⟨rfl, ErrorHandler_deactivated _⟩
  · exact Or.inl rfl

theorem GetWrittenBlocks_result (m : Machine) :
    (SD_GetWrittenBlocks m).1 = SD_OK ∨
      ((SD_GetWrittenBlocks m).1 = SD_ERROR ∧ Deactivated (SD_GetWrittenBlocks m).2) := by
  unfold SD_GetWrittenBlocks
  simp only []
  split_ifs
  · exact Or.inr ⟨rfl, ErrorHandler_deactivated _⟩
  · exact Or.inr ⟨rfl, ErrorHandler_deactivated _⟩
  · exact Or.inr ⟨rfl, ErrorHandler_deactivated _⟩
  · exact Or.inl rfl

theorem ReadBlock_result (m : Machine) (address : Nat) (data : List Nat) :
    (SD_ReadBlock m address data).1 = SD_OK ∨
      ((SD_ReadBlock m address data).1 = SD_ERROR ∧
        Deactivated (SD_ReadBlock m address data).2.2) := by
  unfold SD_ReadBlock
  simp only []
  generalize (if ((SD_SPI_CS_Reset m).setState SD_STATE_RECEIVE).sd.type = SD_TYPE_SDSC then
    address * ((SD_SPI_CS_Reset m).setState SD_STATE_RECEIVE).sd.blockSize % 4294967296
    else address) = arg
  split_ifs
  · exact Or.inr ⟨rfl, ErrorHandler_deactivated _⟩
  · exact Or.inr ⟨rfl, ErrorHandler_deactivated _⟩
  · exact Or.inr ⟨rfl, ErrorHandler_deactivated _⟩
  · exact Or.inl rfl

theorem ReadMultipleBlock_loop_result (n : Nat) : ∀ (m : Machine) (d : List Nat) (o : Nat),
    (SD_ReadMultipleBlock_loop n m d o).1 = SD_OK ∨
      ((SD_ReadMultipleBlock_loop n m d o).1 = SD_ERROR ∧
        Deactivated (SD_ReadMultipleBlock_loop n m d o).2.2) := by
  induction n with
  | zero => intro m d o; exact Or.inl rfl
  | succ n ih =>
    intro m d o
    unfold SD_ReadMultipleBlock_loop
    simp only []
    split_ifs
    · exact Or.inr ⟨rfl, ErrorHandler_deactivated _⟩
    · exact Or.inr ⟨rfl, ErrorHandler_deactivated _⟩
    · exact ih _ _ _

theorem ReadMultipleBlock_result (fuel : Nat) (m : Machine) (address : Nat) (data : List Nat)
    (num : Nat) :
    (SD_ReadMultipleBlock fuel m address data num).1 = none ∨
    (SD_ReadMultipleBlock fuel m address data num).1 = some SD_OK ∨
      ((SD_ReadMultipleBlock fuel m address data num).1 = some SD_ERROR ∧
        Deactivated (SD_ReadMultipleBlock fuel m address data num).2.2) := by
  unfold SD_ReadMultipleBlock
  simp only []
  generalize (if ((SD_SPI_CS_Reset m).setState SD_STATE_RECEIVE).sd.type = SD_TYPE_SDSC then
    address * ((SD_SPI_CS_Reset m).setState SD_STATE_RECEIVE).sd.blockSize % 4294967296
    else address) = arg
  split_ifs with h1 h2
  · exact Or.inr (Or.inr ⟨rfl, ErrorHandler_deactivated _⟩)
  · rcases ReadMultipleBlock_loop_result num
      (SD_SendCMD ((SD_SPI_CS_Reset m).setState SD_STATE_RECEIVE) SD_CMD_18 arg
        SD_R1_NORMAL_STATE).2 data 0 with h | h
    · exact absurd h h2
    · exact Or.inr (Or.inr ⟨congrArg some h.1, h.2⟩)
  · split
    · exact Or.inl rfl
    · split_ifs
      · exact Or.inr (Or.inr ⟨rfl, ErrorHandler_deactivated _⟩)
      · exact Or.inr (Or.inl rfl)

theorem WriteBlock_result (fuel : Nat) (m : Machine) (address : Nat) (data : List Nat) :
    (SD_WriteBlock fuel m address data).1 = none ∨
    (SD_WriteBlock fuel m address data).1 = some SD_OK ∨
      ((SD_WriteBlock fuel m address data).1 = some SD_ERROR ∧
        Deactivated (SD_WriteBlock fuel m address data).2) := by
  unfold SD_WriteBlock
  simp only []
  generalize (if ((SD_SPI_CS_Reset m).setState SD_STATE_SENDING).sd.type = SD_TYPE_SDSC then
    address * ((SD_SPI_CS_Reset m).setState SD_STATE_SENDING).sd.blockSize % 4294967296
    else address) = arg
  repeat' (first
    | exact Or.inr (Or.inr ⟨rfl, ErrorHandler_deactivated _⟩)
    | exact Or.inl rfl
    | exact Or.inr (Or.inl rfl)
    | split)

theorem WriteMultipleBlock_loop_result (fuel n : Nat) : ∀ (m : Machine) (d : List Nat),
    (SD_WriteMultipleBlock_loop fuel n m d).1 = none ∨
    (SD_WriteMultipleBlock_loop fuel n m d).1 = some SD_OK ∨
      ((SD_WriteMultipleBlock_loop fuel n m d).1 = some SD_ERROR ∧
        Deactivated (SD_WriteMultipleBlock_loop fuel n m d).2) := by
  induction n with
  | zero => intro m d; exact Or.inr (Or.inl rfl)
  | succ n ih =>
    intro m d
    unfold SD_WriteMultipleBlock_loop
    simp only []
    split_ifs
    · exact Or.inr (Or.inr ⟨rfl, ErrorHandler_deactivated _⟩)
    · split
      · exact Or.inl rfl
      · split_ifs
        · exact Or.inr (Or.inr ⟨rfl, ErrorHandler_deactivated _⟩)
        · split
          · exact Or.inl rfl
          · exact Or.inr (Or.inr ⟨rfl, ErrorHandler_deactivated _⟩)
        · exact ih _ _

theorem WriteMultipleBlock_loop_failed (fuel n : Nat) (m : Machine) (d : List Nat)
    (e : SD_Error_t) (h : (SD_WriteMultipleBlock_loop fuel n m d).1 = some e) (he : e ≠ SD_OK) :
    e = SD_ERROR ∧ Deactivated (SD_WriteMultipleBlock_loop fuel n m d).2 := by
  rcases WriteMultipleBlock_loop_result fuel n m d with h1 | h1 | h1
  · rw [h] at h1; cases h1
  · rw [h] at h1; cases h1; exact absurd rfl he
  · rw [h] at h1
    obtain ⟨h2, h3⟩ := h1
    cases h2
    exact ⟨rfl, h3⟩

theorem WriteMultipleBlock_result (fuel : Nat) (m : Machine) (address : Nat) (data : List Nat)
    (num : Nat) :
    (SD_WriteMultipleBlock fuel m address data num).1 = none ∨
    (SD_WriteMultipleBlock fuel m address data num).1 = some SD_OK ∨
      ((SD_WriteMultipleBlock fuel m address data num).1 = some SD_ERROR ∧
        Deactivated (SD_WriteMultipleBlock fuel m address data num).2) := by
  unfold SD_WriteMultipleBlock
  simp only []
  generalize (if ((SD_SPI_CS_Reset m).setState SD_STATE_SENDING).sd.type = SD_TYPE_SDSC then
    address * ((SD_SPI_CS_Reset m).setState SD_STATE_SENDING).sd.blockSize % 4294967296
    else address) = arg
  split
  · exact Or.inr (Or.inr ⟨rfl, ErrorHandler_deactivated _⟩)
  · split
    · exact Or.inr (Or.inr ⟨rfl, ErrorHandler_deactivated _⟩)
    · split
      · exact Or.inl rfl
      · rename_i e he
        split
        · rename_i hne
          obtain ⟨h1, h2⟩ := WriteMultipleBlock_loop_failed _ _ _ _ e he hne
          subst h1
          exact Or.inr (Or.inr ⟨rfl, h2⟩)
        · repeat' (first
            | exact Or.inr (Or.inr ⟨rfl, ErrorHandler_deactivated _⟩)
            | exact Or.inl rfl
            | exact Or.inr (Or.inl rfl)
            | split)

theorem GoToIdleMode_ok (m : Machine) (h : (SD_GoToIdleMode m).1 = SD_OK) :
    (SD_GoToIdleMode m).2.sd.mode = SD_MODE_IDENTIFICATION ∧
    (SD_GoToIdleMode m).2.sd.state = SD_STATE_IDLE ∧
    (SD_GoToIdleMode m).2.writes =
      FieldWrite.state SD_STATE_IDLE :: FieldWrite.mode SD_MODE_IDENTIFICATION :: m.writes := by
  have hk := keeps_SendCMD m m SD_CMD_0 0 SD_R1_IDLE_STATE (Keeps.krefl m)
  unfold SD_GoToIdleMode at h ⊢
  simp only [] at h ⊢
  split_ifs at h ⊢ with h1
  · refine ⟨rfl, rfl, ?_⟩
    show FieldWrite.state SD_STATE_IDLE :: FieldWrite.mode SD_MODE_IDENTIFICATION ::
      (SD_SendCMD m SD_CMD_0 0 SD_R1_IDLE_STATE).2.writes = _
    rw [hk.2.2]

theorem only_GoToTransferMode_loop (ts n : Nat) : ∀ (m0 m : Machine), OnlyR1 m0 m →
    OnlyR1 m0 (SD_GoToTransferMode_loop ts n m).2 := by
  induction n with
  | zero => intro m0 m h; exact h
  | succ n ih =>
    intro m0 m h
    unfold SD_GoToTransferMode_loop
    simp only []
    split_ifs
    · exact only_Timeout _ _ _ _ h
    · exact only_SendACMD _ _ _ _ _ (only_Timeout _ _ _ _ h)
    · exact ih _ _ (only_SendACMD _ _ _ _ _ (only_Timeout _ _ _ _ h))
    · exact h

theorem GoToTransferMode_ok (fuel : Nat) (m : Machine)
    (h : (SD_GoToTransferMode fuel m).1 = some SD_OK) :
    (SD_GoToTransferMode fuel m).2.sd.mode = SD_MODE_TRANSFER ∧
    (SD_GoToTransferMode fuel m).2.sd.state = SD_STATE_STANDBY ∧
    (SD_GoToTransferMode fuel m).2.writes =
      FieldWrite.state SD_STATE_STANDBY :: FieldWrite.mode SD_MODE_TRANSFER :: m.writes := by
  have hk := fun a ts => (only_GoToTransferMode_loop ts fuel _ _ (only_GetCycle _ _
    (only_SendACMD m m SD_ACMD_41 a SD_R1_IDLE_STATE (OnlyR1.orefl m)))).toKeeps
  unfold SD_GoToTransferMode at h ⊢
  simp only [] at h ⊢
  generalize (if m.sd.version = 2 then 1 <<< 30 else 0) = a at h ⊢
  by_cases h1 : (SD_SendACMD m SD_ACMD_41 a SD_R1_IDLE_STATE).1 ≠ SD_OK
  · rw [if_pos h1] at h
    cases h
  · rw [if_neg h1] at h ⊢
    rcases he : (SD_GoToTransferMode_loop
        (DWT_GetCycle (SD_SendACMD m SD_ACMD_41 a SD_R1_IDLE_STATE).2).1 fuel
        (DWT_GetCycle (SD_SendACMD m SD_ACMD_41 a SD_R1_IDLE_STATE).2).2).1 with _ | e
    · simp [he] at h
    · simp only [he] at h ⊢
      by_cases h2 : e ≠ SD_OK
      · rw [if_pos h2] at h
        cases h
      · rw [if_neg h2]
        refine ⟨rfl, rfl, ?_⟩
        show FieldWrite.state SD_STATE_STANDBY :: FieldWrite.mode SD_MODE_TRANSFER ::
          (SD_GoToTransferMode_loop _ fuel _).2.writes = _
        rw [(hk a _).2.2]

theorem Init_staged (fuel : Nat) (m : Machine) :
    SD_Init fuel m =
      if (SD_SendDummyByte (SD_SPI_SetSpeed (SD_SPI_Config
          { m with SD_CRC7_Table := SD_CRC7_GenTable m.SD_CRC7_Table }) SD_SPI_INIT_SPEED) 9).1
          ≠ SD_OK then
        (some SD_ERROR, SD_ErrorHandler (SD_SendDummyByte (SD_SPI_SetSpeed (SD_SPI_Config
          { m with SD_CRC7_Table := SD_CRC7_GenTable m.SD_CRC7_Table }) SD_SPI_INIT_SPEED) 9).2)
      else
        SD_Init_modes fuel (SD_SPI_CS_Reset ((((SD_SendDummyByte (SD_SPI_SetSpeed (SD_SPI_Config
          { m with SD_CRC7_Table := SD_CRC7_GenTable m.SD_CRC7_Table }) SD_SPI_INIT_SPEED) 9).2.setType
          SD_TYPE_SDSC).setState SD_STATE_READY).setMode SD_MODE_IDENTIFICATION)) := by
  unfold SD_Init SD_Init_modes SD_Init_registers
  with_reducible rfl

theorem Init_registers_cases (g2 : Machine) :
    ((SD_Init_registers g2).1 = some SD_ERROR ∧ Deactivated (SD_Init_registers g2).2) ∨
    ((SD_Init_registers g2).1 = some SD_OK ∧ Keeps g2 (SD_Init_registers g2).2) := by
  have ho : Keeps g2 (if g2.sd.version = 2 then SD_ReadOCR g2 else (SD_OK, g2)).2 := by
    split_ifs
    · exact keeps_ReadOCR g2
    · exact Keeps.krefl g2
  unfold SD_Init_registers
  simp only []
  generalize (if g2.sd.version = 2 then SD_ReadOCR g2 else (SD_OK, g2)) = o at ho ⊢
  have h3 := keeps_SetSpeed _ _ SD_SPI_TRANSFER_SPEED ho
  have hci := h3.ksame (keeps_ReadCID _).1 (keeps_ReadCID _).2.1 (keeps_ReadCID _).2.2
  have hcs := hci.ksame (keeps_ReadCSD _).1 (keeps_ReadCSD _).2.1 (keeps_ReadCSD _).2.2
  split_ifs
  · exact Or.inl ⟨rfl, ErrorHandler_deactivated _⟩
  · exact Or.inl ⟨rfl, ErrorHandler_deactivated _⟩
  · exact Or.inl ⟨rfl, ErrorHandler_deactivated _⟩
  · exact Or.inr ⟨rfl, keeps_CS_Set _ _ hcs⟩

theorem Init_modes_cases (fuel : Nat) (m2 : Machine) :
    (SD_Init_modes fuel m2).1 = none ∨
    ((SD_Init_modes fuel m2).1 = some SD_ERROR ∧ Deactivated (SD_Init_modes fuel m2).2) ∨
    ((SD_Init_modes fuel m2).1 = some SD_OK ∧
      (SD_Init_modes fuel m2).2.sd.mode = SD_MODE_TRANSFER ∧
      (SD_Init_modes fuel m2).2.sd.state = SD_STATE_STANDBY ∧
      (SD_Init_modes fuel m2).2.writes =
        FieldWrite.state SD_STATE_STANDBY :: FieldWrite.mode SD_MODE_TRANSFER ::
        FieldWrite.state SD_STATE_IDLE :: FieldWrite.mode SD_MODE_IDENTIFICATION ::
          m2.writes) := by
  unfold SD_Init_modes
  simp only []
  split
  · exact Or.inr (Or.inl ⟨rfl, ErrorHandler_deactivated _⟩)
  rename_i hi
  split
  · exact Or.inr (Or.inl ⟨rfl, ErrorHandler_deactivated _⟩)
  split
  · exact Or.inl rfl
  rename_i e hg
  split
  · exact Or.inr (Or.inl ⟨rfl, ErrorHandler_deactivated _⟩)
  rename_i he
  have he2 : e = SD_OK := not_not.1 he
  subst he2
  obtain ⟨i1, i2, i3⟩ := GoToIdleMode_ok m2 (not_not.1 hi)
  have hv := keeps_CheckVoltage (SD_GoToIdleMode m2).2
  obtain ⟨g1, g2, g3⟩ := GoToTransferMode_ok fuel _ hg
  rcases Init_registers_cases (SD_GoToTransferMode fuel (SD_CheckVoltage (SD_GoToIdleMode m2).2).2).2
    with h | h
  · exact Or.inr (Or.inl h)
  · refine Or.inr (Or.inr ⟨h.1, h.2.1.trans g1, h.2.2.1.trans g2, ?_⟩)
    rw [h.2.2.2, g3, hv.2.2, i3]

theorem Init_cases (fuel : Nat) (m : Machine) :
    (SD_Init fuel m).1 = none ∨
    ((SD_Init fuel m).1 = some SD_ERROR ∧ Deactivated (SD_Init fuel m).2) ∨
    ((SD_Init fuel m).1 = some SD_OK ∧
      (SD_Init fuel m).2.sd.mode = SD_MODE_TRANSFER ∧
      (SD_Init fuel m).2.sd.state = SD_STATE_STANDBY ∧
      (SD_Init fuel m).2.writes =
        [FieldWrite.state SD_STATE_STANDBY, FieldWrite.mode SD_MODE_TRANSFER,
         FieldWrite.state SD_STATE_IDLE, FieldWrite.mode SD_MODE_IDENTIFICATION,
         FieldWrite.mode SD_MODE_IDENTIFICATION, FieldWrite.state SD_STATE_READY] ++
          m.writes) := by
  rw [Init_staged]
  have hd := (only_SendDummyByte 9 _ _ (OnlyR1.orefl (SD_SPI_SetSpeed (SD_SPI_Config
    { m with SD_CRC7_Table := SD_CRC7_GenTable m.SD_CRC7_Table }) SD_SPI_INIT_SPEED))).1
  generalize (SD_SendDummyByte (SD_SPI_SetSpeed (SD_SPI_Config
    { m with SD_CRC7_Table := SD_CRC7_GenTable m.SD_CRC7_Table }) SD_SPI_INIT_SPEED) 9) = d
    at hd ⊢
  split
  · exact Or.inr (Or.inl ⟨rfl, ErrorHandler_deactivated _⟩)
  · rcases Init_modes_cases fuel (SD_SPI_CS_Reset
      (((d.2.setType SD_TYPE_SDSC).setState SD_STATE_READY).setMode SD_MODE_IDENTIFICATION))
      with h | h | h
    · exact Or.inl h
    · exact Or.inr (Or.inl h)
    · refine Or.inr (Or.inr ⟨h.1, h.2.1, h.2.2.1, ?_⟩)
      rw [h.2.2.2]
      show _ :: _ :: _ :: _ :: FieldWrite.mode SD_MODE_IDENTIFICATION ::
        FieldWrite.state SD_STATE_READY :: d.2.writes = _
      rw [hd]
      rfl

/-! ## Error results of the write operations -/

theorem WriteBlock_data_error (fuel : Nat) (m mc mt mw : Machine) (address : Nat)
    (data : List Nat) (t e : SD_Error_t)
    (hcmd : SD_SendCMD ((SD_SPI_CS_Reset m).setState SD_STATE_SENDING) SD_CMD_24
      (if m.sd.type = SD_TYPE_SDSC then address * m.sd.blockSize % 4294967296 else address)
      SD_R1_NORMAL_STATE = (SD_OK, mc))
    (htoken : SD_SendToken mc SD_START_RMW_BLOCK_TOKEN = (t, mt))
    (hwrite : SD_WriteData fuel mt data mt.sd.blockSize = (some e, mw))
    (he : e = SD_CRC_ERROR ∨ e = SD_WRITE_ERROR) :
    SD_WriteBlock fuel m address data =
      (some SD_ERROR, SD_ErrorHandler (SD_ReadStatus mw).2) := by
  have hcmd2 : SD_SendCMD ((SD_SPI_CS_Reset m).setState SD_STATE_SENDING) SD_CMD_24
      (if ((SD_SPI_CS_Reset m).setState SD_STATE_SENDING).sd.type = SD_TYPE_SDSC then
        address * ((SD_SPI_CS_Reset m).setState SD_STATE_SENDING).sd.blockSize % 4294967296
        else address) SD_R1_NORMAL_STATE = (SD_OK, mc) := hcmd
  have ht : ¬ t.toNat = SD_SPI_ERROR.toNat := by
    have h1 : t = (SD_SendToken mc SD_START_RMW_BLOCK_TOKEN).1 := by rw [htoken]
    rw [h1]
    unfold SD_SendToken
    simp only []
    split_ifs <;> (dsimp only; decide)
  have hne : e ≠ SD_OK := by
    rcases he with h | h <;> rw [h] <;> decide
  unfold SD_WriteBlock
  simp only [hcmd2, htoken, hwrite, ht, hne, ne_eq, not_true_eq_false, not_false_eq_true,
    if_true, if_false]

/-- C11 (counterexample): the card answers the third of five blocks of a multiple-block
write with the CRC-error data response (`0xEB`, code `0x0B`), and a single-block write
likewise; both operations return `SD_ERROR`, not `SD_CRC_ERROR`. -/
theorem C11_crc_error_is_reported_as_generic :
    (SD_WriteMultipleBlock 20 machineWriteCrc 0 (List.range 20) 5).1 = some SD_ERROR ∧
    (SD_WriteMultipleBlock 20 machineWriteCrc 0 (List.range 20) 5).1 ≠ some SD_CRC_ERROR ∧
    (SD_WriteMultipleBlock 20 machineWriteCrc 0 (List.range 20) 5).2.log.get? 12 =
      some (Event.recv8 1 SD_SPI_OK [0xEB]) ∧
    (SD_WriteBlock 20 machineWriteOneCrc 0 [1, 2, 3, 4]).1 = some SD_ERROR ∧
    (SD_WriteBlock 20 machineWriteOneCrc 0 [1, 2, 3, 4]).1 ≠ some SD_CRC_ERROR ∧
    (SD_WriteBlock 20 machineWriteOneCrc 0 [1, 2, 3, 4]).2.log.get? 6 =
      some (Event.recv8 1 SD_SPI_OK [0xEB]) := by
  decide!

/-- C11 (amended): `SD_WriteBlock` and `SD_WriteMultipleBlock` return only `SD_OK` or
`SD_ERROR`; when `SD_WriteData` reports the CRC-error or the write-error data response
(`SD_CRC_ERROR`, `SD_WRITE_ERROR`), `SD_WriteBlock` reads the status, calls the error handler
and returns `SD_ERROR`, and `SD_WriteMultipleBlock` (once the stop-transfer loop has ended)
returns `SD_ERROR` as well. -/
theorem C11_write_errors_return_generic_error (fuel : Nat) (m : Machine) (address : Nat)
    (data : List Nat) (num : Nat) :
    (∀ e, (SD_WriteBlock fuel m address data).1 = some e → e = SD_OK ∨ e = SD_ERROR) ∧
    (∀ e, (SD_WriteMultipleBlock fuel m address data num).1 = some e →
      e = SD_OK ∨ e = SD_ERROR) ∧
    (∀ (mc mt mw : Machine) (t e : SD_Error_t),
      SD_SendCMD ((SD_SPI_CS_Reset m).setState SD_STATE_SENDING) SD_CMD_24
        (if m.sd.type = SD_TYPE_SDSC then address * m.sd.blockSize % 4294967296 else address)
        SD_R1_NORMAL_STATE = (SD_OK, mc) →
      SD_SendToken mc SD_START_RMW_BLOCK_TOKEN = (t, mt) →
      SD_WriteData fuel mt data mt.sd.blockSize = (some e, mw) →
      e = SD_CRC_ERROR ∨ e = SD_WRITE_ERROR →
      (SD_WriteBlock fuel m address data).1 = some SD_ERROR) ∧
    (∀ (mc md mk mt mw : Machine) (k j : Nat) (e : SD_Error_t),
      num = k + 1 + j →
      SD_SendCMD ((SD_SPI_CS_Reset m).setState SD_STATE_SENDING) SD_CMD_25
        (if m.sd.type = SD_TYPE_SDSC then address * m.sd.blockSize % 4294967296 else address)
        SD_R1_NORMAL_STATE = (SD_OK, mc) →
      SD_SendDummyByte mc 1 = (SD_OK, md) →
      SD_WriteMultipleBlock_loop fuel k md data = (some SD_OK, mk) →
      SD_SendToken mk SD_START_WM_BLOCK_TOKEN = (SD_OK, mt) →
      SD_WriteData fuel mt (data.drop (k * m.sd.blockSize)) m.sd.blockSize = (some e, mw) →
      e = SD_CRC_ERROR ∨ e = SD_WRITE_ERROR →
      (SD_StopTransfer fuel mw).1 ≠ none →
      (SD_WriteMultipleBlock fuel m address data num).1 = some SD_ERROR) := by
  refine ⟨?_, ?_, ?_, ?_⟩
  · intro e he
    rcases WriteBlock_result fuel m address data with h | h | h
    · rw [he] at h; cases h
    · rw [he] at h; cases h; exact Or.inl rfl
    · rw [he] at h; cases h.1; exact Or.inr rfl
  · intro e he
    rcases WriteMultipleBlock_result fuel m address data num with h | h | h
    · rw [he] at h; cases h
    · rw [he] at h; cases h; exact Or.inl rfl
    · rw [he] at h; cases h.1; exact Or.inr rfl
  · intro mc mt mw t e hcmd htoken hwrite he
    rw [WriteBlock_data_error fuel m mc mt mw address data t e hcmd htoken hwrite he]
  · intro mc md mk mt mw k j e hn hcmd hdummy hfirst htoken hwrite he hs
    rw [hn, (WriteMultipleBlock_error_result fuel m mc md mk mt mw address data k j e
      hcmd hdummy hfirst htoken hwrite he hs).1]

theorem C11_write_errors_return_generic_error_witness :
    (SD_ERROR = SD_OK ∨ SD_ERROR = SD_ERROR) ∧
    (SD_WriteBlock 20 machineWriteOneCrc 0 [1, 2, 3, 4]).1 = some SD_ERROR :=
  ⟨(C11_write_errors_return_generic_error 20 machineWriteCrc 0 (List.range 20) 5).2.1
      SD_ERROR (by decide!),
   (C11_write_errors_return_generic_error 20 machineWriteOneCrc 0 [1, 2, 3, 4] 0).2.2.1
      _ _ _ _ SD_CRC_ERROR (Prod.ext (by decide!) rfl) (Prod.ext rfl rfl)
      (Prod.ext (by decide!) rfl) (Or.inl rfl)⟩

/-! ## Session state after the public operations -/

/-- C12: when `SD_Init`, `SD_ReadStatus`, `SD_GetWrittenBlocks`, `SD_ReadBlock`,
`SD_ReadMultipleBlock`, `SD_WriteBlock` or `SD_WriteMultipleBlock` returns a result other than
`SD_OK`, then on return `mode` is `SD_MODE_INACTIVE`, `state` is `SD_STATE_INACTIVE` and the
last collaborator call was the deassertion of chip select; when `SD_Init` returns `SD_OK`,
`mode` is `SD_MODE_TRANSFER` and `state` is `SD_STATE_STANDBY`. -/
theorem C12_failure_deactivates_session (fuel : Nat) (m : Machine) (address : Nat)
    (data : List Nat) (num : Nat) :
    (∀ e, (SD_Init fuel m).1 = some e → e ≠ SD_OK → Deactivated (SD_Init fuel m).2) ∧
    ((SD_ReadStatus m).1 ≠ SD_OK → Deactivated (SD_ReadStatus m).2) ∧
    ((SD_GetWrittenBlocks m).1 ≠ SD_OK → Deactivated (SD_GetWrittenBlocks m).2) ∧
    ((SD_ReadBlock m address data).1 ≠ SD_OK → Deactivated (SD_ReadBlock m address data).2.2) ∧
    (∀ e, (SD_ReadMultipleBlock fuel m address data num).1 = some e → e ≠ SD_OK →
      Deactivated (SD_ReadMultipleBlock fuel m address data num).2.2) ∧
    (∀ e, (SD_WriteBlock fuel m address data).1 = some e → e ≠ SD_OK →
      Deactivated (SD_WriteBlock fuel m address data).2) ∧
    (∀ e, (SD_WriteMultipleBlock fuel m address data num).1 = some e → e ≠ SD_OK →
      Deactivated (SD_WriteMultipleBlock fuel m address data num).2) ∧
    ((SD_Init fuel m).1 = some SD_OK →
      (SD_Init fuel m).2.sd.mode = SD_MODE_TRANSFER ∧
      (SD_Init fuel m).2.sd.state = SD_STATE_STANDBY) := by
  refine ⟨?_, ?_, ?_, ?_, ?_, ?_, ?_, ?_⟩
  · intro e he hne
    rcases Init_cases fuel m with h | h | h
    · rw [he] at h; cases h
    · exact h.2
    · rw [he] at h; cases h.1; exact absurd rfl hne
  · intro hne
    rcases ReadStatus_result m with h | h
    · exact absurd h hne
    · exact h.2
  · intro hne
    rcases GetWrittenBlocks_result m with h | h
    · exact absurd h hne
    · exact h.2
  · intro hne
    rcases ReadBlock_result m address data with h | h
    · exact absurd h hne
    · exact h.2
  · intro e he hne
    rcases ReadMultipleBlock_result fuel m address data num with h | h | h
    · rw [he] at h; cases h
    · rw [he] at h; cases h; exact absurd rfl hne
    · exact h.2
  · intro e he hne
    rcases WriteBlock_result fuel m address data with h | h | h
    · rw [he] at h; cases h
    · rw [he] at h; cases h; exact absurd rfl hne
    · exact h.2
  · intro e he hne
    rcases WriteMultipleBlock_result fuel m address data num with h | h | h
    · rw [he] at h; cases h
    · rw [he] at h; cases h; exact absurd rfl hne
    · exact h.2
  · intro he
    rcases Init_cases fuel m with h | h | h
    · rw [he] at h; cases h
    · rw [he] at h; cases h.1
    · exact ⟨h.2.1, h.2.2.1⟩

theorem C12_failure_deactivates_session_witness :
    Deactivated (SD_WriteMultipleBlock 20 machineWriteCrc 0 (List.range 20) 5).2 ∧
    (SD_Init 20 machineInitV1).2.sd.mode = SD_MODE_TRANSFER ∧
    (SD_Init 20 machineInitV1).2.sd.state = SD_STATE_STANDBY :=
  ⟨(C12_failure_deactivates_session 20 machineWriteCrc 0 (List.range 20) 5).2.2.2.2.2.2.1
      SD_ERROR (by decide!) (by decide),
   (C12_failure_deactivates_session 20 machineInitV1 0 [] 0).2.2.2.2.2.2.2 (by decide!)⟩

/-- C13: a run of `SD_Init` that returns `SD_OK` assigns to `mode` the values
Identification, Identification, Transfer and to `state` the values Ready, Idle, Standby, in
that order and no others, so that `mode`, Inactive at entry, takes the distinct values
Inactive, Identification, Transfer and `state` is set to the distinct values Ready, Idle,
Standby; `SD_CheckVoltage`, `SD_ReadOCR`, `SD_ReadCID` and `SD_ReadCSD` assign neither. -/
theorem C13_init_mode_and_state_sequence (fuel : Nat) (m : Machine) :
    ((SD_Init fuel m).1 = some SD_OK →
      ∃ w, (SD_Init fuel m).2.writes = w ++ m.writes ∧
        modeWrites w = [SD_MODE_IDENTIFICATION, SD_MODE_IDENTIFICATION, SD_MODE_TRANSFER] ∧
        stateWrites w = [SD_STATE_READY, SD_STATE_IDLE, SD_STATE_STANDBY] ∧
        (m.sd.mode = SD_MODE_INACTIVE →
          List.destutter (· ≠ ·) (m.sd.mode :: modeWrites w) =
            [SD_MODE_INACTIVE, SD_MODE_IDENTIFICATION, SD_MODE_TRANSFER]) ∧
        List.destutter (· ≠ ·) (stateWrites w) =
          [SD_STATE_READY, SD_STATE_IDLE, SD_STATE_STANDBY]) ∧
    (∀ m1 : Machine, Keeps m1 (SD_CheckVoltage m1).2 ∧ Keeps m1 (SD_ReadOCR m1).2 ∧
      Keeps m1 (SD_ReadCID m1).2 ∧ Keeps m1 (SD_ReadCSD m1).2) := by
  constructor
  · intro he
    rcases Init_cases fuel m with h | h | h
    · rw [he] at h; cases h
    · rw [he] at h; cases h.1
    · refine ⟨_, h.2.2.2, by decide, by decide, ?_, by decide⟩
      intro hm
      rw [hm]
      decide
  · intro m1
    exact ⟨keeps_CheckVoltage m1, keeps_ReadOCR m1, keeps_ReadCID m1, keeps_ReadCSD m1⟩

theorem C13_init_mode_and_state_sequence_witness :
    ∃ w, (SD_Init 20 machineInitV1).2.writes = w ++ machineInitV1.writes ∧
      modeWrites w = [SD_MODE_IDENTIFICATION, SD_MODE_IDENTIFICATION, SD_MODE_TRANSFER] ∧
      stateWrites w = [SD_STATE_READY, SD_STATE_IDLE, SD_STATE_STANDBY] ∧
      (machineInitV1.sd.mode = SD_MODE_INACTIVE →
        List.destutter (· ≠ ·) (machineInitV1.sd.mode :: modeWrites w) =
          [SD_MODE_INACTIVE, SD_MODE_IDENTIFICATION, SD_MODE_TRANSFER]) ∧
      List.destutter (· ≠ ·) (stateWrites w) =
        [SD_STATE_READY, SD_STATE_IDLE, SD_STATE_STANDBY] :=
  (C13_init_mode_and_state_sequence 20 machineInitV1).1 (by decide!)

/-! ## State after a block read -/

theorem ReadBlock_ok_state (m : Machine) (address : Nat) (data : List Nat)
    (h : (SD_ReadBlock m address data).1 = SD_OK) :
    (SD_ReadBlock m address data).2.2.sd.state = SD_STATE_RECEIVE := by
  have hk := fun a => keeps_ReadData _ _ (SD_GetToken (SD_SendCMD ((SD_SPI_CS_Reset m).setState
    SD_STATE_RECEIVE) SD_CMD_17 a SD_R1_NORMAL_STATE).2 SD_START_RMW_BLOCK_TOKEN).2.sd.blockSize
    (keeps_GetToken _ _ SD_START_RMW_BLOCK_TOKEN (keeps_SendCMD _ _ SD_CMD_17 a
      SD_R1_NORMAL_STATE (Keeps.krefl ((SD_SPI_CS_Reset m).setState SD_STATE_RECEIVE))))
  unfold SD_ReadBlock at h ⊢
  simp only [] at h ⊢
  generalize (if ((SD_SPI_CS_Reset m).setState SD_STATE_RECEIVE).sd.type = SD_TYPE_SDSC then
    address * ((SD_SPI_CS_Reset m).setState SD_STATE_RECEIVE).sd.blockSize % 4294967296
    else address) = arg at h ⊢
  split_ifs at h ⊢
  exact (keeps_CS_Set _ _ (hk arg)).2.1

/-- C14 (failing input): a card answers CMD17 with R1 `0x00`, the start token and a block;
`SD_ReadBlock` returns `SD_OK` with the block in the buffer, and the session state is
`SD_STATE_RECEIVE`, not `SD_STATE_STANDBY`: line 643 compares instead of assigning. -/
theorem C14_readBlock_ok_leaves_state_receive :
    (SD_ReadBlock machineReadOne 0 [9, 9, 9, 9, 9]).1 = SD_OK ∧
    (SD_ReadBlock machineReadOne 0 [9, 9, 9, 9, 9]).2.1 = [1, 2, 3, 4, 9] ∧
    (SD_ReadBlock machineReadOne 0 [9, 9, 9, 9, 9]).2.2.sd.state = SD_STATE_RECEIVE ∧
    (SD_ReadBlock machineReadOne 0 [9, 9, 9, 9, 9]).2.2.sd.state ≠ SD_STATE_STANDBY := by
  decide!

/-! ## Card command classes -/

/-- C15 (failing input): for the CSD `00 26 00 32 5F 59 ...` the field at bits [95:84] is
`(0x5F << 4) | (0x59 >> 4) = 0x5F5`, but `SD_GetCSD_v1` returns `CCC = 0xF05`; for the CSD
`40 0E 00 32 5B 59 ...` the field is `0x5B5`, but `SD_GetCSD_v2` returns `0xB05`: line 912
and line 953 shift `rawCSD[4]` by 8 into a 12-bit member. -/
theorem C15_ccc_decoded_with_wrong_shift :
    (SD_GetCSD_v1 { sessionReady with rawCSD := [0x00, 0x26, 0x00, 0x32, 0x5F, 0x59, 0x83, 0xC8,
      0xAD, 0xDB, 0xCF, 0xFF, 0xD2, 0x40, 0x40, 0xA5] }).CCC = 0xF05 ∧
    (0x5F <<< 4) ||| (0x59 >>> 4) = 0x5F5 ∧
    (SD_GetCSD_v2 { sessionReady with rawCSD := [0x40, 0x0E, 0x00, 0x32, 0x5B, 0x59, 0x00, 0x3F,
      0xFF, 0xFF, 0x7F, 0x80, 0x0A, 0x40, 0x00, 0x01] }).CCC = 0xB05 ∧
    (0x5B <<< 4) ||| (0x59 >>> 4) = 0x5B5 := by
  decide!

/-! ## Register decoders -/

theorem getD_lt (raw : List Nat) (h : ∀ b ∈ raw, b < 256) (i : Nat) : raw.getD i 0 < 256 := by
  rw [List.getD_eq_getElem?_getD]
  rcases hi : raw[i]? with _ | b
  · simp
  · simp only [Option.getD_some]
    exact h b (List.getElem?_mem hi)

theorem and_mask1 (x : Nat) : x &&& 0x1 = x % 2 := Nat.and_pow_two_sub_one_eq_mod x 1

theorem and_mask3 (x : Nat) : x &&& 0x3 = x % 4 := Nat.and_pow_two_sub_one_eq_mod x 2

theorem and_mask7 (x : Nat) : x &&& 0x7 = x % 8 := Nat.and_pow_two_sub_one_eq_mod x 3

theorem and_maskF (x : Nat) : x &&& 0xF = x % 16 := Nat.and_pow_two_sub_one_eq_mod x 4

theorem and_mask3F (x : Nat) : x &&& 0x3F = x % 64 := Nat.and_pow_two_sub_one_eq_mod x 6

theorem and_mask7F (x : Nat) : x &&& 0x7F = x % 128 := Nat.and_pow_two_sub_one_eq_mod x 7

theorem or_eq_add (a b k : Nat) (ha : a % 2 ^ k = 0) (hb : b < 2 ^ k) : a ||| b = a + b := by
  have h := Nat.mul_add_lt_is_or hb (a / 2 ^ k)
  have e : 2 ^ k * (a / 2 ^ k) = a := by
    have := Nat.div_add_mod a (2 ^ k)
    omega
  rw [e] at h
  exact h.symm


theorem csd_v1_cSize (sd : SD_Parameters_t) (h : ∀ b ∈ sd.rawCSD, b < 256) :
    (SD_GetCSD_v1 sd).cSize = regField sd.rawCSD 16 73 62 := by
  have h6 := getD_lt sd.rawCSD h 6
  have h7 := getD_lt sd.rawCSD h 7
  have h8 := getD_lt sd.rawCSD h 8
  simp only [SD_GetCSD_v1, SD_CSDv1_cSize, regField, regBits, regBit, Nat.toNat_testBit, Nat.reduceAdd, Nat.reduceDiv,
    Nat.reduceMod, Nat.reduceSub, Nat.reducePow, Nat.reduceMul, and_mask1, and_mask3, and_mask7, and_maskF,
    and_mask3F, and_mask7F, Nat.shiftRight_eq_div_pow, Nat.shiftLeft_eq]
  generalize sd.rawCSD.getD 6 0 = a at *
  generalize sd.rawCSD.getD 7 0 = b at *
  generalize sd.rawCSD.getD 8 0 = c at *
  rw [or_eq_add (a % 4 * 1024) (b * 4) 10 (by omega) (by omega),
    or_eq_add _ _ 2 (by omega) (by omega)]
  omega

theorem csd_v1_sizeMultiplier (sd : SD_Parameters_t) (h : ∀ b ∈ sd.rawCSD, b < 256) :
    (SD_GetCSD_v1 sd).sizeMultiplier = regField sd.rawCSD 16 49 47 := by
  have h9 := getD_lt sd.rawCSD h 9
  have h10 := getD_lt sd.rawCSD h 10
  simp only [SD_GetCSD_v1, SD_CSDv1_sizeMultiplier, regField, regBits, regBit, Nat.toNat_testBit, Nat.reduceAdd, Nat.reduceDiv,
    Nat.reduceMod, Nat.reduceSub, Nat.reducePow, Nat.reduceMul, and_mask1, and_mask3, and_mask7, and_maskF,
    and_mask3F, and_mask7F, Nat.shiftRight_eq_div_pow, Nat.shiftLeft_eq]
  generalize sd.rawCSD.getD 9 0 = a at *
  generalize sd.rawCSD.getD 10 0 = b at *
  rw [or_eq_add _ _ 1 (by omega) (by omega)]
  omega

theorem csd_v1_readBlockLen (sd : SD_Parameters_t) (h : ∀ b ∈ sd.rawCSD, b < 256) :
    (SD_GetCSD_v1 sd).readBlockLen = regField sd.rawCSD 16 83 80 := by
  have h5 := getD_lt sd.rawCSD h 5
  simp only [SD_GetCSD_v1, regField, regBits, regBit, Nat.toNat_testBit, Nat.reduceAdd, Nat.reduceDiv,
    Nat.reduceMod, Nat.reduceSub, Nat.reducePow, Nat.reduceMul, and_mask1, and_mask3, and_mask7, and_maskF,
    and_mask3F, and_mask7F, Nat.shiftRight_eq_div_pow, Nat.shiftLeft_eq]
  generalize sd.rawCSD.getD 5 0 = a at *
  omega

theorem csd_v1_writeBlockLen (sd : SD_Parameters_t) (h : ∀ b ∈ sd.rawCSD, b < 256) :
    (SD_GetCSD_v1 sd).writeBlockLen = regField sd.rawCSD 16 25 22 := by
  have h12 := getD_lt sd.rawCSD h 12
  have h13 := getD_lt sd.rawCSD h 13
  simp only [SD_GetCSD_v1, regField, regBits, regBit, Nat.toNat_testBit, Nat.reduceAdd, Nat.reduceDiv,
    Nat.reduceMod, Nat.reduceSub, Nat.reducePow, Nat.reduceMul, and_mask1, and_mask3, and_mask7, and_maskF,
    and_mask3F, and_mask7F, Nat.shiftRight_eq_div_pow, Nat.shiftLeft_eq]
  generalize sd.rawCSD.getD 12 0 = a at *
  generalize sd.rawCSD.getD 13 0 = b at *
  rw [or_eq_add _ _ 2 (by omega) (by omega)]
  omega

theorem csd_v1_sectorSize (sd : SD_Parameters_t) (h : ∀ b ∈ sd.rawCSD, b < 256) :
    (SD_GetCSD_v1 sd).sectorSize = regField sd.rawCSD 16 45 39 := by
  have h10 := getD_lt sd.rawCSD h 10
  have h11 := getD_lt sd.rawCSD h 11
  simp only [SD_GetCSD_v1, regField, regBits, regBit, Nat.toNat_testBit, Nat.reduceAdd, Nat.reduceDiv,
    Nat.reduceMod, Nat.reduceSub, Nat.reducePow, Nat.reduceMul, and_mask1, and_mask3, and_mask7, and_maskF,
    and_mask3F, and_mask7F, Nat.shiftRight_eq_div_pow, Nat.shiftLeft_eq]
  generalize sd.rawCSD.getD 10 0 = a at *
  generalize sd.rawCSD.getD 11 0 = b at *
  rw [or_eq_add _ _ 1 (by omega) (by omega)]
  omega

theorem csd_v1_wpGrpSize (sd : SD_Parameters_t) (h : ∀ b ∈ sd.rawCSD, b < 256) :
    (SD_GetCSD_v1 sd).wpGrpSize = regField sd.rawCSD 16 38 32 := by
  have h11 := getD_lt sd.rawCSD h 11
  simp only [SD_GetCSD_v1, regField, regBits, regBit, Nat.toNat_testBit, Nat.reduceAdd, Nat.reduceDiv,
    Nat.reduceMod, Nat.reduceSub, Nat.reducePow, Nat.reduceMul, and_mask1, and_mask3, and_mask7, and_maskF,
    and_mask3F, and_mask7F, Nat.shiftRight_eq_div_pow, Nat.shiftLeft_eq]
  generalize sd.rawCSD.getD 11 0 = a at *
  omega

theorem csd_v1_r2wFactor (sd : SD_Parameters_t) (h : ∀ b ∈ sd.rawCSD, b < 256) :
    (SD_GetCSD_v1 sd).r2wFactor = regField sd.rawCSD 16 28 26 := by
  have h12 := getD_lt sd.rawCSD h 12
  simp only [SD_GetCSD_v1, regField, regBits, regBit, Nat.toNat_testBit, Nat.reduceAdd, Nat.reduceDiv,
    Nat.reduceMod, Nat.reduceSub, Nat.reducePow, Nat.reduceMul, and_mask1, and_mask3, and_mask7, and_maskF,
    and_mask3F, and_mask7F, Nat.shiftRight_eq_div_pow, Nat.shiftLeft_eq]
  generalize sd.rawCSD.getD 12 0 = a at *
  omega

theorem csd_v1_fileFormat (sd : SD_Parameters_t) (h : ∀ b ∈ sd.rawCSD, b < 256) :
    (SD_GetCSD_v1 sd).fileFormat = regField sd.rawCSD 16 11 10 := by
  have h14 := getD_lt sd.rawCSD h 14
  simp only [SD_GetCSD_v1, regField, regBits, regBit, Nat.toNat_testBit, Nat.reduceAdd, Nat.reduceDiv,
    Nat.reduceMod, Nat.reduceSub, Nat.reducePow, Nat.reduceMul, and_mask1, and_mask3, and_mask7, and_maskF,
    and_mask3F, and_mask7F, Nat.shiftRight_eq_div_pow, Nat.shiftLeft_eq]
  generalize sd.rawCSD.getD 14 0 = a at *
  omega

theorem csd_v1_crc (sd : SD_Parameters_t) (h : ∀ b ∈ sd.rawCSD, b < 256) :
    (SD_GetCSD_v1 sd).crc = regField sd.rawCSD 16 7 1 := by
  have h15 := getD_lt sd.rawCSD h 15
  simp only [SD_GetCSD_v1, regField, regBits, regBit, Nat.toNat_testBit, Nat.reduceAdd, Nat.reduceDiv,
    Nat.reduceMod, Nat.reduceSub, Nat.reducePow, Nat.reduceMul, and_mask1, and_mask3, and_mask7, and_maskF,
    and_mask3F, and_mask7F, Nat.shiftRight_eq_div_pow, Nat.shiftLeft_eq]
  generalize sd.rawCSD.getD 15 0 = a at *
  omega

theorem csd_v1_CSDStructure (sd : SD_Parameters_t) (h : ∀ b ∈ sd.rawCSD, b < 256) :
    (SD_GetCSD_v1 sd).CSDStructure = regField sd.rawCSD 16 127 126 := by
  have h0 := getD_lt sd.rawCSD h 0
  simp only [SD_GetCSD_v1, regField, regBits, regBit, Nat.toNat_testBit, Nat.reduceAdd, Nat.reduceDiv,
    Nat.reduceMod, Nat.reduceSub, Nat.reducePow, Nat.reduceMul, and_mask1, and_mask3, and_mask7, and_maskF,
    and_mask3F, and_mask7F, Nat.shiftRight_eq_div_pow, Nat.shiftLeft_eq]
  generalize sd.rawCSD.getD 0 0 = a at *
  omega

theorem csd_v1_TAAC (sd : SD_Parameters_t) (h : ∀ b ∈ sd.rawCSD, b < 256) :
    (SD_GetCSD_v1 sd).TAAC = sd.rawCSD.getD 1 0 := by
  have h1 := getD_lt sd.rawCSD h 1
  simp only [SD_GetCSD_v1, regField, regBits, regBit, Nat.toNat_testBit, Nat.reduceAdd, Nat.reduceDiv,
    Nat.reduceMod, Nat.reduceSub, Nat.reducePow, Nat.reduceMul, and_mask1, and_mask3, and_mask7, and_maskF,
    and_mask3F, and_mask7F, Nat.shiftRight_eq_div_pow, Nat.shiftLeft_eq]
  generalize sd.rawCSD.getD 1 0 = a at *
  omega

theorem csd_v1_NSAC (sd : SD_Parameters_t) (h : ∀ b ∈ sd.rawCSD, b < 256) :
    (SD_GetCSD_v1 sd).NSAC = sd.rawCSD.getD 2 0 := by
  have h2 := getD_lt sd.rawCSD h 2
  simp only [SD_GetCSD_v1, regField, regBits, regBit, Nat.toNat_testBit, Nat.reduceAdd, Nat.reduceDiv,
    Nat.reduceMod, Nat.reduceSub, Nat.reducePow, Nat.reduceMul, and_mask1, and_mask3, and_mask7, and_maskF,
    and_mask3F, and_mask7F, Nat.shiftRight_eq_div_pow, Nat.shiftLeft_eq]
  generalize sd.rawCSD.getD 2 0 = a at *
  omega

theorem csd_v1_transferSpeed (sd : SD_Parameters_t) (h : ∀ b ∈ sd.rawCSD, b < 256) :
    (SD_GetCSD_v1 sd).transferSpeed = sd.rawCSD.getD 3 0 := by
  have h3 := getD_lt sd.rawCSD h 3
  simp only [SD_GetCSD_v1, regField, regBits, regBit, Nat.toNat_testBit, Nat.reduceAdd, Nat.reduceDiv,
    Nat.reduceMod, Nat.reduceSub, Nat.reducePow, Nat.reduceMul, and_mask1, and_mask3, and_mask7, and_maskF,
    and_mask3F, and_mask7F, Nat.shiftRight_eq_div_pow, Nat.shiftLeft_eq]
  generalize sd.rawCSD.getD 3 0 = a at *
  omega

theorem csd_v2_cSize (sd : SD_Parameters_t) (h : ∀ b ∈ sd.rawCSD, b < 256) :
    (SD_GetCSD_v2 sd).cSize = regField sd.rawCSD 16 69 48 := by
  have h7 := getD_lt sd.rawCSD h 7
  have h8 := getD_lt sd.rawCSD h 8
  have h9 := getD_lt sd.rawCSD h 9
  simp only [SD_GetCSD_v2, SD_CSDv2_cSize, regField, regBits, regBit, Nat.toNat_testBit, Nat.reduceAdd, Nat.reduceDiv,
    Nat.reduceMod, Nat.reduceSub, Nat.reducePow, Nat.reduceMul, and_mask1, and_mask3, and_mask7, and_maskF,
    and_mask3F, and_mask7F, Nat.shiftRight_eq_div_pow, Nat.shiftLeft_eq]
  generalize sd.rawCSD.getD 7 0 = a at *
  generalize sd.rawCSD.getD 8 0 = b at *
  generalize sd.rawCSD.getD 9 0 = c at *
  rw [or_eq_add (a % 64 * 65536) (b * 256) 16 (by omega) (by omega),
    or_eq_add _ _ 8 (by omega) (by omega)]
  omega

theorem csd_v1_cSize_expr (sd : SD_Parameters_t) (h : ∀ b ∈ sd.rawCSD, b < 256) :
    (SD_GetCSD_v1 sd).cSize = SD_CSDv1_cSize sd.rawCSD := by
  have h6 := getD_lt sd.rawCSD h 6
  have h7 := getD_lt sd.rawCSD h 7
  have h8 := getD_lt sd.rawCSD h 8
  simp only [SD_GetCSD_v1, SD_CSDv1_cSize, regField, regBits, regBit, Nat.toNat_testBit, Nat.reduceAdd, Nat.reduceDiv,
    Nat.reduceMod, Nat.reduceSub, Nat.reducePow, Nat.reduceMul, and_mask1, and_mask3, and_mask7, and_maskF,
    and_mask3F, and_mask7F, Nat.shiftRight_eq_div_pow, Nat.shiftLeft_eq]
  generalize sd.rawCSD.getD 6 0 = a at *
  generalize sd.rawCSD.getD 7 0 = b at *
  generalize sd.rawCSD.getD 8 0 = c at *
  rw [or_eq_add (a % 4 * 1024) (b * 4) 10 (by omega) (by omega),
    or_eq_add _ _ 2 (by omega) (by omega)]
  omega

theorem csd_v1_sizeMultiplier_expr (sd : SD_Parameters_t) (h : ∀ b ∈ sd.rawCSD, b < 256) :
    (SD_GetCSD_v1 sd).sizeMultiplier = SD_CSDv1_sizeMultiplier sd.rawCSD := by
  have h9 := getD_lt sd.rawCSD h 9
  have h10 := getD_lt sd.rawCSD h 10
  simp only [SD_GetCSD_v1, SD_CSDv1_sizeMultiplier, regField, regBits, regBit, Nat.toNat_testBit, Nat.reduceAdd, Nat.reduceDiv,
    Nat.reduceMod, Nat.reduceSub, Nat.reducePow, Nat.reduceMul, and_mask1, and_mask3, and_mask7, and_maskF,
    and_mask3F, and_mask7F, Nat.shiftRight_eq_div_pow, Nat.shiftLeft_eq]
  generalize sd.rawCSD.getD 9 0 = a at *
  generalize sd.rawCSD.getD 10 0 = b at *
  rw [or_eq_add _ _ 1 (by omega) (by omega)]
  omega

theorem csd_v2_cSize_expr (sd : SD_Parameters_t) (h : ∀ b ∈ sd.rawCSD, b < 256) :
    (SD_GetCSD_v2 sd).cSize = SD_CSDv2_cSize sd.rawCSD := by
  have h7 := getD_lt sd.rawCSD h 7
  have h8 := getD_lt sd.rawCSD h 8
  have h9 := getD_lt sd.rawCSD h 9
  simp only [SD_GetCSD_v2, SD_CSDv2_cSize, regField, regBits, regBit, Nat.toNat_testBit, Nat.reduceAdd, Nat.reduceDiv,
    Nat.reduceMod, Nat.reduceSub, Nat.reducePow, Nat.reduceMul, and_mask1, and_mask3, and_mask7, and_maskF,
    and_mask3F, and_mask7F, Nat.shiftRight_eq_div_pow, Nat.shiftLeft_eq]
  generalize sd.rawCSD.getD 7 0 = a at *
  generalize sd.rawCSD.getD 8 0 = b at *
  generalize sd.rawCSD.getD 9 0 = c at *
  rw [or_eq_add (a % 64 * 65536) (b * 256) 16 (by omega) (by omega),
    or_eq_add _ _ 8 (by omega) (by omega)]
  omega


theorem ocr_busy (sd : SD_Parameters_t) (h : ∀ b ∈ sd.rawOCR, b < 256) :
    (SD_GetOCR sd).busy = regField sd.rawOCR 4 31 31 := by
  have h0 := getD_lt sd.rawOCR h 0
  simp only [SD_GetOCR, regField, regBits, regBit, Nat.toNat_testBit, Nat.reduceAdd, Nat.reduceDiv,
    Nat.reduceMod, Nat.reduceSub, Nat.reducePow, Nat.reduceMul, and_mask1, and_mask3, and_mask7, and_maskF,
    and_mask3F, and_mask7F, Nat.shiftRight_eq_div_pow, Nat.shiftLeft_eq]
  generalize sd.rawOCR.getD 0 0 = a at *
  omega

theorem ocr_CCS (sd : SD_Parameters_t) (h : ∀ b ∈ sd.rawOCR, b < 256) :
    (SD_GetOCR sd).CCS = regField sd.rawOCR 4 30 30 := by
  have h0 := getD_lt sd.rawOCR h 0
  simp only [SD_GetOCR, regField, regBits, regBit, Nat.toNat_testBit, Nat.reduceAdd, Nat.reduceDiv,
    Nat.reduceMod, Nat.reduceSub, Nat.reducePow, Nat.reduceMul, and_mask1, and_mask3, and_mask7, and_maskF,
    and_mask3F, and_mask7F, Nat.shiftRight_eq_div_pow, Nat.shiftLeft_eq]
  generalize sd.rawOCR.getD 0 0 = a at *
  omega

theorem ocr_UHSII_Status (sd : SD_Parameters_t) (h : ∀ b ∈ sd.rawOCR, b < 256) :
    (SD_GetOCR sd).UHSII_Status = regField sd.rawOCR 4 29 29 := by
  have h0 := getD_lt sd.rawOCR h 0
  simp only [SD_GetOCR, regField, regBits, regBit, Nat.toNat_testBit, Nat.reduceAdd, Nat.reduceDiv,
    Nat.reduceMod, Nat.reduceSub, Nat.reducePow, Nat.reduceMul, and_mask1, and_mask3, and_mask7, and_maskF,
    and_mask3F, and_mask7F, Nat.shiftRight_eq_div_pow, Nat.shiftLeft_eq]
  generalize sd.rawOCR.getD 0 0 = a at *
  omega

theorem ocr_S18A (sd : SD_Parameters_t) (h : ∀ b ∈ sd.rawOCR, b < 256) :
    (SD_GetOCR sd).S18A = regField sd.rawOCR 4 24 24 := by
  have h0 := getD_lt sd.rawOCR h 0
  simp only [SD_GetOCR, regField, regBits, regBit, Nat.toNat_testBit, Nat.reduceAdd, Nat.reduceDiv,
    Nat.reduceMod, Nat.reduceSub, Nat.reducePow, Nat.reduceMul, and_mask1, and_mask3, and_mask7, and_maskF,
    and_mask3F, and_mask7F, Nat.shiftRight_eq_div_pow, Nat.shiftLeft_eq]
  generalize sd.rawOCR.getD 0 0 = a at *
  omega

theorem ocr_reserved2 (sd : SD_Parameters_t) (h : ∀ b ∈ sd.rawOCR, b < 256) :
    (SD_GetOCR sd).reserved2 = regField sd.rawOCR 4 28 25 := by
  have h0 := getD_lt sd.rawOCR h 0
  simp only [SD_GetOCR, regField, regBits, regBit, Nat.toNat_testBit, Nat.reduceAdd, Nat.reduceDiv,
    Nat.reduceMod, Nat.reduceSub, Nat.reducePow, Nat.reduceMul, and_mask1, and_mask3, and_mask7, and_maskF,
    and_mask3F, and_mask7F, Nat.shiftRight_eq_div_pow, Nat.shiftLeft_eq]
  generalize sd.rawOCR.getD 0 0 = a at *
  omega

theorem ocr_v35_36 (sd : SD_Parameters_t) (h : ∀ b ∈ sd.rawOCR, b < 256) :
    (SD_GetOCR sd).v35_36 = regField sd.rawOCR 4 23 23 := by
  have h1 := getD_lt sd.rawOCR h 1
  simp only [SD_GetOCR, regField, regBits, regBit, Nat.toNat_testBit, Nat.reduceAdd, Nat.reduceDiv,
    Nat.reduceMod, Nat.reduceSub, Nat.reducePow, Nat.reduceMul, and_mask1, and_mask3, and_mask7, and_maskF,
    and_mask3F, and_mask7F, Nat.shiftRight_eq_div_pow, Nat.shiftLeft_eq]
  generalize sd.rawOCR.getD 1 0 = a at *
  omega

theorem ocr_v34_35 (sd : SD_Parameters_t) (h : ∀ b ∈ sd.rawOCR, b < 256) :
    (SD_GetOCR sd).v34_35 = regField sd.rawOCR 4 22 22 := by
  have h1 := getD_lt sd.rawOCR h 1
  simp only [SD_GetOCR, regField, regBits, regBit, Nat.toNat_testBit, Nat.reduceAdd, Nat.reduceDiv,
    Nat.reduceMod, Nat.reduceSub, Nat.reducePow, Nat.reduceMul, and_mask1, and_mask3, and_mask7, and_maskF,
    and_mask3F, and_mask7F, Nat.shiftRight_eq_div_pow, Nat.shiftLeft_eq]
  generalize sd.rawOCR.getD 1 0 = a at *
  omega

theorem ocr_v33_34 (sd : SD_Parameters_t) (h : ∀ b ∈ sd.rawOCR, b < 256) :
    (SD_GetOCR sd).v33_34 = regField sd.rawOCR 4 21 21 := by
  have h1 := getD_lt sd.rawOCR h 1
  simp only [SD_GetOCR, regField, regBits, regBit, Nat.toNat_testBit, Nat.reduceAdd, Nat.reduceDiv,
    Nat.reduceMod, Nat.reduceSub, Nat.reducePow, Nat.reduceMul, and_mask1, and_mask3, and_mask7, and_maskF,
    and_mask3F, and_mask7F, Nat.shiftRight_eq_div_pow, Nat.shiftLeft_eq]
  generalize sd.rawOCR.getD 1 0 = a at *
  omega

theorem ocr_v32_33 (sd : SD_Parameters_t) (h : ∀ b ∈ sd.rawOCR, b < 256) :
    (SD_GetOCR sd).v32_33 = regField sd.rawOCR 4 20 20 := by
  have h1 := getD_lt sd.rawOCR h 1
  simp only [SD_GetOCR, regField, regBits, regBit, Nat.toNat_testBit, Nat.reduceAdd, Nat.reduceDiv,
    Nat.reduceMod, Nat.reduceSub, Nat.reducePow, Nat.reduceMul, and_mask1, and_mask3, and_mask7, and_maskF,
    and_mask3F, and_mask7F, Nat.shiftRight_eq_div_pow, Nat.shiftLeft_eq]
  generalize sd.rawOCR.getD 1 0 = a at *
  omega

theorem ocr_v31_32 (sd : SD_Parameters_t) (h : ∀ b ∈ sd.rawOCR, b < 256) :
    (SD_GetOCR sd).v31_32 = regField sd.rawOCR 4 19 19 := by
  have h1 := getD_lt sd.rawOCR h 1
  simp only [SD_GetOCR, regField, regBits, regBit, Nat.toNat_testBit, Nat.reduceAdd, Nat.reduceDiv,
    Nat.reduceMod, Nat.reduceSub, Nat.reducePow, Nat.reduceMul, and_mask1, and_mask3, and_mask7, and_maskF,
    and_mask3F, and_mask7F, Nat.shiftRight_eq_div_pow, Nat.shiftLeft_eq]
  generalize sd.rawOCR.getD 1 0 = a at *
  omega

theorem ocr_v30_31 (sd : SD_Parameters_t) (h : ∀ b ∈ sd.rawOCR, b < 256) :
    (SD_GetOCR sd).v30_31 = regField sd.rawOCR 4 18 18 := by
  have h1 := getD_lt sd.rawOCR h 1
  simp only [SD_GetOCR, regField, regBits, regBit, Nat.toNat_testBit, Nat.reduceAdd, Nat.reduceDiv,
    Nat.reduceMod, Nat.reduceSub, Nat.reducePow, Nat.reduceMul, and_mask1, and_mask3, and_mask7, and_maskF,
    and_mask3F, and_mask7F, Nat.shiftRight_eq_div_pow, Nat.shiftLeft_eq]
  generalize sd.rawOCR.getD 1 0 = a at *
  omega

theorem ocr_v29_30 (sd : SD_Parameters_t) (h : ∀ b ∈ sd.rawOCR, b < 256) :
    (SD_GetOCR sd).v29_30 = regField sd.rawOCR 4 17 17 := by
  have h1 := getD_lt sd.rawOCR h 1
  simp only [SD_GetOCR, regField, regBits, regBit, Nat.toNat_testBit, Nat.reduceAdd, Nat.reduceDiv,
    Nat.reduceMod, Nat.reduceSub, Nat.reducePow, Nat.reduceMul, and_mask1, and_mask3, and_mask7, and_maskF,
    and_mask3F, and_mask7F, Nat.shiftRight_eq_div_pow, Nat.shiftLeft_eq]
  generalize sd.rawOCR.getD 1 0 = a at *
  omega

theorem ocr_v28_29 (sd : SD_Parameters_t) (h : ∀ b ∈ sd.rawOCR, b < 256) :
    (SD_GetOCR sd).v28_29 = regField sd.rawOCR 4 16 16 := by
  have h1 := getD_lt sd.rawOCR h 1
  simp only [SD_GetOCR, regField, regBits, regBit, Nat.toNat_testBit, Nat.reduceAdd, Nat.reduceDiv,
    Nat.reduceMod, Nat.reduceSub, Nat.reducePow, Nat.reduceMul, and_mask1, and_mask3, and_mask7, and_maskF,
    and_mask3F, and_mask7F, Nat.shiftRight_eq_div_pow, Nat.shiftLeft_eq]
  generalize sd.rawOCR.getD 1 0 = a at *
  omega

theorem ocr_v27_28 (sd : SD_Parameters_t) (h : ∀ b ∈ sd.rawOCR, b < 256) :
    (SD_GetOCR sd).v27_28 = regField sd.rawOCR 4 15 15 := by
  have h2 := getD_lt sd.rawOCR h 2
  simp only [SD_GetOCR, regField, regBits, regBit, Nat.toNat_testBit, Nat.reduceAdd, Nat.reduceDiv,
    Nat.reduceMod, Nat.reduceSub, Nat.reducePow, Nat.reduceMul, and_mask1, and_mask3, and_mask7, and_maskF,
    and_mask3F, and_mask7F, Nat.shiftRight_eq_div_pow, Nat.shiftLeft_eq]
  generalize sd.rawOCR.getD 2 0 = a at *
  omega

theorem ocr_reserved1 (sd : SD_Parameters_t) (h : ∀ b ∈ sd.rawOCR, b < 256) :
    (SD_GetOCR sd).reserved1 = regField sd.rawOCR 4 14 8 := by
  have h2 := getD_lt sd.rawOCR h 2
  simp only [SD_GetOCR, regField, regBits, regBit, Nat.toNat_testBit, Nat.reduceAdd, Nat.reduceDiv,
    Nat.reduceMod, Nat.reduceSub, Nat.reducePow, Nat.reduceMul, and_mask1, and_mask3, and_mask7, and_maskF,
    and_mask3F, and_mask7F, Nat.shiftRight_eq_div_pow, Nat.shiftLeft_eq]
  generalize sd.rawOCR.getD 2 0 = a at *
  omega

theorem ocr_LVR (sd : SD_Parameters_t) (h : ∀ b ∈ sd.rawOCR, b < 256) :
    (SD_GetOCR sd).LVR = regField sd.rawOCR 4 7 7 := by
  have h3 := getD_lt sd.rawOCR h 3
  simp only [SD_GetOCR, regField, regBits, regBit, Nat.toNat_testBit, Nat.reduceAdd, Nat.reduceDiv,
    Nat.reduceMod, Nat.reduceSub, Nat.reducePow, Nat.reduceMul, and_mask1, and_mask3, and_mask7, and_maskF,
    and_mask3F, and_mask7F, Nat.shiftRight_eq_div_pow, Nat.shiftLeft_eq]
  generalize sd.rawOCR.getD 3 0 = a at *
  omega

theorem ocr_reserved (sd : SD_Parameters_t) (h : ∀ b ∈ sd.rawOCR, b < 256) :
    (SD_GetOCR sd).reserved = regField sd.rawOCR 4 6 0 := by
  have h3 := getD_lt sd.rawOCR h 3
  simp only [SD_GetOCR, regField, regBits, regBit, Nat.toNat_testBit, Nat.reduceAdd, Nat.reduceDiv,
    Nat.reduceMod, Nat.reduceSub, Nat.reducePow, Nat.reduceMul, and_mask1, and_mask3, and_mask7, and_maskF,
    and_mask3F, and_mask7F, Nat.shiftRight_eq_div_pow, Nat.shiftLeft_eq]
  generalize sd.rawOCR.getD 3 0 = a at *
  omega


theorem cid_MID (sd : SD_Parameters_t) (h : ∀ b ∈ sd.rawCID, b < 256) :
    (SD_GetCID sd).MID = sd.rawCID.getD 0 0 := by
  have h0 := getD_lt sd.rawCID h 0
  simp only [SD_GetCID, regField, regBits, regBit, Nat.toNat_testBit, Nat.reduceAdd, Nat.reduceDiv,
    Nat.reduceMod, Nat.reduceSub, Nat.reducePow, Nat.reduceMul, and_mask1, and_mask3, and_mask7, and_maskF,
    and_mask3F, and_mask7F, Nat.shiftRight_eq_div_pow, Nat.shiftLeft_eq]
  generalize sd.rawCID.getD 0 0 = a at *
  omega

theorem cid_OID (sd : SD_Parameters_t) (h : ∀ b ∈ sd.rawCID, b < 256) :
    (SD_GetCID sd).OID = (sd.rawCID.getD 1 0 <<< 8) ||| sd.rawCID.getD 2 0 := by
  have h1 := getD_lt sd.rawCID h 1
  have h2 := getD_lt sd.rawCID h 2
  simp only [SD_GetCID, regField, regBits, regBit, Nat.toNat_testBit, Nat.reduceAdd, Nat.reduceDiv,
    Nat.reduceMod, Nat.reduceSub, Nat.reducePow, Nat.reduceMul, and_mask1, and_mask3, and_mask7, and_maskF,
    and_mask3F, and_mask7F, Nat.shiftRight_eq_div_pow, Nat.shiftLeft_eq]
  generalize sd.rawCID.getD 1 0 = a at *
  generalize sd.rawCID.getD 2 0 = b at *
  rw [or_eq_add _ _ 8 (by omega) (by omega)]
  omega

theorem cid_PRV (sd : SD_Parameters_t) (h : ∀ b ∈ sd.rawCID, b < 256) :
    (SD_GetCID sd).PRV = sd.rawCID.getD 8 0 := by
  have h8 := getD_lt sd.rawCID h 8
  simp only [SD_GetCID, regField, regBits, regBit, Nat.toNat_testBit, Nat.reduceAdd, Nat.reduceDiv,
    Nat.reduceMod, Nat.reduceSub, Nat.reducePow, Nat.reduceMul, and_mask1, and_mask3, and_mask7, and_maskF,
    and_mask3F, and_mask7F, Nat.shiftRight_eq_div_pow, Nat.shiftLeft_eq]
  generalize sd.rawCID.getD 8 0 = a at *
  omega

theorem cid_PSN (sd : SD_Parameters_t) (h : ∀ b ∈ sd.rawCID, b < 256) :
    (SD_GetCID sd).PSN = sd.rawCID.getD 9 0 * 2 ^ 24 + sd.rawCID.getD 10 0 * 2 ^ 16 + sd.rawCID.getD 11 0 * 2 ^ 8 +
      sd.rawCID.getD 12 0 := by
  have h9 := getD_lt sd.rawCID h 9
  have h10 := getD_lt sd.rawCID h 10
  have h11 := getD_lt sd.rawCID h 11
  have h12 := getD_lt sd.rawCID h 12
  simp only [SD_GetCID, regField, regBits, regBit, Nat.toNat_testBit, Nat.reduceAdd, Nat.reduceDiv,
    Nat.reduceMod, Nat.reduceSub, Nat.reducePow, Nat.reduceMul, and_mask1, and_mask3, and_mask7, and_maskF,
    and_mask3F, and_mask7F, Nat.shiftRight_eq_div_pow, Nat.shiftLeft_eq]
  generalize sd.rawCID.getD 9 0 = a at *
  generalize sd.rawCID.getD 10 0 = b at *
  generalize sd.rawCID.getD 11 0 = c at *
  generalize sd.rawCID.getD 12 0 = d at *
  rw [or_eq_add (a * 16777216) (b * 65536) 24 (by omega) (by omega),
    or_eq_add (a * 16777216 + b * 65536) (c * 256) 16 (by omega) (by omega),
    or_eq_add _ _ 8 (by omega) (by omega)]
  omega

theorem cid_MDT (sd : SD_Parameters_t) (h : ∀ b ∈ sd.rawCID, b < 256) :
    (SD_GetCID sd).MDT = ((sd.rawCID.getD 13 0 &&& 0x0F) <<< 8) ||| sd.rawCID.getD 14 0 := by
  have h13 := getD_lt sd.rawCID h 13
  have h14 := getD_lt sd.rawCID h 14
  simp only [SD_GetCID, regField, regBits, regBit, Nat.toNat_testBit, Nat.reduceAdd, Nat.reduceDiv,
    Nat.reduceMod, Nat.reduceSub, Nat.reducePow, Nat.reduceMul, and_mask1, and_mask3, and_mask7, and_maskF,
    and_mask3F, and_mask7F, Nat.shiftRight_eq_div_pow, Nat.shiftLeft_eq]
  generalize sd.rawCID.getD 13 0 = a at *
  generalize sd.rawCID.getD 14 0 = b at *
  rw [or_eq_add _ _ 8 (by omega) (by omega)]
  omega

theorem cid_crc (sd : SD_Parameters_t) (h : ∀ b ∈ sd.rawCID, b < 256) :
    (SD_GetCID sd).crc = sd.rawCID.getD 15 0 >>> 1 := by
  have h15 := getD_lt sd.rawCID h 15
  simp only [SD_GetCID, regField, regBits, regBit, Nat.toNat_testBit, Nat.reduceAdd, Nat.reduceDiv,
    Nat.reduceMod, Nat.reduceSub, Nat.reducePow, Nat.reduceMul, and_mask1, and_mask3, and_mask7, and_maskF,
    and_mask3F, and_mask7F, Nat.shiftRight_eq_div_pow, Nat.shiftLeft_eq]
  generalize sd.rawCID.getD 15 0 = a at *
  omega

theorem cid_reserved (sd : SD_Parameters_t) (h : ∀ b ∈ sd.rawCID, b < 256) :
    (SD_GetCID sd).reserved = sd.rawCID.getD 15 0 &&& 1 := by
  have h15 := getD_lt sd.rawCID h 15
  simp only [SD_GetCID, regField, regBits, regBit, Nat.toNat_testBit, Nat.reduceAdd, Nat.reduceDiv,
    Nat.reduceMod, Nat.reduceSub, Nat.reducePow, Nat.reduceMul, and_mask1, and_mask3, and_mask7, and_maskF,
    and_mask3F, and_mask7F, Nat.shiftRight_eq_div_pow, Nat.shiftLeft_eq]
  generalize sd.rawCID.getD 15 0 = a at *
  omega

theorem cid_PNM (sd : SD_Parameters_t) (h : ∀ b ∈ sd.rawCID, b < 256) :
    (SD_GetCID sd).PNM = [sd.rawCID.getD 3 0, sd.rawCID.getD 4 0, sd.rawCID.getD 5 0,
      sd.rawCID.getD 6 0, sd.rawCID.getD 7 0] := by
  have h3 := getD_lt sd.rawCID h 3
  have h4 := getD_lt sd.rawCID h 4
  have h5 := getD_lt sd.rawCID h 5
  have h6 := getD_lt sd.rawCID h 6
  have h7 := getD_lt sd.rawCID h 7
  simp only [SD_GetCID, Nat.reducePow]
  rw [Nat.mod_eq_of_lt h3, Nat.mod_eq_of_lt h4, Nat.mod_eq_of_lt h5, Nat.mod_eq_of_lt h6,
    Nat.mod_eq_of_lt h7]


theorem setCapacity_capacity (x : Machine) (c : Nat) : (x.setCapacity c).sd.capacity = c := rfl

theorem setCapacity_rawCSD (x : Machine) (c : Nat) :
    (x.setCapacity c).sd.rawCSD = x.sd.rawCSD := rfl

theorem setCapacity_version (x : Machine) (c : Nat) :
    (x.setCapacity c).sd.version = x.sd.version := rfl

theorem setType_capacity (x : Machine) (c : SD_Type_t) :
    (x.setType c).sd.capacity = x.sd.capacity := rfl

theorem setType_rawCSD (x : Machine) (c : SD_Type_t) :
    (x.setType c).sd.rawCSD = x.sd.rawCSD := rfl

theorem setType_version (x : Machine) (c : SD_Type_t) :
    (x.setType c).sd.version = x.sd.version := rfl

theorem setBlockSize_rawCSD (x : Machine) (c : Nat) :
    (x.setBlockSize c).sd.rawCSD = x.sd.rawCSD := rfl

theorem setBlockSize_version (x : Machine) (c : Nat) :
    (x.setBlockSize c).sd.version = x.sd.version := rfl

theorem ReadCSD_capacity (m : Machine) (h : (SD_ReadCSD m).1 = SD_OK) :
    ((SD_ReadCSD m).2.sd.version = 2 →
      (SD_ReadCSD m).2.sd.capacity =
        (toUInt64 (toInt32 (((SD_CSDv2_cSize (SD_ReadCSD m).2.sd.rawCSD : Nat) + 1) * 2 ^ 9))
          <<< 10) % 18446744073709551616) ∧
    ((SD_ReadCSD m).2.sd.version ≠ 2 →
      (SD_ReadCSD m).2.sd.capacity =
        toUInt64 (toInt32 (toInt32 (((SD_CSDv1_cSize (SD_ReadCSD m).2.sd.rawCSD : Nat) + 1) *
          (((1 <<< (SD_CSDv1_sizeMultiplier (SD_ReadCSD m).2.sd.rawCSD + 2)) % 256 : Nat) : Int))
            * 2 ^ 9))) := by
  generalize hr : SD_ReadCSD m = r at h ⊢
  unfold SD_ReadCSD SD_SetBlockLength at hr
  simp only [] at hr
  generalize (SD_ReadData (SD_GetToken (SD_SendCMD m SD_CMD_9 0 SD_R1_NORMAL_STATE).2
    SD_START_RMW_BLOCK_TOKEN).2 16) = d at hr
  generalize (d.2.2.setRawCSD (storeBytes d.2.2.sd.rawCSD d.2.1)) = m1 at hr
  have hb := only_SendCMD (m1.setBlockSize 512) (m1.setBlockSize 512) SD_CMD_16
    ((m1.setBlockSize 512).sd.blockSize % 65536) SD_R1_NORMAL_STATE (OnlyR1.orefl _)
  generalize (SD_SendCMD (m1.setBlockSize 512) SD_CMD_16
    ((m1.setBlockSize 512).sd.blockSize % 65536) SD_R1_NORMAL_STATE) = b at hr hb
  split_ifs at hr with h1 h2 h3 h4 h5 h6
  all_goals subst hr
  all_goals try (cases h; done)
  · exact ⟨fun _ => rfl, fun hv => absurd h4 hv⟩
  · exact ⟨fun _ => rfl, fun hv => absurd h4 hv⟩
  · obtain ⟨-, r, hr⟩ := hb
    refine ⟨fun hv => ?_, fun _ => ?_⟩
    · apply absurd _ h4
      rw [setCapacity_version, hr] at hv
      exact hv
    · rw [setCapacity_capacity, setCapacity_rawCSD]
      simp only [Nat.cast_one, Nat.cast_ofNat]

/-- C16: for a raw CSD of bytes (bit `n` of the 128-bit register being bit `n mod 8` of
`rawCSD[15 - n / 8]`), `SD_GetCSD_v1` returns `cSize` = bits [73:62], `sizeMultiplier` =
bits [49:47], `readBlockLen` = bits [83:80], `writeBlockLen` = bits [25:22], `sectorSize` =
bits [45:39], `wpGrpSize` = bits [38:32], `r2wFactor` = bits [28:26], `fileFormat` = bits
[11:10], `crc` = bits [7:1], `CSDStructure` = bits [127:126], `TAAC`, `NSAC`, `transferSpeed`
= bytes 1, 2, 3, and `SD_GetCSD_v2` returns `cSize` = bits [69:48]; these `cSize` and
`sizeMultiplier` values are the operands of the capacity expressions of `SD_ReadCSD`. -/
theorem C16_csd_fields_follow_register_layout (sd : SD_Parameters_t)
    (h : ∀ b ∈ sd.rawCSD, b < 256) :
    (SD_GetCSD_v1 sd).cSize = regField sd.rawCSD 16 73 62 ∧
    (SD_GetCSD_v1 sd).sizeMultiplier = regField sd.rawCSD 16 49 47 ∧
    (SD_GetCSD_v1 sd).readBlockLen = regField sd.rawCSD 16 83 80 ∧
    (SD_GetCSD_v1 sd).writeBlockLen = regField sd.rawCSD 16 25 22 ∧
    (SD_GetCSD_v1 sd).sectorSize = regField sd.rawCSD 16 45 39 ∧
    (SD_GetCSD_v1 sd).wpGrpSize = regField sd.rawCSD 16 38 32 ∧
    (SD_GetCSD_v1 sd).r2wFactor = regField sd.rawCSD 16 28 26 ∧
    (SD_GetCSD_v1 sd).fileFormat = regField sd.rawCSD 16 11 10 ∧
    (SD_GetCSD_v1 sd).crc = regField sd.rawCSD 16 7 1 ∧
    (SD_GetCSD_v1 sd).CSDStructure = regField sd.rawCSD 16 127 126 ∧
    (SD_GetCSD_v1 sd).TAAC = sd.rawCSD.getD 1 0 ∧
    (SD_GetCSD_v1 sd).NSAC = sd.rawCSD.getD 2 0 ∧
    (SD_GetCSD_v1 sd).transferSpeed = sd.rawCSD.getD 3 0 ∧
    (SD_GetCSD_v2 sd).cSize = regField sd.rawCSD 16 69 48 ∧
    (∀ m : Machine, (SD_ReadCSD m).1 = SD_OK → (SD_ReadCSD m).2.sd = sd →
      (sd.version = 2 →
        sd.capacity = (toUInt64 (toInt32 ((((SD_GetCSD_v2 sd).cSize : Nat) + 1) * 2 ^ 9))
          <<< 10) % 18446744073709551616) ∧
      (sd.version ≠ 2 →
        sd.capacity = toUInt64 (toInt32 (toInt32 ((((SD_GetCSD_v1 sd).cSize : Nat) + 1) *
          (((1 <<< ((SD_GetCSD_v1 sd).sizeMultiplier + 2)) % 256 : Nat) : Int)) * 2 ^ 9)))) := by
  refine ⟨csd_v1_cSize sd h, csd_v1_sizeMultiplier sd h, csd_v1_readBlockLen sd h,
    csd_v1_writeBlockLen sd h, csd_v1_sectorSize sd h, csd_v1_wpGrpSize sd h,
    csd_v1_r2wFactor sd h, csd_v1_fileFormat sd h, csd_v1_crc sd h, csd_v1_CSDStructure sd h,
    csd_v1_TAAC sd h, csd_v1_NSAC sd h, csd_v1_transferSpeed sd h, csd_v2_cSize sd h, ?_⟩
  intro m hok hsd
  have hc := ReadCSD_capacity m hok
  rw [hsd] at hc
  rw [csd_v2_cSize_expr sd h, csd_v1_cSize_expr sd h, csd_v1_sizeMultiplier_expr sd h]
  exact hc

theorem C16_csd_fields_follow_register_layout_witness :
    (SD_GetCSD_v1 (SD_ReadCSD machineCSDv1).2.sd).cSize =
      regField (SD_ReadCSD machineCSDv1).2.sd.rawCSD 16 73 62 ∧
    (SD_GetCSD_v1 (SD_ReadCSD machineCSDv1).2.sd).sizeMultiplier =
      regField (SD_ReadCSD machineCSDv1).2.sd.rawCSD 16 49 47 :=
  ⟨(C16_csd_fields_follow_register_layout (SD_ReadCSD machineCSDv1).2.sd (by decide!)).1,
   (C16_csd_fields_follow_register_layout (SD_ReadCSD machineCSDv1).2.sd (by decide!)).2.1⟩

/-- C17: for a raw OCR of bytes (`rawOCR[0]` holding the register bits 31..24), `SD_GetOCR`
returns `busy` = bit 31, `CCS` = bit 30, `UHSII_Status` = bit 29, `S18A` = bit 24, `v35_36`
.. `v28_29` = bits 23 .. 16, `v27_28` = bit 15, `LVR` = bit 7, and in the reserved members
the bits 28..25, 14..8 and 6..0. -/
theorem C17_ocr_fields_follow_register_layout (sd : SD_Parameters_t)
    (h : ∀ b ∈ sd.rawOCR, b < 256) :
    (SD_GetOCR sd).busy = regField sd.rawOCR 4 31 31 ∧
    (SD_GetOCR sd).CCS = regField sd.rawOCR 4 30 30 ∧
    (SD_GetOCR sd).UHSII_Status = regField sd.rawOCR 4 29 29 ∧
    (SD_GetOCR sd).S18A = regField sd.rawOCR 4 24 24 ∧
    (SD_GetOCR sd).v35_36 = regField sd.rawOCR 4 23 23 ∧
    (SD_GetOCR sd).v34_35 = regField sd.rawOCR 4 22 22 ∧
    (SD_GetOCR sd).v33_34 = regField sd.rawOCR 4 21 21 ∧
    (SD_GetOCR sd).v32_33 = regField sd.rawOCR 4 20 20 ∧
    (SD_GetOCR sd).v31_32 = regField sd.rawOCR 4 19 19 ∧
    (SD_GetOCR sd).v30_31 = regField sd.rawOCR 4 18 18 ∧
    (SD_GetOCR sd).v29_30 = regField sd.rawOCR 4 17 17 ∧
    (SD_GetOCR sd).v28_29 = regField sd.rawOCR 4 16 16 ∧
    (SD_GetOCR sd).v27_28 = regField sd.rawOCR 4 15 15 ∧
    (SD_GetOCR sd).LVR = regField sd.rawOCR 4 7 7 ∧
    (SD_GetOCR sd).reserved2 = regField sd.rawOCR 4 28 25 ∧
    (SD_GetOCR sd).reserved1 = regField sd.rawOCR 4 14 8 ∧
    (SD_GetOCR sd).reserved = regField sd.rawOCR 4 6 0 :=
  ⟨ocr_busy sd h, ocr_CCS sd h, ocr_UHSII_Status sd h, ocr_S18A sd h, ocr_v35_36 sd h,
    ocr_v34_35 sd h, ocr_v33_34 sd h, ocr_v32_33 sd h, ocr_v31_32 sd h, ocr_v30_31 sd h,
    ocr_v29_30 sd h, ocr_v28_29 sd h, ocr_v27_28 sd h, ocr_LVR sd h, ocr_reserved2 sd h,
    ocr_reserved1 sd h, ocr_reserved sd h⟩

theorem C17_ocr_fields_follow_register_layout_witness :
    (SD_GetOCR { sessionReady with rawOCR := [0xC0, 0xFF, 0x80, 0x00] }).busy =
      regField [0xC0, 0xFF, 0x80, 0x00] 4 31 31 ∧
    (SD_GetOCR { sessionReady with rawOCR := [0xC0, 0xFF, 0x80, 0x00] }).CCS =
      regField [0xC0, 0xFF, 0x80, 0x00] 4 30 30 :=
  ⟨(C17_ocr_fields_follow_register_layout
      { sessionReady with rawOCR := [0xC0, 0xFF, 0x80, 0x00] } (by decide)).1,
   (C17_ocr_fields_follow_register_layout
      { sessionReady with rawOCR := [0xC0, 0xFF, 0x80, 0x00] } (by decide)).2.1⟩

/-- C18: for a raw CID of bytes, `SD_GetCID` returns `MID = rawCID[0]`,
`OID = (rawCID[1] << 8) | rawCID[2]`, `PNM[i] = rawCID[3 + i]` for `i = 0..4`,
`PRV = rawCID[8]`, `PSN` = the big-endian value of `rawCID[9..12]`,
`MDT = ((rawCID[13] & 0x0F) << 8) | rawCID[14]`, `crc = rawCID[15] >> 1` and
`reserved = rawCID[15] & 1`. -/
theorem C18_cid_fields (sd : SD_Parameters_t) (h : ∀ b ∈ sd.rawCID, b < 256) :
    (SD_GetCID sd).MID = sd.rawCID.getD 0 0 ∧
    (SD_GetCID sd).OID = (sd.rawCID.getD 1 0 <<< 8) ||| sd.rawCID.getD 2 0 ∧
    (SD_GetCID sd).PNM = [sd.rawCID.getD 3 0, sd.rawCID.getD 4 0, sd.rawCID.getD 5 0,
      sd.rawCID.getD 6 0, sd.rawCID.getD 7 0] ∧
    (SD_GetCID sd).PRV = sd.rawCID.getD 8 0 ∧
    (SD_GetCID sd).PSN = sd.rawCID.getD 9 0 * 2 ^ 24 + sd.rawCID.getD 10 0 * 2 ^ 16 +
      sd.rawCID.getD 11 0 * 2 ^ 8 + sd.rawCID.getD 12 0 ∧
    (SD_GetCID sd).MDT = ((sd.rawCID.getD 13 0 &&& 0x0F) <<< 8) ||| sd.rawCID.getD 14 0 ∧
    (SD_GetCID sd).crc = sd.rawCID.getD 15 0 >>> 1 ∧
    (SD_GetCID sd).reserved = sd.rawCID.getD 15 0 &&& 1 :=
  ⟨cid_MID sd h, cid_OID sd h, cid_PNM sd h, cid_PRV sd h, cid_PSN sd h, cid_MDT sd h,
    cid_crc sd h, cid_reserved sd h⟩

theorem C18_cid_fields_witness :
    (SD_GetCID (SD_Init 20 machineInitV1).2.sd).MID = 0x03 ∧
    (SD_GetCID (SD_Init 20 machineInitV1).2.sd).PSN = 0x12345678 :=
  ⟨(C18_cid_fields (SD_Init 20 machineInitV1).2.sd (by decide!)).1.trans (by decide!),
   (C18_cid_fields (SD_Init 20 machineInitV1).2.sd (by decide!)).2.2.2.2.1.trans (by decide!)⟩

/-! ## Number of written blocks -/

theorem OnlyR1.blockSize_eq {m0 m : Machine} (h : OnlyR1 m0 m) :
    m.sd.blockSize = m0.sd.blockSize := by
  obtain ⟨-, r, e⟩ := h
  rw [e]

theorem status_ok_of_ne_error (s : SD_SPI_Status_t) (h : s ≠ SD_SPI_ERROR) : s = SD_SPI_OK := by
  cases s
  · rfl
  · exact absurd rfl h

theorem Recv8_one_logged (m : Machine) (h : (SD_SPI_Receive8Data m 1).1 ≠ SD_SPI_ERROR) :
    (SD_SPI_Receive8Data m 1).2.1 = [(m.rx8 0).item 0 % 256] ∧
    (SD_SPI_Receive8Data m 1).2.2.log =
      Event.recv8 1 SD_SPI_OK [(m.rx8 0).item 0 % 256] :: m.log := by
  have hs : (m.rx8 0).st = SD_SPI_OK := status_ok_of_ne_error _ h
  constructor
  · simp [SD_SPI_Receive8Data, RxOutcome.count, hs, List.range_succ]
  · simp [SD_SPI_Receive8Data, RxOutcome.count, hs, List.range_succ]

theorem Timeout_log (m : Machine) (a b : Nat) : (DWT_Timeout m a b).2.log = m.log := by
  unfold DWT_Timeout
  simp only []
  split_ifs <;> rfl

theorem length_byte_pairs (f g : Nat → Nat) (n : Nat) :
    ((List.range n).flatMap (fun j => [f j, g j])).length = 2 * n := by
  induction n with
  | zero => rfl
  | succ n ih =>
    rw [List.range_succ, List.flatMap_append, List.length_append, ih]
    simp
    omega

theorem ReadData_ok (m : Machine) (len : Nat) (h : (SD_ReadData m len).1 = SD_OK) :
    (SD_ReadData m len).2.2.log =
      Event.recv16 (len >>> 1) SD_SPI_OK (SD_ReadData m len).2.1 :: m.log ∧
    (SD_ReadData m len).2.1.length = 2 * (len >>> 1) ∧
    (SD_ReadData m len).2.2.sd = m.sd ∧ (SD_ReadData m len).2.2.rx8 = m.rx8 := by
  have hs : (m.rx16 0).st = SD_SPI_OK := by
    apply status_ok_of_ne_error
    intro he
    have : (SD_ReadData m len).1 = SD_ERROR := by
      simp [SD_ReadData, SD_SPI_Receive16Data, he]
    rw [this] at h
    cases h
  refine ⟨?_, ?_, ?_, ?_⟩
  · simp [SD_ReadData, SD_SPI_Receive16Data, RxOutcome.count, hs]
  · simp only [SD_ReadData, SD_SPI_Receive16Data, RxOutcome.count, hs, if_true]
    split_ifs <;> exact length_byte_pairs _ _ _
  · simp only [SD_ReadData]
    split_ifs <;> rfl
  · simp only [SD_ReadData]
    split_ifs <;> rfl

theorem GetToken_ok_reads (m : Machine)
    (h : (SD_GetToken m SD_START_RMW_BLOCK_TOKEN).1 = SD_OK) :
    ∃ k, 1 ≤ k ∧ k ≤ 100 ∧ (SD_GetToken m SD_START_RMW_BLOCK_TOKEN).2 = afterReads m k := by
  have e : SD_GetToken_poll SD_START_RMW_BLOCK_TOKEN 100 m 0xFF =
      if (SD_SPI_Receive8Data m 1).1 = SD_SPI_ERROR then (none, (SD_SPI_Receive8Data m 1).2.2)
      else SD_GetToken_poll SD_START_RMW_BLOCK_TOKEN 99 (SD_SPI_Receive8Data m 1).2.2
        ((SD_SPI_Receive8Data m 1).2.1.headD 0xFF) := by
    show SD_GetToken_poll SD_START_RMW_BLOCK_TOKEN (99 + 1) m 0xFF = _
    rw [SD_GetToken_poll]
    simp only []
    rw [if_pos (by decide)]
  unfold SD_GetToken at h ⊢
  simp only [] at h ⊢
  rw [e] at h ⊢
  split_ifs at h ⊢ with he
  obtain ⟨k, hk, ek⟩ := GetToken_poll_reads SD_START_RMW_BLOCK_TOKEN 99
    (SD_SPI_Receive8Data m 1).2.2 ((SD_SPI_Receive8Data m 1).2.1.headD 0xFF)
  split <;> [skip; split_ifs] <;> exact ⟨k + 1, by omega, by omega, ek⟩

theorem ReadMultipleBlock_loop_ok : ∀ (num : Nat) (m : Machine) (data : List Nat) (i off : Nat),
    off = i * m.sd.blockSize →
    (SD_ReadMultipleBlock_loop num m data off).1 = SD_OK →
    ∃ blocks : List (List Event × List Nat),
      blocks.length = num ∧
      (∀ b ∈ blocks, b.1 ≠ [] ∧ b.1.length ≤ 100 ∧ (∀ e ∈ b.1, e.isRecv8 = true) ∧
        b.2.length = 2 * (m.sd.blockSize >>> 1)) ∧
      (SD_ReadMultipleBlock_loop num m data off).2.2.log =
        blockReadLog (m.sd.blockSize >>> 1) blocks ++ m.log ∧
      (SD_ReadMultipleBlock_loop num m data off).2.1 =
        storeBlocks m.sd.blockSize (blocks.map Prod.snd) i data ∧
      (SD_ReadMultipleBlock_loop num m data off).2.2.sd = m.sd ∧
      ∃ p, p ≤ 100 * num ∧
        ∀ j, (SD_ReadMultipleBlock_loop num m data off).2.2.rx8 j = m.rx8 (j + p) := by
  intro num
  induction num with
  | zero =>
    intro m data i off _ _
    exact ⟨[], rfl, by simp, rfl, rfl, rfl, 0, le_refl _, fun j => rfl⟩
  | succ num ih =>
    intro m data i off hoff h
    generalize hr : SD_ReadMultipleBlock_loop (num + 1) m data off = r at h ⊢
    rw [SD_ReadMultipleBlock_loop] at hr
    simp only [] at hr
    split_ifs at hr with h1 h2
    · subst hr; cases h
    · subst hr; cases h
    · subst hr
      have ht : (SD_GetToken m SD_START_RMW_BLOCK_TOKEN).1 = SD_OK := not_not.1 h1
      have hd := not_not.1 h2
      obtain ⟨k, hk1, hk2, ek⟩ := GetToken_ok_reads m ht
      obtain ⟨f1, -, f3, l, f4, f5, f6⟩ := afterReads_facts m k
      rw [← ek] at f1 f3 f4
      obtain ⟨g1, g2, g3, g4⟩ := ReadData_ok _ _ hd
      generalize SD_GetToken m SD_START_RMW_BLOCK_TOKEN = t at *
      generalize hdd : SD_ReadData t.2 t.2.sd.blockSize = d at *
      have hbs : d.2.2.sd.blockSize = m.sd.blockSize := by rw [g3, f1]
      rw [hbs] at h ⊢
      obtain ⟨blocks, b1, b2, b3, b4, b5, p, b6, b7⟩ :=
        ih d.2.2 (storeBytesAt data off d.2.1) (i + 1) (off + m.sd.blockSize)
          (by rw [hoff, hbs, Nat.succ_mul]) h
      rw [hbs] at b2 b3 b4
      rw [f1] at g1 g2
      refine ⟨(l, d.2.1) :: blocks, by simp [b1], ?_, ?_, ?_, ?_, p + k, by omega, ?_⟩
      · intro b hb
        rcases List.mem_cons.1 hb with rfl | hb
        · show l ≠ [] ∧ l.length ≤ 100 ∧ (∀ e ∈ l, e.isRecv8 = true) ∧
            d.2.1.length = 2 * (m.sd.blockSize >>> 1)
          refine ⟨?_, by omega, f6, g2⟩
          intro hl
          rw [hl] at f5
          simp at f5
          omega
        · exact b2 b hb
      · rw [b3, g1, f4]
        simp [blockReadLog]
      · rw [b4, hoff]
        rfl
      · rw [b5, g3, f1]
      · intro j
        rw [b7, g4, f3, Nat.add_assoc]

theorem StopTransfer_loop_ok (ts : Nat) : ∀ (fuel : Nat) (m : Machine) (token : Nat),
    (SD_StopTransfer_loop ts fuel m token).1 = some SD_OK →
    (token = 0xFF ∧ (SD_StopTransfer_loop ts fuel m token).2.log = m.log) ∨
    (token ≠ 0xFF ∧ ∃ rest,
      (SD_StopTransfer_loop ts fuel m token).2.log =
        Event.recv8 1 SD_SPI_OK [0xFF] :: (rest ++ m.log) ∧
      ∀ e ∈ rest, ∃ b, e = Event.recv8 1 SD_SPI_OK [b] ∧ b ≠ 0xFF) := by
  intro fuel
  induction fuel with
  | zero =>
    intro m token h
    simp [SD_StopTransfer_loop] at h
  | succ fuel ih =>
    intro m token h
    generalize hr : SD_StopTransfer_loop ts (fuel + 1) m token = r at h ⊢
    rw [SD_StopTransfer_loop] at hr
    simp only [] at hr
    split_ifs at hr with h1 h2 h3
    · subst hr; simp at h
    · subst hr; simp at h
    · subst hr
      obtain ⟨e1, e2⟩ := Recv8_one_logged m h2
      have e3 := Timeout_log (SD_SPI_Receive8Data m 1).2.2 SD_TIMEOUT ts
      rw [e1] at h ⊢
      rw [e2] at e3
      simp only [List.headD_cons] at h ⊢
      generalize (DWT_Timeout (SD_SPI_Receive8Data m 1).2.2 SD_TIMEOUT ts).2 = mt at *
      rcases ih mt _ h with ⟨hb, hl⟩ | ⟨hb, rest, hl, hrest⟩
      · refine Or.inr ⟨h1, [], ?_, by simp⟩
        rw [hl, e3, hb]
        rfl
      · refine Or.inr ⟨h1, rest ++ [Event.recv8 1 SD_SPI_OK [(m.rx8 0).item 0 % 256]], ?_, ?_⟩
        · rw [hl, e3]
          simp
        · intro e he
          rcases List.mem_append.1 he with he | he
          · exact hrest e he
          · rw [List.mem_singleton] at he
            exact ⟨_, he, hb⟩
    · subst hr
      exact Or.inl ⟨not_not.1 h1, rfl⟩

theorem StopTransfer_ok (fuel : Nat) (m : Machine) (h : (SD_StopTransfer fuel m).1 = some SD_OK) :
    ∃ polls rest,
      (SD_StopTransfer fuel m).2.log =
        Event.recv8 1 SD_SPI_OK [0xFF] :: (rest ++ (polls ++
          Event.send8 (SD_SendCMD_frame m.SD_CRC7_Table SD_CMD_12 0) (m.tx8 0) :: m.log)) ∧
      (∀ e ∈ rest, ∃ b, e = Event.recv8 1 SD_SPI_OK [b] ∧ b ≠ 0xFF) ∧
      polls.length ≤ 10 ∧ ∀ e ∈ polls, e.isRecv8 = true := by
  obtain ⟨polls, h1, h2, h3⟩ := SendCMD_log m SD_CMD_12 0 SD_R1_NORMAL_STATE
  unfold SD_StopTransfer at h ⊢
  simp only [] at h ⊢
  rcases StopTransfer_loop_ok _ _ _ _ h with ⟨h0, -⟩ | ⟨-, rest, hl, hrest⟩
  · exact absurd h0 (by decide)
  · refine ⟨polls, rest, ?_, hrest, h2, h3⟩
    rw [hl]
    show _ :: (rest ++ (SD_SendCMD m SD_CMD_12 0 SD_R1_NORMAL_STATE).2.log) = _
    rw [h1]

theorem ReadMultipleBlock_ok_parts (fuel : Nat) (m : Machine) (address : Nat) (data : List Nat)
    (num : Nat) (arg : Nat)
    (harg : arg = if m.sd.type = SD_TYPE_SDSC then address * m.sd.blockSize % 4294967296
      else address)
    (h : (SD_ReadMultipleBlock fuel m address data num).1 = some SD_OK) :
    (SD_SendCMD ((SD_SPI_CS_Reset m).setState SD_STATE_RECEIVE) SD_CMD_18 arg
      SD_R1_NORMAL_STATE).1 = SD_OK ∧
    (SD_ReadMultipleBlock_loop num (SD_SendCMD ((SD_SPI_CS_Reset m).setState SD_STATE_RECEIVE)
      SD_CMD_18 arg SD_R1_NORMAL_STATE).2 data 0).1 = SD_OK ∧
    (SD_StopTransfer fuel (SD_ReadMultipleBlock_loop num (SD_SendCMD
      ((SD_SPI_CS_Reset m).setState SD_STATE_RECEIVE) SD_CMD_18 arg SD_R1_NORMAL_STATE).2
        data 0).2.2).1 = some SD_OK ∧
    (SD_ReadMultipleBlock fuel m address data num).2.1 =
      (SD_ReadMultipleBlock_loop num (SD_SendCMD ((SD_SPI_CS_Reset m).setState SD_STATE_RECEIVE)
        SD_CMD_18 arg SD_R1_NORMAL_STATE).2 data 0).2.1 ∧
    (SD_ReadMultipleBlock fuel m address data num).2.2 =
      SD_SPI_CS_Set ((SD_StopTransfer fuel (SD_ReadMultipleBlock_loop num (SD_SendCMD
        ((SD_SPI_CS_Reset m).setState SD_STATE_RECEIVE) SD_CMD_18 arg SD_R1_NORMAL_STATE).2
          data 0).2.2).2.setState SD_STATE_STANDBY) := by
  have harg2 : (if ((SD_SPI_CS_Reset m).setState SD_STATE_RECEIVE).sd.type = SD_TYPE_SDSC then
      address * ((SD_SPI_CS_Reset m).setState SD_STATE_RECEIVE).sd.blockSize % 4294967296
      else address) = arg := harg.symm
  unfold SD_ReadMultipleBlock at h ⊢
  simp only [] at h ⊢
  rw [harg2] at h ⊢
  clear harg harg2
  generalize SD_SendCMD ((SD_SPI_CS_Reset m).setState SD_STATE_RECEIVE) SD_CMD_18 arg
    SD_R1_NORMAL_STATE = r at h ⊢
  generalize hl : SD_ReadMultipleBlock_loop num r.2 data 0 = l at h ⊢
  generalize hs : SD_StopTransfer fuel l.2.2 = s at h ⊢
  split_ifs at h ⊢ with h1 h2
  · simp at h
  · simp at h
    exact absurd h h2
  · rcases hs1 : s.1 with _ | e
    · simp [hs1] at h
    · simp only [hs1] at h ⊢
      split_ifs at h ⊢ with h3
      · simp at h
      · exact ⟨not_not.1 h1, not_not.1 h2, congrArg some (not_not.1 h3), rfl, rfl⟩

theorem SendCMD_rx8 (m : Machine) (a b c : Nat) :
    ∃ k, k ≤ 10 ∧ ∀ i, (SD_SendCMD m a b c).2.rx8 i = m.rx8 (i + k) := by
  unfold SD_SendCMD
  simp only []
  split_ifs
  · exact ⟨0, by omega, fun i => rfl⟩
  · obtain ⟨k, hk, -, h, -⟩ :=
      GetR1_reads (SD_SPI_Send8Data m (SD_SendCMD_frame m.SD_CRC7_Table a b) 6).2 c
    exact ⟨k, hk, h⟩

theorem ReadMultipleBlock_returns (fuel : Nat) (m : Machine) (address : Nat) (data : List Nat)
    (num k : Nat) (hk : 20 + 100 * num ≤ k) (hf : k + 1 < fuel)
    (h : (m.rx8 k).st = SD_SPI_ERROR ∨ (m.rx8 k).item 0 % 256 = 0xFF) :
    (SD_ReadMultipleBlock fuel m address data num).1 ≠ none := by
  unfold SD_ReadMultipleBlock
  simp only []
  generalize (if ((SD_SPI_CS_Reset m).setState SD_STATE_RECEIVE).sd.type = SD_TYPE_SDSC then
    address * ((SD_SPI_CS_Reset m).setState SD_STATE_RECEIVE).sd.blockSize % 4294967296
    else address) = arg
  obtain ⟨k18, a1, a2⟩ := SendCMD_rx8 ((SD_SPI_CS_Reset m).setState SD_STATE_RECEIVE)
    SD_CMD_18 arg SD_R1_NORMAL_STATE
  generalize SD_SendCMD ((SD_SPI_CS_Reset m).setState SD_STATE_RECEIVE) SD_CMD_18 arg
    SD_R1_NORMAL_STATE = r at a2 ⊢
  split_ifs with h1 h2
  · simp
  · simp
  · obtain ⟨-, -, -, -, -, -, p, b1, b2⟩ :=
      ReadMultipleBlock_loop_ok num r.2 data 0 0 (Nat.zero_mul _).symm (not_not.1 h2)
    generalize SD_ReadMultipleBlock_loop num r.2 data 0 = l at b2 ⊢
    obtain ⟨k12, c1, c2⟩ := SendCMD_rx8 l.2.2 SD_CMD_12 0 SD_R1_NORMAL_STATE
    have hs := StopTransfer_ends fuel (k - (k12 + p + k18)) l.2.2 (by omega) (by
      rw [c2, b2, a2]
      have e : k - (k12 + p + k18) + k12 + p + k18 = k := by omega
      rw [e]
      exact h)
    split
    · rename_i hn
      exact absurd hn hs
    · split_ifs <;> simp

/-- For every block count `num`, when `SD_ReadMultipleBlock` returns `SD_OK` the calls it
made are, in this order: chip select, the CMD18 frame and the reads for its R1, then for
each of exactly `num` blocks the polls of `SD_GetToken` (at least one single-byte read; the
byte that ends them is whatever `SD_GetToken` accepts) followed by one 16-bit read of
`blockSize >> 1` words (`blockSize` bytes for an even `blockSize`), then the CMD12 frame and
the reads for its R1, then single-byte reads of which only the last delivers `0xFF`, then
chip deselect; block `i` is stored at offset `i * blockSize` of the buffer, and the state is
`SD_STATE_STANDBY`.  The function returns whenever the fuel covers a position of the receive
stream, not among the first `20 + 100 * num`, where the transport fails or delivers
`0xFF`. -/
theorem ReadMultipleBlock_ok_run (fuel : Nat) (m : Machine) (address : Nat) (data : List Nat)
    (num : Nat) :
    ((SD_ReadMultipleBlock fuel m address data num).1 = some SD_OK →
      ∃ (blocks : List (List Event × List Nat)) (r18 r12 drain : List Event)
          (st12 : SD_SPI_Status_t),
        blocks.length = num ∧
        (∀ b ∈ blocks, b.1 ≠ [] ∧ (∀ e ∈ b.1, e.isRecv8 = true) ∧
          b.2.length = 2 * (m.sd.blockSize >>> 1) ∧
          (m.sd.blockSize % 2 = 0 → b.2.length = m.sd.blockSize)) ∧
        (∀ e ∈ r18, e.isRecv8 = true) ∧ (∀ e ∈ r12, e.isRecv8 = true) ∧
        (∀ e ∈ drain, ∃ b, e = Event.recv8 1 SD_SPI_OK [b] ∧ b ≠ 0xFF) ∧
        (SD_ReadMultipleBlock fuel m address data num).2.2.log =
          Event.csSet :: Event.recv8 1 SD_SPI_OK [0xFF] :: (drain ++ (r12 ++
            Event.send8 (SD_SendCMD_frame m.SD_CRC7_Table SD_CMD_12 0) st12 ::
              (blockReadLog (m.sd.blockSize >>> 1) blocks ++ (r18 ++
                Event.send8 (SD_SendCMD_frame m.SD_CRC7_Table SD_CMD_18
                    (if m.sd.type = SD_TYPE_SDSC then address * m.sd.blockSize % 4294967296
                      else address)) (m.tx8 0) ::
                  Event.csReset :: m.log)))) ∧
        (SD_ReadMultipleBlock fuel m address data num).2.1 =
          storeBlocks m.sd.blockSize (blocks.map Prod.snd) 0 data ∧
        (SD_ReadMultipleBlock fuel m address data num).2.2.sd.state = SD_STATE_STANDBY) ∧
    (∀ k, 20 + 100 * num ≤ k → k + 1 < fuel →
      ((m.rx8 k).st = SD_SPI_ERROR ∨ (m.rx8 k).item 0 % 256 = 0xFF) →
      (SD_ReadMultipleBlock fuel m address data num).1 ≠ none) := by
  refine ⟨fun hok => ?_, fun k hk hf h =>
    ReadMultipleBlock_returns fuel m address data num k hk hf h⟩
  obtain ⟨p1, p2, p3, p4, p5⟩ := ReadMultipleBlock_ok_parts fuel m address data num _ rfl hok
  generalize (if m.sd.type = SD_TYPE_SDSC then address * m.sd.blockSize % 4294967296
    else address) = arg at p1 p2 p3 p4 p5 ⊢
  obtain ⟨r18, q1, -, q2⟩ := SendCMD_log ((SD_SPI_CS_Reset m).setState SD_STATE_RECEIVE)
    SD_CMD_18 arg SD_R1_NORMAL_STATE
  have q3 := SendCMD_blockSize ((SD_SPI_CS_Reset m).setState SD_STATE_RECEIVE)
    SD_CMD_18 arg SD_R1_NORMAL_STATE
  have q4 := SendCMD_table ((SD_SPI_CS_Reset m).setState SD_STATE_RECEIVE)
    SD_CMD_18 arg SD_R1_NORMAL_STATE
  generalize SD_SendCMD ((SD_SPI_CS_Reset m).setState SD_STATE_RECEIVE) SD_CMD_18 arg
    SD_R1_NORMAL_STATE = r at p1 p2 p3 p4 p5 q1 q3 q4
  have hbs : r.2.sd.blockSize = m.sd.blockSize := q3
  have htb : r.2.SD_CRC7_Table = m.SD_CRC7_Table := q4
  obtain ⟨blocks, b1, b2, b3, b4, -, -⟩ :=
    ReadMultipleBlock_loop_ok num r.2 data 0 0 (Nat.zero_mul _).symm p2
  have b5 := ReadMultipleBlock_loop_table num r.2 data 0
  rw [hbs] at b2 b3 b4
  generalize SD_ReadMultipleBlock_loop num r.2 data 0 = l at p2 p3 p4 p5 b3 b4 b5
  obtain ⟨r12, drain, s1, s2, -, s3⟩ := StopTransfer_ok fuel l.2.2 p3
  refine ⟨blocks, r18, r12, drain, l.2.2.tx8 0, b1, ?_, q2, s3, s2, ?_, ?_, ?_⟩
  · intro b hb
    obtain ⟨c1, -, c2, c3⟩ := b2 b hb
    refine ⟨c1, c2, c3, fun hev => ?_⟩
    rw [c3, Nat.shiftRight_eq_div_pow]
    omega
  · rw [p5]
    show Event.csSet :: (SD_StopTransfer fuel l.2.2).2.log = _
    rw [s1, b3, q1, b5, htb]
    rfl
  · rw [p4, b4]
  · rw [p5]
    rfl

/-- The run of `SD_ReadMultipleBlock` on `machineReadTwo`, a card that sends the start token
before each of two blocks. -/
theorem machineReadTwo_run :
    (SD_ReadMultipleBlock 5 machineReadTwo 0 (List.replicate 10 9) 2).1 = some SD_OK ∧
    (SD_ReadMultipleBlock 5 machineReadTwo 0 (List.replicate 10 9) 2).2.1 =
      [1, 2, 3, 4, 5, 6, 7, 8, 9, 9] ∧
    (SD_ReadMultipleBlock 5 machineReadTwo 0 (List.replicate 10 9) 2).2.2.sd.state =
      SD_STATE_STANDBY ∧
    (SD_ReadMultipleBlock 300 machineReadTwo 0 (List.replicate 10 9) 2).1 ≠ none :=
  have ⟨_, _, _, _, _, _, _, _, _, _, _, _, hs⟩ :=
    (ReadMultipleBlock_ok_run 5 machineReadTwo 0 (List.replicate 10 9) 2).1 (by decide!)
  ⟨by decide!, by decide!, hs,
    (ReadMultipleBlock_ok_run 300 machineReadTwo 0 (List.replicate 10 9) 2).2 220 (by decide)
      (by decide) (Or.inr (by decide!))⟩

/-- C20 (failing run): on `machineReadNoToken` the card never sends the start token `0xFE`:
after its R1 `0x00` to CMD18 the byte read before each of the two blocks is `0x00`.
`SD_ReadMultipleBlock` does not wait for `0xFE`; it takes the first byte read as the token
each time, reads the two blocks into the buffer, sends CMD12, and returns `SD_OK` with
`state` Standby.  No byte `0xFE` occurs among the single-byte reads of the run. -/
theorem C20_blocks_read_without_start_token :
    (SD_ReadMultipleBlock 5 machineReadNoToken 0 (List.replicate 10 9) 2).1 = some SD_OK ∧
    (SD_ReadMultipleBlock 5 machineReadNoToken 0 (List.replicate 10 9) 2).2.1 =
      [1, 2, 3, 4, 5, 6, 7, 8, 9, 9] ∧
    (SD_ReadMultipleBlock 5 machineReadNoToken 0 (List.replicate 10 9) 2).2.2.sd.state =
      SD_STATE_STANDBY ∧
    (SD_ReadMultipleBlock 5 machineReadNoToken 0 (List.replicate 10 9) 2).2.2.log =
      [Event.csSet,
       Event.recv8 1 SD_SPI_OK [0xFF],
       Event.recv8 1 SD_SPI_OK [0x00],
       Event.send8 (SD_SendCMD_frame machineReadNoToken.SD_CRC7_Table SD_CMD_12 0) SD_SPI_OK,
       Event.recv16 2 SD_SPI_OK [5, 6, 7, 8],
       Event.recv8 1 SD_SPI_OK [0x00],
       Event.recv16 2 SD_SPI_OK [1, 2, 3, 4],
       Event.recv8 1 SD_SPI_OK [0x00],
       Event.recv8 1 SD_SPI_OK [0x00],
       Event.send8 (SD_SendCMD_frame machineReadNoToken.SD_CRC7_Table SD_CMD_18 0) SD_SPI_OK,
       Event.csReset] := by
  decide!

/-! ## Token acquisition -/

theorem readsLog_succ (m : Machine) (k : Nat) :
    readsLog m (k + 1) =
      Event.recv8 1 SD_SPI_OK [(m.rx8 k).item 0 % 256] :: readsLog m k := by
  simp [readsLog, List.range_succ]

theorem afterReads_log (m : Machine) (k : Nat) (h : ∀ i < k, (m.rx8 i).st = SD_SPI_OK) :
    (afterReads m k).log = readsLog m k ++ m.log := by
  induction k with
  | zero => rfl
  | succ k ih =>
    have e := (afterReads_facts m k).2.2.1
    rw [afterReads_succ, readsLog_succ]
    have hk := h k (by omega)
    rw [← Nat.zero_add k, ← e 0] at hk
    have h2 : ((afterReads m k).rx8 0).item 0 % 256 = (m.rx8 k).item 0 % 256 := by
      rw [e 0, Nat.zero_add]
    obtain ⟨-, e2⟩ := Recv8_one_logged (afterReads m k) (by
      show ((afterReads m k).rx8 0).st ≠ SD_SPI_ERROR
      rw [hk]
      decide)
    rw [e2, h2, ih (fun i hi => h i (by omega))]
    rfl

theorem GetToken_poll_some (token : Nat) : ∀ (n : Nat) (m : Machine) (r x j : Nat) (m1 : Machine),
    SD_GetToken_poll token n m r = (some (x, j), m1) → j ≠ 0 →
    (r &&& (0xFFFFFFFF - token) = 0 ∧ x = r ∧ m1 = m ∧ j = n) ∨
    (r &&& (0xFFFFFFFF - token) ≠ 0 ∧ ∃ k, k + 1 + j = n ∧
      (∀ i < k, (m.rx8 i).st = SD_SPI_OK ∧
        ((m.rx8 i).item 0 % 256) &&& (0xFFFFFFFF - token) ≠ 0) ∧
      (m.rx8 k).st = SD_SPI_OK ∧ (m.rx8 k).item 0 % 256 = x ∧
      x &&& (0xFFFFFFFF - token) = 0 ∧ m1 = afterReads m (k + 1)) := by
  intro n
  induction n with
  | zero =>
    intro m r x j m1 h hj
    simp only [SD_GetToken_poll, Prod.mk.injEq, Option.some.injEq] at h
    omega
  | succ n ih =>
    intro m r x j m1 h hj
    rw [SD_GetToken_poll] at h
    simp only [] at h
    split_ifs at h with h1 h2
    · simp at h
    · have hst : (m.rx8 0).st = SD_SPI_OK := status_ok_of_ne_error _ h2
      obtain ⟨-, e2⟩ := Recv8_one_ok m hst
      rw [e2] at h
      simp only [List.headD_cons] at h
      rcases ih _ _ _ _ _ h hj with ⟨a1, a2, a3, a4⟩ | ⟨a1, k, a2, a3, a4, a5, a6, a7⟩
      · refine Or.inr ⟨h1, 0, by omega, fun i hi => absurd hi (Nat.not_lt_zero i), hst, a2.symm,
          by rw [a2]; exact a1, a3⟩
      · refine Or.inr ⟨h1, k + 1, by omega, ?_, a4, a5, a6, a7⟩
        intro i hi
        cases i with
        | zero => exact ⟨hst, a1⟩
        | succ i => exact a3 i (by omega)
    · simp only [Prod.mk.injEq, Option.some.injEq] at h
      obtain ⟨⟨a, b⟩, c⟩ := h
      exact Or.inl ⟨not_not.1 h1, a.symm, c.symm, b.symm⟩

theorem GetToken_poll_all_rejected (token : Nat) (n : Nat) : ∀ (m : Machine) (r : Nat),
    r &&& (0xFFFFFFFF - token) ≠ 0 →
    (∀ i < n, (m.rx8 i).st = SD_SPI_OK ∧
      ((m.rx8 i).item 0 % 256) &&& (0xFFFFFFFF - token) ≠ 0) →
    ∃ x, SD_GetToken_poll token n m r = (some (x, 0), afterReads m n) := by
  induction n with
  | zero => intro m r _ _; exact ⟨r, rfl⟩
  | succ n ih =>
    intro m r hr h
    obtain ⟨h0, h0b⟩ := h 0 (by omega)
    obtain ⟨e1, e2⟩ := Recv8_one_ok m h0
    unfold SD_GetToken_poll
    simp only [hr, ne_eq, not_false_eq_true, if_true, e1, e2]
    simp only [List.headD_cons]
    have hne : ¬ (SD_SPI_OK = SD_SPI_ERROR) := by decide
    simp only [hne, if_false]
    exact ih _ _ h0b (fun i hi => h (i + 1) (by omega))

theorem GetToken_poll_first_accepted (token : Nat) (n : Nat) : ∀ (m : Machine) (r k b : Nat),
    r &&& (0xFFFFFFFF - token) ≠ 0 → k < n →
    (∀ i < k, (m.rx8 i).st = SD_SPI_OK ∧
      ((m.rx8 i).item 0 % 256) &&& (0xFFFFFFFF - token) ≠ 0) →
    (m.rx8 k).st = SD_SPI_OK → (m.rx8 k).item 0 % 256 = b → b &&& (0xFFFFFFFF - token) = 0 →
    SD_GetToken_poll token n m r = (some (b, n - 1 - k), afterReads m (k + 1)) := by
  induction n with
  | zero => intro m r k b _ hk; omega
  | succ n ih =>
    intro m r k b hr hk h hok hb hlow
    have hne : ¬ (SD_SPI_OK = SD_SPI_ERROR) := by decide
    cases k with
    | zero =>
      obtain ⟨e1, e2⟩ := Recv8_one_ok m hok
      unfold SD_GetToken_poll
      simp only [hr, ne_eq, not_false_eq_true, if_true, e1, e2, hne, if_false,
        List.headD_cons, hb]
      cases n with
      | zero => rfl
      | succ n =>
        unfold SD_GetToken_poll
        simp only [hlow, ne_eq, not_true_eq_false, if_false]
        rfl
    | succ k =>
      obtain ⟨h0, h0b⟩ := h 0 (by omega)
      obtain ⟨e1, e2⟩ := Recv8_one_ok m h0
      unfold SD_GetToken_poll
      simp only [hr, ne_eq, not_false_eq_true, if_true, e1, e2, hne, if_false,
        List.headD_cons]
      have := ih (SD_SPI_Receive8Data m 1).2.2 ((m.rx8 0).item 0 % 256) k b h0b (by omega)
        (fun i hi => h (i + 1) (by omega)) hok hb hlow
      rw [this]
      have e : n - 1 - k = n + 1 - 1 - (k + 1) := by omega
      rw [e]
      rfl

/-- What a result `SD_OK` of `SD_GetToken` means, for a token that the initial value `0xFF`
of `response` does not pass: one of the first 99 reads delivered a byte without a bit
outside the token, the reads before it delivered other bytes, and no read failed. -/
theorem GetToken_ok_iff (m : Machine) (token : Nat) (htok : 0xFF &&& (0xFFFFFFFF - token) ≠ 0) :
    (SD_GetToken m token).1 = SD_OK ↔
    ∃ k, k < 99 ∧
      (∀ i < k, (m.rx8 i).st = SD_SPI_OK ∧
        ((m.rx8 i).item 0 % 256) &&& (0xFFFFFFFF - token) ≠ 0) ∧
      (m.rx8 k).st = SD_SPI_OK ∧ ((m.rx8 k).item 0 % 256) &&& (0xFFFFFFFF - token) = 0 := by
  constructor
  · intro h
    unfold SD_GetToken at h
    simp only [] at h
    rcases hp : SD_GetToken_poll token 100 m 0xFF with ⟨_ | ⟨x, j⟩, m1⟩
    · simp [hp] at h
    · simp only [hp] at h
      by_cases hj : j = 0
      · simp [hj] at h
      · rcases GetToken_poll_some token 100 m 0xFF x j m1 hp hj with ⟨a1, -⟩ | ⟨-, k, a2, a3, a4, a5, a6, -⟩
        · exact absurd a1 htok
        · exact ⟨k, by omega, a3, a4, by rw [a5]; exact a6⟩
  · rintro ⟨k, hk, h1, h2, h3⟩
    have hp := GetToken_poll_first_accepted token 100 m 0xFF k _ htok (by omega) h1 h2 rfl h3
    unfold SD_GetToken
    simp only [hp]
    have h9 : ¬ (100 - 1 - k = 0) := by omega
    simp only [h9, if_false]

theorem GetToken_ok_machine (m : Machine) (token k : Nat)
    (htok : 0xFF &&& (0xFFFFFFFF - token) ≠ 0) (hk : k < 99)
    (h1 : ∀ i < k, (m.rx8 i).st = SD_SPI_OK ∧
        ((m.rx8 i).item 0 % 256) &&& (0xFFFFFFFF - token) ≠ 0)
    (h2 : (m.rx8 k).st = SD_SPI_OK)
    (h3 : ((m.rx8 k).item 0 % 256) &&& (0xFFFFFFFF - token) = 0) :
    (SD_GetToken m token).2 = afterReads m (k + 1) ∧
    (SD_GetToken m token).2.log = readsLog m (k + 1) ++ m.log := by
  have hp := GetToken_poll_first_accepted token 100 m 0xFF k _ htok (by omega) h1 h2 rfl h3
  have e : (SD_GetToken m token).2 = afterReads m (k + 1) := by
    unfold SD_GetToken
    simp only [hp]
    have h9 : ¬ (100 - 1 - k = 0) := by omega
    simp only [h9, if_false]
  refine ⟨e, ?_⟩
  rw [e]
  apply afterReads_log
  intro i hi
  rcases Nat.lt_succ_iff_lt_or_eq.1 hi with hi | rfl
  · exact (h1 i hi).1
  · exact h2

theorem GetToken_result (m : Machine) (token : Nat) :
    (SD_GetToken m token).1 = SD_OK ∨ (SD_GetToken m token).1 = SD_ERROR := by
  unfold SD_GetToken
  simp only []
  split
  · exact Or.inr rfl
  · split_ifs
    · exact Or.inr rfl
    · exact Or.inl rfl

/-- C24 (failing input): the card delivers `0x00`, or one of the data-error tokens `0x02`,
`0x04`, `0x08`, as the first byte; `SD_GetToken` with the expected token `0xFE` returns
`SD_OK` after that one read, although the byte is not the token. -/
theorem C24_non_token_bytes_accepted_as_start_token :
    (SD_GetToken (scriptedMachine sessionReady [0x00] []) SD_START_RMW_BLOCK_TOKEN).1 = SD_OK ∧
    (SD_GetToken (scriptedMachine sessionReady [0x00] []) SD_START_RMW_BLOCK_TOKEN).2.log =
      [Event.recv8 1 SD_SPI_OK [0x00]] ∧
    (SD_GetToken (scriptedMachine sessionReady [0x02] []) SD_START_RMW_BLOCK_TOKEN).1 = SD_OK ∧
    (SD_GetToken (scriptedMachine sessionReady [0x02] []) SD_START_RMW_BLOCK_TOKEN).2.log =
      [Event.recv8 1 SD_SPI_OK [0x02]] ∧
    (SD_GetToken (scriptedMachine sessionReady [0x04] []) SD_START_RMW_BLOCK_TOKEN).1 = SD_OK ∧
    (SD_GetToken (scriptedMachine sessionReady [0x04] []) SD_START_RMW_BLOCK_TOKEN).2.log =
      [Event.recv8 1 SD_SPI_OK [0x04]] ∧
    (SD_GetToken (scriptedMachine sessionReady [0x08] []) SD_START_RMW_BLOCK_TOKEN).1 = SD_OK ∧
    (SD_GetToken (scriptedMachine sessionReady [0x08] []) SD_START_RMW_BLOCK_TOKEN).2.log =
      [Event.recv8 1 SD_SPI_OK [0x08]] := by
  decide!

theorem mask_of_token_lt (token : Nat) (h : token < 0xFF) :
    0xFF &&& (0xFFFFFFFF - token) ≠ 0 := by
  interval_cases token <;> decide

theorem readsLog_const (m : Machine) (k b : Nat) (h : ∀ i < k, (m.rx8 i).item 0 % 256 = b) :
    readsLog m k = List.replicate k (Event.recv8 1 SD_SPI_OK [b]) := by
  induction k with
  | zero => rfl
  | succ k ih =>
    rw [readsLog_succ, h k (by omega), ih (fun i hi => h i (by omega)), List.replicate_succ]

/-- C25: for a token other than `0xFF` (each member of `SD_Block_Token_t` is), `SD_GetToken`
makes at most 100 single-byte reads and no other transport call; when none of the bytes that
the first 100 reads deliver is accepted (no bit outside the token), it returns `SD_ERROR`;
and on a stream of `0xFF` it returns `SD_ERROR` after exactly 100 reads. -/
theorem C25_getToken_gives_up_after_hundred_reads (m : Machine) (token : Nat)
    (htoken : token < 0xFF) :
    (∃ k, k ≤ 100 ∧ (SD_GetToken m token).2 = afterReads m k ∧
      ∃ l, (SD_GetToken m token).2.log = l ++ m.log ∧ l.length = k ∧
        ∀ e ∈ l, e.isRecv8 = true) ∧
    ((∀ i < 100, (m.rx8 i).st = SD_SPI_OK →
        ((m.rx8 i).item 0 % 256) &&& (0xFFFFFFFF - token) ≠ 0) →
      (SD_GetToken m token).1 = SD_ERROR) ∧
    ((∀ i < 100, (m.rx8 i).st = SD_SPI_OK ∧ (m.rx8 i).item 0 % 256 = 0xFF) →
      (SD_GetToken m token).1 = SD_ERROR ∧
      (SD_GetToken m token).2 = afterReads m 100 ∧
      (SD_GetToken m token).2.log =
        List.replicate 100 (Event.recv8 1 SD_SPI_OK [0xFF]) ++ m.log) := by
  have hmask := mask_of_token_lt token htoken
  refine ⟨?_, ?_, ?_⟩
  · obtain ⟨k, hk, e⟩ := GetToken_poll_reads token 100 m 0xFF
    obtain ⟨-, -, -, h4⟩ := afterReads_facts m k
    have e2 : (SD_GetToken m token).2 = afterReads m k := by
      rw [← e]
      unfold SD_GetToken
      simp only []
      split <;> [skip; split_ifs] <;> rfl
    rw [← e2] at h4
    exact ⟨k, hk, e2, h4⟩
  · intro h
    rcases GetToken_result m token with hr | hr
    · obtain ⟨k, hk, -, h2, h3⟩ := (GetToken_ok_iff m token hmask).1 hr
      exact absurd h3 (h k (by omega) h2)
    · exact hr
  · intro h
    obtain ⟨x, hp⟩ := GetToken_poll_all_rejected token 100 m 0xFF hmask
      (fun i hi => ⟨(h i hi).1, by rw [(h i hi).2]; exact hmask⟩)
    have e : SD_GetToken m token = (SD_ERROR, afterReads m 100) := by
      unfold SD_GetToken
      simp only [hp]
      rfl
    rw [e]
    refine ⟨rfl, rfl, ?_⟩
    show (afterReads m 100).log = _
    rw [afterReads_log m 100 (fun i hi => (h i hi).1),
      readsLog_const m 100 0xFF (fun i hi => (h i hi).2)]

theorem C25_getToken_gives_up_after_hundred_reads_witness :
    (SD_GetToken (scriptedMachine sessionReady [] []) SD_START_RMW_BLOCK_TOKEN).1 = SD_ERROR ∧
    (SD_GetToken (scriptedMachine sessionReady [] []) SD_START_RMW_BLOCK_TOKEN).2 =
      afterReads (scriptedMachine sessionReady [] []) 100 ∧
    (SD_GetToken (scriptedMachine sessionReady [] []) SD_START_RMW_BLOCK_TOKEN).2.log =
      List.replicate 100 (Event.recv8 1 SD_SPI_OK [0xFF]) ++
        (scriptedMachine sessionReady [] []).log :=
  (C25_getToken_gives_up_after_hundred_reads (scriptedMachine sessionReady [] [])
    SD_START_RMW_BLOCK_TOKEN (by decide)).2.2 (fun i _ => ⟨rfl, by simp [scriptedMachine]⟩)

/-! ## Application commands -/

theorem sentFrames_append (l1 l2 : List Event) :
    sentFrames (l1 ++ l2) = sentFrames l2 ++ sentFrames l1 := by
  induction l1 with
  | nil => simp [sentFrames]
  | cons e l1 ih =>
    cases e <;> simp [sentFrames, ih]

theorem sentFrames_recv (l : List Event) (h : ∀ e ∈ l, e.isRecv8 = true) : sentFrames l = [] := by
  induction l with
  | nil => rfl
  | cons e l ih =>
    have he := h e (List.mem_cons_self _ _)
    have hl := ih (fun x hx => h x (List.mem_cons_of_mem _ hx))
    cases e <;> first | (simp [Event.isRecv8] at he; done) | simpa [sentFrames] using hl

theorem SendCMD_frames (m : Machine) (cmd argument c : Nat) :
    ∃ l, (SD_SendCMD m cmd argument c).2.log = l ++ m.log ∧
      sentFrames l = [SD_SendCMD_frame m.SD_CRC7_Table cmd argument] := by
  obtain ⟨l, h1, -, h2⟩ := SendCMD_log m cmd argument c
  refine ⟨l ++ [Event.send8 (SD_SendCMD_frame m.SD_CRC7_Table cmd argument) (m.tx8 0)], ?_, ?_⟩
  · rw [h1]
    simp
  · rw [sentFrames_append, sentFrames_recv l h2]
    rfl

theorem SendACMD_eq (m : Machine) (a b c : Nat) :
    SD_SendACMD m a b c =
      if (SD_SendCMD m SD_CMD_55 0
        (if m.sd.mode = SD_MODE_TRANSFER then SD_R1_NORMAL_STATE else SD_R1_IDLE_STATE)).1 =
          SD_ERROR
      then (SD_ERROR, (SD_SendCMD m SD_CMD_55 0
        (if m.sd.mode = SD_MODE_TRANSFER then SD_R1_NORMAL_STATE else SD_R1_IDLE_STATE)).2)
      else SD_SendCMD (SD_SendCMD m SD_CMD_55 0
        (if m.sd.mode = SD_MODE_TRANSFER then SD_R1_NORMAL_STATE else SD_R1_IDLE_STATE)).2
          a b c := rfl

/-- C23 (counterexample): in transfer mode the card answers CMD55 with R1 `0x01` where
`0x00` is expected, so that the CMD55 exchange returns `SD_INCORRECT_RESPONSE`;
`SD_SendACMD` sends the ACMD22 frame all the same and returns `SD_OK`. -/
theorem C23_acmd_sent_after_unexpected_cmd55_response :
    (SD_SendCMD machineAcmdMismatch SD_CMD_55 0 SD_R1_NORMAL_STATE).1 = SD_INCORRECT_RESPONSE ∧
    (SD_SendACMD machineAcmdMismatch SD_ACMD_22 0 SD_R1_NORMAL_STATE).1 = SD_OK ∧
    (SD_SendACMD machineAcmdMismatch SD_ACMD_22 0 SD_R1_NORMAL_STATE).2.log =
      [Event.recv8 1 SD_SPI_OK [0x00],
       Event.send8 (SD_SendCMD_frame machineAcmdMismatch.SD_CRC7_Table SD_ACMD_22 0) SD_SPI_OK,
       Event.recv8 1 SD_SPI_OK [0x01],
       Event.send8 (SD_SendCMD_frame machineAcmdMismatch.SD_CRC7_Table SD_CMD_55 0)
         SD_SPI_OK] := by
  decide!

/-- C23 (amended): `SD_SendACMD` sends the CMD55 frame first, expecting R1 `0x00` in transfer
mode and `0x01` otherwise.  When the CMD55 exchange returns `SD_ERROR` (the frame could not
be sent, or no R1 was obtained), `SD_SendACMD` returns `SD_ERROR` and nothing more is sent.
In every other case, so also when the R1 of CMD55 differs from the expected one
(`SD_INCORRECT_RESPONSE`), the application-command frame is sent next and the result is that
of its exchange. -/
theorem C23_acmd_sent_unless_cmd55_error (m : Machine) (acmd argument correctResponse : Nat) :
    ((SD_SendCMD m SD_CMD_55 0
        (if m.sd.mode = SD_MODE_TRANSFER then SD_R1_NORMAL_STATE else SD_R1_IDLE_STATE)).1 =
        SD_ERROR →
      (SD_SendACMD m acmd argument correctResponse).1 = SD_ERROR ∧
      ∃ l, (SD_SendACMD m acmd argument correctResponse).2.log = l ++ m.log ∧
        sentFrames l = [SD_SendCMD_frame m.SD_CRC7_Table SD_CMD_55 0]) ∧
    ((SD_SendCMD m SD_CMD_55 0
        (if m.sd.mode = SD_MODE_TRANSFER then SD_R1_NORMAL_STATE else SD_R1_IDLE_STATE)).1 ≠
        SD_ERROR →
      SD_SendACMD m acmd argument correctResponse =
        SD_SendCMD (SD_SendCMD m SD_CMD_55 0
          (if m.sd.mode = SD_MODE_TRANSFER then SD_R1_NORMAL_STATE else SD_R1_IDLE_STATE)).2
          acmd argument correctResponse ∧
      ∃ l, (SD_SendACMD m acmd argument correctResponse).2.log = l ++ m.log ∧
        sentFrames l = [SD_SendCMD_frame m.SD_CRC7_Table SD_CMD_55 0,
          SD_SendCMD_frame m.SD_CRC7_Table acmd argument]) ∧
    (∀ k b, k < 9 → m.tx8 0 = SD_SPI_OK →
      (∀ i < k, (m.rx8 i).st = SD_SPI_OK ∧ ((m.rx8 i).item 0 % 256) &&& 0x80 ≠ 0) →
      (m.rx8 k).st = SD_SPI_OK → (m.rx8 k).item 0 % 256 = b → b &&& 0x80 = 0 →
      (SD_SendCMD m SD_CMD_55 0
        (if m.sd.mode = SD_MODE_TRANSFER then SD_R1_NORMAL_STATE else SD_R1_IDLE_STATE)).1 =
        (if b = (if m.sd.mode = SD_MODE_TRANSFER then SD_R1_NORMAL_STATE else SD_R1_IDLE_STATE)
          then SD_OK else SD_INCORRECT_RESPONSE)) := by
  rw [SendACMD_eq]
  generalize (if m.sd.mode = SD_MODE_TRANSFER then SD_R1_NORMAL_STATE else SD_R1_IDLE_STATE) =
    resp
  refine ⟨fun hr => ?_, fun hr => ?_, ?_⟩
  · rw [if_pos hr]
    exact ⟨rfl, SendCMD_frames m SD_CMD_55 0 resp⟩
  · rw [if_neg hr]
    refine ⟨rfl, ?_⟩
    obtain ⟨l1, h1, h2⟩ := SendCMD_frames m SD_CMD_55 0 resp
    obtain ⟨l2, h3, h4⟩ := SendCMD_frames (SD_SendCMD m SD_CMD_55 0 resp).2 acmd argument
      correctResponse
    rw [SendCMD_table] at h4
    refine ⟨l2 ++ l1, ?_, ?_⟩
    · rw [h3, h1, List.append_assoc]
    · rw [sentFrames_append, h2, h4]
      rfl
  · intro k b hk htx h hok hb hlow
    have hs : (SD_SPI_Send8Data m (SD_SendCMD_frame m.SD_CRC7_Table SD_CMD_55 0) 6).1 =
        SD_SPI_OK := htx
    unfold SD_SendCMD
    simp only [hs, ne_eq, not_true_eq_false, if_false]
    exact (GetR1_accepts_within_nine
      (SD_SPI_Send8Data m (SD_SendCMD_frame m.SD_CRC7_Table SD_CMD_55 0) 6).2 resp k b hk h hok
      hb hlow).1

theorem C23_acmd_sent_unless_cmd55_error_witness :
    (SD_SendCMD machineAcmdMismatch SD_CMD_55 0
        (if machineAcmdMismatch.sd.mode = SD_MODE_TRANSFER then SD_R1_NORMAL_STATE
          else SD_R1_IDLE_STATE)).1 ≠ SD_ERROR ∧
    ∃ l, (SD_SendACMD machineAcmdMismatch SD_ACMD_22 0 SD_R1_NORMAL_STATE).2.log =
        l ++ machineAcmdMismatch.log ∧
      sentFrames l = [SD_SendCMD_frame machineAcmdMismatch.SD_CRC7_Table SD_CMD_55 0,
        SD_SendCMD_frame machineAcmdMismatch.SD_CRC7_Table SD_ACMD_22 0] :=
  ⟨by decide!,
    ((C23_acmd_sent_unless_cmd55_error machineAcmdMismatch SD_ACMD_22 0
      SD_R1_NORMAL_STATE).2.1 (by decide!)).2⟩

/-! ## Voltage check -/

theorem OnlyR1.version_eq {m0 m : Machine} (h : OnlyR1 m0 m) :
    m.sd.version = m0.sd.version := by
  obtain ⟨-, r, e⟩ := h
  rw [e]

theorem GetResponse_facts (m : Machine) (len : Nat) :
    (SD_GetResponse m len).2.2.log =
      Event.recv8 len (m.rx8 0).st (SD_GetResponse m len).2.1 :: m.log ∧
    (SD_GetResponse m len).2.2.sd = m.sd ∧
    ((SD_GetResponse m len).1 = SD_ERROR ↔ (m.rx8 0).st = SD_SPI_ERROR) ∧
    ((SD_GetResponse m len).1 = SD_OK ↔ (m.rx8 0).st = SD_SPI_OK) ∧
    ((m.rx8 0).st = SD_SPI_OK → (SD_GetResponse m len).2.1.length = len) := by
  unfold SD_GetResponse
  simp only []
  cases hs : (m.rx8 0).st
  · have e : (SD_SPI_Receive8Data m len).1 = SD_SPI_OK := hs
    simp [e, SD_SPI_Receive8Data, hs, RxOutcome.count]
  · have e : (SD_SPI_Receive8Data m len).1 = SD_SPI_ERROR := hs
    simp [e, SD_SPI_Receive8Data, hs, RxOutcome.count]

theorem storeBytes_full (old new : List Nat) (h : new.length = old.length) :
    storeBytes old new = new := by
  simp [storeBytes, h]

/-- C27: `SD_CheckVoltage` sends the CMD8 frame with argument `0x000001AA` and no other
frame.  When the CMD8 exchange returns `SD_ERROR`, the result is `SD_ERROR` and `version`
is unchanged.  Otherwise, when the received R1 (`lastR1`) has the illegal-command bit
`0x04` set, the result is `SD_OK` with `version = 1` and no further byte is read; when the
bit is clear, one read of 4 bytes follows, and the result is `SD_OK` with `version = 2` when
that read succeeds and its last two bytes are `0x01`, `0xAA`, and `SD_ERROR` with `version`
unchanged in every other case. -/
theorem C27_check_voltage (m : Machine) :
    (∃ l, (SD_CheckVoltage m).2.log = l ++ m.log ∧
      sentFrames l = [SD_SendCMD_frame m.SD_CRC7_Table SD_CMD_8 0x000001AA]) ∧
    ((SD_SendCMD m SD_CMD_8 0x01AA SD_R1_IDLE_STATE).1 = SD_ERROR →
      (SD_CheckVoltage m).1 = SD_ERROR ∧ (SD_CheckVoltage m).2.sd.version = m.sd.version ∧
      (SD_CheckVoltage m).2.log = (SD_SendCMD m SD_CMD_8 0x01AA SD_R1_IDLE_STATE).2.log) ∧
    ((SD_SendCMD m SD_CMD_8 0x01AA SD_R1_IDLE_STATE).1 ≠ SD_ERROR →
      (SD_SendCMD m SD_CMD_8 0x01AA SD_R1_IDLE_STATE).2.sd.lastR1 &&& 0x04 ≠ 0 →
      (SD_CheckVoltage m).1 = SD_OK ∧ (SD_CheckVoltage m).2.sd.version = 1 ∧
      (SD_CheckVoltage m).2.log = (SD_SendCMD m SD_CMD_8 0x01AA SD_R1_IDLE_STATE).2.log) ∧
    ((SD_SendCMD m SD_CMD_8 0x01AA SD_R1_IDLE_STATE).1 ≠ SD_ERROR →
      (SD_SendCMD m SD_CMD_8 0x01AA SD_R1_IDLE_STATE).2.sd.lastR1 &&& 0x04 = 0 →
      ∃ st bytes,
        (SD_CheckVoltage m).2.log =
          Event.recv8 4 st bytes :: (SD_SendCMD m SD_CMD_8 0x01AA SD_R1_IDLE_STATE).2.log ∧
        (st = SD_SPI_OK → bytes.length = 4) ∧
        (st = SD_SPI_OK ∧ bytes.getD 2 0 = 0x01 ∧ bytes.getD 3 0 = 0xAA →
          (SD_CheckVoltage m).1 = SD_OK ∧ (SD_CheckVoltage m).2.sd.version = 2) ∧
        (¬ (st = SD_SPI_OK ∧ bytes.getD 2 0 = 0x01 ∧ bytes.getD 3 0 = 0xAA) →
          (SD_CheckVoltage m).1 = SD_ERROR ∧
          (SD_CheckVoltage m).2.sd.version = m.sd.version)) := by
  have hv := (only_SendCMD m m SD_CMD_8 0x01AA SD_R1_IDLE_STATE (OnlyR1.orefl m)).version_eq
  obtain ⟨lc, hc1, hc2⟩ := SendCMD_frames m SD_CMD_8 0x01AA SD_R1_IDLE_STATE
  obtain ⟨g1, g2, g3, g4, g5⟩ :=
    GetResponse_facts (SD_SendCMD m SD_CMD_8 0x01AA SD_R1_IDLE_STATE).2 4
  unfold SD_CheckVoltage
  simp only []
  generalize SD_SendCMD m SD_CMD_8 0x01AA SD_R1_IDLE_STATE = r at *
  generalize hg : SD_GetResponse r.2 4 = g at *
  have hver : g.2.2.sd.version = m.sd.version := by rw [g2, hv]
  refine ⟨?_, ?_, ?_, ?_⟩
  · have hl : g.2.2.log = (Event.recv8 4 (r.2.rx8 0).st g.2.1 :: lc) ++ m.log := by
      rw [g1, hc1]
      rfl
    have hf : sentFrames (Event.recv8 4 (r.2.rx8 0).st g.2.1 :: lc) =
        [SD_SendCMD_frame m.SD_CRC7_Table SD_CMD_8 0x000001AA] := by
      simpa [sentFrames] using hc2
    split_ifs <;> first | exact ⟨lc, hc1, hc2⟩ | exact ⟨_, hl, hf⟩
  · intro h
    rw [if_pos h]
    exact ⟨rfl, hv, rfl⟩
  · intro h1 h2
    rw [if_neg h1, if_pos h2]
    exact ⟨rfl, rfl, rfl⟩
  · intro h1 h2
    rw [if_neg h1, if_neg (not_not.2 h2)]
    refine ⟨(r.2.rx8 0).st, g.2.1, ?_, g5, ?_, ?_⟩
    · split_ifs <;> exact g1
    · rintro ⟨a1, a2, a3⟩
      have hge : ¬ g.1 = SD_ERROR := by
        rw [g3, a1]
        decide
      have hst := storeBytes_full [0xFF, 0xFF, 0xFF, 0xFF] g.2.1 (g5 a1)
      rw [if_neg hge, hst, if_neg (not_not.2 ⟨a2, a3⟩)]
      exact ⟨rfl, rfl⟩
    · intro hn
      by_cases hge : g.1 = SD_ERROR
      · rw [if_pos hge]
        exact ⟨rfl, hver⟩
      · have a1 : (r.2.rx8 0).st = SD_SPI_OK := by
          apply status_ok_of_ne_error
          exact fun h => hge (g3.2 h)
        have hst := storeBytes_full [0xFF, 0xFF, 0xFF, 0xFF] g.2.1 (g5 a1)
        rw [if_neg hge, hst, if_pos (fun h => hn ⟨a1, h⟩)]
        exact ⟨rfl, hver⟩

theorem C27_check_voltage_witness :
    ((SD_CheckVoltage (scriptedMachine sessionReady [0x05] [])).1 = SD_OK ∧
      (SD_CheckVoltage (scriptedMachine sessionReady [0x05] [])).2.sd.version = 1 ∧
      (SD_CheckVoltage (scriptedMachine sessionReady [0x05] [])).2.log =
        (SD_SendCMD (scriptedMachine sessionReady [0x05] []) SD_CMD_8 0x01AA
          SD_R1_IDLE_STATE).2.log) ∧
    (SD_CheckVoltage (scriptedMachineBytes { sessionReady with version := 0 }
      [[0x01], [0x00, 0x00, 0x01, 0xAA]] [])).1 = SD_OK ∧
    (SD_CheckVoltage (scriptedMachineBytes { sessionReady with version := 0 }
      [[0x01], [0x00, 0x00, 0x01, 0xAA]] [])).2.sd.version = 2 ∧
    (SD_CheckVoltage (scriptedMachineBytes { sessionReady with version := 0 }
      [[0x01], [0x00, 0x00, 0x01, 0x55]] [])).1 = SD_ERROR ∧
    (SD_CheckVoltage (scriptedMachineBytes { sessionReady with version := 0 }
      [[0x01], [0x00, 0x00, 0x01, 0x55]] [])).2.sd.version = 0 :=
  ⟨(C27_check_voltage (scriptedMachine sessionReady [0x05] [])).2.2.1 (by decide!) (by decide!),
    by decide!, by decide!, by decide!, by decide!⟩

/-! ## Loops under the time budget -/

theorem Timeout_eq (m : Machine) (ts : Nat) :
    DWT_Timeout m SD_TIMEOUT ts =
      (if timeoutCycles m ≥ cyclesSince m ts 0 then 0 else 1, (DWT_GetCycle m).2) := by
  unfold DWT_Timeout
  simp only []
  split_ifs with h1 h2 h2
  · rfl
  · exact absurd h1 h2
  · exact absurd h2 h1
  · rfl

theorem cyclesSince_mod (m : Machine) (ts k : Nat) :
    cyclesSince m (ts % 4294967296) k = cyclesSince m ts k := by
  simp [cyclesSince, Nat.mod_mod]

theorem afterTimedReads_facts (m : Machine) (k : Nat) :
    (∀ i, (afterTimedReads m k).rx8 i = m.rx8 (i + k)) ∧
    (∀ i, (afterTimedReads m k).cycles i = m.cycles (i + k)) ∧
    (afterTimedReads m k).SystemCoreClock = m.SystemCoreClock ∧
    (afterTimedReads m k).sd = m.sd ∧
    (afterTimedReads m k).SD_CRC7_Table = m.SD_CRC7_Table ∧
    (afterTimedReads m k).tx8 = m.tx8 ∧
    ((∀ i < k, (m.rx8 i).st = SD_SPI_OK) →
      (afterTimedReads m k).log = readsLog m k ++ m.log) := by
  induction k generalizing m with
  | zero => exact ⟨fun i => rfl, fun i => rfl, rfl, rfl, rfl, rfl, fun _ => rfl⟩
  | succ k ih =>
    obtain ⟨h1, h2, h3, h4, h5, h6, h7⟩ := ih (DWT_GetCycle (SD_SPI_Receive8Data m 1).2.2).2
    refine ⟨fun i => ?_, fun i => ?_, h3, h4, h5, h6, fun hok => ?_⟩
    · show (afterTimedReads (DWT_GetCycle (SD_SPI_Receive8Data m 1).2.2).2 k).rx8 i = _
      rw [h1]
      show m.rx8 (i + k + 1) = _
      rw [Nat.add_assoc]
    · show (afterTimedReads (DWT_GetCycle (SD_SPI_Receive8Data m 1).2.2).2 k).cycles i = _
      rw [h2]
      show m.cycles (i + k + 1) = _
      rw [Nat.add_assoc]
    · show (afterTimedReads (DWT_GetCycle (SD_SPI_Receive8Data m 1).2.2).2 k).log = _
      rw [h7 (fun i hi => hok (i + 1) (by omega))]
      obtain ⟨-, e2⟩ := Recv8_one_logged m (by
        show (m.rx8 0).st ≠ SD_SPI_ERROR
        rw [hok 0 (by omega)]
        decide)
      show _ ++ (SD_SPI_Receive8Data m 1).2.2.log = _
      rw [e2]
      have e3 : readsLog m (k + 1) =
          readsLog (DWT_GetCycle (SD_SPI_Receive8Data m 1).2.2).2 k ++
            [Event.recv8 1 SD_SPI_OK [(m.rx8 0).item 0 % 256]] := by
        clear h1 h2 h3 h4 h5 h6 h7 e2 ih hok
        induction k with
        | zero => rfl
        | succ k ihk =>
          rw [readsLog_succ m (k + 1),
            readsLog_succ (DWT_GetCycle (SD_SPI_Receive8Data m 1).2.2).2 k, ihk]
          rfl
      rw [e3, List.append_assoc]
      rfl

theorem timeoutCycles_step (m : Machine) :
    timeoutCycles (DWT_GetCycle (SD_SPI_Receive8Data m 1).2.2).2 = timeoutCycles m := rfl

theorem cyclesSince_step (m : Machine) (ts i : Nat) :
    cyclesSince (DWT_GetCycle (SD_SPI_Receive8Data m 1).2.2).2 ts i = cyclesSince m ts (i + 1) :=
  rfl

theorem cyclesSince_recv (m : Machine) (ts i : Nat) :
    cyclesSince (SD_SPI_Receive8Data m 1).2.2 ts i = cyclesSince m ts i := rfl

/-- One round of a polling loop under the time budget: the read succeeds and the budget is
not used up. -/
theorem timed_round (m : Machine) (ts : Nat) (hok : (m.rx8 0).st = SD_SPI_OK)
    (ht : cyclesSince m ts 0 ≤ timeoutCycles m) :
    (SD_SPI_Receive8Data m 1).1 ≠ SD_SPI_ERROR ∧
    (DWT_Timeout (SD_SPI_Receive8Data m 1).2.2 SD_TIMEOUT ts).1 = 0 ∧
    (DWT_Timeout (SD_SPI_Receive8Data m 1).2.2 SD_TIMEOUT ts).2 =
      (DWT_GetCycle (SD_SPI_Receive8Data m 1).2.2).2 ∧
    (SD_SPI_Receive8Data m 1).2.1 = [(m.rx8 0).item 0 % 256] := by
  obtain ⟨e1, e2⟩ := Recv8_one_ok m hok
  refine ⟨by rw [e1]; decide, ?_, ?_, e2⟩
  · rw [Timeout_eq]
    have : timeoutCycles (SD_SPI_Receive8Data m 1).2.2 ≥
        cyclesSince (SD_SPI_Receive8Data m 1).2.2 ts 0 := ht
    simp only [this, if_true]
  · rw [Timeout_eq]

theorem WriteData_loop_decides (ts : Nat) : ∀ (k fuel : Nat) (m : Machine) (tok : Nat),
    (tok ≠ SD_DATA_ACCEPTED ∧ tok ≠ SD_DATA_CRC_ERROR ∧ tok ≠ SD_DATA_WRITE_ERROR) →
    k + 1 < fuel →
    (∀ i ≤ k, (m.rx8 i).st = SD_SPI_OK) →
    (∀ i ≤ k, cyclesSince m ts i ≤ timeoutCycles m) →
    (∀ i < k, ((m.rx8 i).item 0 % 256) &&& 0x1F ≠ SD_DATA_ACCEPTED ∧
      ((m.rx8 i).item 0 % 256) &&& 0x1F ≠ SD_DATA_CRC_ERROR ∧
      ((m.rx8 i).item 0 % 256) &&& 0x1F ≠ SD_DATA_WRITE_ERROR) →
    (((m.rx8 k).item 0 % 256) &&& 0x1F = SD_DATA_ACCEPTED ∨
      ((m.rx8 k).item 0 % 256) &&& 0x1F = SD_DATA_CRC_ERROR ∨
      ((m.rx8 k).item 0 % 256) &&& 0x1F = SD_DATA_WRITE_ERROR) →
    SD_WriteData_loop ts fuel m tok =
      (some (some (((m.rx8 k).item 0 % 256) &&& 0x1F)), afterTimedReads m (k + 1)) := by
  intro k
  induction k with
  | zero =>
    intro fuel m tok htok hf hok ht _ hc
    obtain ⟨f, rfl⟩ : ∃ f, fuel = f + 1 + 1 := ⟨fuel - 2, by omega⟩
    obtain ⟨r1, r2, r3, r4⟩ := timed_round m ts (hok 0 (le_refl _)) (ht 0 (le_refl _))
    rw [SD_WriteData_loop]
    simp only []
    rw [if_pos htok, if_neg r1, if_neg (not_not.2 r2), r3, r4]
    simp only [List.headD_cons]
    rw [SD_WriteData_loop]
    simp only []
    rw [if_neg]
    · rfl
    · intro hn
      rcases hc with hc | hc | hc
      · exact hn.1 hc
      · exact hn.2.1 hc
      · exact hn.2.2 hc
  | succ k ih =>
    intro fuel m tok htok hf hok ht hs hc
    obtain ⟨f, rfl⟩ : ∃ f, fuel = f + 1 := ⟨fuel - 1, by omega⟩
    obtain ⟨r1, r2, r3, r4⟩ := timed_round m ts (hok 0 (by omega)) (ht 0 (by omega))
    rw [SD_WriteData_loop]
    simp only []
    rw [if_pos htok, if_neg r1, if_neg (not_not.2 r2), r3, r4]
    simp only [List.headD_cons]
    exact ih f (DWT_GetCycle (SD_SPI_Receive8Data m 1).2.2).2 _ (hs 0 (by omega)) (by omega)
      (fun i hi => hok (i + 1) (by omega)) (fun i hi => ht (i + 1) (by omega))
      (fun i hi => hs (i + 1) (by omega)) hc

theorem WaitForBusy_loop_done (ts : Nat) : ∀ (j fuel : Nat) (m : Machine) (busy : Nat),
    busy ≠ 0xFF → j + 1 < fuel →
    (∀ i ≤ j, (m.rx8 i).st = SD_SPI_OK) →
    (∀ i ≤ j, cyclesSince m ts i ≤ timeoutCycles m) →
    (∀ i < j, (m.rx8 i).item 0 % 256 ≠ 0xFF) →
    (m.rx8 j).item 0 % 256 = 0xFF →
    SD_WaitForBusy_loop ts fuel m busy = (some SD_OK, afterTimedReads m (j + 1)) := by
  intro j
  induction j with
  | zero =>
    intro fuel m busy hb hf hok ht _ hc
    obtain ⟨f, rfl⟩ : ∃ f, fuel = f + 1 + 1 := ⟨fuel - 2, by omega⟩
    obtain ⟨r1, r2, r3, r4⟩ := timed_round m ts (hok 0 (le_refl _)) (ht 0 (le_refl _))
    rw [SD_WaitForBusy_loop]
    simp only []
    rw [if_pos hb, if_neg r1, if_neg (not_not.2 r2), r3, r4]
    simp only [List.headD_cons]
    rw [SD_WaitForBusy_loop]
    simp only []
    rw [if_neg (not_not.2 hc)]
    rfl
  | succ j ih =>
    intro fuel m busy hb hf hok ht hs hc
    obtain ⟨f, rfl⟩ : ∃ f, fuel = f + 1 := ⟨fuel - 1, by omega⟩
    obtain ⟨r1, r2, r3, r4⟩ := timed_round m ts (hok 0 (by omega)) (ht 0 (by omega))
    rw [SD_WaitForBusy_loop]
    simp only []
    rw [if_pos hb, if_neg r1, if_neg (not_not.2 r2), r3, r4]
    simp only [List.headD_cons]
    exact ih f (DWT_GetCycle (SD_SPI_Receive8Data m 1).2.2).2 _ (hs 0 (by omega)) (by omega)
      (fun i hi => hok (i + 1) (by omega)) (fun i hi => ht (i + 1) (by omega))
      (fun i hi => hs (i + 1) (by omega)) hc

/-- A polling loop of `SD_WriteData` that sees no data-response code returns through the
time-out as soon as a reading of the cycle counter lies beyond the budget. -/
theorem WriteData_loop_times_out (ts : Nat) : ∀ (n fuel : Nat) (m : Machine) (tok : Nat),
    (tok ≠ SD_DATA_ACCEPTED ∧ tok ≠ SD_DATA_CRC_ERROR ∧ tok ≠ SD_DATA_WRITE_ERROR) →
    n < fuel →
    (∀ i ≤ n, (m.rx8 i).st = SD_SPI_OK) →
    (∀ i ≤ n, ((m.rx8 i).item 0 % 256) &&& 0x1F ≠ SD_DATA_ACCEPTED ∧
      ((m.rx8 i).item 0 % 256) &&& 0x1F ≠ SD_DATA_CRC_ERROR ∧
      ((m.rx8 i).item 0 % 256) &&& 0x1F ≠ SD_DATA_WRITE_ERROR) →
    timeoutCycles m < cyclesSince m ts n →
    (SD_WriteData_loop ts fuel m tok).1 = some none := by
  intro n
  induction n with
  | zero =>
    intro fuel m tok htok hf hok _ ht
    obtain ⟨f, rfl⟩ : ∃ f, fuel = f + 1 := ⟨fuel - 1, by omega⟩
    obtain ⟨e1, e2⟩ := Recv8_one_ok m (hok 0 (le_refl _))
    rw [SD_WriteData_loop]
    simp only []
    rw [if_pos htok, if_neg (by rw [e1]; decide), Timeout_eq]
    have : ¬ (timeoutCycles (SD_SPI_Receive8Data m 1).2.2 ≥
        cyclesSince (SD_SPI_Receive8Data m 1).2.2 ts 0) := not_le.2 ht
    simp only [this, if_false]
    rfl
  | succ n ih =>
    intro fuel m tok htok hf hok hs ht
    obtain ⟨f, rfl⟩ : ∃ f, fuel = f + 1 := ⟨fuel - 1, by omega⟩
    obtain ⟨e1, e2⟩ := Recv8_one_ok m (hok 0 (by omega))
    rw [SD_WriteData_loop]
    simp only []
    rw [if_pos htok, if_neg (by rw [e1]; decide), Timeout_eq]
    by_cases h0 : timeoutCycles (SD_SPI_Receive8Data m 1).2.2 ≥
        cyclesSince (SD_SPI_Receive8Data m 1).2.2 ts 0
    · simp only [h0, if_true, ne_eq, not_true_eq_false, if_false, e2, List.headD_cons]
      exact ih f (DWT_GetCycle (SD_SPI_Receive8Data m 1).2.2).2 _ (hs 0 (by omega)) (by omega)
        (fun i hi => hok (i + 1) (by omega)) (fun i hi => hs (i + 1) (by omega)) ht
    · simp only [h0, if_false]
      rfl

/-! ## Data response of a written block -/

theorem WriteData_start (fuel : Nat) (m : Machine) (data : List Nat) (len : Nat)
    (hsend : m.tx16 0 ≠ SD_SPI_ERROR) :
    SD_WriteData fuel m data len =
      match (SD_WriteData_loop (m.cycles 0 % 4294967296) fuel
        (DWT_GetCycle (SD_SPI_Send16Data m data (len >>> 1)).2).2 0xFF).1 with
      | none => (none, (SD_WriteData_loop (m.cycles 0 % 4294967296) fuel
          (DWT_GetCycle (SD_SPI_Send16Data m data (len >>> 1)).2).2 0xFF).2)
      | some none => (some SD_ERROR, (SD_WriteData_loop (m.cycles 0 % 4294967296) fuel
          (DWT_GetCycle (SD_SPI_Send16Data m data (len >>> 1)).2).2 0xFF).2)
      | some (some token) =>
        if token = SD_DATA_CRC_ERROR then (some SD_CRC_ERROR,
          (SD_WriteData_loop (m.cycles 0 % 4294967296) fuel
            (DWT_GetCycle (SD_SPI_Send16Data m data (len >>> 1)).2).2 0xFF).2)
        else if token = SD_DATA_WRITE_ERROR then (some SD_WRITE_ERROR,
          (SD_WriteData_loop (m.cycles 0 % 4294967296) fuel
            (DWT_GetCycle (SD_SPI_Send16Data m data (len >>> 1)).2).2 0xFF).2)
        else
          match (SD_WaitForBusy fuel (SD_WriteData_loop (m.cycles 0 % 4294967296) fuel
            (DWT_GetCycle (SD_SPI_Send16Data m data (len >>> 1)).2).2 0xFF).2).1 with
          | none => (none, (SD_WaitForBusy fuel (SD_WriteData_loop (m.cycles 0 % 4294967296)
              fuel (DWT_GetCycle (SD_SPI_Send16Data m data (len >>> 1)).2).2 0xFF).2).2)
          | some e =>
            if e ≠ SD_OK then (some SD_ERROR, (SD_WaitForBusy fuel (SD_WriteData_loop
              (m.cycles 0 % 4294967296) fuel
              (DWT_GetCycle (SD_SPI_Send16Data m data (len >>> 1)).2).2 0xFF).2).2)
            else (some SD_OK, (SD_WaitForBusy fuel (SD_WriteData_loop
              (m.cycles 0 % 4294967296) fuel
              (DWT_GetCycle (SD_SPI_Send16Data m data (len >>> 1)).2).2 0xFF).2).2) := by
  have hs : ¬ (SD_SPI_Send16Data m data (len >>> 1)).1 = SD_SPI_ERROR := hsend
  unfold SD_WriteData
  simp only [hs, if_false]
  rfl

theorem WriteData_loop_found (fuel : Nat) (m : Machine) (data : List Nat) (len k : Nat)
    (hfuel : k + 1 < fuel)
    (hok : ∀ i ≤ k, (m.rx8 i).st = SD_SPI_OK)
    (htime : ∀ i ≤ k, cyclesSince m (m.cycles 0) (i + 1) ≤ timeoutCycles m)
    (hskip : ∀ i < k, ((m.rx8 i).item 0 % 256) &&& 0x1F ≠ SD_DATA_ACCEPTED ∧
      ((m.rx8 i).item 0 % 256) &&& 0x1F ≠ SD_DATA_CRC_ERROR ∧
      ((m.rx8 i).item 0 % 256) &&& 0x1F ≠ SD_DATA_WRITE_ERROR)
    (hcode : ((m.rx8 k).item 0 % 256) &&& 0x1F = SD_DATA_ACCEPTED ∨
      ((m.rx8 k).item 0 % 256) &&& 0x1F = SD_DATA_CRC_ERROR ∨
      ((m.rx8 k).item 0 % 256) &&& 0x1F = SD_DATA_WRITE_ERROR) :
    SD_WriteData_loop (m.cycles 0 % 4294967296) fuel
        (DWT_GetCycle (SD_SPI_Send16Data m data (len >>> 1)).2).2 0xFF =
      (some (some (((m.rx8 k).item 0 % 256) &&& 0x1F)),
        afterTimedReads (DWT_GetCycle (SD_SPI_Send16Data m data (len >>> 1)).2).2 (k + 1)) := by
  refine WriteData_loop_decides (m.cycles 0 % 4294967296) k fuel
    (DWT_GetCycle (SD_SPI_Send16Data m data (len >>> 1)).2).2 0xFF (by decide) hfuel hok ?_
    hskip hcode
  intro i hi
  have := htime i hi
  rw [← cyclesSince_mod] at this
  exact this

theorem readsLog_add (m m1 : Machine) (a b : Nat) (h : ∀ i, m1.rx8 i = m.rx8 (a + i)) :
    readsLog m1 b ++ readsLog m a = readsLog m (a + b) := by
  induction b with
  | zero => rfl
  | succ b ih =>
    rw [readsLog_succ, ← Nat.add_assoc, readsLog_succ, h b, ← ih]
    rfl

/-- C26: in `SD_WriteData`, when the block was sent, the first `k + 1` reads succeed and the
time budget is not used up, the bytes before the `k`-th one are skipped (their low 5 bits
are none of `0x05`, `0x0B`, `0x0D`) and the low 5 bits of the `k`-th byte decide: `0x0B`
gives `SD_CRC_ERROR` and `0x0D` gives `SD_WRITE_ERROR`, in both cases after exactly these
`k + 1` reads; `0x05` gives `SD_OK` once the busy wait that follows has read `0xFF` (again
without transport error and within the budget).  The three results are distinct. -/
theorem C26_write_data_response (fuel : Nat) (m : Machine) (data : List Nat) (len k : Nat)
    (hsend : m.tx16 0 ≠ SD_SPI_ERROR)
    (hfuel : k + 1 < fuel)
    (hok : ∀ i ≤ k, (m.rx8 i).st = SD_SPI_OK)
    (htime : ∀ i ≤ k, cyclesSince m (m.cycles 0) (i + 1) ≤ timeoutCycles m)
    (hskip : ∀ i < k, ((m.rx8 i).item 0 % 256) &&& 0x1F ≠ SD_DATA_ACCEPTED ∧
      ((m.rx8 i).item 0 % 256) &&& 0x1F ≠ SD_DATA_CRC_ERROR ∧
      ((m.rx8 i).item 0 % 256) &&& 0x1F ≠ SD_DATA_WRITE_ERROR) :
    (((m.rx8 k).item 0 % 256) &&& 0x1F = SD_DATA_CRC_ERROR →
      (SD_WriteData fuel m data len).1 = some SD_CRC_ERROR ∧
      (SD_WriteData fuel m data len).2.log = readsLog m (k + 1) ++
        Event.send16 (data.take (2 * (len >>> 1))) (m.tx16 0) :: m.log) ∧
    (((m.rx8 k).item 0 % 256) &&& 0x1F = SD_DATA_WRITE_ERROR →
      (SD_WriteData fuel m data len).1 = some SD_WRITE_ERROR ∧
      (SD_WriteData fuel m data len).2.log = readsLog m (k + 1) ++
        Event.send16 (data.take (2 * (len >>> 1))) (m.tx16 0) :: m.log) ∧
    (((m.rx8 k).item 0 % 256) &&& 0x1F = SD_DATA_ACCEPTED →
      ∀ j, j + 1 < fuel →
        (∀ i ≤ j, (m.rx8 (k + 1 + i)).st = SD_SPI_OK) →
        (∀ i ≤ j, cyclesSince m (m.cycles (k + 2)) (k + 3 + i) ≤ timeoutCycles m) →
        (∀ i < j, (m.rx8 (k + 1 + i)).item 0 % 256 ≠ 0xFF) →
        (m.rx8 (k + 1 + j)).item 0 % 256 = 0xFF →
        (SD_WriteData fuel m data len).1 = some SD_OK ∧
        (SD_WriteData fuel m data len).2.log = readsLog m (k + 1 + (j + 1)) ++
          Event.send16 (data.take (2 * (len >>> 1))) (m.tx16 0) :: m.log) ∧
    (SD_CRC_ERROR ≠ SD_WRITE_ERROR ∧ SD_CRC_ERROR ≠ SD_OK ∧ SD_WRITE_ERROR ≠ SD_OK) := by
  have hlog : ∀ n, (∀ i < n, (m.rx8 i).st = SD_SPI_OK) →
      (afterTimedReads (DWT_GetCycle (SD_SPI_Send16Data m data (len >>> 1)).2).2 n).log =
        readsLog m n ++ Event.send16 (data.take (2 * (len >>> 1))) (m.tx16 0) :: m.log :=
    fun n h => (afterTimedReads_facts
      (DWT_GetCycle (SD_SPI_Send16Data m data (len >>> 1)).2).2 n).2.2.2.2.2.2 h
  refine ⟨fun hc => ?_, fun hc => ?_, fun hc j hj hok2 htime2 hbusy hdone => ?_, by decide⟩
  · have hl := WriteData_loop_found fuel m data len k hfuel hok htime hskip (Or.inr (Or.inl hc))
    rw [WriteData_start fuel m data len hsend, hl, hc]
    exact ⟨rfl, hlog (k + 1) (fun i hi => hok i (by omega))⟩
  · have hl := WriteData_loop_found fuel m data len k hfuel hok htime hskip (Or.inr (Or.inr hc))
    rw [WriteData_start fuel m data len hsend, hl, hc]
    exact ⟨rfl, hlog (k + 1) (fun i hi => hok i (by omega))⟩
  · have hl := WriteData_loop_found fuel m data len k hfuel hok htime hskip (Or.inl hc)
    obtain ⟨f1, f2, f3, -⟩ := afterTimedReads_facts
      (DWT_GetCycle (SD_SPI_Send16Data m data (len >>> 1)).2).2 (k + 1)
    have hlk := hlog (k + 1) (fun i hi => hok i (by omega))
    generalize afterTimedReads (DWT_GetCycle (SD_SPI_Send16Data m data (len >>> 1)).2).2
      (k + 1) = M at hl f1 f2 f3 hlk
    have g1 : ∀ i, (DWT_GetCycle M).2.rx8 i = m.rx8 (k + 1 + i) := by
      intro i
      show M.rx8 i = _
      rw [f1, Nat.add_comm]
      rfl
    have g2 : ∀ i, (DWT_GetCycle M).2.cycles i = m.cycles (k + 3 + i) := by
      intro i
      show M.cycles (i + 1) = _
      rw [f2]
      show m.cycles (i + 1 + (k + 1) + 1) = _
      congr 1
      omega
    have g3 : M.cycles 0 = m.cycles (k + 2) := by
      rw [f2]
      show m.cycles (0 + (k + 1) + 1) = _
      congr 1
      omega
    have g4 : timeoutCycles (DWT_GetCycle M).2 = timeoutCycles m := by
      show (SD_TIMEOUT * ((M.SystemCoreClock % 4294967296) / 1000)) % 4294967296 = _
      rw [f3]
      rfl
    have hw : SD_WaitForBusy fuel M = (some SD_OK, afterTimedReads (DWT_GetCycle M).2 (j + 1)) := by
      unfold SD_WaitForBusy
      simp only []
      refine WaitForBusy_loop_done _ j fuel (DWT_GetCycle M).2 0 (by decide) hj ?_ ?_ ?_ ?_
      · intro i hi
        rw [g1]
        exact hok2 i hi
      · intro i hi
        have h := htime2 i hi
        have e : cyclesSince (DWT_GetCycle M).2 (DWT_GetCycle M).1 i =
            cyclesSince m (m.cycles (k + 2)) (k + 3 + i) := by
          show cyclesSince (DWT_GetCycle M).2 (M.cycles 0 % 4294967296) i = _
          rw [cyclesSince_mod, g3]
          unfold cyclesSince
          rw [g2]
        rw [e, g4]
        exact h
      · intro i hi
        rw [g1]
        exact hbusy i hi
      · rw [g1]
        exact hdone
    have hlj := (afterTimedReads_facts (DWT_GetCycle M).2 (j + 1)).2.2.2.2.2.2 (by
      intro i hi
      rw [g1]
      exact hok2 i (by omega))
    rw [WriteData_start fuel m data len hsend, hl, hc]
    simp only [hw]
    refine ⟨rfl, ?_⟩
    show (afterTimedReads (DWT_GetCycle M).2 (j + 1)).log = _
    rw [hlj]
    show readsLog (DWT_GetCycle M).2 (j + 1) ++ M.log = _
    rw [hlk, ← List.append_assoc, readsLog_add m (DWT_GetCycle M).2 (k + 1) (j + 1) g1]

theorem C26_write_data_response_witness :
    ((SD_WriteData 10 (machineDataResponse 0xEB) [1, 2, 3, 4] 4).1 = some SD_CRC_ERROR ∧
      (SD_WriteData 10 (machineDataResponse 0xEB) [1, 2, 3, 4] 4).2.log =
        readsLog (machineDataResponse 0xEB) (2 + 1) ++
          Event.send16 (List.take (2 * (4 >>> 1)) [1, 2, 3, 4])
            ((machineDataResponse 0xEB).tx16 0) :: (machineDataResponse 0xEB).log) ∧
    (SD_WriteData 10 (machineDataResponse 0xED) [1, 2, 3, 4] 4).1 = some SD_WRITE_ERROR ∧
    (SD_WriteData 10 (machineDataResponse 0xE5) [1, 2, 3, 4] 4).1 = some SD_OK :=
  ⟨(C26_write_data_response 10 (machineDataResponse 0xEB) [1, 2, 3, 4] 4 2 (by decide)
      (by decide) (fun _ _ => rfl) (by decide) (by decide)).1 (by decide),
    by decide!, by decide!⟩

/-! ## A card that stays busy -/

theorem afterReads_env (m : Machine) (k : Nat) :
    (afterReads m k).cycles = m.cycles ∧
    (afterReads m k).SystemCoreClock = m.SystemCoreClock ∧
    (afterReads m k).tx8 = m.tx8 ∧ (afterReads m k).tx16 = m.tx16 := by
  induction k generalizing m with
  | zero => exact ⟨rfl, rfl, rfl, rfl⟩
  | succ k ih => exact ih (SD_SPI_Receive8Data m 1).2.2

theorem GetR1_env (m : Machine) (c : Nat) :
    (SD_GetR1 m c).2.cycles = m.cycles ∧
    (SD_GetR1 m c).2.SystemCoreClock = m.SystemCoreClock ∧
    (SD_GetR1 m c).2.tx8 = m.tx8 ∧ (SD_GetR1 m c).2.tx16 = m.tx16 := by
  obtain ⟨k, -, e⟩ := GetR1_poll_reads 10 m 0xFF
  have h := afterReads_env m k
  rw [← e] at h
  unfold SD_GetR1
  simp only []
  split <;> [skip; split_ifs] <;> exact h

theorem SendCMD_env (m : Machine) (a b c : Nat) :
    (SD_SendCMD m a b c).2.cycles = m.cycles ∧
    (SD_SendCMD m a b c).2.SystemCoreClock = m.SystemCoreClock ∧
    (SD_SendCMD m a b c).2.tx16 = m.tx16 := by
  unfold SD_SendCMD
  simp only []
  split_ifs
  · exact ⟨rfl, rfl, rfl⟩
  · obtain ⟨h1, h2, -, h4⟩ :=
      GetR1_env (SD_SPI_Send8Data m (SD_SendCMD_frame m.SD_CRC7_Table a b) 6).2 c
    exact ⟨h1, h2, h4⟩

/-! ## Frames sent -/

theorem FramesExt.frefl (m : Machine) : FramesExt m m [] := ⟨rfl, [], rfl, rfl⟩

theorem FramesExt.ftrans {m0 m1 m2 : Machine} {f1 f2 : List (List Nat)}
    (h1 : FramesExt m0 m1 f1) (h2 : FramesExt m1 m2 f2) : FramesExt m0 m2 (f1 ++ f2) := by
  obtain ⟨t1, l1, e1, s1⟩ := h1
  obtain ⟨t2, l2, e2, s2⟩ := h2
  refine ⟨t2.trans t1, l2 ++ l1, ?_, ?_⟩
  · rw [e2, e1, List.append_assoc]
  · rw [sentFrames_append, s1, s2]

theorem FramesExt.fsame {m0 m m1 : Machine} {fs : List (List Nat)} (h : FramesExt m0 m fs)
    (ht : m1.SD_CRC7_Table = m.SD_CRC7_Table) (hl : m1.log = m.log) : FramesExt m0 m1 fs := by
  obtain ⟨t, l, e, s⟩ := h
  exact ⟨ht.trans t, l, hl.trans e, s⟩

theorem FramesExt.fevent {m0 m m1 : Machine} {fs : List (List Nat)} (h : FramesExt m0 m fs)
    (ht : m1.SD_CRC7_Table = m.SD_CRC7_Table) (e : Event) (he : sentFrames [e] = [])
    (hl : m1.log = e :: m.log) : FramesExt m0 m1 fs := by
  obtain ⟨t, l, el, s⟩ := h
  refine ⟨ht.trans t, e :: l, ?_, ?_⟩
  · rw [hl, el]
    rfl
  · have := sentFrames_append [e] l
    rw [he, List.append_nil] at this
    rw [← s]
    exact this

theorem FramesExt.of_reads {m0 m : Machine} (ht : m.SD_CRC7_Table = m0.SD_CRC7_Table)
    (h : ∃ l, m.log = l ++ m0.log ∧ ∀ e ∈ l, e.isRecv8 = true) : FramesExt m0 m [] := by
  obtain ⟨l, e, hl⟩ := h
  exact ⟨ht, l, e, sentFrames_recv l hl⟩

theorem frames_SendCMD (m : Machine) (a b c : Nat) :
    FramesExt m (SD_SendCMD m a b c).2 [SD_SendCMD_frame m.SD_CRC7_Table a b] := by
  obtain ⟨l, h1, h2⟩ := SendCMD_frames m a b c
  exact ⟨SendCMD_table m a b c, l, h1, h2⟩

theorem frames_GetToken (m : Machine) (t : Nat) : FramesExt m (SD_GetToken m t).2 [] := by
  obtain ⟨-, -, l, h1, -, h2⟩ := GetToken_reads m t
  exact FramesExt.of_reads (GetToken_table m t) ⟨l, h1, h2⟩

theorem frames_ReadData (m : Machine) (n : Nat) : FramesExt m (SD_ReadData m n).2.2 [] := by
  refine ⟨ReadData_table m n, [Event.recv16 (n >>> 1) (m.rx16 0).st (SD_ReadData m n).2.1], ?_,
    rfl⟩
  unfold SD_ReadData
  simp only []
  split_ifs <;> rfl

theorem frames_GetResponse (m : Machine) (n : Nat) :
    FramesExt m (SD_GetResponse m n).2.2 [] := by
  refine ⟨?_, [Event.recv8 n (m.rx8 0).st (SD_GetResponse m n).2.1],
    (GetResponse_facts m n).1, rfl⟩
  unfold SD_GetResponse
  simp only []
  split_ifs <;> rfl

theorem frames_SendDummyByte (n : Nat) : ∀ (m : Machine),
    FramesExt m (SD_SendDummyByte m n).2 [] := by
  induction n with
  | zero => intro m; exact FramesExt.frefl m
  | succ n ih =>
    intro m
    have h1 : FramesExt m (SD_SPI_Receive8Data m 1).2.2 [] :=
      ⟨rfl, [Event.recv8 1 (m.rx8 0).st (SD_SPI_Receive8Data m 1).2.1], rfl, rfl⟩
    unfold SD_SendDummyByte
    simp only []
    split_ifs
    · exact h1
    · exact h1.ftrans (ih _)

theorem frames_Timeout (m : Machine) (a b : Nat) : FramesExt m (DWT_Timeout m a b).2 [] :=
  (FramesExt.frefl m).fsame (by unfold DWT_Timeout; simp only []; split_ifs <;> rfl)
    (Timeout_log m a b)

/-- The frames of `SD_SendACMD`: CMD55 alone when its exchange returns `SD_ERROR`, CMD55 and
the application command otherwise. -/
theorem frames_SendACMD (m : Machine) (a b c : Nat) :
    ((SD_SendACMD m a b c).1 ≠ SD_ERROR →
      FramesExt m (SD_SendACMD m a b c).2
        [SD_SendCMD_frame m.SD_CRC7_Table SD_CMD_55 0, SD_SendCMD_frame m.SD_CRC7_Table a b]) ∧
    (FramesExt m (SD_SendACMD m a b c).2 [SD_SendCMD_frame m.SD_CRC7_Table SD_CMD_55 0] ∨
      FramesExt m (SD_SendACMD m a b c).2
        [SD_SendCMD_frame m.SD_CRC7_Table SD_CMD_55 0, SD_SendCMD_frame m.SD_CRC7_Table a b]) := by
  rw [SendACMD_eq]
  generalize (if m.sd.mode = SD_MODE_TRANSFER then SD_R1_NORMAL_STATE else SD_R1_IDLE_STATE) =
    resp
  have h1 := frames_SendCMD m SD_CMD_55 0 resp
  have h2 := frames_SendCMD (SD_SendCMD m SD_CMD_55 0 resp).2 a b c
  rw [SendCMD_table] at h2
  by_cases hr : (SD_SendCMD m SD_CMD_55 0 resp).1 = SD_ERROR
  · rw [if_pos hr]
    exact ⟨fun h => absurd rfl h, Or.inl h1⟩
  · rw [if_neg hr]
    exact ⟨fun _ => h1.ftrans h2, Or.inr (h1.ftrans h2)⟩

theorem pollFrames_succ (tbl : Nat → Nat) (j : Nat) :
    pollFrames tbl (j + 1) =
      [SD_SendCMD_frame tbl SD_CMD_55 0, SD_SendCMD_frame tbl SD_ACMD_41 0] ++
        pollFrames tbl j := by
  simp [pollFrames, List.replicate_succ]

/-- The frames of the loop of `SD_GoToTransferMode`: pairs of CMD55 and ACMD41 with argument
0, the last pair possibly cut short after CMD55; whole pairs when the loop ends with
`SD_OK`. -/
theorem frames_GoToTransferMode_loop (ts : Nat) : ∀ (n : Nat) (m : Machine),
    ∃ fs j, FramesExt m (SD_GoToTransferMode_loop ts n m).2 fs ∧
      fs <+: pollFrames m.SD_CRC7_Table j ∧
      ((SD_GoToTransferMode_loop ts n m).1 = some SD_OK → fs = pollFrames m.SD_CRC7_Table j) := by
  intro n
  induction n with
  | zero =>
    intro m
    exact ⟨[], 0, FramesExt.frefl m, List.nil_prefix, fun _ => rfl⟩
  | succ n ih =>
    intro m
    have ht := frames_Timeout m SD_TIMEOUT ts
    obtain ⟨a1, a2⟩ := frames_SendACMD (DWT_Timeout m SD_TIMEOUT ts).2 SD_ACMD_41 0
      SD_R1_NORMAL_STATE
    rw [ht.1] at a1 a2
    unfold SD_GoToTransferMode_loop
    simp only []
    split_ifs with h1 h2 h3
    · exact ⟨[], 0, ht, List.nil_prefix, fun h => by cases h⟩
    · rcases a2 with a2 | a2
      · refine ⟨_, 1, ht.ftrans a2, ?_, fun h => by cases h⟩
        rw [pollFrames_succ]
        exact ⟨_, rfl⟩
      · refine ⟨_, 1, ht.ftrans a2, ?_, fun h => by cases h⟩
        rw [pollFrames_succ]
        exact ⟨_, rfl⟩
    · obtain ⟨fs, j, b1, b2, b3⟩ := ih (SD_SendACMD (DWT_Timeout m SD_TIMEOUT ts).2 SD_ACMD_41 0
        SD_R1_NORMAL_STATE).2
      have a3 := a1 h3
      rw [a3.1, ht.1] at b2 b3
      refine ⟨_, j + 1, (ht.ftrans a3).ftrans b1, ?_, ?_⟩
      · rw [pollFrames_succ]
        exact (List.prefix_append_right_inj _).2 b2
      · intro h
        rw [pollFrames_succ, b3 h]
        rfl
    · exact ⟨[], 0, FramesExt.frefl m, List.nil_prefix, fun _ => rfl⟩

theorem GoToTransferMode_loop_ready (ts : Nat) : ∀ (n : Nat) (m : Machine),
    (SD_GoToTransferMode_loop ts n m).1 = some SD_OK →
    (SD_GoToTransferMode_loop ts n m).2.sd.lastR1 = SD_R1_NORMAL_STATE := by
  intro n
  induction n with
  | zero => intro m h; cases h
  | succ n ih =>
    intro m
    unfold SD_GoToTransferMode_loop
    simp only []
    split_ifs with h1 h2 h3
    · intro h; cases h
    · intro h; cases h
    · exact ih _
    · intro _
      exact not_not.1 h1

theorem hcs_argument : (1 <<< 30 : Nat) = 0x40000000 := by decide

theorem GoToTransferMode_eq (fuel : Nat) (m : Machine) :
    SD_GoToTransferMode fuel m =
      if (SD_SendACMD m SD_ACMD_41 (if m.sd.version = 2 then 0x40000000 else 0)
          SD_R1_IDLE_STATE).1 ≠ SD_OK then
        (some SD_ERROR, (SD_SendACMD m SD_ACMD_41 (if m.sd.version = 2 then 0x40000000 else 0)
          SD_R1_IDLE_STATE).2)
      else
        match (SD_GoToTransferMode_loop
          (DWT_GetCycle (SD_SendACMD m SD_ACMD_41 (if m.sd.version = 2 then 0x40000000 else 0)
            SD_R1_IDLE_STATE).2).1 fuel
          (DWT_GetCycle (SD_SendACMD m SD_ACMD_41 (if m.sd.version = 2 then 0x40000000 else 0)
            SD_R1_IDLE_STATE).2).2).1 with
        | none => (none, (SD_GoToTransferMode_loop
          (DWT_GetCycle (SD_SendACMD m SD_ACMD_41 (if m.sd.version = 2 then 0x40000000 else 0)
            SD_R1_IDLE_STATE).2).1 fuel
          (DWT_GetCycle (SD_SendACMD m SD_ACMD_41 (if m.sd.version = 2 then 0x40000000 else 0)
            SD_R1_IDLE_STATE).2).2).2)
        | some e =>
          if e ≠ SD_OK then (some SD_ERROR, (SD_GoToTransferMode_loop
            (DWT_GetCycle (SD_SendACMD m SD_ACMD_41 (if m.sd.version = 2 then 0x40000000 else 0)
              SD_R1_IDLE_STATE).2).1 fuel
            (DWT_GetCycle (SD_SendACMD m SD_ACMD_41 (if m.sd.version = 2 then 0x40000000 else 0)
              SD_R1_IDLE_STATE).2).2).2)
          else (some SD_OK, (((SD_GoToTransferMode_loop
            (DWT_GetCycle (SD_SendACMD m SD_ACMD_41 (if m.sd.version = 2 then 0x40000000 else 0)
              SD_R1_IDLE_STATE).2).1 fuel
            (DWT_GetCycle (SD_SendACMD m SD_ACMD_41 (if m.sd.version = 2 then 0x40000000 else 0)
              SD_R1_IDLE_STATE).2).2).2.setMode SD_MODE_TRANSFER).setState
                SD_STATE_STANDBY)) := by
  unfold SD_GoToTransferMode
  simp only [hcs_argument]

/-- What `SD_GoToTransferMode` sends and how it ends. -/
theorem GoToTransferMode_frames (fuel : Nat) (m : Machine) :
    ∃ fs j, FramesExt m (SD_GoToTransferMode fuel m).2 fs ∧
      fs <+: [SD_SendCMD_frame m.SD_CRC7_Table SD_CMD_55 0,
        SD_SendCMD_frame m.SD_CRC7_Table SD_ACMD_41
          (if m.sd.version = 2 then 0x40000000 else 0)] ++ pollFrames m.SD_CRC7_Table j ∧
      ((SD_GoToTransferMode fuel m).1 = some SD_OK →
        fs = [SD_SendCMD_frame m.SD_CRC7_Table SD_CMD_55 0,
          SD_SendCMD_frame m.SD_CRC7_Table SD_ACMD_41
            (if m.sd.version = 2 then 0x40000000 else 0)] ++ pollFrames m.SD_CRC7_Table j) := by
  rw [GoToTransferMode_eq]
  generalize (if m.sd.version = 2 then 0x40000000 else 0) = a
  obtain ⟨a1, a2⟩ := frames_SendACMD m SD_ACMD_41 a SD_R1_IDLE_STATE
  obtain ⟨fs, j, b1, b2, b3⟩ := frames_GoToTransferMode_loop
    (DWT_GetCycle (SD_SendACMD m SD_ACMD_41 a SD_R1_IDLE_STATE).2).1 fuel
    (DWT_GetCycle (SD_SendACMD m SD_ACMD_41 a SD_R1_IDLE_STATE).2).2
  by_cases h1 : (SD_SendACMD m SD_ACMD_41 a SD_R1_IDLE_STATE).1 ≠ SD_OK
  · rw [if_pos h1]
    rcases a2 with a2 | a2
    · exact ⟨_, 0, a2, ⟨_, rfl⟩, fun h => by cases h⟩
    · exact ⟨_, 0, a2, by simp [pollFrames], fun h => by cases h⟩
  · rw [if_neg h1]
    have hne : (SD_SendACMD m SD_ACMD_41 a SD_R1_IDLE_STATE).1 ≠ SD_ERROR := by
      rw [not_not.1 h1]
      decide
    have a3 := a1 hne
    have b1' : FramesExt (SD_SendACMD m SD_ACMD_41 a SD_R1_IDLE_STATE).2
        (SD_GoToTransferMode_loop (DWT_GetCycle (SD_SendACMD m SD_ACMD_41 a SD_R1_IDLE_STATE).2).1
          fuel (DWT_GetCycle (SD_SendACMD m SD_ACMD_41 a SD_R1_IDLE_STATE).2).2).2 fs := b1
    have tb : (DWT_GetCycle (SD_SendACMD m SD_ACMD_41 a SD_R1_IDLE_STATE).2).2.SD_CRC7_Table =
        m.SD_CRC7_Table := a3.1
    rw [tb] at b2 b3
    have hall := a3.ftrans b1'
    generalize SD_GoToTransferMode_loop
      (DWT_GetCycle (SD_SendACMD m SD_ACMD_41 a SD_R1_IDLE_STATE).2).1 fuel
      (DWT_GetCycle (SD_SendACMD m SD_ACMD_41 a SD_R1_IDLE_STATE).2).2 = l at b3 hall ⊢
    rcases hl : l.1 with _ | e
    · exact ⟨_, j, hall, (List.prefix_append_right_inj _).2 b2, fun h => by cases h⟩
    · by_cases he : e ≠ SD_OK
      · simp only [he, ne_eq, not_false_eq_true, if_true]
        exact ⟨_, j, hall, (List.prefix_append_right_inj _).2 b2, fun h => by cases h⟩
      · simp only [he, if_false]
        have he2 : e = SD_OK := not_not.1 he
        rw [he2] at hl
        refine ⟨_, j, hall.fsame rfl rfl, (List.prefix_append_right_inj _).2 b2, fun _ => ?_⟩
        rw [b3 hl]

/-! ## Transition to transfer mode -/

theorem GoToTransferMode_failed (fuel : Nat) (m : Machine)
    (h : (SD_GoToTransferMode fuel m).1 ≠ some SD_OK) :
    Keeps m (SD_GoToTransferMode fuel m).2 := by
  rw [GoToTransferMode_eq] at h ⊢
  generalize (if m.sd.version = 2 then 0x40000000 else 0) = a at h ⊢
  have h1 := only_SendACMD m m SD_ACMD_41 a SD_R1_IDLE_STATE (OnlyR1.orefl m)
  have h2 := only_GoToTransferMode_loop
    (DWT_GetCycle (SD_SendACMD m SD_ACMD_41 a SD_R1_IDLE_STATE).2).1 fuel _ _
    (only_GetCycle _ _ h1)
  generalize SD_GoToTransferMode_loop
    (DWT_GetCycle (SD_SendACMD m SD_ACMD_41 a SD_R1_IDLE_STATE).2).1 fuel
    (DWT_GetCycle (SD_SendACMD m SD_ACMD_41 a SD_R1_IDLE_STATE).2).2 = l at h h2 ⊢
  split_ifs at h ⊢ with c1
  · exact h1.toKeeps
  · rcases hl : l.1 with _ | e
    · exact h2.toKeeps
    · simp only [hl] at h ⊢
      split_ifs at h ⊢ with c2
      · exact h2.toKeeps
      · exact absurd rfl h

theorem GoToTransferMode_result (fuel : Nat) (m : Machine) (e : SD_Error_t)
    (h : (SD_GoToTransferMode fuel m).1 = some e) : e = SD_OK ∨ e = SD_ERROR := by
  rw [GoToTransferMode_eq] at h
  generalize (if m.sd.version = 2 then 0x40000000 else 0) = a at h
  generalize SD_GoToTransferMode_loop
    (DWT_GetCycle (SD_SendACMD m SD_ACMD_41 a SD_R1_IDLE_STATE).2).1 fuel
    (DWT_GetCycle (SD_SendACMD m SD_ACMD_41 a SD_R1_IDLE_STATE).2).2 = l at h
  split_ifs at h with c1
  · simp only [Option.some.injEq] at h
    exact Or.inr h.symm
  · rcases hl : l.1 with _ | e2
    · simp [hl] at h
    · simp only [hl] at h
      split_ifs at h with c2
      · simp only [Option.some.injEq] at h
        exact Or.inr h.symm
      · simp only [Option.some.injEq] at h
        exact Or.inl h.symm

theorem GoToTransferMode_ready (fuel : Nat) (m : Machine)
    (h : (SD_GoToTransferMode fuel m).1 = some SD_OK) :
    (SD_GoToTransferMode fuel m).2.sd.lastR1 = SD_R1_NORMAL_STATE := by
  rw [GoToTransferMode_eq] at h ⊢
  generalize (if m.sd.version = 2 then 0x40000000 else 0) = a at h ⊢
  have h2 := GoToTransferMode_loop_ready
    (DWT_GetCycle (SD_SendACMD m SD_ACMD_41 a SD_R1_IDLE_STATE).2).1 fuel
    (DWT_GetCycle (SD_SendACMD m SD_ACMD_41 a SD_R1_IDLE_STATE).2).2
  generalize SD_GoToTransferMode_loop
    (DWT_GetCycle (SD_SendACMD m SD_ACMD_41 a SD_R1_IDLE_STATE).2).1 fuel
    (DWT_GetCycle (SD_SendACMD m SD_ACMD_41 a SD_R1_IDLE_STATE).2).2 = l at h h2 ⊢
  split_ifs at h ⊢ with c1
  · cases h
  · rcases hl : l.1 with _ | e
    · simp [hl] at h
    · simp only [hl] at h ⊢
      split_ifs at h ⊢ with c2
      · cases h
      · have he : e = SD_OK := not_not.1 c2
        rw [he] at hl
        exact h2 hl

/-- C28: the frames that `SD_GoToTransferMode` sends are an initial part of: CMD55, ACMD41
with argument `0x40000000` when `version == 2` and `0` otherwise, then pairs of CMD55 and
ACMD41 with argument 0.  When it returns `SD_OK`, `lastR1` is `0x00`, `mode` is Transfer and
`state` is Standby; it returns no result other than `SD_OK` and `SD_ERROR`, and whenever the
result is not `SD_OK`, `mode` and `state` are as they were. -/
theorem C28_go_to_transfer_mode (fuel : Nat) (m : Machine) :
    (∃ l j, (SD_GoToTransferMode fuel m).2.log = l ++ m.log ∧
      sentFrames l <+:
        [SD_SendCMD_frame m.SD_CRC7_Table SD_CMD_55 0,
          SD_SendCMD_frame m.SD_CRC7_Table SD_ACMD_41
            (if m.sd.version = 2 then 0x40000000 else 0)] ++
        pollFrames m.SD_CRC7_Table j) ∧
    ((SD_GoToTransferMode fuel m).1 = some SD_OK →
      (SD_GoToTransferMode fuel m).2.sd.lastR1 = 0x00 ∧
      (SD_GoToTransferMode fuel m).2.sd.mode = SD_MODE_TRANSFER ∧
      (SD_GoToTransferMode fuel m).2.sd.state = SD_STATE_STANDBY) ∧
    (∀ e, (SD_GoToTransferMode fuel m).1 = some e → e = SD_OK ∨ e = SD_ERROR) ∧
    ((SD_GoToTransferMode fuel m).1 ≠ some SD_OK →
      (SD_GoToTransferMode fuel m).2.sd.mode = m.sd.mode ∧
      (SD_GoToTransferMode fuel m).2.sd.state = m.sd.state) := by
  refine ⟨?_, fun h => ?_, GoToTransferMode_result fuel m, fun h => ?_⟩
  · obtain ⟨fs, j, ⟨-, l, h1, h2⟩, h3, -⟩ := GoToTransferMode_frames fuel m
    exact ⟨l, j, h1, by rw [h2]; exact h3⟩
  · obtain ⟨h1, h2, -⟩ := GoToTransferMode_ok fuel m h
    exact ⟨GoToTransferMode_ready fuel m h, h1, h2⟩
  · obtain ⟨h1, h2, -⟩ := GoToTransferMode_failed fuel m h
    exact ⟨h1, h2⟩

theorem C28_go_to_transfer_mode_witness :
    (SD_GoToTransferMode 5 machinePollTwice).1 = some SD_OK ∧
    (SD_GoToTransferMode 5 machinePollTwice).2.sd.lastR1 = 0x00 ∧
    (SD_GoToTransferMode 5 machinePollTwice).2.sd.mode = SD_MODE_TRANSFER ∧
    (SD_GoToTransferMode 5 machinePollTwice).2.sd.state = SD_STATE_STANDBY ∧
    sentFrames (SD_GoToTransferMode 5 machinePollTwice).2.log =
      [SD_SendCMD_frame machinePollTwice.SD_CRC7_Table SD_CMD_55 0,
        SD_SendCMD_frame machinePollTwice.SD_CRC7_Table SD_ACMD_41 0x40000000,
        SD_SendCMD_frame machinePollTwice.SD_CRC7_Table SD_CMD_55 0,
        SD_SendCMD_frame machinePollTwice.SD_CRC7_Table SD_ACMD_41 0] :=
  have h := (C28_go_to_transfer_mode 5 machinePollTwice).2.1 (by decide!)
  ⟨by decide!, h.1, h.2.1, h.2.2, by decide!⟩

/-! The loop of `SD_GoToTransferMode` ends with `SD_OK` when one of its polls leaves
`lastR1 = 0x00`. -/

theorem SendACMD_env (m : Machine) (a b c : Nat) :
    (SD_SendACMD m a b c).2.cycles = m.cycles ∧
    (SD_SendACMD m a b c).2.SystemCoreClock = m.SystemCoreClock := by
  rw [SendACMD_eq]
  generalize (if m.sd.mode = SD_MODE_TRANSFER then SD_R1_NORMAL_STATE else SD_R1_IDLE_STATE) =
    resp
  split_ifs
  · exact ⟨(SendCMD_env _ _ _ _).1, (SendCMD_env _ _ _ _).2.1⟩
  · exact ⟨(SendCMD_env _ _ _ _).1.trans (SendCMD_env _ _ _ _).1,
      (SendCMD_env _ _ _ _).2.1.trans (SendCMD_env _ _ _ _).2.1⟩

theorem afterPolls_env : ∀ (i : Nat) (m : Machine),
    (∀ j, (afterPolls i m).cycles j = m.cycles (j + i)) ∧
    (afterPolls i m).SystemCoreClock = m.SystemCoreClock := by
  intro i
  induction i with
  | zero => intro m; exact ⟨fun j => rfl, rfl⟩
  | succ i ih =>
    intro m
    obtain ⟨h1, h2⟩ := ih (SD_SendACMD (DWT_GetCycle m).2 SD_ACMD_41 0 SD_R1_NORMAL_STATE).2
    have e := SendACMD_env (DWT_GetCycle m).2 SD_ACMD_41 0 SD_R1_NORMAL_STATE
    refine ⟨fun j => ?_, ?_⟩
    · show (afterPolls i _).cycles j = _
      rw [h1, e.1]
      show m.cycles (j + i + 1) = _
      rw [Nat.add_assoc]
    · show (afterPolls i _).SystemCoreClock = _
      rw [h2, e.2]
      rfl

theorem GoToTransferMode_loop_ok (ts : Nat) : ∀ (k fuel : Nat) (m : Machine),
    k < fuel →
    (∀ i < k, (DWT_Timeout (afterPolls i m) SD_TIMEOUT ts).1 = 0) →
    (∀ i < k, (SD_SendACMD (DWT_GetCycle (afterPolls i m)).2 SD_ACMD_41 0
      SD_R1_NORMAL_STATE).1 ≠ SD_ERROR) →
    (afterPolls k m).sd.lastR1 = SD_R1_NORMAL_STATE →
    (SD_GoToTransferMode_loop ts fuel m).1 = some SD_OK := by
  intro k
  induction k with
  | zero =>
    intro fuel m hf _ _ hr
    obtain ⟨f, rfl⟩ : ∃ f, fuel = f + 1 := ⟨fuel - 1, by omega⟩
    have hr2 : m.sd.lastR1 = SD_R1_NORMAL_STATE := hr
    unfold SD_GoToTransferMode_loop
    simp only [hr2, ne_eq, not_true_eq_false, if_false]
  | succ k ih =>
    intro fuel m hf hb ha hr
    obtain ⟨f, rfl⟩ : ∃ f, fuel = f + 1 := ⟨fuel - 1, by omega⟩
    unfold SD_GoToTransferMode_loop
    simp only []
    by_cases h1 : m.sd.lastR1 ≠ SD_R1_NORMAL_STATE
    · have hb0 : (DWT_Timeout m SD_TIMEOUT ts).1 = 0 := hb 0 (by omega)
      have ht : (DWT_Timeout m SD_TIMEOUT ts).2 = (DWT_GetCycle m).2 := by rw [Timeout_eq]
      have ha0 : (SD_SendACMD (DWT_GetCycle m).2 SD_ACMD_41 0 SD_R1_NORMAL_STATE).1 ≠ SD_ERROR :=
        ha 0 (by omega)
      rw [if_pos h1, if_neg (not_not.2 hb0), ht, if_neg ha0]
      exact ih f _ (by omega) (fun i hi => hb (i + 1) (by omega))
        (fun i hi => ha (i + 1) (by omega)) hr
    · rw [if_neg h1]

/-- C29 (counterexample): the card answers CMD55 with `0x01` and the first ACMD41 with
`0x00`; no transfer fails and no time-out is involved, and `SD_GoToTransferMode` returns
`SD_ERROR` with `mode` and `state` as before. -/
theorem C29_first_poll_ready_is_rejected :
    (SD_SendACMD machineReadyAtOnce SD_ACMD_41 0x40000000 SD_R1_IDLE_STATE).1 =
      SD_INCORRECT_RESPONSE ∧
    (SD_SendACMD machineReadyAtOnce SD_ACMD_41 0x40000000 SD_R1_IDLE_STATE).2.sd.lastR1 =
      0x00 ∧
    (SD_GoToTransferMode 5 machineReadyAtOnce).1 = some SD_ERROR ∧
    (SD_GoToTransferMode 5 machineReadyAtOnce).2.sd.mode = SD_MODE_IDENTIFICATION ∧
    (SD_GoToTransferMode 5 machineReadyAtOnce).2.log =
      [Event.recv8 1 SD_SPI_OK [0x00],
       Event.send8 (SD_SendCMD_frame machineReadyAtOnce.SD_CRC7_Table SD_ACMD_41 0x40000000)
         SD_SPI_OK,
       Event.recv8 1 SD_SPI_OK [0x01],
       Event.send8 (SD_SendCMD_frame machineReadyAtOnce.SD_CRC7_Table SD_CMD_55 0)
         SD_SPI_OK] := by
  decide!

/-! ## Commands of the initialisation -/

theorem SameCard.srefl (m : Machine) : SameCard m m := ⟨rfl, rfl, rfl⟩

theorem SameCard.strans {m0 m1 m2 : Machine} (h1 : SameCard m0 m1) (h2 : SameCard m1 m2) :
    SameCard m0 m2 :=
  ⟨h2.1.trans h1.1, h2.2.1.trans h1.2.1, h2.2.2.trans h1.2.2⟩

theorem OnlyR1.sameCard {m0 m : Machine} (h : OnlyR1 m0 m) : SameCard m0 m := by
  obtain ⟨-, r, e⟩ := h
  exact ⟨by rw [e], by rw [e], by rw [e]⟩

theorem same_GoToIdleMode (m : Machine) : SameCard m (SD_GoToIdleMode m).2 := by
  have h := (only_SendCMD m m SD_CMD_0 0 SD_R1_IDLE_STATE (OnlyR1.orefl m)).sameCard
  unfold SD_GoToIdleMode
  simp only []
  split_ifs <;> exact h

theorem same_GoToTransferMode (fuel : Nat) (m : Machine) :
    SameCard m (SD_GoToTransferMode fuel m).2 := by
  rw [GoToTransferMode_eq]
  generalize (if m.sd.version = 2 then 0x40000000 else 0) = a
  have h1 := only_SendACMD m m SD_ACMD_41 a SD_R1_IDLE_STATE (OnlyR1.orefl m)
  have h2 := (only_GoToTransferMode_loop
    (DWT_GetCycle (SD_SendACMD m SD_ACMD_41 a SD_R1_IDLE_STATE).2).1 fuel _ _
    (only_GetCycle _ _ h1)).sameCard
  generalize SD_GoToTransferMode_loop
    (DWT_GetCycle (SD_SendACMD m SD_ACMD_41 a SD_R1_IDLE_STATE).2).1 fuel
    (DWT_GetCycle (SD_SendACMD m SD_ACMD_41 a SD_R1_IDLE_STATE).2).2 = l at h2 ⊢
  split_ifs
  · exact h1.sameCard
  · rcases hl : l.1 with _ | e
    · exact h2
    · simp only []
      split_ifs <;> exact h2

theorem same_ReadCID (m : Machine) : SameCard m (SD_ReadCID m).2 := by
  have h1 := only_SendCMD m m SD_CMD_10 0 SD_R1_NORMAL_STATE (OnlyR1.orefl m)
  have h2 := only_GetToken _ _ SD_START_RMW_BLOCK_TOKEN h1
  have h3 := only_ReadData _ _ 16 h2
  unfold SD_ReadCID
  simp only []
  split_ifs
  · exact h1.sameCard
  · exact h2.sameCard
  · exact h3.sameCard

theorem setCapacity_same (x : Machine) (c : Nat) : SameCard x (x.setCapacity c) :=
  ⟨rfl, rfl, rfl⟩

theorem frames_GoToIdleMode (m : Machine) :
    FramesExt m (SD_GoToIdleMode m).2 [SD_SendCMD_frame m.SD_CRC7_Table SD_CMD_0 0] := by
  have h := frames_SendCMD m SD_CMD_0 0 SD_R1_IDLE_STATE
  unfold SD_GoToIdleMode
  simp only []
  generalize SD_SendCMD m SD_CMD_0 0 SD_R1_IDLE_STATE = r at h
  split_ifs
  · exact h
  · exact h.fsame rfl rfl

theorem CheckVoltage_card (m : Machine) :
    (SD_CheckVoltage m).2.sd.type = m.sd.type ∧
    (SD_CheckVoltage m).2.sd.rawOCR = m.sd.rawOCR ∧
    FramesExt m (SD_CheckVoltage m).2 [SD_SendCMD_frame m.SD_CRC7_Table SD_CMD_8 0x01AA] := by
  have h1 := (only_SendCMD m m SD_CMD_8 0x01AA SD_R1_IDLE_STATE (OnlyR1.orefl m))
  have h2 := (only_GetResponse _ _ 4 h1).sameCard
  have h1 := h1.sameCard
  have f1 := frames_SendCMD m SD_CMD_8 0x01AA SD_R1_IDLE_STATE
  have f2 := f1.ftrans (frames_GetResponse (SD_SendCMD m SD_CMD_8 0x01AA SD_R1_IDLE_STATE).2 4)
  unfold SD_CheckVoltage
  simp only []
  generalize SD_SendCMD m SD_CMD_8 0x01AA SD_R1_IDLE_STATE = r at h1 h2 f1 f2
  generalize SD_GetResponse r.2 4 = g at h2 f2
  split_ifs
  · exact ⟨h1.2.1, h1.2.2, f1⟩
  · exact ⟨h1.2.1, h1.2.2, f1.fsame rfl rfl⟩
  · exact ⟨h2.2.1, h2.2.2, f2⟩
  · exact ⟨h2.2.1, h2.2.2, f2⟩
  · exact ⟨h2.2.1, h2.2.2, f2.fsame rfl rfl⟩

theorem ReadCID_frames (m : Machine) :
    FramesExt m (SD_ReadCID m).2 [SD_SendCMD_frame m.SD_CRC7_Table SD_CMD_10 0] := by
  have f1 := frames_SendCMD m SD_CMD_10 0 SD_R1_NORMAL_STATE
  have f2 := f1.ftrans (frames_GetToken (SD_SendCMD m SD_CMD_10 0 SD_R1_NORMAL_STATE).2
    SD_START_RMW_BLOCK_TOKEN)
  have f3 := f2.ftrans (frames_ReadData (SD_GetToken (SD_SendCMD m SD_CMD_10 0
    SD_R1_NORMAL_STATE).2 SD_START_RMW_BLOCK_TOKEN).2 16)
  unfold SD_ReadCID
  simp only []
  generalize SD_SendCMD m SD_CMD_10 0 SD_R1_NORMAL_STATE = r at f1 f2 f3
  generalize SD_GetToken r.2 SD_START_RMW_BLOCK_TOKEN = t at f2 f3
  generalize SD_ReadData t.2 16 = d at f3
  split_ifs
  · exact f1
  · exact f2
  · exact f3.fsame rfl rfl

theorem ReadCSD_card (m : Machine) :
    (SD_ReadCSD m).2.sd.version = m.sd.version ∧
    (SD_ReadCSD m).2.sd.rawOCR = m.sd.rawOCR ∧
    ((SD_ReadCSD m).2.sd.type = m.sd.type ∨
      ((SD_ReadCSD m).2.sd.type = SD_TYPE_SDXC ∧ m.sd.version = 2)) ∧
    (∃ fs, FramesExt m (SD_ReadCSD m).2 fs ∧
      fs <+: ([SD_SendCMD_frame m.SD_CRC7_Table SD_CMD_9 0] ++
          (if m.sd.version = 2 then [] else [SD_SendCMD_frame m.SD_CRC7_Table SD_CMD_16 512])) ∧
      ((SD_ReadCSD m).1 = SD_OK →
        fs = [SD_SendCMD_frame m.SD_CRC7_Table SD_CMD_9 0] ++
          (if m.sd.version = 2 then [] else [SD_SendCMD_frame m.SD_CRC7_Table SD_CMD_16 512]))) := by
  have h1 := only_SendCMD m m SD_CMD_9 0 SD_R1_NORMAL_STATE (OnlyR1.orefl m)
  have h2 := only_GetToken _ _ SD_START_RMW_BLOCK_TOKEN h1
  have h3 := (only_ReadData _ _ 16 h2).sameCard
  have h2 := h2.sameCard
  have h1 := h1.sameCard
  have f1 := frames_SendCMD m SD_CMD_9 0 SD_R1_NORMAL_STATE
  have f2 := f1.ftrans (frames_GetToken (SD_SendCMD m SD_CMD_9 0 SD_R1_NORMAL_STATE).2
    SD_START_RMW_BLOCK_TOKEN)
  have f3 := f2.ftrans (frames_ReadData (SD_GetToken (SD_SendCMD m SD_CMD_9 0
    SD_R1_NORMAL_STATE).2 SD_START_RMW_BLOCK_TOKEN).2 16)
  generalize hr : SD_ReadCSD m = r
  unfold SD_ReadCSD SD_SetBlockLength at hr
  simp only [] at hr
  generalize SD_SendCMD m SD_CMD_9 0 SD_R1_NORMAL_STATE = r9 at hr h1 h2 h3 f1 f2 f3
  generalize SD_GetToken r9.2 SD_START_RMW_BLOCK_TOKEN = t at hr h2 h3 f2 f3
  generalize SD_ReadData t.2 16 = d at hr h3 f3
  have h4 : SameCard m (d.2.2.setRawCSD (storeBytes d.2.2.sd.rawCSD d.2.1)) := h3
  have f4 : FramesExt m (d.2.2.setRawCSD (storeBytes d.2.2.sd.rawCSD d.2.1))
      ([SD_SendCMD_frame m.SD_CRC7_Table SD_CMD_9 0] ++ [] ++ []) := f3.fsame rfl rfl
  generalize (d.2.2.setRawCSD (storeBytes d.2.2.sd.rawCSD d.2.1)) = m1 at hr h4 f4
  have hb := (only_SendCMD (m1.setBlockSize 512) (m1.setBlockSize 512) SD_CMD_16
    ((m1.setBlockSize 512).sd.blockSize % 65536) SD_R1_NORMAL_STATE (OnlyR1.orefl _)).sameCard
  have fb : FramesExt (m1.setBlockSize 512) (SD_SendCMD (m1.setBlockSize 512) SD_CMD_16
      ((m1.setBlockSize 512).sd.blockSize % 65536) SD_R1_NORMAL_STATE).2
      [SD_SendCMD_frame (m1.setBlockSize 512).SD_CRC7_Table SD_CMD_16 512] :=
    frames_SendCMD (m1.setBlockSize 512) SD_CMD_16
      ((m1.setBlockSize 512).sd.blockSize % 65536) SD_R1_NORMAL_STATE
  have h5 : SameCard m (m1.setBlockSize 512) := h4
  have f5 : FramesExt m (m1.setBlockSize 512)
      ([SD_SendCMD_frame m.SD_CRC7_Table SD_CMD_9 0] ++ [] ++ []) := f4.fsame rfl rfl
  have ht5 : (m1.setBlockSize 512).SD_CRC7_Table = m.SD_CRC7_Table := f5.1
  rw [ht5] at fb
  have h6 := h5.strans hb
  have f6 := f5.ftrans fb
  generalize (SD_SendCMD (m1.setBlockSize 512) SD_CMD_16
    ((m1.setBlockSize 512).sd.blockSize % 65536) SD_R1_NORMAL_STATE) = b at hr h6 f6
  have hv1 : m1.sd.version = m.sd.version := h4.1
  simp only [List.append_nil] at f3 f4 f5 f6
  split_ifs at hr with c1 c2 c3 c4 c5 c6
  all_goals subst hr
  · exact ⟨h1.1, h1.2.2, Or.inl h1.2.1, _, f1, List.prefix_append _ _, fun h => by cases h⟩
  · exact ⟨h2.1, h2.2.2, Or.inl h2.2.1, _, f2, List.prefix_append _ _, fun h => by cases h⟩
  · exact ⟨h4.1, h4.2.2, Or.inl h4.2.1, _, f4, List.prefix_append _ _, fun h => by cases h⟩
  · refine ⟨h4.1, h4.2.2, Or.inr ⟨rfl, hv1.symm.trans c4⟩, _, f4.fsame rfl rfl, ?_, fun _ => ?_⟩
    · exact List.prefix_append _ _
    · rw [if_pos (hv1.symm.trans c4), List.append_nil]
  · refine ⟨h4.1, h4.2.2, Or.inl h4.2.1, _, f4.fsame rfl rfl, ?_, fun _ => ?_⟩
    · exact List.prefix_append _ _
    · rw [if_pos (hv1.symm.trans c4), List.append_nil]
  · refine ⟨h6.1, h6.2.2, Or.inl h6.2.1, _, f6, ?_, fun h => by cases h⟩
    rw [if_neg (fun h => c4 (hv1.trans h))]
  · show (b.2.setCapacity _).sd.version = m.sd.version ∧
      (b.2.setCapacity _).sd.rawOCR = m.sd.rawOCR ∧
      ((b.2.setCapacity _).sd.type = m.sd.type ∨ _) ∧
      (∃ fs, FramesExt m (b.2.setCapacity _) fs ∧ _)
    refine ⟨(setCapacity_same b.2 _).1.trans h6.1, (setCapacity_same b.2 _).2.2.trans h6.2.2,
      Or.inl ((setCapacity_same b.2 _).2.1.trans h6.2.1), _,
      f6.fsame (setCapacity_table _ _) (setCapacity_log _ _), ?_, fun _ => ?_⟩
    · rw [if_neg (fun h => c4 (hv1.trans h))]
    · rw [if_neg (fun h => c4 (hv1.trans h))]

theorem bit6_iff (b : Nat) (h : b < 256) :
    ((b >>> 6) &&& 0x01) % 2 ^ 1 = 1 ↔ b &&& 0x40 ≠ 0 := by
  interval_cases b <;> decide

/-- What `SD_ReadOCR` does to the capacity class: after a successful run `type` is
`SD_TYPE_SDHC` when bit 6 of `rawOCR[0]` is set and unchanged otherwise, and that bit is the
`CCS` member that `SD_GetOCR` returns. -/
theorem ReadOCR_card (m : Machine) :
    (SD_ReadOCR m).2.sd.version = m.sd.version ∧
    FramesExt m (SD_ReadOCR m).2 [SD_SendCMD_frame m.SD_CRC7_Table SD_CMD_58 0] ∧
    ((SD_ReadOCR m).1 = SD_OK →
      (SD_ReadOCR m).2.sd.type =
        (if (SD_ReadOCR m).2.sd.rawOCR.getD 0 0 &&& 0x40 ≠ 0 then SD_TYPE_SDHC else m.sd.type) ∧
      ((SD_GetOCR (SD_ReadOCR m).2.sd).CCS = 1 ↔
        (SD_ReadOCR m).2.sd.rawOCR.getD 0 0 &&& 0x40 ≠ 0)) := by
  have h1 := only_SendCMD m m SD_CMD_58 0 SD_R1_NORMAL_STATE (OnlyR1.orefl m)
  have h2 := (only_GetResponse _ _ 4 h1).sameCard
  have f1 := frames_SendCMD m SD_CMD_58 0 SD_R1_NORMAL_STATE
  have f2 := f1.ftrans (frames_GetResponse (SD_SendCMD m SD_CMD_58 0 SD_R1_NORMAL_STATE).2 4)
  obtain ⟨-, -, -, g4, g5⟩ := GetResponse_facts (SD_SendCMD m SD_CMD_58 0 SD_R1_NORMAL_STATE).2 4
  have hb : (SD_GetResponse (SD_SendCMD m SD_CMD_58 0 SD_R1_NORMAL_STATE).2 4).1 = SD_OK →
      ∀ old : List Nat, (storeBytes old
        (SD_GetResponse (SD_SendCMD m SD_CMD_58 0 SD_R1_NORMAL_STATE).2 4).2.1).getD 0 0 <
          256 := by
    intro hok old
    have hst := g4.1 hok
    have e : (SD_GetResponse (SD_SendCMD m SD_CMD_58 0 SD_R1_NORMAL_STATE).2 4).2.1 =
        (List.range 4).map (fun j =>
          ((SD_SendCMD m SD_CMD_58 0 SD_R1_NORMAL_STATE).2.rx8 0).item j % 256) := by
      unfold SD_GetResponse SD_SPI_Receive8Data
      simp only [hst, RxOutcome.count, if_true]
      split_ifs <;> rfl
    rw [e]
    simp only [storeBytes, List.range_succ, List.range_zero, List.nil_append, List.map_append,
      List.map_cons, List.map_nil, List.cons_append, List.getD_cons_zero]
    omega
  generalize hr : SD_ReadOCR m = r
  unfold SD_ReadOCR at hr
  simp only [] at hr
  generalize SD_SendCMD m SD_CMD_58 0 SD_R1_NORMAL_STATE = r58 at hr h1 h2 f1 f2 hb
  generalize SD_GetResponse r58.2 4 = g at hr h2 f2 hb
  have h1 := h1.sameCard
  have h3 : SameCard m g.2.2 := h2
  have hm1 : (g.2.2.setRawOCR (storeBytes g.2.2.sd.rawOCR g.2.1)).sd.version = m.sd.version :=
    h2.1
  have ht1 : (g.2.2.setRawOCR (storeBytes g.2.2.sd.rawOCR g.2.1)).sd.type = m.sd.type := h2.2.1
  have ho1 : (g.2.2.setRawOCR (storeBytes g.2.2.sd.rawOCR g.2.1)).sd.rawOCR =
      storeBytes g.2.2.sd.rawOCR g.2.1 := rfl
  have fm1 : FramesExt m (g.2.2.setRawOCR (storeBytes g.2.2.sd.rawOCR g.2.1))
      ([SD_SendCMD_frame m.SD_CRC7_Table SD_CMD_58 0] ++ []) := f2.fsame rfl rfl
  have hb2 := fun h => hb h g.2.2.sd.rawOCR
  rw [← ho1] at hb2
  clear ho1 hb
  generalize (g.2.2.setRawOCR (storeBytes g.2.2.sd.rawOCR g.2.1)) = m1 at hr hm1 ht1 fm1 hb2
  simp only [List.append_nil] at f2 fm1
  split_ifs at hr with c1 c2 c3
  all_goals subst hr
  · exact ⟨h1.1, f1, fun h => by cases h⟩
  · exact ⟨hm1, fm1, fun h => by cases h⟩
  · refine ⟨hm1, fm1.fsame rfl rfl, fun _ => ⟨?_, ?_⟩⟩
    · show SD_TYPE_SDHC = if m1.sd.rawOCR.getD 0 0 &&& 0x40 ≠ 0 then SD_TYPE_SDHC else m.sd.type
      rw [if_pos c3]
    · show ((m1.sd.rawOCR.getD 0 0 >>> 6) &&& 0x01) % 2 ^ 1 = 1 ↔
        m1.sd.rawOCR.getD 0 0 &&& 0x40 ≠ 0
      exact bit6_iff _ (hb2 (not_not.1 c2))
  · refine ⟨hm1, fm1, fun _ => ⟨?_, ?_⟩⟩
    · show m1.sd.type = if m1.sd.rawOCR.getD 0 0 &&& 0x40 ≠ 0 then SD_TYPE_SDHC else m.sd.type
      rw [if_neg c3, ht1]
    · show ((m1.sd.rawOCR.getD 0 0 >>> 6) &&& 0x01) % 2 ^ 1 = 1 ↔
        m1.sd.rawOCR.getD 0 0 &&& 0x40 ≠ 0
      exact bit6_iff _ (hb2 (not_not.1 c2))

theorem frames_ErrorHandler {m0 m : Machine} {fs : List (List Nat)} (h : FramesExt m0 m fs) :
    FramesExt m0 (SD_ErrorHandler m) fs :=
  h.fevent rfl Event.csSet rfl rfl

theorem same_ErrorHandler (m : Machine) : SameCard m (SD_ErrorHandler m) := ⟨rfl, rfl, rfl⟩

theorem registerFrames_eq (tbl : Nat → Nat) (version : Nat) :
    registerFrames tbl version =
      (if version = 2 then [SD_SendCMD_frame tbl SD_CMD_58 0] else []) ++
        ([SD_SendCMD_frame tbl SD_CMD_10 0] ++ ([SD_SendCMD_frame tbl SD_CMD_9 0] ++
          (if version = 2 then [] else [SD_SendCMD_frame tbl SD_CMD_16 512]))) := by
  unfold registerFrames
  rw [List.append_assoc]
  rfl

/-- The register-reading part of `SD_Init`: the frames it sends on every path, and what a
successful run leaves in `type`. -/
theorem Init_registers_frames (g2 : Machine) :
    (SD_Init_registers g2).2.sd.version = g2.sd.version ∧
    (∃ fs, FramesExt g2 (SD_Init_registers g2).2 fs ∧
      fs <+: registerFrames g2.SD_CRC7_Table g2.sd.version ∧
      ((SD_Init_registers g2).1 = some SD_OK →
        fs = registerFrames g2.SD_CRC7_Table g2.sd.version) ∧
      (g2.sd.version = 2 → SD_SendCMD_frame g2.SD_CRC7_Table SD_CMD_58 0 ∈ fs)) ∧
    ((SD_Init_registers g2).1 = some SD_OK →
      (g2.sd.version ≠ 2 → (SD_Init_registers g2).2.sd.type = g2.sd.type) ∧
      (g2.sd.version = 2 →
        ((SD_Init_registers g2).2.sd.type = SD_TYPE_SDXC ∨
          (SD_Init_registers g2).2.sd.type =
            (if (SD_Init_registers g2).2.sd.rawOCR.getD 0 0 &&& 0x40 ≠ 0 then SD_TYPE_SDHC
              else g2.sd.type)) ∧
        ((SD_GetOCR (SD_Init_registers g2).2.sd).CCS = 1 ↔
          (SD_Init_registers g2).2.sd.rawOCR.getD 0 0 &&& 0x40 ≠ 0))) := by
  have ho : (if g2.sd.version = 2 then SD_ReadOCR g2 else (SD_OK, g2)).2.sd.version =
        g2.sd.version ∧
      FramesExt g2 (if g2.sd.version = 2 then SD_ReadOCR g2 else (SD_OK, g2)).2
        (if g2.sd.version = 2 then [SD_SendCMD_frame g2.SD_CRC7_Table SD_CMD_58 0] else []) ∧
      ((if g2.sd.version = 2 then SD_ReadOCR g2 else (SD_OK, g2)).1 = SD_OK →
        (g2.sd.version ≠ 2 →
          (if g2.sd.version = 2 then SD_ReadOCR g2 else (SD_OK, g2)).2.sd.type = g2.sd.type) ∧
        (g2.sd.version = 2 →
          (if g2.sd.version = 2 then SD_ReadOCR g2 else (SD_OK, g2)).2.sd.type =
            (if (if g2.sd.version = 2 then SD_ReadOCR g2 else (SD_OK, g2)).2.sd.rawOCR.getD 0 0
                &&& 0x40 ≠ 0 then SD_TYPE_SDHC else g2.sd.type) ∧
          ((SD_GetOCR (if g2.sd.version = 2 then SD_ReadOCR g2 else (SD_OK, g2)).2.sd).CCS = 1 ↔
            (if g2.sd.version = 2 then SD_ReadOCR g2 else (SD_OK, g2)).2.sd.rawOCR.getD 0 0
              &&& 0x40 ≠ 0))) := by
    by_cases hv : g2.sd.version = 2
    · rw [if_pos hv, if_pos hv]
      obtain ⟨o1, o2, o3⟩ := ReadOCR_card g2
      exact ⟨o1, o2, fun h => ⟨fun hn => absurd hv hn, fun _ => o3 h⟩⟩
    · rw [if_neg hv, if_neg hv]
      exact ⟨rfl, FramesExt.frefl g2, fun _ => ⟨fun _ => rfl, fun h => absurd h hv⟩⟩
  generalize hr : SD_Init_registers g2 = r
  unfold SD_Init_registers at hr
  simp only [] at hr
  generalize (if g2.sd.version = 2 then SD_ReadOCR g2 else (SD_OK, g2)) = o at hr ho
  obtain ⟨o1, o2, o3⟩ := ho
  have e3 : FramesExt o.2 (SD_SPI_SetSpeed o.2 SD_SPI_TRANSFER_SPEED) [] :=
    (FramesExt.frefl o.2).fevent rfl (Event.setSpeed SD_SPI_TRANSFER_SPEED) rfl rfl
  have c1 : SameCard o.2 (SD_ReadCID (SD_SPI_SetSpeed o.2 SD_SPI_TRANSFER_SPEED)).2 :=
    same_ReadCID (SD_SPI_SetSpeed o.2 SD_SPI_TRANSFER_SPEED)
  have c2 : FramesExt (SD_SPI_SetSpeed o.2 SD_SPI_TRANSFER_SPEED)
      (SD_ReadCID (SD_SPI_SetSpeed o.2 SD_SPI_TRANSFER_SPEED)).2
      [SD_SendCMD_frame g2.SD_CRC7_Table SD_CMD_10 0] := by
    have : (SD_SPI_SetSpeed o.2 SD_SPI_TRANSFER_SPEED).SD_CRC7_Table = g2.SD_CRC7_Table := o2.1
    rw [← this]
    exact ReadCID_frames (SD_SPI_SetSpeed o.2 SD_SPI_TRANSFER_SPEED)
  have c3 := (o2.ftrans e3).ftrans c2
  generalize SD_ReadCID (SD_SPI_SetSpeed o.2 SD_SPI_TRANSFER_SPEED) = ci at hr c1 c3
  obtain ⟨s1, s2, s3, fs, s4, s5, s6⟩ := ReadCSD_card ci.2
  have tci : ci.2.SD_CRC7_Table = g2.SD_CRC7_Table := c3.1
  rw [tci, c1.1, o1] at s5 s6
  rw [c1.1, o1] at s1 s3
  rw [c1.2.2] at s2
  rw [c1.2.1] at s3
  have c4 := c3.ftrans s4
  generalize SD_ReadCSD ci.2 = cs at hr s1 s2 s3 s4 s6 c4
  simp only [List.append_nil] at c3 c4
  have hx : g2.sd.version = 2 → SD_SendCMD_frame g2.SD_CRC7_Table SD_CMD_58 0 ∈
      (if g2.sd.version = 2 then [SD_SendCMD_frame g2.SD_CRC7_Table SD_CMD_58 0] else []) := by
    intro hv
    rw [if_pos hv]
    exact List.mem_singleton.2 rfl
  split_ifs at hr with d1 d2 d3
  all_goals subst hr
  · refine ⟨o1, ⟨_, frames_ErrorHandler o2, ?_, (fun h => by cases h), hx⟩, ?_⟩
    · rw [registerFrames_eq]
      exact List.prefix_append _ _
    · intro h
      cases h
  · refine ⟨c1.1.trans o1, ⟨_, frames_ErrorHandler c3, ?_, (fun h => by cases h),
      fun hv => List.mem_append_left _ (hx hv)⟩, ?_⟩
    · rw [registerFrames_eq]
      exact (List.prefix_append_right_inj _).2 (List.prefix_append _ _)
    · intro h
      cases h
  · refine ⟨s1, ⟨_, frames_ErrorHandler c4, ?_, (fun h => by cases h),
      fun hv => List.mem_append_left _ (List.mem_append_left _ (hx hv))⟩, ?_⟩
    · rw [registerFrames_eq, List.append_assoc]
      exact (List.prefix_append_right_inj _).2 ((List.prefix_append_right_inj _).2 s5)
    · intro h
      cases h
  · have hcs : cs.1 = SD_OK := not_not.1 d3
    obtain ⟨p1, p2⟩ := o3 (not_not.1 d1)
    refine ⟨s1, ⟨_, c4.fevent rfl Event.csSet rfl rfl, ?_, fun _ => ?_,
      fun hv => List.mem_append_left _ (List.mem_append_left _ (hx hv))⟩, fun _ => ⟨fun hn => ?_,
      fun hv => ⟨?_, ?_⟩⟩⟩
    · rw [registerFrames_eq, List.append_assoc]
      exact (List.prefix_append_right_inj _).2 ((List.prefix_append_right_inj _).2 s5)
    · rw [registerFrames_eq, List.append_assoc, s6 hcs]
    · rcases s3 with s3 | s3
      · exact s3.trans (p1 hn)
      · exact absurd s3.2 hn
    · rcases s3 with s3 | s3
      · right
        show cs.2.sd.type = if cs.2.sd.rawOCR.getD 0 0 &&& 0x40 ≠ 0 then SD_TYPE_SDHC
          else g2.sd.type
        rw [s2]
        exact s3.trans (p2 hv).1
      · exact Or.inl s3.1
    · have : SD_GetOCR (SD_SPI_CS_Set cs.2).sd = SD_GetOCR o.2.sd := by
        unfold SD_GetOCR
        show _ = _
        have e : (SD_SPI_CS_Set cs.2).sd.rawOCR = o.2.sd.rawOCR := s2
        rw [e]
      show (SD_GetOCR (SD_SPI_CS_Set cs.2).sd).CCS = 1 ↔ cs.2.sd.rawOCR.getD 0 0 &&& 0x40 ≠ 0
      rw [this, s2]
      exact (p2 hv).2

theorem initFrames_eq (tbl : Nat → Nat) (version j : Nat) :
    initFrames tbl version j =
      [SD_SendCMD_frame tbl SD_CMD_0 0] ++ ([SD_SendCMD_frame tbl SD_CMD_8 0x01AA] ++
        (([SD_SendCMD_frame tbl SD_CMD_55 0,
          SD_SendCMD_frame tbl SD_ACMD_41 (if version = 2 then 0x40000000 else 0)] ++
            pollFrames tbl j) ++ registerFrames tbl version)) := by
  unfold initFrames
  simp only [List.append_assoc, List.cons_append, List.nil_append]

/-- The part of `SD_Init` after chip select is asserted: on every path the frames sent are
a prefix of `initFrames`, and on success they are all of it. -/
theorem Init_modes_frames (fuel : Nat) (m2 : Machine) :
    ∃ fs j, FramesExt m2 (SD_Init_modes fuel m2).2 fs ∧
      fs <+: initFrames m2.SD_CRC7_Table (SD_Init_modes fuel m2).2.sd.version j ∧
      ((SD_Init_modes fuel m2).1 = some SD_OK →
        fs = initFrames m2.SD_CRC7_Table (SD_Init_modes fuel m2).2.sd.version j ∧
        ((SD_Init_modes fuel m2).2.sd.version ≠ 2 →
          (SD_Init_modes fuel m2).2.sd.type = m2.sd.type) ∧
        ((SD_Init_modes fuel m2).2.sd.version = 2 →
          ((SD_Init_modes fuel m2).2.sd.type = SD_TYPE_SDXC ∨
            (SD_Init_modes fuel m2).2.sd.type =
              (if (SD_Init_modes fuel m2).2.sd.rawOCR.getD 0 0 &&& 0x40 ≠ 0 then SD_TYPE_SDHC
                else m2.sd.type)) ∧
          ((SD_GetOCR (SD_Init_modes fuel m2).2.sd).CCS = 1 ↔
            (SD_Init_modes fuel m2).2.sd.rawOCR.getD 0 0 &&& 0x40 ≠ 0))) := by
  have i1 := same_GoToIdleMode m2
  have i2 := frames_GoToIdleMode m2
  obtain ⟨v1, -, v3⟩ := CheckVoltage_card (SD_GoToIdleMode m2).2
  have ti : (SD_GoToIdleMode m2).2.SD_CRC7_Table = m2.SD_CRC7_Table := i2.1
  rw [ti] at v3
  rw [i1.2.1] at v1
  have v4 := i2.ftrans v3
  have g1 := same_GoToTransferMode fuel (SD_CheckVoltage (SD_GoToIdleMode m2).2).2
  obtain ⟨fsg, j, g2, g3, g4⟩ :=
    GoToTransferMode_frames fuel (SD_CheckVoltage (SD_GoToIdleMode m2).2).2
  have tv : (SD_CheckVoltage (SD_GoToIdleMode m2).2).2.SD_CRC7_Table = m2.SD_CRC7_Table := v4.1
  rw [tv] at g3 g4
  have g5 := v4.ftrans g2
  obtain ⟨r1, ⟨fsr, r2, r3, r4, -⟩, r5⟩ := Init_registers_frames
    (SD_GoToTransferMode fuel (SD_CheckVoltage (SD_GoToIdleMode m2).2).2).2
  have tg : (SD_GoToTransferMode fuel (SD_CheckVoltage (SD_GoToIdleMode m2).2).2).2.SD_CRC7_Table =
      m2.SD_CRC7_Table := g5.1
  rw [tg, g1.1] at r3 r4
  rw [g1.1] at r1 r5
  rw [g1.2.1, v1] at r5
  have r6 := g5.ftrans r2
  have gv := g1.1
  clear g1 g2 r2 v3 tv tg ti
  generalize hr : SD_Init_modes fuel m2 = r
  unfold SD_Init_modes at hr
  simp only [] at hr
  generalize SD_GoToIdleMode m2 = i at *
  generalize SD_CheckVoltage i.2 = vv at *
  generalize SD_GoToTransferMode fuel vv.2 = g at *
  generalize SD_Init_registers g.2 = rg at *
  split_ifs at hr with d1 d2
  · subst hr
    refine ⟨_, 0, frames_ErrorHandler i2, ?_, fun h => by cases h⟩
    rw [initFrames_eq]
    exact List.prefix_append _ _
  · subst hr
    refine ⟨_, 0, frames_ErrorHandler v4, ?_, fun h => by cases h⟩
    rw [initFrames_eq, List.append_assoc]
    exact (List.prefix_append_right_inj _).2 (List.prefix_append _ _)
  · have hpre : [SD_SendCMD_frame m2.SD_CRC7_Table SD_CMD_0 0] ++
          [SD_SendCMD_frame m2.SD_CRC7_Table SD_CMD_8 0x01AA] ++ fsg <+:
        initFrames m2.SD_CRC7_Table vv.2.sd.version j := by
      rw [initFrames_eq, List.append_assoc]
      exact (List.prefix_append_right_inj _).2 ((List.prefix_append_right_inj _).2
        (g3.trans (List.prefix_append _ _)))
    split at hr
    · subst hr
      refine ⟨_, j, g5, ?_, fun h => by cases h⟩
      show _ <+: initFrames m2.SD_CRC7_Table g.2.sd.version j
      rw [gv]
      exact hpre
    · rename_i e he
      split_ifs at hr with d3
      · subst hr
        refine ⟨_, j, frames_ErrorHandler g5, ?_, fun h => by cases h⟩
        show _ <+: initFrames m2.SD_CRC7_Table g.2.sd.version j
        rw [gv]
        exact hpre
      · subst hr
        have he2 : g.1 = some SD_OK := by rw [he, not_not.1 d3]
        have hfull : [SD_SendCMD_frame m2.SD_CRC7_Table SD_CMD_0 0] ++
            [SD_SendCMD_frame m2.SD_CRC7_Table SD_CMD_8 0x01AA] ++ fsg ++ fsr <+:
            initFrames m2.SD_CRC7_Table vv.2.sd.version j := by
          rw [initFrames_eq, List.append_assoc, List.append_assoc, g4 he2]
          exact (List.prefix_append_right_inj _).2 ((List.prefix_append_right_inj _).2
            ((List.prefix_append_right_inj _).2 r3))
        refine ⟨_, j, r6, ?_, fun h => ?_⟩
        · rw [r1]
          exact hfull
        · rw [r1]
          refine ⟨?_, r5 h⟩
          rw [initFrames_eq, List.append_assoc, List.append_assoc, g4 he2, r4 h]

theorem frame_head (tbl : Nat → Nat) (cmd argument : Nat) :
    (SD_SendCMD_frame tbl cmd argument).head? = some (((cmd % 256) &&& 0x7F) ||| 0x40) := rfl

theorem mem_pollFrames (tbl : Nat → Nat) (j : Nat) (fr : List Nat)
    (h : fr ∈ pollFrames tbl j) :
    fr = SD_SendCMD_frame tbl SD_CMD_55 0 ∨ fr = SD_SendCMD_frame tbl SD_ACMD_41 0 := by
  unfold pollFrames at h
  rw [List.mem_flatten] at h
  obtain ⟨l, hl, hfr⟩ := h
  rw [List.mem_replicate] at hl
  rw [hl.2] at hfr
  simpa using hfr

theorem cmd58_in_registerFrames (tbl : Nat → Nat) (version : Nat) (fr : List Nat)
    (h : fr ∈ registerFrames tbl version) (hh : fr.head? = some 0x7A) : version = 2 := by
  by_contra hv
  rw [registerFrames_eq, if_neg hv, if_neg hv] at h
  simp only [List.nil_append, List.singleton_append, List.mem_cons, List.mem_singleton,
    List.not_mem_nil, or_false] at h
  rcases h with h | h | h
  all_goals
    subst h
    rw [frame_head] at hh
    revert hh
    decide

theorem cmd58_in_initFrames (tbl : Nat → Nat) (version j : Nat) (fr : List Nat)
    (h : fr ∈ initFrames tbl version j) (hh : fr.head? = some 0x7A) : version = 2 := by
  unfold initFrames at h
  rw [List.mem_append, List.mem_append] at h
  rcases h with (h | h) | h
  · simp only [List.mem_cons, List.mem_singleton, List.not_mem_nil, or_false] at h
    rcases h with h | h | h | h
    all_goals
      subst h
      rw [frame_head] at hh
      exact absurd hh (by decide)
  · rcases mem_pollFrames tbl j fr h with h | h
    all_goals
      subst h
      rw [frame_head] at hh
      exact absurd hh (by decide)
  · exact cmd58_in_registerFrames tbl version fr h hh

theorem cmd58_mem_registerFrames (tbl : Nat → Nat) :
    SD_SendCMD_frame tbl SD_CMD_58 0 ∈ registerFrames tbl 2 := by
  rw [registerFrames_eq]
  exact List.mem_append_left _ (List.mem_singleton.2 rfl)

theorem cmd58_mem_initFrames (tbl : Nat → Nat) (j : Nat) :
    SD_SendCMD_frame tbl SD_CMD_58 0 ∈ initFrames tbl 2 j :=
  List.mem_append_right _ (cmd58_mem_registerFrames tbl)

theorem frames_Config (m : Machine) : FramesExt m (SD_SPI_Config m) [] :=
  (FramesExt.frefl m).fevent rfl Event.config rfl rfl

theorem frames_SetSpeed (m : Machine) (speed : SD_SPI_Speed_t) :
    FramesExt m (SD_SPI_SetSpeed m speed) [] :=
  (FramesExt.frefl m).fevent rfl (Event.setSpeed speed) rfl rfl

theorem frames_CS_Reset_session (m : Machine) :
    FramesExt m (SD_SPI_CS_Reset (((m.setType SD_TYPE_SDSC).setState SD_STATE_READY).setMode
      SD_MODE_IDENTIFICATION)) [] :=
  (FramesExt.frefl m).fevent rfl Event.csReset rfl rfl

/-- The frames of `SD_Init`: on every path a prefix of `initFrames`, on success all of it,
with the resulting capacity class. -/
theorem Init_frames (fuel : Nat) (m : Machine) :
    ∃ l j, (SD_Init fuel m).2.log = l ++ m.log ∧
      sentFrames l <+: initFrames (SD_CRC7_GenTable m.SD_CRC7_Table)
        (SD_Init fuel m).2.sd.version j ∧
      ((SD_Init fuel m).1 = some SD_OK →
        sentFrames l = initFrames (SD_CRC7_GenTable m.SD_CRC7_Table)
          (SD_Init fuel m).2.sd.version j ∧
        ((SD_Init fuel m).2.sd.version ≠ 2 → (SD_Init fuel m).2.sd.type = SD_TYPE_SDSC) ∧
        ((SD_Init fuel m).2.sd.version = 2 →
          ((SD_Init fuel m).2.sd.type = SD_TYPE_SDXC ∨
            (SD_Init fuel m).2.sd.type =
              (if (SD_Init fuel m).2.sd.rawOCR.getD 0 0 &&& 0x40 ≠ 0 then SD_TYPE_SDHC
                else SD_TYPE_SDSC)) ∧
          ((SD_GetOCR (SD_Init fuel m).2.sd).CCS = 1 ↔
            (SD_Init fuel m).2.sd.rawOCR.getD 0 0 &&& 0x40 ≠ 0))) := by
  have e1 : FramesExt { m with SD_CRC7_Table := SD_CRC7_GenTable m.SD_CRC7_Table }
      (SD_SPI_SetSpeed (SD_SPI_Config
        { m with SD_CRC7_Table := SD_CRC7_GenTable m.SD_CRC7_Table }) SD_SPI_INIT_SPEED) [] :=
    (frames_Config { m with SD_CRC7_Table := SD_CRC7_GenTable m.SD_CRC7_Table }).ftrans
      (frames_SetSpeed _ SD_SPI_INIT_SPEED)
  have e2 := e1.ftrans (frames_SendDummyByte 9 (SD_SPI_SetSpeed (SD_SPI_Config
    { m with SD_CRC7_Table := SD_CRC7_GenTable m.SD_CRC7_Table }) SD_SPI_INIT_SPEED))
  generalize hr : SD_Init fuel m = r
  rw [Init_staged] at hr
  generalize (SD_SendDummyByte (SD_SPI_SetSpeed (SD_SPI_Config
    { m with SD_CRC7_Table := SD_CRC7_GenTable m.SD_CRC7_Table }) SD_SPI_INIT_SPEED) 9) = d
    at hr e2
  split_ifs at hr with d1
  · subst hr
    obtain ⟨-, l, hl, hs⟩ := frames_ErrorHandler e2
    refine ⟨l, 0, hl, ?_, fun h => by cases h⟩
    rw [hs]
    exact List.nil_prefix
  · have e3 : FramesExt { m with SD_CRC7_Table := SD_CRC7_GenTable m.SD_CRC7_Table }
        (SD_SPI_CS_Reset (((d.2.setType SD_TYPE_SDSC).setState SD_STATE_READY).setMode
          SD_MODE_IDENTIFICATION)) ([] ++ [] ++ []) :=
      e2.ftrans (frames_CS_Reset_session d.2)
    obtain ⟨fs, j, f1, f2, f3⟩ := Init_modes_frames fuel (SD_SPI_CS_Reset
      (((d.2.setType SD_TYPE_SDSC).setState SD_STATE_READY).setMode SD_MODE_IDENTIFICATION))
    have ht := e3.1
    dsimp only at ht
    have hty : (SD_SPI_CS_Reset (((d.2.setType SD_TYPE_SDSC).setState SD_STATE_READY).setMode
        SD_MODE_IDENTIFICATION)).sd.type = SD_TYPE_SDSC := rfl
    rw [ht] at f2 f3
    rw [hty] at f3
    obtain ⟨-, l, hl, hs⟩ := e3.ftrans f1
    simp only [List.nil_append] at hs
    rw [hr] at hl f2 f3
    refine ⟨l, j, hl, ?_, ?_⟩
    · rw [hs]
      exact f2
    · rw [hs]
      exact f3

/-- C30: `SD_Init` sends CMD58 only for a version-2 card and, when it succeeds, sends
exactly the frames of `initFrames`, among them CMD58 if and only if `version` is 2; the
register-reading part of `SD_Init`, on the machine `g` it is entered with, sends a CMD58
frame if and only if `g.sd.version` is 2, whatever happens afterwards; a successful
`SD_ReadOCR` leaves `type = SD_TYPE_SDHC` when bit 6 of `rawOCR[0]` is set and leaves `type`
as it was otherwise, and that bit is the `CCS` member returned by `SD_GetOCR`; after a
successful `SD_Init` a card whose version is not 2 has `type = SD_TYPE_SDSC`, and a
version-2 card has `SD_TYPE_SDHC` exactly when the bit is set unless `SD_ReadCSD` has
promoted it to `SD_TYPE_SDXC`. -/
theorem C30_init_reads_ocr_iff_version_two (fuel : Nat) (m g mo : Machine) :
    (∃ l j, (SD_Init fuel m).2.log = l ++ m.log ∧
      sentFrames l <+: initFrames (SD_CRC7_GenTable m.SD_CRC7_Table)
        (SD_Init fuel m).2.sd.version j ∧
      ((∃ fr ∈ sentFrames l, fr.head? = some 0x7A) → (SD_Init fuel m).2.sd.version = 2) ∧
      ((SD_Init fuel m).1 = some SD_OK →
        sentFrames l = initFrames (SD_CRC7_GenTable m.SD_CRC7_Table)
          (SD_Init fuel m).2.sd.version j ∧
        ((∃ fr ∈ sentFrames l, fr.head? = some 0x7A) ↔ (SD_Init fuel m).2.sd.version = 2) ∧
        (SD_SendCMD_frame (SD_CRC7_GenTable m.SD_CRC7_Table) SD_CMD_58 0 ∈ sentFrames l ↔
          (SD_Init fuel m).2.sd.version = 2) ∧
        ((SD_Init fuel m).2.sd.version ≠ 2 → (SD_Init fuel m).2.sd.type = SD_TYPE_SDSC) ∧
        ((SD_Init fuel m).2.sd.version = 2 →
          ((SD_Init fuel m).2.sd.type = SD_TYPE_SDXC ∨
            (SD_Init fuel m).2.sd.type =
              (if (SD_Init fuel m).2.sd.rawOCR.getD 0 0 &&& 0x40 ≠ 0 then SD_TYPE_SDHC
                else SD_TYPE_SDSC)) ∧
          ((SD_GetOCR (SD_Init fuel m).2.sd).CCS = 1 ↔
            (SD_Init fuel m).2.sd.rawOCR.getD 0 0 &&& 0x40 ≠ 0)))) ∧
    (∃ l, (SD_Init_registers g).2.log = l ++ g.log ∧
      ((∃ fr ∈ sentFrames l, fr.head? = some 0x7A) ↔ g.sd.version = 2)) ∧
    ((SD_ReadOCR mo).1 = SD_OK →
      (SD_ReadOCR mo).2.sd.type =
        (if (SD_ReadOCR mo).2.sd.rawOCR.getD 0 0 &&& 0x40 ≠ 0 then SD_TYPE_SDHC
          else mo.sd.type) ∧
      ((SD_GetOCR (SD_ReadOCR mo).2.sd).CCS = 1 ↔
        (SD_ReadOCR mo).2.sd.rawOCR.getD 0 0 &&& 0x40 ≠ 0)) := by
  refine ⟨?_, ?_, (ReadOCR_card mo).2.2⟩
  · obtain ⟨l, j, h1, h2, h3⟩ := Init_frames fuel m
    have h4 : (∃ fr ∈ sentFrames l, fr.head? = some 0x7A) → (SD_Init fuel m).2.sd.version = 2 :=
      fun ⟨fr, hfr, hh⟩ => cmd58_in_initFrames _ _ j fr (h2.subset hfr) hh
    refine ⟨l, j, h1, h2, h4, fun hok => ?_⟩
    obtain ⟨k1, k2, k3⟩ := h3 hok
    have h5 : (SD_Init fuel m).2.sd.version = 2 →
        SD_SendCMD_frame (SD_CRC7_GenTable m.SD_CRC7_Table) SD_CMD_58 0 ∈ sentFrames l := by
      intro hv
      rw [k1, hv]
      exact cmd58_mem_initFrames _ j
    exact ⟨k1, ⟨h4, fun hv => ⟨SD_SendCMD_frame (SD_CRC7_GenTable m.SD_CRC7_Table) SD_CMD_58 0,
      h5 hv, rfl⟩⟩, ⟨fun hm => h4 ⟨_, hm, rfl⟩, h5⟩, k2, k3⟩
  · obtain ⟨-, ⟨fs, ⟨-, l, hl, hs⟩, r3, -, r5⟩, -⟩ := Init_registers_frames g
    refine ⟨l, hl, ?_, fun hv => ⟨SD_SendCMD_frame g.SD_CRC7_Table SD_CMD_58 0, ?_, rfl⟩⟩
    · rintro ⟨fr, hfr, hh⟩
      rw [hs] at hfr
      exact cmd58_in_registerFrames _ _ fr (r3.subset hfr) hh
    · rw [hs]
      exact r5 hv

theorem C30_init_reads_ocr_iff_version_two_witness :
    (SD_Init 20 machineInitV2).1 = some SD_OK ∧
    (SD_Init 20 machineInitV2).2.sd.version = 2 ∧
    (SD_Init 20 machineInitV2).2.sd.type = SD_TYPE_SDHC ∧
    (∃ l j, (SD_Init 20 machineInitV2).2.log = l ++ machineInitV2.log ∧
      sentFrames l = initFrames (SD_CRC7_GenTable machineInitV2.SD_CRC7_Table) 2 j ∧
      SD_SendCMD_frame (SD_CRC7_GenTable machineInitV2.SD_CRC7_Table) SD_CMD_58 0 ∈
        sentFrames l) ∧
    (SD_ReadOCR machineOcrHighCapacity).1 = SD_OK ∧
    (SD_GetOCR (SD_ReadOCR machineOcrHighCapacity).2.sd).CCS = 1 ∧
    (SD_ReadOCR machineOcrHighCapacity).2.sd.type = SD_TYPE_SDHC := by
  have hok : (SD_Init 20 machineInitV2).1 = some SD_OK := by decide!
  have hv : (SD_Init 20 machineInitV2).2.sd.version = 2 := by decide!
  have ho : (SD_ReadOCR machineOcrHighCapacity).1 = SD_OK := by decide!
  have hb : (SD_ReadOCR machineOcrHighCapacity).2.sd.rawOCR.getD 0 0 &&& 0x40 ≠ 0 := by decide!
  obtain ⟨⟨l, j, h1, -, -, h4⟩, -, h5⟩ :=
    C30_init_reads_ocr_iff_version_two 20 machineInitV2 machineInitV2 machineOcrHighCapacity
  obtain ⟨k1, -, k3, -, -⟩ := h4 hok
  obtain ⟨q1, q2⟩ := h5 ho
  rw [hv] at k1
  rw [if_pos hb] at q1
  exact ⟨hok, hv, by decide!, ⟨l, j, h1, k1, k3.2 hv⟩, ho, q2.2 hb, q1⟩

/-- C21 (as stated, refuted): on a session whose mode is `SD_MODE_INACTIVE`, `SD_ReadBlock`
and `SD_WriteBlock` return `SD_OK` when the card cooperates; the block is read into the
buffer, respectively sent to the card. -/
theorem C21_inactive_session_is_used_for_transfer :
    machineInactiveRead.sd.mode = SD_MODE_INACTIVE ∧
    (SD_ReadBlock machineInactiveRead 0 [0, 0, 0, 0]).1 = SD_OK ∧
    (SD_ReadBlock machineInactiveRead 0 [0, 0, 0, 0]).2.1 = [1, 2, 3, 4] ∧
    machineInactiveWrite.sd.mode = SD_MODE_INACTIVE ∧
    (SD_WriteBlock 10 machineInactiveWrite 0 [1, 2, 3, 4]).1 = some SD_OK ∧
    Event.send16 [1, 2, 3, 4] SD_SPI_OK ∈ (SD_WriteBlock 10 machineInactiveWrite 0 [1, 2, 3, 4]).2.log := by
  decide!

theorem inact_CS_Set (m : Machine) :
    SD_SPI_CS_Set (m.withMode SD_MODE_INACTIVE) = (SD_SPI_CS_Set m).withMode SD_MODE_INACTIVE :=
  rfl

theorem inact_CS_Reset (m : Machine) :
    SD_SPI_CS_Reset (m.withMode SD_MODE_INACTIVE) =
      (SD_SPI_CS_Reset m).withMode SD_MODE_INACTIVE := rfl

theorem inact_setState (m : Machine) (v : SD_State_t) :
    (m.withMode SD_MODE_INACTIVE).setState v = (m.setState v).withMode SD_MODE_INACTIVE := rfl

theorem inact_setLastR1 (m : Machine) (v : Nat) :
    (m.withMode SD_MODE_INACTIVE).setLastR1 v = (m.setLastR1 v).withMode SD_MODE_INACTIVE := rfl

theorem inact_setLastR2 (m : Machine) (v : Nat) :
    (m.withMode SD_MODE_INACTIVE).setLastR2 v = (m.setLastR2 v).withMode SD_MODE_INACTIVE := rfl

theorem inact_setWrittenBlocks (m : Machine) (v : Nat) :
    (m.withMode SD_MODE_INACTIVE).setWrittenBlocks v =
      (m.setWrittenBlocks v).withMode SD_MODE_INACTIVE := rfl

theorem inact_sd (m : Machine) :
    (m.withMode SD_MODE_INACTIVE).sd = { m.sd with mode := SD_MODE_INACTIVE } := rfl

theorem inact_blockSize (m : Machine) :
    (m.withMode SD_MODE_INACTIVE).sd.blockSize = m.sd.blockSize := rfl

theorem inact_type (m : Machine) : (m.withMode SD_MODE_INACTIVE).sd.type = m.sd.type := rfl

theorem inact_lastR2 (m : Machine) : (m.withMode SD_MODE_INACTIVE).sd.lastR2 = m.sd.lastR2 := rfl

theorem inact_table (m : Machine) :
    (m.withMode SD_MODE_INACTIVE).SD_CRC7_Table = m.SD_CRC7_Table := rfl

theorem inact_ErrorHandler (m : Machine) :
    SD_ErrorHandler (m.withMode SD_MODE_INACTIVE) =
      (SD_ErrorHandler m).withMode SD_MODE_INACTIVE := rfl

theorem inact_Send8Data (m : Machine) (data : List Nat) (len : Nat) :
    SD_SPI_Send8Data (m.withMode SD_MODE_INACTIVE) data len =
      ((SD_SPI_Send8Data m data len).1,
        (SD_SPI_Send8Data m data len).2.withMode SD_MODE_INACTIVE) := rfl

theorem inact_Receive8Data (m : Machine) (len : Nat) :
    SD_SPI_Receive8Data (m.withMode SD_MODE_INACTIVE) len =
      ((SD_SPI_Receive8Data m len).1, (SD_SPI_Receive8Data m len).2.1,
        (SD_SPI_Receive8Data m len).2.2.withMode SD_MODE_INACTIVE) := rfl

theorem inact_Send16Data (m : Machine) (data : List Nat) (len : Nat) :
    SD_SPI_Send16Data (m.withMode SD_MODE_INACTIVE) data len =
      ((SD_SPI_Send16Data m data len).1,
        (SD_SPI_Send16Data m data len).2.withMode SD_MODE_INACTIVE) := rfl

theorem inact_Receive16Data (m : Machine) (len : Nat) :
    SD_SPI_Receive16Data (m.withMode SD_MODE_INACTIVE) len =
      ((SD_SPI_Receive16Data m len).1, (SD_SPI_Receive16Data m len).2.1,
        (SD_SPI_Receive16Data m len).2.2.withMode SD_MODE_INACTIVE) := rfl

theorem inact_GetCycle (m : Machine) :
    DWT_GetCycle (m.withMode SD_MODE_INACTIVE) =
      ((DWT_GetCycle m).1, (DWT_GetCycle m).2.withMode SD_MODE_INACTIVE) := rfl

theorem inact_Timeout (m : Machine) (t s : Nat) :
    DWT_Timeout (m.withMode SD_MODE_INACTIVE) t s =
      ((DWT_Timeout m t s).1, (DWT_Timeout m t s).2.withMode SD_MODE_INACTIVE) := by
  unfold DWT_Timeout
  simp only [inact_GetCycle]
  have : DWT_CyclesInMs (m.withMode SD_MODE_INACTIVE) = DWT_CyclesInMs m := rfl
  rw [this]
  split_ifs <;> rfl

theorem inact_GetR1_poll (n : Nat) : ∀ (m : Machine) (r : Nat),
    SD_GetR1_poll n (m.withMode SD_MODE_INACTIVE) r =
      ((SD_GetR1_poll n m r).1, (SD_GetR1_poll n m r).2.withMode SD_MODE_INACTIVE) := by
  induction n with
  | zero => intro m r; rfl
  | succ n ih =>
    intro m r
    unfold SD_GetR1_poll
    simp only [inact_Receive8Data]
    split_ifs
    · rfl
    · exact ih _ _
    · rfl

theorem inact_GetR1 (m : Machine) (c : Nat) :
    SD_GetR1 (m.withMode SD_MODE_INACTIVE) c =
      ((SD_GetR1 m c).1, (SD_GetR1 m c).2.withMode SD_MODE_INACTIVE) := by
  unfold SD_GetR1
  simp only [inact_GetR1_poll]
  generalize SD_GetR1_poll 10 m 0xFF = p
  obtain ⟨p1, p2⟩ := p
  cases p1 with
  | none => rfl
  | some v =>
    obtain ⟨a, b⟩ := v
    simp only []
    split_ifs <;> rfl

theorem inact_SendCMD (m : Machine) (cmd a c : Nat) :
    SD_SendCMD (m.withMode SD_MODE_INACTIVE) cmd a c =
      ((SD_SendCMD m cmd a c).1, (SD_SendCMD m cmd a c).2.withMode SD_MODE_INACTIVE) := by
  unfold SD_SendCMD
  simp only [inact_Send8Data, inact_table]
  split_ifs
  · rfl
  · exact inact_GetR1 _ _

/-- The machine that `SD_GetR1` leaves, and whether it returns `SD_ERROR`, do not depend on
the response expected. -/
theorem GetR1_expected (m : Machine) (c1 c2 : Nat) :
    (SD_GetR1 m c1).2 = (SD_GetR1 m c2).2 ∧
    ((SD_GetR1 m c1).1 = SD_ERROR ↔ (SD_GetR1 m c2).1 = SD_ERROR) := by
  unfold SD_GetR1
  generalize SD_GetR1_poll 10 m 0xFF = p
  obtain ⟨p1, p2⟩ := p
  cases p1 with
  | none => exact ⟨rfl, Iff.rfl⟩
  | some v =>
    obtain ⟨a, b⟩ := v
    simp only []
    split_ifs <;> exact ⟨rfl, Iff.rfl⟩

theorem SendCMD_expected (m : Machine) (cmd a c1 c2 : Nat) :
    (SD_SendCMD m cmd a c1).2 = (SD_SendCMD m cmd a c2).2 ∧
    ((SD_SendCMD m cmd a c1).1 = SD_ERROR ↔ (SD_SendCMD m cmd a c2).1 = SD_ERROR) := by
  unfold SD_SendCMD
  simp only []
  split_ifs
  · exact ⟨rfl, Iff.rfl⟩
  · exact GetR1_expected _ _ _

theorem inact_SendACMD (m : Machine) (acmd a c : Nat) :
    SD_SendACMD (m.withMode SD_MODE_INACTIVE) acmd a c =
      ((SD_SendACMD m acmd a c).1, (SD_SendACMD m acmd a c).2.withMode SD_MODE_INACTIVE) := by
  unfold SD_SendACMD
  simp only [inact_SendCMD]
  obtain ⟨h1, h2⟩ := SendCMD_expected m SD_CMD_55 0
    (if (m.withMode SD_MODE_INACTIVE).sd.mode = SD_MODE_TRANSFER then SD_R1_NORMAL_STATE
      else SD_R1_IDLE_STATE)
    (if m.sd.mode = SD_MODE_TRANSFER then SD_R1_NORMAL_STATE else SD_R1_IDLE_STATE)
  generalize (SD_SendCMD m SD_CMD_55 0
    (if (m.withMode SD_MODE_INACTIVE).sd.mode = SD_MODE_TRANSFER then SD_R1_NORMAL_STATE
      else SD_R1_IDLE_STATE)) = r1 at h1 h2 ⊢
  generalize (SD_SendCMD m SD_CMD_55 0
    (if m.sd.mode = SD_MODE_TRANSFER then SD_R1_NORMAL_STATE else SD_R1_IDLE_STATE)) = r2
    at h1 h2 ⊢
  obtain ⟨a1, b1⟩ := r1
  obtain ⟨a2, b2⟩ := r2
  simp only [] at h1 h2 ⊢
  subst h1
  by_cases he : a1 = SD_ERROR
  · rw [if_pos he, if_pos (h2.1 he)]
  · rw [if_neg he, if_neg (fun h => he (h2.2 h))]

theorem inact_GetResponse (m : Machine) (len : Nat) :
    SD_GetResponse (m.withMode SD_MODE_INACTIVE) len =
      ((SD_GetResponse m len).1, (SD_GetResponse m len).2.1,
        (SD_GetResponse m len).2.2.withMode SD_MODE_INACTIVE) := by
  unfold SD_GetResponse
  simp only [inact_Receive8Data]
  split_ifs <;> rfl

theorem inact_SendToken (m : Machine) (token : Nat) :
    SD_SendToken (m.withMode SD_MODE_INACTIVE) token =
      ((SD_SendToken m token).1, (SD_SendToken m token).2.withMode SD_MODE_INACTIVE) := by
  unfold SD_SendToken
  simp only [inact_Send8Data]
  split_ifs <;> rfl

theorem inact_GetToken_poll (token n : Nat) : ∀ (m : Machine) (r : Nat),
    SD_GetToken_poll token n (m.withMode SD_MODE_INACTIVE) r =
      ((SD_GetToken_poll token n m r).1,
        (SD_GetToken_poll token n m r).2.withMode SD_MODE_INACTIVE) := by
  induction n with
  | zero => intro m r; rfl
  | succ n ih =>
    intro m r
    unfold SD_GetToken_poll
    simp only [inact_Receive8Data]
    split_ifs
    · rfl
    · exact ih _ _
    · rfl

theorem inact_GetToken (m : Machine) (token : Nat) :
    SD_GetToken (m.withMode SD_MODE_INACTIVE) token =
      ((SD_GetToken m token).1, (SD_GetToken m token).2.withMode SD_MODE_INACTIVE) := by
  unfold SD_GetToken
  simp only [inact_GetToken_poll]
  generalize SD_GetToken_poll token 100 m 0xFF = p
  obtain ⟨p1, p2⟩ := p
  cases p1 with
  | none => rfl
  | some v =>
    obtain ⟨a, b⟩ := v
    simp only []
    split_ifs <;> rfl

theorem inact_ReadData (m : Machine) (len : Nat) :
    SD_ReadData (m.withMode SD_MODE_INACTIVE) len =
      ((SD_ReadData m len).1, (SD_ReadData m len).2.1,
        (SD_ReadData m len).2.2.withMode SD_MODE_INACTIVE) := by
  unfold SD_ReadData
  simp only [inact_Receive16Data]
  split_ifs <;> rfl

theorem inact_WaitForBusy_loop (ts fuel : Nat) : ∀ (m : Machine) (busy : Nat),
    SD_WaitForBusy_loop ts fuel (m.withMode SD_MODE_INACTIVE) busy =
      ((SD_WaitForBusy_loop ts fuel m busy).1,
        (SD_WaitForBusy_loop ts fuel m busy).2.withMode SD_MODE_INACTIVE) := by
  induction fuel with
  | zero => intro m busy; rfl
  | succ n ih =>
    intro m busy
    unfold SD_WaitForBusy_loop
    simp only [inact_Receive8Data, inact_Timeout]
    split_ifs
    · rfl
    · rfl
    · exact ih _ _
    · rfl

theorem inact_WaitForBusy (fuel : Nat) (m : Machine) :
    SD_WaitForBusy fuel (m.withMode SD_MODE_INACTIVE) =
      ((SD_WaitForBusy fuel m).1, (SD_WaitForBusy fuel m).2.withMode SD_MODE_INACTIVE) := by
  unfold SD_WaitForBusy
  simp only [inact_GetCycle]
  exact inact_WaitForBusy_loop _ _ _ _

theorem inact_WriteData_loop (ts fuel : Nat) : ∀ (m : Machine) (token : Nat),
    SD_WriteData_loop ts fuel (m.withMode SD_MODE_INACTIVE) token =
      ((SD_WriteData_loop ts fuel m token).1,
        (SD_WriteData_loop ts fuel m token).2.withMode SD_MODE_INACTIVE) := by
  induction fuel with
  | zero => intro m token; rfl
  | succ n ih =>
    intro m token
    unfold SD_WriteData_loop
    simp only [inact_Receive8Data, inact_Timeout]
    split_ifs
    · rfl
    · rfl
    · exact ih _ _
    · rfl

theorem inact_SendDummyByte (n : Nat) : ∀ (m : Machine),
    SD_SendDummyByte (m.withMode SD_MODE_INACTIVE) n =
      ((SD_SendDummyByte m n).1, (SD_SendDummyByte m n).2.withMode SD_MODE_INACTIVE) := by
  induction n with
  | zero => intro m; rfl
  | succ n ih =>
    intro m
    unfold SD_SendDummyByte
    simp only [inact_Receive8Data]
    split_ifs
    · rfl
    · exact ih _

theorem inact_StopTransfer_loop (ts fuel : Nat) : ∀ (m : Machine) (token : Nat),
    SD_StopTransfer_loop ts fuel (m.withMode SD_MODE_INACTIVE) token =
      ((SD_StopTransfer_loop ts fuel m token).1,
        (SD_StopTransfer_loop ts fuel m token).2.withMode SD_MODE_INACTIVE) := by
  induction fuel with
  | zero => intro m token; rfl
  | succ n ih =>
    intro m token
    unfold SD_StopTransfer_loop
    simp only [inact_Receive8Data, inact_Timeout]
    split_ifs
    · rfl
    · rfl
    · exact ih _ _
    · rfl

theorem inact_StopTransfer (fuel : Nat) (m : Machine) :
    SD_StopTransfer fuel (m.withMode SD_MODE_INACTIVE) =
      ((SD_StopTransfer fuel m).1, (SD_StopTransfer fuel m).2.withMode SD_MODE_INACTIVE) := by
  unfold SD_StopTransfer
  simp only [inact_SendCMD, inact_GetCycle]
  exact inact_StopTransfer_loop _ _ _ _

theorem inact_WriteData (fuel : Nat) (m : Machine) (data : List Nat) (len : Nat) :
    SD_WriteData fuel (m.withMode SD_MODE_INACTIVE) data len =
      ((SD_WriteData fuel m data len).1,
        (SD_WriteData fuel m data len).2.withMode SD_MODE_INACTIVE) := by
  unfold SD_WriteData
  simp only [inact_Send16Data, inact_GetCycle, inact_WriteData_loop, inact_WaitForBusy]
  split_ifs
  · rfl
  · generalize SD_WriteData_loop (DWT_GetCycle (SD_SPI_Send16Data m data (len >>> 1)).2).1 fuel
      (DWT_GetCycle (SD_SPI_Send16Data m data (len >>> 1)).2).2 0xFF = l
    obtain ⟨l1, l2⟩ := l
    cases l1 with
    | none => rfl
    | some v =>
      cases v with
      | none => rfl
      | some token =>
        simp only []
        split_ifs
        · rfl
        · rfl
        · generalize SD_WaitForBusy fuel l2 = w
          obtain ⟨w1, w2⟩ := w
          cases w1 with
          | none => rfl
          | some e =>
            simp only []
            split_ifs <;> rfl

theorem inact_ReadStatus (m : Machine) :
    SD_ReadStatus (m.withMode SD_MODE_INACTIVE) =
      ((SD_ReadStatus m).1, (SD_ReadStatus m).2.withMode SD_MODE_INACTIVE) := by
  unfold SD_ReadStatus
  simp only [inact_CS_Reset, inact_SendCMD, inact_GetResponse, inact_lastR2, inact_setLastR2,
    inact_ErrorHandler, inact_CS_Set]
  split_ifs <;> rfl

theorem inact_GetWrittenBlocks (m : Machine) :
    SD_GetWrittenBlocks (m.withMode SD_MODE_INACTIVE) =
      ((SD_GetWrittenBlocks m).1, (SD_GetWrittenBlocks m).2.withMode SD_MODE_INACTIVE) := by
  unfold SD_GetWrittenBlocks
  simp only [inact_CS_Reset, inact_SendACMD, inact_GetToken, inact_ReadData,
    inact_setWrittenBlocks, inact_ErrorHandler, inact_CS_Set]
  split_ifs <;> rfl

theorem inact_ReadBlock (m : Machine) (address : Nat) (data : List Nat) :
    SD_ReadBlock (m.withMode SD_MODE_INACTIVE) address data =
      ((SD_ReadBlock m address data).1, (SD_ReadBlock m address data).2.1,
        (SD_ReadBlock m address data).2.2.withMode SD_MODE_INACTIVE) := by
  unfold SD_ReadBlock
  simp only [inact_CS_Reset, inact_setState, inact_type, inact_blockSize, inact_SendCMD,
    inact_GetToken, inact_ReadData, inact_ErrorHandler, inact_CS_Set]
  split_ifs <;> rfl

theorem inact_ReadMultipleBlock_loop (num : Nat) : ∀ (m : Machine) (data : List Nat) (off : Nat),
    SD_ReadMultipleBlock_loop num (m.withMode SD_MODE_INACTIVE) data off =
      ((SD_ReadMultipleBlock_loop num m data off).1,
        (SD_ReadMultipleBlock_loop num m data off).2.1,
        (SD_ReadMultipleBlock_loop num m data off).2.2.withMode SD_MODE_INACTIVE) := by
  induction num with
  | zero => intro m data off; rfl
  | succ n ih =>
    intro m data off
    unfold SD_ReadMultipleBlock_loop
    simp only [inact_GetToken, inact_ReadData, inact_blockSize, inact_ErrorHandler]
    split_ifs
    · rfl
    · rfl
    · exact ih _ _ _

theorem inact_ReadMultipleBlock (fuel : Nat) (m : Machine) (address : Nat) (data : List Nat)
    (num : Nat) :
    SD_ReadMultipleBlock fuel (m.withMode SD_MODE_INACTIVE) address data num =
      ((SD_ReadMultipleBlock fuel m address data num).1,
        (SD_ReadMultipleBlock fuel m address data num).2.1,
        (SD_ReadMultipleBlock fuel m address data num).2.2.withMode SD_MODE_INACTIVE) := by
  unfold SD_ReadMultipleBlock
  simp only [inact_CS_Reset, inact_setState, inact_type, inact_blockSize, inact_SendCMD,
    inact_ReadMultipleBlock_loop, inact_StopTransfer, inact_ErrorHandler, inact_CS_Set]
  generalize SD_SendCMD ((SD_SPI_CS_Reset m).setState SD_STATE_RECEIVE) SD_CMD_18
    (if ((SD_SPI_CS_Reset m).setState SD_STATE_RECEIVE).sd.type = SD_TYPE_SDSC then
      (address * ((SD_SPI_CS_Reset m).setState SD_STATE_RECEIVE).sd.blockSize) % 4294967296
      else address) SD_R1_NORMAL_STATE = r
  split_ifs
  · rfl
  · rfl
  · generalize SD_StopTransfer fuel (SD_ReadMultipleBlock_loop num r.2 data 0).2.2 = s
    obtain ⟨s1, s2⟩ := s
    cases s1 with
    | none => rfl
    | some e =>
      simp only []
      split_ifs <;> rfl

set_option maxHeartbeats 4000000 in
theorem inact_WriteBlock (fuel : Nat) (m : Machine) (address : Nat) (data : List Nat) :
    SD_WriteBlock fuel (m.withMode SD_MODE_INACTIVE) address data =
      ((SD_WriteBlock fuel m address data).1,
        (SD_WriteBlock fuel m address data).2.withMode SD_MODE_INACTIVE) := by
  unfold SD_WriteBlock
  simp only [inact_CS_Reset, inact_setState, inact_type, inact_blockSize, inact_SendCMD,
    inact_SendToken, inact_WriteData, inact_ReadStatus, inact_WaitForBusy, inact_ErrorHandler,
    inact_CS_Set]
  generalize SD_SendCMD ((SD_SPI_CS_Reset m).setState SD_STATE_SENDING) SD_CMD_24
    (if ((SD_SPI_CS_Reset m).setState SD_STATE_SENDING).sd.type = SD_TYPE_SDSC then
      (address * ((SD_SPI_CS_Reset m).setState SD_STATE_SENDING).sd.blockSize) % 4294967296
      else address) SD_R1_NORMAL_STATE = r
  by_cases h1 : r.1 ≠ SD_OK
  · simp only [if_pos h1]
  simp only [if_neg h1]
  generalize SD_SendToken r.2 SD_START_RMW_BLOCK_TOKEN = t
  by_cases h2 : t.1.toNat = SD_SPI_ERROR.toNat
  · simp only [if_pos h2]
  simp only [if_neg h2]
  generalize SD_WriteData fuel t.2 data t.2.sd.blockSize = w
  obtain ⟨w1, w2⟩ := w
  cases w1 with
  | none => rfl
  | some e =>
    simp only []
    by_cases h3 : e ≠ SD_OK
    · simp only [if_pos h3]
    simp only [if_neg h3]
    generalize SD_WaitForBusy fuel w2 = b
    obtain ⟨b1, b2⟩ := b
    cases b1 with
    | none => rfl
    | some e2 =>
      simp only []
      by_cases h4 : e2 ≠ SD_OK
      · simp only [if_pos h4]
      simp only [if_neg h4]
      by_cases h5 : (SD_ReadStatus b2).1 ≠ SD_OK
      · simp only [if_pos h5]
      · simp only [if_neg h5]

theorem inact_WriteMultipleBlock_loop (fuel num : Nat) : ∀ (m : Machine) (data : List Nat),
    SD_WriteMultipleBlock_loop fuel num (m.withMode SD_MODE_INACTIVE) data =
      ((SD_WriteMultipleBlock_loop fuel num m data).1,
        (SD_WriteMultipleBlock_loop fuel num m data).2.withMode SD_MODE_INACTIVE) := by
  induction num with
  | zero => intro m data; rfl
  | succ n ih =>
    intro m data
    unfold SD_WriteMultipleBlock_loop
    simp only [inact_SendToken, inact_WriteData, inact_blockSize, inact_StopTransfer,
      inact_GetWrittenBlocks, inact_ErrorHandler]
    split_ifs
    · rfl
    · generalize SD_SendToken m SD_START_WM_BLOCK_TOKEN = t
      generalize SD_WriteData fuel t.2 data t.2.sd.blockSize = w
      obtain ⟨w1, w2⟩ := w
      cases w1 with
      | none => rfl
      | some e =>
        simp only []
        split_ifs
        · rfl
        · generalize SD_StopTransfer fuel w2 = s
          obtain ⟨s1, s2⟩ := s
          cases s1 with
          | none => rfl
          | some e3 => rfl
        · exact ih _ _

set_option maxHeartbeats 4000000 in
theorem inact_WriteMultipleBlock (fuel : Nat) (m : Machine) (address : Nat) (data : List Nat)
    (num : Nat) :
    SD_WriteMultipleBlock fuel (m.withMode SD_MODE_INACTIVE) address data num =
      ((SD_WriteMultipleBlock fuel m address data num).1,
        (SD_WriteMultipleBlock fuel m address data num).2.withMode SD_MODE_INACTIVE) := by
  unfold SD_WriteMultipleBlock
  simp only [inact_CS_Reset, inact_setState, inact_type, inact_blockSize, inact_SendCMD,
    inact_SendDummyByte, inact_WriteMultipleBlock_loop, inact_SendToken, inact_WaitForBusy,
    inact_ReadStatus, inact_ErrorHandler, inact_CS_Set]
  generalize SD_SendCMD ((SD_SPI_CS_Reset m).setState SD_STATE_SENDING) SD_CMD_25
    (if ((SD_SPI_CS_Reset m).setState SD_STATE_SENDING).sd.type = SD_TYPE_SDSC then
      (address * ((SD_SPI_CS_Reset m).setState SD_STATE_SENDING).sd.blockSize) % 4294967296
      else address) SD_R1_NORMAL_STATE = r
  by_cases h1 : r.1 ≠ SD_OK
  · simp only [if_pos h1]
  simp only [if_neg h1]
  generalize SD_SendDummyByte r.2 1 = d
  by_cases h2 : d.1 ≠ SD_OK
  · simp only [if_pos h2]
  simp only [if_neg h2]
  generalize SD_WriteMultipleBlock_loop fuel num d.2 data = l
  obtain ⟨l1, l2⟩ := l
  cases l1 with
  | none => rfl
  | some e =>
    simp only []
    by_cases h3 : e ≠ SD_OK
    · simp only [if_pos h3]
    simp only [if_neg h3]
    generalize SD_SendToken l2 SD_STOP_WE_BLOCK_TOKEN = t
    by_cases h4 : t.1 ≠ SD_OK
    · simp only [if_pos h4]
    simp only [if_neg h4]
    generalize SD_SendDummyByte t.2 1 = d2
    by_cases h5 : d2.1 ≠ SD_OK
    · simp only [if_pos h5]
    simp only [if_neg h5]
    generalize SD_WaitForBusy fuel d2.2 = b
    obtain ⟨b1, b2⟩ := b
    cases b1 with
    | none => rfl
    | some e2 =>
      simp only []
      by_cases h6 : e2 ≠ SD_OK
      · simp only [if_pos h6]
      simp only [if_neg h6]
      by_cases h7 : (SD_ReadStatus (SD_SPI_CS_Set (b2.setState SD_STATE_STANDBY))).1 ≠ SD_OK
      · simp only [if_pos h7]
      · simp only [if_neg h7]

theorem withMode_inactive (m : Machine) (v : SD_Mode_t) (hm : m.sd.mode = SD_MODE_INACTIVE) :
    (m.withMode v).withMode SD_MODE_INACTIVE = m := by
  obtain ⟨sd, a, b, c, d, e, f, g, h, i⟩ := m
  obtain ⟨s1, s2, s3, s4, s5, s6, s7, s8, s9, s10, s11, s12, s13, s14⟩ := sd
  simp only at hm
  subst hm
  rfl

/-- C21 (amended): the transfer operations do not look at `mode`.  Run on a session whose
mode is `SD_MODE_INACTIVE`, each of `SD_ReadBlock`, `SD_ReadMultipleBlock`, `SD_WriteBlock`
and `SD_WriteMultipleBlock` returns the same result, delivers the same data and leaves the
same machine (session, log of bus calls, streams) as on the session that holds any other
mode `v` in that member, except that `mode` is `SD_MODE_INACTIVE` afterwards: the session
is not refused, and the result is decided by the exchange with the card alone. -/
theorem C21_transfer_ignores_mode (fuel : Nat) (m : Machine) (v : SD_Mode_t) (address : Nat)
    (data : List Nat) (num : Nat) (hm : m.sd.mode = SD_MODE_INACTIVE) :
    SD_ReadBlock m address data =
      ((SD_ReadBlock (m.withMode v) address data).1,
        (SD_ReadBlock (m.withMode v) address data).2.1,
        (SD_ReadBlock (m.withMode v) address data).2.2.withMode SD_MODE_INACTIVE) ∧
    SD_ReadMultipleBlock fuel m address data num =
      ((SD_ReadMultipleBlock fuel (m.withMode v) address data num).1,
        (SD_ReadMultipleBlock fuel (m.withMode v) address data num).2.1,
        (SD_ReadMultipleBlock fuel (m.withMode v) address data num).2.2.withMode
          SD_MODE_INACTIVE) ∧
    SD_WriteBlock fuel m address data =
      ((SD_WriteBlock fuel (m.withMode v) address data).1,
        (SD_WriteBlock fuel (m.withMode v) address data).2.withMode SD_MODE_INACTIVE) ∧
    SD_WriteMultipleBlock fuel m address data num =
      ((SD_WriteMultipleBlock fuel (m.withMode v) address data num).1,
        (SD_WriteMultipleBlock fuel (m.withMode v) address data num).2.withMode
          SD_MODE_INACTIVE) := by
  have e := withMode_inactive m v hm
  refine ⟨?_, ?_, ?_, ?_⟩
  · rw [← inact_ReadBlock, e]
  · rw [← inact_ReadMultipleBlock, e]
  · rw [← inact_WriteBlock, e]
  · rw [← inact_WriteMultipleBlock, e]

theorem C21_transfer_ignores_mode_witness :
    machineInactiveRead.sd.mode = SD_MODE_INACTIVE ∧
    (SD_ReadBlock (machineInactiveRead.withMode SD_MODE_TRANSFER) 0 [0, 0, 0, 0]).1 = SD_OK ∧
    (SD_ReadBlock machineInactiveRead 0 [0, 0, 0, 0]).1 =
      (SD_ReadBlock (machineInactiveRead.withMode SD_MODE_TRANSFER) 0 [0, 0, 0, 0]).1 ∧
    (SD_WriteBlock 10 machineInactiveWrite 0 [1, 2, 3, 4]).1 =
      (SD_WriteBlock 10 (machineInactiveWrite.withMode SD_MODE_TRANSFER) 0 [1, 2, 3, 4]).1 := by
  have h1 := (C21_transfer_ignores_mode 10 machineInactiveRead SD_MODE_TRANSFER 0
    [0, 0, 0, 0] 1 (by decide)).1
  have h2 := (C21_transfer_ignores_mode 10 machineInactiveWrite SD_MODE_TRANSFER 0
    [1, 2, 3, 4] 1 (by decide)).2.2.1
  exact ⟨by decide, by decide!, by rw [h1], by rw [h2]⟩

/-! ## The CRC7 table and the command frame: ranges, reference frames, residue -/

theorem genTable_eq (tbl : Nat → Nat) (k : Nat) :
    SD_CRC7_GenTable tbl k = if k < 256 then SD_CRC7_GenTable_entry k else tbl k := by
  unfold SD_CRC7_GenTable
  rw [gen_closed]
  by_cases h : k < 256
  · rw [if_pos ⟨Nat.zero_le k, by omega⟩, if_pos h]
  · rw [if_neg (fun h2 => h (by omega)), if_neg h]

/-- C34: `SD_CRC7_GenTable` run on the table it has produced leaves every cell as it is,
and the 256 entries it produces do not depend on the contents the table had before: two
runs from any two tables agree on every index below 256, and so does a second run after
the first. -/
theorem C34_genTable_idempotent (tbl tbl2 : Nat → Nat) :
    SD_CRC7_GenTable (SD_CRC7_GenTable tbl) = SD_CRC7_GenTable tbl ∧
    (∀ k, k < 256 → SD_CRC7_GenTable tbl k = SD_CRC7_GenTable tbl2 k) ∧
    (∀ k, k < 256 → SD_CRC7_GenTable (SD_CRC7_GenTable tbl) k = SD_CRC7_GenTable tbl2 k) ∧
    (∀ k, k < 256 → SD_CRC7_GenTable tbl k = SD_CRC7_GenTable_entry k) := by
  refine ⟨?_, ?_, ?_, ?_⟩
  · funext k
    rw [genTable_eq (SD_CRC7_GenTable tbl) k, genTable_eq tbl k]
    split_ifs <;> rfl
  · intro k hk
    rw [genTable_apply tbl k hk, genTable_apply tbl2 k hk]
  · intro k hk
    rw [genTable_apply _ k hk, genTable_apply tbl2 k hk]
  · intro k hk
    exact genTable_apply tbl k hk

theorem C34_genTable_idempotent_witness :
    0x51 < 256 ∧
    SD_CRC7_GenTable (fun _ => 0) 0x51 = SD_CRC7_GenTable (fun i => i) 0x51 ∧
    SD_CRC7_GenTable (SD_CRC7_GenTable (fun _ => 0)) 0x51 = SD_CRC7_GenTable (fun i => i) 0x51 :=
  ⟨by decide, (C34_genTable_idempotent (fun _ => 0) (fun i => i)).2.1 0x51 (by decide),
    (C34_genTable_idempotent (fun _ => 0) (fun i => i)).2.2.1 0x51 (by decide)⟩

theorem getCRC_succ (tbl : Nat → Nat) (buffer : List Nat) (i : Nat) (hi : i < buffer.length) :
    SD_CRC7_GetCRC tbl buffer (i + 1) =
      tbl ((SD_CRC7_GetCRC tbl buffer i <<< 1) ^^^ buffer.getD i 0) % 256 := by
  unfold SD_CRC7_GetCRC
  rw [List.take_succ, List.foldl_append]
  have h1 : buffer[i]? = some (buffer.getD i 0) := by
    rw [List.getD_eq_getElem?_getD, List.getElem?_eq_getElem hi]
    rfl
  rw [h1]
  rfl

theorem getCRC_append_one (tbl : Nat → Nat) (msg : List Nat) (x : Nat) :
    SD_CRC7_GetCRC tbl (msg ++ [x]) (msg.length + 1) =
      tbl ((SD_CRC7_GetCRC tbl msg msg.length <<< 1) ^^^ x) % 256 := by
  unfold SD_CRC7_GetCRC
  rw [List.take_length]
  have h : (msg ++ [x]).take (msg.length + 1) = msg ++ [x] := by
    apply List.take_of_length_le
    simp
  rw [h, List.foldl_append]
  rfl

theorem index_lt (c b : Nat) (hc : c < 128) (hb : b < 256) : (c <<< 1) ^^^ b < 256 := by
  have h1 : c <<< 1 < 2 ^ 8 := by rw [Nat.shiftLeft_eq]; omega
  have h2 : b < 2 ^ 8 := by omega
  exact Nat.xor_lt_two_pow h1 h2

theorem cmd_byte_bits : ∀ c < 256,
    (((c &&& 0x7F) ||| 0x40) &&& 0x80 = 0) ∧ (((c &&& 0x7F) ||| 0x40) &&& 0x40 = 0x40) := by
  decide!

theorem crc_byte_bits : ∀ c < 128,
    (c <<< 1) ||| 0x01 < 256 ∧ ((c <<< 1) ||| 0x01) &&& 0x01 = 1 ∧
    ((c <<< 1) ||| 0x01) >>> 1 = c ∧ (c <<< 1) ||| 0x01 = 2 * c + 1 ∧
    ((c <<< 1) ||| 0x01) &&& 0xFE = c <<< 1 ∧ c <<< 1 < 256 := by
  decide!

theorem frame_parts (tbl : Nat → Nat) (cmd argument : Nat) :
    (SD_SendCMD_frame (SD_CRC7_GenTable tbl) cmd argument).take 5 = frameHead cmd argument ∧
    (SD_SendCMD_frame (SD_CRC7_GenTable tbl) cmd argument).getD 0 0 =
      ((cmd % 256) &&& 0x7F) ||| 0x40 ∧
    (SD_SendCMD_frame (SD_CRC7_GenTable tbl) cmd argument).getD 5 0 =
      (SD_CRC7_GetCRC (SD_CRC7_GenTable tbl) (frameHead cmd argument) 5 <<< 1) ||| 0x01 ∧
    SD_CRC7_GetCRC (SD_CRC7_GenTable tbl) (frameHead cmd argument) 5 < 128 := by
  have h := getCRC_eq_bitwise tbl (frameHead cmd argument) 5 (frameHead_lt cmd argument)
  have ht : (frameHead cmd argument).take 5 = frameHead cmd argument := rfl
  rw [ht] at h
  rw [frame_eq_bitwise, h.1]
  exact ⟨rfl, rfl, rfl, by rw [← h.1]; exact h.2⟩

/-- C36: every entry of the table that `SD_CRC7_GenTable` leaves is below `0x80`; hence,
for a buffer of bytes, `SD_CRC7_GetCRC` returns a value below 128 for every length, and at
every step the table index `(crc << 1) ^ buffer[i]` is below 256; for every `cmd` and
`argument` the frame of `SD_SendCMD` has six bytes, its first byte has bit 7 clear and bit 6
set, and its last byte is `2 * crc + 1` for the CRC of the first five bytes: bit 0 is set and
the shift back by one gives the CRC again. -/
theorem C36_crc_and_frame_ranges (tbl : Nat → Nat) (buffer : List Nat) (cmd argument : Nat)
    (h : ∀ b ∈ buffer, b < 256) :
    (∀ i, i < 256 → SD_CRC7_GenTable tbl i < 0x80) ∧
    (∀ len, SD_CRC7_GetCRC (SD_CRC7_GenTable tbl) buffer len < 128) ∧
    (∀ i, i < buffer.length →
      (SD_CRC7_GetCRC (SD_CRC7_GenTable tbl) buffer i <<< 1) ^^^ buffer.getD i 0 < 256 ∧
      SD_CRC7_GetCRC (SD_CRC7_GenTable tbl) buffer (i + 1) =
        SD_CRC7_GenTable tbl
          ((SD_CRC7_GetCRC (SD_CRC7_GenTable tbl) buffer i <<< 1) ^^^ buffer.getD i 0) % 256) ∧
    (SD_SendCMD_frame (SD_CRC7_GenTable tbl) cmd argument).length = 6 ∧
    (SD_SendCMD_frame (SD_CRC7_GenTable tbl) cmd argument).getD 0 0 &&& 0x80 = 0 ∧
    (SD_SendCMD_frame (SD_CRC7_GenTable tbl) cmd argument).getD 0 0 &&& 0x40 = 0x40 ∧
    (SD_SendCMD_frame (SD_CRC7_GenTable tbl) cmd argument).getD 5 0 &&& 0x01 = 1 ∧
    (SD_SendCMD_frame (SD_CRC7_GenTable tbl) cmd argument).getD 5 0 < 256 ∧
    (SD_SendCMD_frame (SD_CRC7_GenTable tbl) cmd argument).getD 5 0 >>> 1 =
      SD_CRC7_GetCRC (SD_CRC7_GenTable tbl)
        ((SD_SendCMD_frame (SD_CRC7_GenTable tbl) cmd argument).take 5) 5 ∧
    (SD_SendCMD_frame (SD_CRC7_GenTable tbl) cmd argument).getD 5 0 =
      2 * SD_CRC7_GetCRC (SD_CRC7_GenTable tbl)
        ((SD_SendCMD_frame (SD_CRC7_GenTable tbl) cmd argument).take 5) 5 + 1 := by
  obtain ⟨f1, f2, f3, f4⟩ := frame_parts tbl cmd argument
  obtain ⟨b1, b2⟩ := cmd_byte_bits (cmd % 256) (Nat.mod_lt _ (by norm_num))
  obtain ⟨c1, c2, c3, c4, -, -⟩ := crc_byte_bits _ f4
  refine ⟨?_, ?_, ?_, rfl, ?_, ?_, ?_, ?_, ?_, ?_⟩
  · intro i hi
    rw [genTable_apply tbl i hi]
    exact entry_lt i hi
  · intro len
    exact (getCRC_eq_bitwise tbl buffer len h).2
  · intro i hi
    refine ⟨index_lt _ _ (getCRC_eq_bitwise tbl buffer i h).2 ?_, getCRC_succ _ _ i hi⟩
    have h1 : buffer.getD i 0 = buffer[i] := by
      rw [List.getD_eq_getElem?_getD, List.getElem?_eq_getElem hi]
      rfl
    rw [h1]
    exact h _ (List.getElem_mem _)
  · rw [f2]
    exact b1
  · rw [f2]
    exact b2
  · rw [f3]
    exact c2
  · rw [f3]
    exact c1
  · rw [f3, f1]
    exact c3
  · rw [f3, f1]
    exact c4

theorem C36_crc_and_frame_ranges_witness :
    (∀ b ∈ [0x51, 0x00, 0x00, 0x02, 0x00], b < 256) ∧
    SD_CRC7_GetCRC (SD_CRC7_GenTable (fun _ => 0)) [0x51, 0x00, 0x00, 0x02, 0x00] 5 < 128 ∧
    (SD_CRC7_GetCRC (SD_CRC7_GenTable (fun _ => 0)) [0x51, 0x00, 0x00, 0x02, 0x00] 4 <<< 1) ^^^
      [0x51, 0x00, 0x00, 0x02, 0x00].getD 4 0 < 256 :=
  ⟨by decide,
    (C36_crc_and_frame_ranges (fun _ => 0) [0x51, 0x00, 0x00, 0x02, 0x00] 17 0x200
      (by decide)).2.1 5,
    ((C36_crc_and_frame_ranges (fun _ => 0) [0x51, 0x00, 0x00, 0x02, 0x00] 17 0x200
      (by decide)).2.2.1 4 (by decide)).1⟩

/-- C37: with the generated table, the frame that `SD_SendCMD` builds for CMD0 with
argument 0 is `40 00 00 00 00 95` and the frame for CMD8 with argument `0x000001AA` is
`48 00 00 01 AA 87`, whatever the table held before; these are the frames handed to the
transport. -/
theorem C37_reference_frames (tbl : Nat → Nat) :
    SD_SendCMD_frame (SD_CRC7_GenTable tbl) SD_CMD_0 0 = [0x40, 0x00, 0x00, 0x00, 0x00, 0x95] ∧
    SD_SendCMD_frame (SD_CRC7_GenTable tbl) SD_CMD_8 0x000001AA =
      [0x48, 0x00, 0x00, 0x01, 0xAA, 0x87] ∧
    (∀ (m : Machine) (c : Nat), m.SD_CRC7_Table = SD_CRC7_GenTable tbl →
      (∃ l, (SD_SendCMD m SD_CMD_0 0 c).2.log =
        l ++ Event.send8 [0x40, 0x00, 0x00, 0x00, 0x00, 0x95] (m.tx8 0) :: m.log ∧
        ∀ e ∈ l, e.isRecv8 = true) ∧
      (∃ l, (SD_SendCMD m SD_CMD_8 0x000001AA c).2.log =
        l ++ Event.send8 [0x48, 0x00, 0x00, 0x01, 0xAA, 0x87] (m.tx8 0) :: m.log ∧
        ∀ e ∈ l, e.isRecv8 = true)) := by
  have h0 : SD_SendCMD_frame (SD_CRC7_GenTable tbl) SD_CMD_0 0 =
      [0x40, 0x00, 0x00, 0x00, 0x00, 0x95] := by
    rw [frame_eq_bitwise]
    decide!
  have h8 : SD_SendCMD_frame (SD_CRC7_GenTable tbl) SD_CMD_8 0x000001AA =
      [0x48, 0x00, 0x00, 0x01, 0xAA, 0x87] := by
    rw [frame_eq_bitwise]
    decide!
  refine ⟨h0, h8, fun m c hm => ⟨?_, ?_⟩⟩
  · obtain ⟨l, h1, -, h3⟩ := SendCMD_log m SD_CMD_0 0 c
    rw [hm, h0] at h1
    exact ⟨l, h1, h3⟩
  · obtain ⟨l, h1, -, h3⟩ := SendCMD_log m SD_CMD_8 0x000001AA c
    rw [hm, h8] at h1
    exact ⟨l, h1, h3⟩

theorem scriptedMachine_table (sd : SD_Parameters_t) (rx8 : List Nat) (rx16 : List (List Nat)) :
    (scriptedMachine sd rx8 rx16).SD_CRC7_Table = SD_CRC7_GenTable (fun _ => 0) := by
  simp only [scriptedMachine]

theorem C37_reference_frames_witness :
    (scriptedMachine sessionReady [0x01] []).SD_CRC7_Table = SD_CRC7_GenTable (fun _ => 0) ∧
    ∃ l, (SD_SendCMD (scriptedMachine sessionReady [0x01] []) SD_CMD_0 0 SD_R1_IDLE_STATE).2.log =
      l ++ Event.send8 [0x40, 0x00, 0x00, 0x00, 0x00, 0x95]
        ((scriptedMachine sessionReady [0x01] []).tx8 0) ::
        (scriptedMachine sessionReady [0x01] []).log ∧
      ∀ e ∈ l, e.isRecv8 = true :=
  ⟨scriptedMachine_table _ _ _,
    ((C37_reference_frames (fun _ => 0)).2.2 (scriptedMachine sessionReady [0x01] [])
      SD_R1_IDLE_STATE (scriptedMachine_table _ _ _)).1⟩

/-- C38: for every sequence `msg` of bytes, `SD_CRC7_GetCRC` (generated table) of `msg`
followed by the byte `SD_CRC7_GetCRC(msg) << 1` is 0, and that byte fits in 8 bits; for the
frame of `SD_SendCMD`, the CRC over its five payload bytes followed by its last byte with
the stop bit cleared is 0. -/
theorem C38_crc7_residue (tbl : Nat → Nat) (msg : List Nat) (cmd argument : Nat)
    (h : ∀ b ∈ msg, b < 256) :
    SD_CRC7_GetCRC (SD_CRC7_GenTable tbl) msg msg.length <<< 1 < 256 ∧
    SD_CRC7_GetCRC (SD_CRC7_GenTable tbl)
      (msg ++ [SD_CRC7_GetCRC (SD_CRC7_GenTable tbl) msg msg.length <<< 1])
      (msg.length + 1) = 0 ∧
    SD_CRC7_GetCRC (SD_CRC7_GenTable tbl)
      ((SD_SendCMD_frame (SD_CRC7_GenTable tbl) cmd argument).take 5 ++
        [(SD_SendCMD_frame (SD_CRC7_GenTable tbl) cmd argument).getD 5 0 &&& 0xFE]) 6 = 0 := by
  have hz : ∀ x, SD_CRC7_GenTable tbl ((x <<< 1) ^^^ (x <<< 1)) % 256 = 0 := by
    intro x
    rw [Nat.xor_self, genTable_apply tbl 0 (by norm_num)]
    decide
  obtain ⟨f1, -, f3, f4⟩ := frame_parts tbl cmd argument
  obtain ⟨-, -, -, -, c5, -⟩ := crc_byte_bits _ f4
  refine ⟨?_, ?_, ?_⟩
  · exact (crc_byte_bits _ (getCRC_eq_bitwise tbl msg msg.length h).2).2.2.2.2.2
  · rw [getCRC_append_one]
    exact hz _
  · rw [f1, f3, c5]
    have := getCRC_append_one (SD_CRC7_GenTable tbl) (frameHead cmd argument)
      (SD_CRC7_GetCRC (SD_CRC7_GenTable tbl) (frameHead cmd argument) 5 <<< 1)
    have hl : (frameHead cmd argument).length = 5 := rfl
    rw [hl] at this
    rw [this]
    exact hz _

theorem C38_crc7_residue_witness :
    (∀ b ∈ [0x51, 0x00, 0x00, 0x02, 0x00], b < 256) ∧
    SD_CRC7_GetCRC (SD_CRC7_GenTable (fun _ => 0))
      ([0x51, 0x00, 0x00, 0x02, 0x00] ++
        [SD_CRC7_GetCRC (SD_CRC7_GenTable (fun _ => 0)) [0x51, 0x00, 0x00, 0x02, 0x00]
          [0x51, 0x00, 0x00, 0x02, 0x00].length <<< 1])
      ([0x51, 0x00, 0x00, 0x02, 0x00].length + 1) = 0 :=
  ⟨by decide, (C38_crc7_residue (fun _ => 0) [0x51, 0x00, 0x00, 0x02, 0x00] 17 0x200
    (by decide)).2.1⟩

/-! ## The decoders as maps: OCR is recovered from its fields; the CSD variants agree -/

theorem ocr_byte0 : ∀ b < 256,
    (((((b >>> 7) &&& 0x01) % 2 ^ 8) <<< 7) ||| ((((b >>> 6) &&& 0x01) % 2 ^ 1) <<< 6) |||
      ((((b >>> 5) &&& 0x01) % 2 ^ 1) <<< 5) ||| ((((b >>> 1) &&& 0x0F) % 2 ^ 4) <<< 1) |||
      ((b &&& 0x01) % 2 ^ 1)) = b := by
  decide!

theorem ocr_byte1 : ∀ b < 256,
    (((((b >>> 7) &&& 0x01) % 2 ^ 1) <<< 7) ||| ((((b >>> 6) &&& 0x01) % 2 ^ 1) <<< 6) |||
      ((((b >>> 5) &&& 0x01) % 2 ^ 1) <<< 5) ||| ((((b >>> 4) &&& 0x01) % 2 ^ 1) <<< 4) |||
      ((((b >>> 3) &&& 0x01) % 2 ^ 1) <<< 3) ||| ((((b >>> 2) &&& 0x01) % 2 ^ 1) <<< 2) |||
      ((((b >>> 1) &&& 0x01) % 2 ^ 1) <<< 1) ||| ((b &&& 0x01) % 2 ^ 1)) = b := by
  decide!

theorem ocr_byte23 : ∀ b < 256,
    ((((b >>> 7) % 2 ^ 1) <<< 7) ||| ((b &&& 0x7F) % 2 ^ 7)) = b := by
  decide!

theorem list4_ext (a b : List Nat) (ha : a.length = 4) (hb : b.length = 4)
    (h0 : a.getD 0 0 = b.getD 0 0) (h1 : a.getD 1 0 = b.getD 1 0)
    (h2 : a.getD 2 0 = b.getD 2 0) (h3 : a.getD 3 0 = b.getD 3 0) : a = b := by
  match a, b, ha, hb with
  | [a0, a1, a2, a3], [b0, b1, b2, b3], _, _ =>
    simp only [List.getD_cons_zero, List.getD_cons_succ] at h0 h1 h2 h3
    rw [h0, h1, h2, h3]

/-- C39: for a raw OCR of bytes, each of `rawOCR[0..3]` is recovered from the members that
`SD_GetOCR` returns: `rawOCR[0] = busy<<7 | CCS<<6 | UHSII_Status<<5 | reserved2<<1 | S18A`,
`rawOCR[1] = v35_36<<7 | v34_35<<6 | ... | v29_30<<1 | v28_29`,
`rawOCR[2] = v27_28<<7 | reserved1`, `rawOCR[3] = LVR<<7 | reserved`; hence two raw OCR
values of four bytes that decode to the same structure are equal. -/
theorem C39_ocr_lossless (sd sd2 : SD_Parameters_t) (h : ∀ b ∈ sd.rawOCR, b < 256)
    (h2 : ∀ b ∈ sd2.rawOCR, b < 256) :
    sd.rawOCR.getD 0 0 =
      (((SD_GetOCR sd).busy <<< 7) ||| ((SD_GetOCR sd).CCS <<< 6) |||
        ((SD_GetOCR sd).UHSII_Status <<< 5) ||| ((SD_GetOCR sd).reserved2 <<< 1) |||
        (SD_GetOCR sd).S18A) ∧
    sd.rawOCR.getD 1 0 =
      (((SD_GetOCR sd).v35_36 <<< 7) ||| ((SD_GetOCR sd).v34_35 <<< 6) |||
        ((SD_GetOCR sd).v33_34 <<< 5) ||| ((SD_GetOCR sd).v32_33 <<< 4) |||
        ((SD_GetOCR sd).v31_32 <<< 3) ||| ((SD_GetOCR sd).v30_31 <<< 2) |||
        ((SD_GetOCR sd).v29_30 <<< 1) ||| (SD_GetOCR sd).v28_29) ∧
    sd.rawOCR.getD 2 0 = (((SD_GetOCR sd).v27_28 <<< 7) ||| (SD_GetOCR sd).reserved1) ∧
    sd.rawOCR.getD 3 0 = (((SD_GetOCR sd).LVR <<< 7) ||| (SD_GetOCR sd).reserved) ∧
    (sd.rawOCR.length = 4 → sd2.rawOCR.length = 4 → SD_GetOCR sd = SD_GetOCR sd2 →
      sd.rawOCR = sd2.rawOCR) := by
  have key : ∀ s : SD_Parameters_t, (∀ b ∈ s.rawOCR, b < 256) →
      s.rawOCR.getD 0 0 =
        (((SD_GetOCR s).busy <<< 7) ||| ((SD_GetOCR s).CCS <<< 6) |||
          ((SD_GetOCR s).UHSII_Status <<< 5) ||| ((SD_GetOCR s).reserved2 <<< 1) |||
          (SD_GetOCR s).S18A) ∧
      s.rawOCR.getD 1 0 =
        (((SD_GetOCR s).v35_36 <<< 7) ||| ((SD_GetOCR s).v34_35 <<< 6) |||
          ((SD_GetOCR s).v33_34 <<< 5) ||| ((SD_GetOCR s).v32_33 <<< 4) |||
          ((SD_GetOCR s).v31_32 <<< 3) ||| ((SD_GetOCR s).v30_31 <<< 2) |||
          ((SD_GetOCR s).v29_30 <<< 1) ||| (SD_GetOCR s).v28_29) ∧
      s.rawOCR.getD 2 0 = (((SD_GetOCR s).v27_28 <<< 7) ||| (SD_GetOCR s).reserved1) ∧
      s.rawOCR.getD 3 0 = (((SD_GetOCR s).LVR <<< 7) ||| (SD_GetOCR s).reserved) := by
    intro s hs
    exact ⟨(ocr_byte0 _ (getD_lt s.rawOCR hs 0)).symm, (ocr_byte1 _ (getD_lt s.rawOCR hs 1)).symm,
      (ocr_byte23 _ (getD_lt s.rawOCR hs 2)).symm, (ocr_byte23 _ (getD_lt s.rawOCR hs 3)).symm⟩
  obtain ⟨a0, a1, a2, a3⟩ := key sd h
  obtain ⟨b0, b1, b2, b3⟩ := key sd2 h2
  refine ⟨a0, a1, a2, a3, fun hl hl2 he => ?_⟩
  rw [he] at a0 a1 a2 a3
  exact list4_ext _ _ hl hl2 (a0.trans b0.symm) (a1.trans b1.symm) (a2.trans b2.symm)
    (a3.trans b3.symm)

theorem C39_ocr_lossless_witness :
    (∀ b ∈ ({ sessionReady with rawOCR := [0xC0, 0xFF, 0x80, 0x00] } : SD_Parameters_t).rawOCR,
      b < 256) ∧
    ({ sessionReady with rawOCR := [0xC0, 0xFF, 0x80, 0x00] } : SD_Parameters_t).rawOCR.getD 0 0 =
      (((SD_GetOCR { sessionReady with rawOCR := [0xC0, 0xFF, 0x80, 0x00] }).busy <<< 7) |||
        ((SD_GetOCR { sessionReady with rawOCR := [0xC0, 0xFF, 0x80, 0x00] }).CCS <<< 6) |||
        ((SD_GetOCR { sessionReady with rawOCR := [0xC0, 0xFF, 0x80, 0x00] }).UHSII_Status <<< 5) |||
        ((SD_GetOCR { sessionReady with rawOCR := [0xC0, 0xFF, 0x80, 0x00] }).reserved2 <<< 1) |||
        (SD_GetOCR { sessionReady with rawOCR := [0xC0, 0xFF, 0x80, 0x00] }).S18A) :=
  ⟨by decide,
    (C39_ocr_lossless { sessionReady with rawOCR := [0xC0, 0xFF, 0x80, 0x00] } sessionReady
      (by decide) (by decide)).1⟩

/-- C40: for every raw CSD, `SD_GetCSD_v1` and `SD_GetCSD_v2` return equal values in every
member the two structures share: `crc`, `fileFormat`, `tmpWriteProtect`,
`permWriteProtect`, `copyFlag`, `fileFormatGrp`, `writeBlockPartial`, `writeBlockLen`,
`r2wFactor`, `wpGrpEnable`, `wpGrpSize`, `sectorSize`, `eraseBlockEnable`, `DSRImp`,
`readBlockMisalignment`, `writeBlockMisalignment`, `readBlockPartial`, `readBlockLen`,
`CCC`, `transferSpeed`, `NSAC`, `TAAC`, `CSDStructure`, and the constant members
`reserved`, `reserved1`, `reserved2`, `reserved3`; `cSize` is decoded from different bits
and may differ. -/
theorem C40_csd_variants_agree (sd : SD_Parameters_t) :
    (SD_GetCSD_v1 sd).crc = (SD_GetCSD_v2 sd).crc ∧
    (SD_GetCSD_v1 sd).fileFormat = (SD_GetCSD_v2 sd).fileFormat ∧
    (SD_GetCSD_v1 sd).tmpWriteProtect = (SD_GetCSD_v2 sd).tmpWriteProtect ∧
    (SD_GetCSD_v1 sd).permWriteProtect = (SD_GetCSD_v2 sd).permWriteProtect ∧
    (SD_GetCSD_v1 sd).copyFlag = (SD_GetCSD_v2 sd).copyFlag ∧
    (SD_GetCSD_v1 sd).fileFormatGrp = (SD_GetCSD_v2 sd).fileFormatGrp ∧
    (SD_GetCSD_v1 sd).writeBlockPartial = (SD_GetCSD_v2 sd).writeBlockPartial ∧
    (SD_GetCSD_v1 sd).writeBlockLen = (SD_GetCSD_v2 sd).writeBlockLen ∧
    (SD_GetCSD_v1 sd).r2wFactor = (SD_GetCSD_v2 sd).r2wFactor ∧
    (SD_GetCSD_v1 sd).wpGrpEnable = (SD_GetCSD_v2 sd).wpGrpEnable ∧
    (SD_GetCSD_v1 sd).wpGrpSize = (SD_GetCSD_v2 sd).wpGrpSize ∧
    (SD_GetCSD_v1 sd).sectorSize = (SD_GetCSD_v2 sd).sectorSize ∧
    (SD_GetCSD_v1 sd).eraseBlockEnable = (SD_GetCSD_v2 sd).eraseBlockEnable ∧
    (SD_GetCSD_v1 sd).DSRImp = (SD_GetCSD_v2 sd).DSRImp ∧
    (SD_GetCSD_v1 sd).readBlockMisalignment = (SD_GetCSD_v2 sd).readBlockMisalignment ∧
    (SD_GetCSD_v1 sd).writeBlockMisalignment = (SD_GetCSD_v2 sd).writeBlockMisalignment ∧
    (SD_GetCSD_v1 sd).readBlockPartial = (SD_GetCSD_v2 sd).readBlockPartial ∧
    (SD_GetCSD_v1 sd).readBlockLen = (SD_GetCSD_v2 sd).readBlockLen ∧
    (SD_GetCSD_v1 sd).CCC = (SD_GetCSD_v2 sd).CCC ∧
    (SD_GetCSD_v1 sd).transferSpeed = (SD_GetCSD_v2 sd).transferSpeed ∧
    (SD_GetCSD_v1 sd).NSAC = (SD_GetCSD_v2 sd).NSAC ∧
    (SD_GetCSD_v1 sd).TAAC = (SD_GetCSD_v2 sd).TAAC ∧
    (SD_GetCSD_v1 sd).CSDStructure = (SD_GetCSD_v2 sd).CSDStructure ∧
    (SD_GetCSD_v1 sd).reserved = (SD_GetCSD_v2 sd).reserved ∧
    (SD_GetCSD_v1 sd).reserved1 = (SD_GetCSD_v2 sd).reserved1 ∧
    (SD_GetCSD_v1 sd).reserved2 = (SD_GetCSD_v2 sd).reserved2 ∧
    (SD_GetCSD_v1 sd).reserved3 = (SD_GetCSD_v2 sd).reserved3 ∧
    (SD_GetCSD_v1 (SD_ReadCSD machineCSDv1).2.sd).cSize ≠
      (SD_GetCSD_v2 (SD_ReadCSD machineCSDv1).2.sd).cSize :=
  ⟨rfl, rfl, rfl, rfl, rfl, rfl, rfl, rfl, rfl, rfl, rfl, rfl, rfl, rfl, rfl, rfl, rfl, rfl,
    rfl, rfl, rfl, rfl, rfl, rfl, rfl, rfl, rfl, by decide!⟩

/-! ## The SDXC threshold of `SD_ReadCSD` -/

theorem csd_v2_cSize_lt (raw : List Nat) (h : ∀ b ∈ raw, b < 256) :
    SD_CSDv2_cSize raw < 4194304 := by
  have e := csd_v2_cSize_expr { sessionReady with rawCSD := raw } h
  have e2 : SD_CSDv2_cSize raw % 2 ^ 22 = SD_CSDv2_cSize raw := e
  rw [← e2]
  exact Nat.mod_lt _ (by norm_num)

theorem csd_v2_capacity_max :
    (toUInt64 (toInt32 (((4194303 : Nat) + 1) * 2 ^ 9)) <<< 10) % 18446744073709551616 =
      18446741874686296064 := by
  decide

/-- The comparison of line 448 as a condition on C_SIZE: the capacity that `SD_ReadCSD`
computes for a 22-bit C_SIZE `c` exceeds `34360000000`, and likewise `2^35`, exactly when
`c ≥ 65536`. -/
theorem csd_v2_threshold (c : Nat) (hc : c < 4194304) :
    ((toUInt64 (toInt32 (((c : Nat) + 1) * 2 ^ 9)) <<< 10) % 18446744073709551616 >
        34360000000 ↔ 65536 ≤ c) ∧
    ((toUInt64 (toInt32 (((c : Nat) + 1) * 2 ^ 9)) <<< 10) % 18446744073709551616 >
        34359738368 ↔ 65536 ≤ c) ∧
    ((c + 1) * 524288 > 34359738368 ↔ 65536 ≤ c) := by
  by_cases hm : c = 4194303
  · subst hm
    rw [csd_v2_capacity_max]
    decide
  · rw [csd_v2_capacity_in_range c (by omega)]
    omega

theorem ReadCSD_v2_type (m : Machine) :
    ((SD_ReadCSD m).1 ≠ SD_OK → (SD_ReadCSD m).2.sd.type = m.sd.type) ∧
    ((SD_ReadCSD m).1 = SD_OK → m.sd.version = 2 →
      (SD_ReadCSD m).2.sd.type =
        (if (SD_ReadCSD m).2.sd.capacity > 34360000000 then SD_TYPE_SDXC else m.sd.type)) ∧
    ((SD_ReadCSD m).1 = SD_OK → m.sd.version ≠ 2 → (SD_ReadCSD m).2.sd.type = m.sd.type) := by
  have h1 := only_SendCMD m m SD_CMD_9 0 SD_R1_NORMAL_STATE (OnlyR1.orefl m)
  have h2 := only_GetToken _ _ SD_START_RMW_BLOCK_TOKEN h1
  have h3 := (only_ReadData _ _ 16 h2).sameCard
  have h2 := h2.sameCard
  have h1 := h1.sameCard
  generalize hr : SD_ReadCSD m = r
  unfold SD_ReadCSD SD_SetBlockLength at hr
  simp only [] at hr
  generalize SD_SendCMD m SD_CMD_9 0 SD_R1_NORMAL_STATE = r9 at hr h1 h2 h3
  generalize SD_GetToken r9.2 SD_START_RMW_BLOCK_TOKEN = t at hr h2 h3
  generalize SD_ReadData t.2 16 = d at hr h3
  have h4 : SameCard m (d.2.2.setRawCSD (storeBytes d.2.2.sd.rawCSD d.2.1)) := h3
  generalize (d.2.2.setRawCSD (storeBytes d.2.2.sd.rawCSD d.2.1)) = m1 at hr h4
  have hb := (only_SendCMD (m1.setBlockSize 512) (m1.setBlockSize 512) SD_CMD_16
    ((m1.setBlockSize 512).sd.blockSize % 65536) SD_R1_NORMAL_STATE (OnlyR1.orefl _)).sameCard
  have h5 : SameCard m (m1.setBlockSize 512) := h4
  have h6 := h5.strans hb
  generalize (SD_SendCMD (m1.setBlockSize 512) SD_CMD_16
    ((m1.setBlockSize 512).sd.blockSize % 65536) SD_R1_NORMAL_STATE) = b at hr h6
  have hv1 : m1.sd.version = m.sd.version := h4.1
  split_ifs at hr with c1 c2 c3 c4 c5 c6
  all_goals subst hr
  · exact ⟨fun _ => h1.2.1, (fun h => by cases h), (fun h => by cases h)⟩
  · exact ⟨fun _ => h2.2.1, (fun h => by cases h), (fun h => by cases h)⟩
  · exact ⟨fun _ => h4.2.1, (fun h => by cases h), (fun h => by cases h)⟩
  · refine ⟨fun h => absurd rfl h, fun _ _ => ?_, fun _ hv => absurd (hv1.symm.trans c4) hv⟩
    exact (if_pos c5).symm
  · refine ⟨fun h => absurd rfl h, fun _ _ => ?_, fun _ hv => absurd (hv1.symm.trans c4) hv⟩
    exact h4.2.1.trans (if_neg c5).symm
  · exact ⟨fun _ => h6.2.1, (fun h => by cases h), (fun h => by cases h)⟩
  · refine ⟨fun h => absurd rfl h, fun _ hv => absurd (hv1.trans hv) c4, fun _ _ => ?_⟩
    show (b.2.setCapacity _).sd.type = m.sd.type
    exact (setCapacity_same b.2 _).2.1.trans h6.2.1

/-- C31: for a version-2 card whose raw CSD consists of bytes, the C_SIZE that `SD_ReadCSD`
decodes is a 22-bit value, and when `SD_ReadCSD` succeeds, `type` is `SD_TYPE_SDXC` if
C_SIZE is at least 65536 and is as it was before otherwise; C_SIZE being at least 65536 is
the same as the capacity stored exceeding `34360000000` (the constant compared with), as
its exceeding `2^35` bytes, and as `(C_SIZE + 1) * 512 KiB` exceeding `2^35` bytes.  When
`SD_ReadCSD` does not succeed, `type` is as it was before. -/
theorem C31_sdxc_exactly_above_32GiB (m : Machine) (hv : m.sd.version = 2)
    (hraw : ∀ b ∈ (SD_ReadCSD m).2.sd.rawCSD, b < 256) :
    SD_CSDv2_cSize (SD_ReadCSD m).2.sd.rawCSD < 4194304 ∧
    ((SD_ReadCSD m).1 = SD_OK →
      (SD_ReadCSD m).2.sd.type =
        (if 65536 ≤ SD_CSDv2_cSize (SD_ReadCSD m).2.sd.rawCSD then SD_TYPE_SDXC
          else m.sd.type) ∧
      ((SD_ReadCSD m).2.sd.capacity > 34360000000 ↔
        65536 ≤ SD_CSDv2_cSize (SD_ReadCSD m).2.sd.rawCSD) ∧
      ((SD_ReadCSD m).2.sd.capacity > 34359738368 ↔
        65536 ≤ SD_CSDv2_cSize (SD_ReadCSD m).2.sd.rawCSD) ∧
      ((SD_CSDv2_cSize (SD_ReadCSD m).2.sd.rawCSD + 1) * 524288 > 34359738368 ↔
        65536 ≤ SD_CSDv2_cSize (SD_ReadCSD m).2.sd.rawCSD)) ∧
    ((SD_ReadCSD m).1 ≠ SD_OK → (SD_ReadCSD m).2.sd.type = m.sd.type) := by
  have hlt := csd_v2_cSize_lt _ hraw
  obtain ⟨t1, t2, -⟩ := ReadCSD_v2_type m
  obtain ⟨k1, k2, k3⟩ := csd_v2_threshold _ hlt
  refine ⟨hlt, fun hok => ?_, t1⟩
  have hv2 : (SD_ReadCSD m).2.sd.version = 2 := (ReadCSD_card m).1.trans hv
  have hcap := (ReadCSD_capacity m hok).1 hv2
  rw [← hcap] at k1 k2
  refine ⟨?_, k1, k2, k3⟩
  rw [t2 hok hv]
  by_cases hc : 65536 ≤ SD_CSDv2_cSize (SD_ReadCSD m).2.sd.rawCSD
  · rw [if_pos hc, if_pos (k1.2 hc)]
  · rw [if_neg hc, if_neg (fun h => hc (k1.1 h))]

theorem C31_sdxc_exactly_above_32GiB_witness :
    machineCSDv2Max.sd.version = 2 ∧
    (∀ b ∈ (SD_ReadCSD machineCSDv2Max).2.sd.rawCSD, b < 256) ∧
    (SD_ReadCSD machineCSDv2Max).1 = SD_OK ∧
    (SD_ReadCSD machineCSDv2Max).2.sd.type =
      (if 65536 ≤ SD_CSDv2_cSize (SD_ReadCSD machineCSDv2Max).2.sd.rawCSD then SD_TYPE_SDXC
        else machineCSDv2Max.sd.type) :=
  ⟨by decide, by decide!, by decide!,
    ((C31_sdxc_exactly_above_32GiB machineCSDv2Max (by decide) (by decide!)).2.1
      (by decide!)).1⟩

/-! ## The start token of `SD_WriteBlock` and the status read after a write -/

theorem SendToken_never_spi_error (m : Machine) (token : Nat) :
    (SD_SendToken m token).1.toNat ≠ SD_SPI_ERROR.toNat := by
  unfold SD_SendToken
  simp only []
  split_ifs <;> (dsimp only; decide)

/-- C32 (failing input): the transport fails while `SD_WriteBlock` sends the start token
after CMD24 was accepted, so that `SD_SendToken` returns `SD_ERROR`; `SD_WriteBlock` goes
on, hands the data block to the transport, and returns `SD_OK` with the session in
Transfer mode and Standby state.  For every machine the result of `SD_SendToken` differs
from the value of `SD_SPI_ERROR` that line 716 compares it with. -/
theorem C32_token_failure_goes_unnoticed :
    (SD_SendCMD ((SD_SPI_CS_Reset machineTokenFails).setState SD_STATE_SENDING) SD_CMD_24 0
      SD_R1_NORMAL_STATE).1 = SD_OK ∧
    (SD_SendToken (SD_SendCMD ((SD_SPI_CS_Reset machineTokenFails).setState SD_STATE_SENDING)
      SD_CMD_24 0 SD_R1_NORMAL_STATE).2 SD_START_RMW_BLOCK_TOKEN).1 = SD_ERROR ∧
    (SD_WriteBlock 10 machineTokenFails 0 [1, 2, 3, 4]).1 = some SD_OK ∧
    (SD_WriteBlock 10 machineTokenFails 0 [1, 2, 3, 4]).2.sd.mode = SD_MODE_TRANSFER ∧
    (SD_WriteBlock 10 machineTokenFails 0 [1, 2, 3, 4]).2.sd.state = SD_STATE_STANDBY ∧
    Event.send8 [0xFE] SD_SPI_ERROR ∈ (SD_WriteBlock 10 machineTokenFails 0 [1, 2, 3, 4]).2.log ∧
    Event.send16 [1, 2, 3, 4] SD_SPI_OK ∈
      (SD_WriteBlock 10 machineTokenFails 0 [1, 2, 3, 4]).2.log ∧
    (∀ (m : Machine) (token : Nat), (SD_SendToken m token).1.toNat ≠ SD_SPI_ERROR.toNat) :=
  ⟨by decide!, by decide!, by decide!, by decide!, by decide!, by decide!, by decide!,
    SendToken_never_spi_error⟩

theorem SendCMD_ok_lastR1 (m : Machine) (cmd a c : Nat) (h : (SD_SendCMD m cmd a c).1 = SD_OK) :
    (SD_SendCMD m cmd a c).2.sd.lastR1 = c := by
  unfold SD_SendCMD at h ⊢
  simp only [] at h ⊢
  split_ifs at h ⊢
  · have hne : (SD_GetR1 (SD_SPI_Send8Data m (SD_SendCMD_frame m.SD_CRC7_Table cmd a) 6).2 c).1 ≠
        SD_ERROR := by
      rw [h]
      decide
    exact ((GetR1_classifies _ c hne).1).1 h

/-- A successful `SD_ReadStatus`: the R1 of CMD13 was `0x00`, and the call ends with a
successful one-byte read, whose byte is in `lastR2`, followed by the deassertion of chip
select. -/
theorem ReadStatus_ok (m : Machine) (h : (SD_ReadStatus m).1 = SD_OK) :
    (SD_ReadStatus m).2.sd.lastR1 = SD_R1_NORMAL_STATE ∧
    (SD_ReadStatus m).2.sd.state = m.sd.state ∧
    ∃ b rest, b < 256 ∧
      (SD_ReadStatus m).2.log = Event.csSet :: Event.recv8 1 SD_SPI_OK [b] :: rest ∧
      (SD_ReadStatus m).2.sd.lastR2 = b := by
  have hk := (keeps_SendCMD m (SD_SPI_CS_Reset m) SD_CMD_13 0 SD_R1_NORMAL_STATE
    (keeps_CS_Reset m m (Keeps.krefl m))).2.1
  have hr1 := SendCMD_ok_lastR1 (SD_SPI_CS_Reset m) SD_CMD_13 0 SD_R1_NORMAL_STATE
  obtain ⟨g1, g2, -, g4, -⟩ :=
    GetResponse_facts (SD_SendCMD (SD_SPI_CS_Reset m) SD_CMD_13 0 SD_R1_NORMAL_STATE).2 1
  have g3 : (SD_GetResponse (SD_SendCMD (SD_SPI_CS_Reset m) SD_CMD_13 0
      SD_R1_NORMAL_STATE).2 1).2.1 = (SD_SPI_Receive8Data (SD_SendCMD (SD_SPI_CS_Reset m)
      SD_CMD_13 0 SD_R1_NORMAL_STATE).2 1).2.1 := by
    unfold SD_GetResponse
    simp only []
    split_ifs <;> rfl
  have g5 := Recv8_one_ok (SD_SendCMD (SD_SPI_CS_Reset m) SD_CMD_13 0 SD_R1_NORMAL_STATE).2
  generalize hr : SD_ReadStatus m = r at h ⊢
  unfold SD_ReadStatus at hr
  simp only [] at hr
  generalize SD_SendCMD (SD_SPI_CS_Reset m) SD_CMD_13 0 SD_R1_NORMAL_STATE = c
    at hr hr1 hk g1 g2 g3 g4 g5
  generalize SD_GetResponse c.2 1 = g at hr g1 g2 g3 g4
  split_ifs at hr with d1 d2
  all_goals subst hr
  · cases h
  · cases h
  · have hst := g4.1 (not_not.1 d2)
    obtain ⟨-, e2⟩ := g5 hst
    rw [← g3] at e2
    refine ⟨?_, ?_, (c.2.rx8 0).item 0 % 256, c.2.log, Nat.mod_lt _ (by norm_num), ?_, ?_⟩
    · show g.2.2.sd.lastR1 = _
      rw [g2]
      exact hr1 (not_not.1 d1)
    · show g.2.2.sd.state = _
      rw [g2]
      exact hk
    · show Event.csSet :: g.2.2.log = _
      rw [g1, hst, e2]
    · show g.2.1.headD g.2.2.sd.lastR2 = _
      rw [e2]
      rfl

theorem WriteMultipleBlock_ok_status (fuel : Nat) (m : Machine) (address : Nat)
    (data : List Nat) (num : Nat) :
    (SD_WriteMultipleBlock fuel m address data num).1 = some SD_OK →
    ∃ m2, m2.sd.state = SD_STATE_STANDBY ∧ (SD_ReadStatus m2).1 = SD_OK ∧
      (SD_WriteMultipleBlock fuel m address data num).2 = (SD_ReadStatus m2).2 := by
  unfold SD_WriteMultipleBlock
  simp only []
  generalize (if ((SD_SPI_CS_Reset m).setState SD_STATE_SENDING).sd.type = SD_TYPE_SDSC then
    address * ((SD_SPI_CS_Reset m).setState SD_STATE_SENDING).sd.blockSize % 4294967296
    else address) = arg
  split
  · intro h; cases h
  · split
    · intro h; cases h
    · split
      · intro h; cases h
      · rename_i e he
        split
        · rename_i hne
          intro h
          cases h
          exact absurd rfl hne
        · split
          · intro h; cases h
          · split
            · intro h; cases h
            · split
              · intro h; cases h
              · split
                · intro h; cases h
                · split
                  · intro h; cases h
                  · rename_i hs
                    intro _
                    exact ⟨_, rfl, not_not.1 hs, rfl⟩

/-- C33 (counterexample): the card accepts a multiple-block write of one block and answers
the final CMD13 with R1 `0x00` and the status byte `0x20`; `SD_WriteMultipleBlock` returns
`SD_OK` with `lastR2 = 0x20`, which is not `SD_R2_NORMAL_STATE`. -/
theorem C33_ok_with_status_flag_set :
    (SD_WriteMultipleBlock 10 machineStatusFlag 0 [1, 2, 3, 4] 1).1 = some SD_OK ∧
    (SD_WriteMultipleBlock 10 machineStatusFlag 0 [1, 2, 3, 4] 1).2.sd.lastR2 = 0x20 ∧
    (SD_WriteMultipleBlock 10 machineStatusFlag 0 [1, 2, 3, 4] 1).2.sd.lastR2 ≠ 0x00 ∧
    (SD_WriteMultipleBlock 10 machineStatusFlag 0 [1, 2, 3, 4] 1).2.log.take 2 =
      [Event.csSet, Event.recv8 1 SD_SPI_OK [0x20]] := by
  decide!

/-- C33 (amended): whenever `SD_WriteMultipleBlock` returns `SD_OK`, the final CMD13
exchange has succeeded: its R1 was `0x00` (it is in `lastR1`), the status byte was received
by the last read of the run, a successful one, and that byte is what `lastR2` holds; the
session is in Standby state.  The flags of the byte are not looked at. -/
theorem C33_ok_after_status_was_read (fuel : Nat) (m : Machine) (address : Nat)
    (data : List Nat) (num : Nat)
    (h : (SD_WriteMultipleBlock fuel m address data num).1 = some SD_OK) :
    (SD_WriteMultipleBlock fuel m address data num).2.sd.lastR1 = SD_R1_NORMAL_STATE ∧
    (SD_WriteMultipleBlock fuel m address data num).2.sd.state = SD_STATE_STANDBY ∧
    ∃ b rest, b < 256 ∧
      (SD_WriteMultipleBlock fuel m address data num).2.log =
        Event.csSet :: Event.recv8 1 SD_SPI_OK [b] :: rest ∧
      (SD_WriteMultipleBlock fuel m address data num).2.sd.lastR2 = b := by
  obtain ⟨m2, hs, hok, e⟩ := WriteMultipleBlock_ok_status fuel m address data num h
  rw [e]
  obtain ⟨r1, r2, r3⟩ := ReadStatus_ok m2 hok
  exact ⟨r1, r2.trans hs, r3⟩

theorem C33_ok_after_status_was_read_witness :
    (SD_WriteMultipleBlock 10 machineStatusFlag 0 [1, 2, 3, 4] 1).1 = some SD_OK ∧
    (SD_WriteMultipleBlock 10 machineStatusFlag 0 [1, 2, 3, 4] 1).2.sd.lastR1 =
      SD_R1_NORMAL_STATE ∧
    (SD_WriteMultipleBlock 10 machineStatusFlag 0 [1, 2, 3, 4] 1).2.sd.state =
      SD_STATE_STANDBY :=
  ⟨by decide!,
    (C33_ok_after_status_was_read 10 machineStatusFlag 0 [1, 2, 3, 4] 1 (by decide!)).1,
    (C33_ok_after_status_was_read 10 machineStatusFlag 0 [1, 2, 3, 4] 1 (by decide!)).2.1⟩

/-! ## The cycle counter along a run -/

theorem ClockExt.crefl (m : Machine) : ClockExt m m := ⟨rfl, 0, fun _ => rfl⟩

theorem ClockExt.csame {m0 m m1 : Machine} (h : ClockExt m0 m)
    (hc : m1.SystemCoreClock = m.SystemCoreClock) (hy : m1.cycles = m.cycles) :
    ClockExt m0 m1 := by
  obtain ⟨c, j, hj⟩ := h
  exact ⟨hc.trans c, j, fun k => by rw [hy]; exact hj k⟩

theorem ClockExt.ctrans {m0 m1 m2 : Machine} (h1 : ClockExt m0 m1) (h2 : ClockExt m1 m2) :
    ClockExt m0 m2 := by
  obtain ⟨c1, j1, e1⟩ := h1
  obtain ⟨c2, j2, e2⟩ := h2
  refine ⟨c2.trans c1, j2 + j1, fun k => ?_⟩
  rw [e2, e1, Nat.add_assoc]

theorem Timely.of_ext {fuel : Nat} {m0 m : Machine} (h : Timely fuel m0) (e : ClockExt m0 m) :
    Timely fuel m := by
  obtain ⟨D, t, h1, h2⟩ := h
  obtain ⟨c, j, hj⟩ := e
  have ht : timeoutCycles m = timeoutCycles m0 := by
    unfold timeoutCycles DWT_CyclesInMs
    rw [c]
  refine ⟨D, fun k => ?_, by rw [ht]; exact h1, by rw [ht]; exact h2⟩
  rw [hj, hj]
  have := t (k + j)
  rw [show k + 1 + j = k + j + 1 by omega]
  exact this

theorem clock_CS_Set (m0 m : Machine) (h : ClockExt m0 m) : ClockExt m0 (SD_SPI_CS_Set m) :=
  h.csame rfl rfl

theorem clock_CS_Reset (m0 m : Machine) (h : ClockExt m0 m) : ClockExt m0 (SD_SPI_CS_Reset m) :=
  h.csame rfl rfl

theorem clock_SetSpeed (m0 m : Machine) (s : SD_SPI_Speed_t) (h : ClockExt m0 m) :
    ClockExt m0 (SD_SPI_SetSpeed m s) := h.csame rfl rfl

theorem clock_Config (m0 m : Machine) (h : ClockExt m0 m) : ClockExt m0 (SD_SPI_Config m) :=
  h.csame rfl rfl

theorem clock_setState (m0 m : Machine) (v : SD_State_t) (h : ClockExt m0 m) :
    ClockExt m0 (m.setState v) := h.csame rfl rfl

theorem clock_setMode (m0 m : Machine) (v : SD_Mode_t) (h : ClockExt m0 m) :
    ClockExt m0 (m.setMode v) := h.csame rfl rfl

theorem clock_setType (m0 m : Machine) (v : SD_Type_t) (h : ClockExt m0 m) :
    ClockExt m0 (m.setType v) := h.csame rfl rfl

theorem clock_setVersion (m0 m : Machine) (v : Nat) (h : ClockExt m0 m) :
    ClockExt m0 (m.setVersion v) := h.csame rfl rfl

theorem clock_setLastR1 (m0 m : Machine) (v : Nat) (h : ClockExt m0 m) :
    ClockExt m0 (m.setLastR1 v) := h.csame rfl rfl

theorem clock_setLastR2 (m0 m : Machine) (v : Nat) (h : ClockExt m0 m) :
    ClockExt m0 (m.setLastR2 v) := h.csame rfl rfl

theorem clock_setWrittenBlocks (m0 m : Machine) (v : Nat) (h : ClockExt m0 m) :
    ClockExt m0 (m.setWrittenBlocks v) := h.csame rfl rfl

theorem clock_ErrorHandler (m0 m : Machine) (h : ClockExt m0 m) :
    ClockExt m0 (SD_ErrorHandler m) := h.csame rfl rfl

theorem clock_Send8 (m0 m : Machine) (d : List Nat) (n : Nat) (h : ClockExt m0 m) :
    ClockExt m0 (SD_SPI_Send8Data m d n).2 := h.csame rfl rfl

theorem clock_Recv8 (m0 m : Machine) (n : Nat) (h : ClockExt m0 m) :
    ClockExt m0 (SD_SPI_Receive8Data m n).2.2 := h.csame rfl rfl

theorem clock_Send16 (m0 m : Machine) (d : List Nat) (n : Nat) (h : ClockExt m0 m) :
    ClockExt m0 (SD_SPI_Send16Data m d n).2 := h.csame rfl rfl

theorem clock_Recv16 (m0 m : Machine) (n : Nat) (h : ClockExt m0 m) :
    ClockExt m0 (SD_SPI_Receive16Data m n).2.2 := h.csame rfl rfl

theorem clock_GetCycle (m0 m : Machine) (h : ClockExt m0 m) : ClockExt m0 (DWT_GetCycle m).2 :=
  h.ctrans ⟨rfl, 1, fun _ => rfl⟩

theorem clock_Timeout (m0 m : Machine) (t s : Nat) (h : ClockExt m0 m) :
    ClockExt m0 (DWT_Timeout m t s).2 := by
  have := clock_GetCycle m0 m h
  unfold DWT_Timeout
  simp only []
  split_ifs <;> exact this

theorem clock_GetR1_poll (n : Nat) : ∀ (m0 m : Machine) (r : Nat), ClockExt m0 m →
    ClockExt m0 (SD_GetR1_poll n m r).2 := by
  induction n with
  | zero => intro m0 m r h; exact h
  | succ n ih =>
    intro m0 m r h
    unfold SD_GetR1_poll
    simp only []
    split_ifs
    · exact clock_Recv8 _ _ _ h
    · exact ih _ _ _ (clock_Recv8 _ _ _ h)
    · exact h

theorem clock_GetR1 (m0 m : Machine) (c : Nat) (h : ClockExt m0 m) :
    ClockExt m0 (SD_GetR1 m c).2 := by
  have hp := clock_GetR1_poll 10 m0 m 0xFF h
  unfold SD_GetR1
  simp only []
  split
  · exact hp
  · split_ifs
    · exact hp
    · exact clock_setLastR1 _ _ _ hp
    · exact clock_setLastR1 _ _ _ hp

theorem clock_SendCMD (m0 m : Machine) (a b c : Nat) (h : ClockExt m0 m) :
    ClockExt m0 (SD_SendCMD m a b c).2 := by
  unfold SD_SendCMD
  simp only []
  split_ifs
  · exact clock_Send8 _ _ _ _ h
  · exact clock_GetR1 _ _ _ (clock_Send8 _ _ _ _ h)

theorem clock_SendACMD (m0 m : Machine) (a b c : Nat) (h : ClockExt m0 m) :
    ClockExt m0 (SD_SendACMD m a b c).2 := by
  rw [SendACMD_eq]
  generalize (if m.sd.mode = SD_MODE_TRANSFER then SD_R1_NORMAL_STATE else SD_R1_IDLE_STATE) =
    resp
  split_ifs
  · exact clock_SendCMD _ _ _ _ _ h
  · exact clock_SendCMD _ _ _ _ _ (clock_SendCMD _ _ _ _ _ h)

theorem clock_GetResponse (m0 m : Machine) (n : Nat) (h : ClockExt m0 m) :
    ClockExt m0 (SD_GetResponse m n).2.2 := by
  unfold SD_GetResponse
  simp only []
  split_ifs <;> exact clock_Recv8 _ _ _ h

theorem clock_SendToken (m0 m : Machine) (t : Nat) (h : ClockExt m0 m) :
    ClockExt m0 (SD_SendToken m t).2 := by
  unfold SD_SendToken
  simp only []
  split_ifs <;> exact clock_Send8 _ _ _ _ h

theorem clock_GetToken_poll (t n : Nat) : ∀ (m0 m : Machine) (r : Nat), ClockExt m0 m →
    ClockExt m0 (SD_GetToken_poll t n m r).2 := by
  induction n with
  | zero => intro m0 m r h; exact h
  | succ n ih =>
    intro m0 m r h
    unfold SD_GetToken_poll
    simp only []
    split_ifs
    · exact clock_Recv8 _ _ _ h
    · exact ih _ _ _ (clock_Recv8 _ _ _ h)
    · exact h

theorem clock_GetToken (m0 m : Machine) (t : Nat) (h : ClockExt m0 m) :
    ClockExt m0 (SD_GetToken m t).2 := by
  have hp := clock_GetToken_poll t 100 m0 m 0xFF h
  unfold SD_GetToken
  simp only []
  split
  · exact hp
  · split_ifs <;> exact hp

theorem clock_ReadData (m0 m : Machine) (n : Nat) (h : ClockExt m0 m) :
    ClockExt m0 (SD_ReadData m n).2.2 := by
  unfold SD_ReadData
  simp only []
  split_ifs <;> exact clock_Recv16 _ _ _ h

theorem clock_SendDummyByte (n : Nat) : ∀ (m0 m : Machine), ClockExt m0 m →
    ClockExt m0 (SD_SendDummyByte m n).2 := by
  induction n with
  | zero => intro m0 m h; exact h
  | succ n ih =>
    intro m0 m h
    unfold SD_SendDummyByte
    simp only []
    split_ifs
    · exact clock_Recv8 _ _ _ h
    · exact ih _ _ (clock_Recv8 _ _ _ h)

theorem clock_WaitForBusy_loop (ts n : Nat) : ∀ (m0 m : Machine) (r : Nat), ClockExt m0 m →
    ClockExt m0 (SD_WaitForBusy_loop ts n m r).2 := by
  induction n with
  | zero => intro m0 m r h; exact h
  | succ n ih =>
    intro m0 m r h
    unfold SD_WaitForBusy_loop
    simp only []
    split_ifs
    · exact clock_Recv8 _ _ _ h
    · exact clock_Timeout _ _ _ _ (clock_Recv8 _ _ _ h)
    · exact ih _ _ _ (clock_Timeout _ _ _ _ (clock_Recv8 _ _ _ h))
    · exact h

theorem clock_WaitForBusy (m0 m : Machine) (n : Nat) (h : ClockExt m0 m) :
    ClockExt m0 (SD_WaitForBusy n m).2 := by
  unfold SD_WaitForBusy
  exact clock_WaitForBusy_loop _ _ _ _ _ (clock_GetCycle _ _ h)

theorem clock_StopTransfer_loop (ts n : Nat) : ∀ (m0 m : Machine) (r : Nat), ClockExt m0 m →
    ClockExt m0 (SD_StopTransfer_loop ts n m r).2 := by
  induction n with
  | zero => intro m0 m r h; exact h
  | succ n ih =>
    intro m0 m r h
    unfold SD_StopTransfer_loop
    simp only []
    split_ifs
    · exact clock_Recv8 _ _ _ h
    · exact clock_Timeout _ _ _ _ (clock_Recv8 _ _ _ h)
    · exact ih _ _ _ (clock_Timeout _ _ _ _ (clock_Recv8 _ _ _ h))
    · exact h

theorem clock_StopTransfer (m0 m : Machine) (n : Nat) (h : ClockExt m0 m) :
    ClockExt m0 (SD_StopTransfer n m).2 := by
  unfold SD_StopTransfer
  exact clock_StopTransfer_loop _ _ _ _ _ (clock_GetCycle _ _ (clock_SendCMD _ _ _ _ _ h))

theorem clock_WriteData_loop (ts n : Nat) : ∀ (m0 m : Machine) (r : Nat), ClockExt m0 m →
    ClockExt m0 (SD_WriteData_loop ts n m r).2 := by
  induction n with
  | zero => intro m0 m r h; exact h
  | succ n ih =>
    intro m0 m r h
    unfold SD_WriteData_loop
    simp only []
    split_ifs
    · exact clock_Recv8 _ _ _ h
    · exact clock_Timeout _ _ _ _ (clock_Recv8 _ _ _ h)
    · exact ih _ _ _ (clock_Timeout _ _ _ _ (clock_Recv8 _ _ _ h))
    · exact h

theorem clock_WriteData (m0 m : Machine) (f : Nat) (d : List Nat) (n : Nat)
    (h : ClockExt m0 m) : ClockExt m0 (SD_WriteData f m d n).2 := by
  have h1 := clock_Send16 m0 m d (n >>> 1) h
  have h2 := clock_WriteData_loop (DWT_GetCycle (SD_SPI_Send16Data m d (n >>> 1)).2).1 f _ _ 0xFF
    (clock_GetCycle _ _ h1)
  have h3 := clock_WaitForBusy m0 _ f h2
  unfold SD_WriteData
  simp only []
  generalize SD_SPI_Send16Data m d (n >>> 1) = s at h1 h2 h3
  generalize SD_WriteData_loop (DWT_GetCycle s.2).1 f (DWT_GetCycle s.2).2 0xFF = l at h2 h3
  generalize SD_WaitForBusy f l.2 = w at h3
  split_ifs
  · exact h1
  · split
    · exact h2
    · exact h2
    · split_ifs
      · exact h2
      · exact h2
      · split
        · exact h3
        · split_ifs <;> exact h3

theorem clock_ReadStatus (m0 m : Machine) (h : ClockExt m0 m) :
    ClockExt m0 (SD_ReadStatus m).2 := by
  have h1 := clock_SendCMD _ _ SD_CMD_13 0 SD_R1_NORMAL_STATE (clock_CS_Reset _ _ h)
  have h2 := clock_GetResponse _ _ 1 h1
  unfold SD_ReadStatus
  simp only []
  split_ifs
  · exact clock_ErrorHandler _ _ h1
  · exact clock_ErrorHandler _ _ (clock_setLastR2 _ _ _ h2)
  · exact clock_CS_Set _ _ (clock_setLastR2 _ _ _ h2)

theorem clock_GetWrittenBlocks (m0 m : Machine) (h : ClockExt m0 m) :
    ClockExt m0 (SD_GetWrittenBlocks m).2 := by
  have ha := clock_SendACMD _ _ SD_ACMD_22 0 SD_R1_NORMAL_STATE (clock_CS_Reset _ _ h)
  have ht := clock_GetToken _ _ SD_START_RMW_BLOCK_TOKEN ha
  have hd := clock_ReadData _ _ 4 ht
  unfold SD_GetWrittenBlocks
  simp only []
  split_ifs
  · exact clock_ErrorHandler _ _ ha
  · exact clock_ErrorHandler _ _ ht
  · exact clock_ErrorHandler _ _ hd
  · exact clock_CS_Set _ _ (clock_setWrittenBlocks _ _ _ hd)

theorem clock_ReadMultipleBlock_loop (n : Nat) : ∀ (m0 m : Machine) (d : List Nat) (o : Nat),
    ClockExt m0 m → ClockExt m0 (SD_ReadMultipleBlock_loop n m d o).2.2 := by
  induction n with
  | zero => intro m0 m d o h; exact h
  | succ n ih =>
    intro m0 m d o h
    have ht := clock_GetToken _ _ SD_START_RMW_BLOCK_TOKEN h
    have hd := clock_ReadData _ _ (SD_GetToken m SD_START_RMW_BLOCK_TOKEN).2.sd.blockSize ht
    unfold SD_ReadMultipleBlock_loop
    simp only []
    split_ifs
    · exact clock_ErrorHandler _ _ ht
    · exact clock_ErrorHandler _ _ hd
    · exact ih _ _ _ _ hd

theorem clock_WriteMultipleBlock_loop (f n : Nat) : ∀ (m0 m : Machine) (d : List Nat),
    ClockExt m0 m → ClockExt m0 (SD_WriteMultipleBlock_loop f n m d).2 := by
  induction n with
  | zero => intro m0 m d h; exact h
  | succ n ih =>
    intro m0 m d h
    have ht := clock_SendToken _ _ SD_START_WM_BLOCK_TOKEN h
    have hw := clock_WriteData _ _ f d (SD_SendToken m SD_START_WM_BLOCK_TOKEN).2.sd.blockSize ht
    have hs := clock_StopTransfer _ _ f hw
    have hg := clock_GetWrittenBlocks _ _ hs
    unfold SD_WriteMultipleBlock_loop
    simp only []
    split_ifs
    · exact clock_ErrorHandler _ _ ht
    · split
      · exact hw
      · split_ifs
        · exact clock_ErrorHandler _ _ hw
        · split
          · exact hs
          · exact clock_ErrorHandler _ _ hg
        · exact ih _ _ _ hw

theorem clock_GoToIdleMode (m0 m : Machine) (h : ClockExt m0 m) :
    ClockExt m0 (SD_GoToIdleMode m).2 := by
  have h1 := clock_SendCMD _ _ SD_CMD_0 0 SD_R1_IDLE_STATE h
  unfold SD_GoToIdleMode
  simp only []
  split_ifs
  · exact h1
  · exact clock_setState _ _ _ (clock_setMode _ _ _ h1)

theorem clock_CheckVoltage (m0 m : Machine) (h : ClockExt m0 m) :
    ClockExt m0 (SD_CheckVoltage m).2 := by
  have h1 := clock_SendCMD _ _ SD_CMD_8 0x01AA SD_R1_IDLE_STATE h
  have h2 := clock_GetResponse _ _ 4 h1
  unfold SD_CheckVoltage
  simp only []
  split_ifs <;> first | exact h1 | exact h2

/-! ## The time-bounded loops end when the cycle counter advances -/

theorem cyclesSince_exact (m : Machine) (c0 : Nat) (h1 : c0 ≤ m.cycles 0)
    (h2 : m.cycles 0 - c0 < 4294967296) :
    cyclesSince m (c0 % 4294967296) 0 = m.cycles 0 - c0 := by
  unfold cyclesSince
  omega

/-- One reading of the budget: when `DWT_Timeout` reports that the budget is not used up,
the distance of the counter from the time stamp is within the budget, and the next reading
is at most `D` further on. -/
theorem Timeout_within (D : Nat) (m : Machine) (c0 : Nat) (ht : Ticking D m)
    (hD : timeoutCycles m + D < 4294967296) (h1 : c0 ≤ m.cycles 0)
    (h2 : m.cycles 0 - c0 ≤ timeoutCycles m + D)
    (h0 : ¬ (DWT_Timeout m SD_TIMEOUT (c0 % 4294967296)).1 ≠ 0) :
    m.cycles 0 - c0 ≤ timeoutCycles m ∧
    Ticking D (DWT_Timeout m SD_TIMEOUT (c0 % 4294967296)).2 ∧
    timeoutCycles (DWT_Timeout m SD_TIMEOUT (c0 % 4294967296)).2 = timeoutCycles m ∧
    (DWT_Timeout m SD_TIMEOUT (c0 % 4294967296)).2.cycles 0 = m.cycles 1 := by
  rw [Timeout_eq] at h0 ⊢
  rw [cyclesSince_exact m c0 h1 (by omega)] at h0
  refine ⟨?_, fun k => ht (k + 1), rfl, rfl⟩
  by_contra hc
  apply h0
  rw [if_neg hc]
  exact Nat.one_ne_zero

theorem WaitForBusy_loop_terminates (D c0 : Nat) : ∀ (fuel : Nat) (m : Machine) (busy : Nat),
    Ticking D m → timeoutCycles m + D < 4294967296 → c0 ≤ m.cycles 0 →
    m.cycles 0 - c0 ≤ timeoutCycles m + D → 1 ≤ fuel →
    timeoutCycles m + 2 ≤ fuel + (m.cycles 0 - c0) →
    (SD_WaitForBusy_loop (c0 % 4294967296) fuel m busy).1 ≠ none := by
  intro fuel
  induction fuel with
  | zero => intro m busy _ _ _ _ h1 _; omega
  | succ n ih =>
    intro m busy ht hD h1 h2 _ hf
    unfold SD_WaitForBusy_loop
    simp only []
    split_ifs with a1 a2 a3
    · exact fun h => by cases h
    · exact fun h => by cases h
    · obtain ⟨w1, w2, w3, w4⟩ := Timeout_within D (SD_SPI_Receive8Data m 1).2.2 c0 ht hD h1 h2 a3
      have t0 : m.cycles 0 < m.cycles 1 ∧ m.cycles 1 ≤ m.cycles 0 + D := ht 0
      have e0 : (SD_SPI_Receive8Data m 1).2.2.cycles 0 = m.cycles 0 := rfl
      have e1 : (SD_SPI_Receive8Data m 1).2.2.cycles 1 = m.cycles 1 := rfl
      have e2 : timeoutCycles (SD_SPI_Receive8Data m 1).2.2 = timeoutCycles m := rfl
      rw [e0, e2] at w1
      rw [e1] at w4
      rw [e2] at w3
      apply ih _ _ w2
      · rw [w3]; exact hD
      · rw [w4]; omega
      · rw [w3, w4]; omega
      · omega
      · rw [w3, w4]; omega
    · exact fun h => by cases h

theorem StopTransfer_loop_terminates (D c0 : Nat) : ∀ (fuel : Nat) (m : Machine) (tok : Nat),
    Ticking D m → timeoutCycles m + D < 4294967296 → c0 ≤ m.cycles 0 →
    m.cycles 0 - c0 ≤ timeoutCycles m + D → 1 ≤ fuel →
    timeoutCycles m + 2 ≤ fuel + (m.cycles 0 - c0) →
    (SD_StopTransfer_loop (c0 % 4294967296) fuel m tok).1 ≠ none := by
  intro fuel
  induction fuel with
  | zero => intro m busy _ _ _ _ h1 _; omega
  | succ n ih =>
    intro m busy ht hD h1 h2 _ hf
    unfold SD_StopTransfer_loop
    simp only []
    split_ifs with a1 a2 a3
    · exact fun h => by cases h
    · exact fun h => by cases h
    · obtain ⟨w1, w2, w3, w4⟩ := Timeout_within D (SD_SPI_Receive8Data m 1).2.2 c0 ht hD h1 h2 a3
      have t0 : m.cycles 0 < m.cycles 1 ∧ m.cycles 1 ≤ m.cycles 0 + D := ht 0
      have e0 : (SD_SPI_Receive8Data m 1).2.2.cycles 0 = m.cycles 0 := rfl
      have e1 : (SD_SPI_Receive8Data m 1).2.2.cycles 1 = m.cycles 1 := rfl
      have e2 : timeoutCycles (SD_SPI_Receive8Data m 1).2.2 = timeoutCycles m := rfl
      rw [e0, e2] at w1
      rw [e1] at w4
      rw [e2] at w3
      apply ih _ _ w2
      · rw [w3]; exact hD
      · rw [w4]; omega
      · rw [w3, w4]; omega
      · omega
      · rw [w3, w4]; omega
    · exact fun h => by cases h

theorem WriteData_loop_terminates (D c0 : Nat) : ∀ (fuel : Nat) (m : Machine) (tok : Nat),
    Ticking D m → timeoutCycles m + D < 4294967296 → c0 ≤ m.cycles 0 →
    m.cycles 0 - c0 ≤ timeoutCycles m + D → 1 ≤ fuel →
    timeoutCycles m + 2 ≤ fuel + (m.cycles 0 - c0) →
    (SD_WriteData_loop (c0 % 4294967296) fuel m tok).1 ≠ none := by
  intro fuel
  induction fuel with
  | zero => intro m busy _ _ _ _ h1 _; omega
  | succ n ih =>
    intro m busy ht hD h1 h2 _ hf
    unfold SD_WriteData_loop
    simp only []
    split_ifs with a1 a2 a3
    · exact fun h => by cases h
    · exact fun h => by cases h
    · obtain ⟨w1, w2, w3, w4⟩ := Timeout_within D (SD_SPI_Receive8Data m 1).2.2 c0 ht hD h1 h2 a3
      have t0 : m.cycles 0 < m.cycles 1 ∧ m.cycles 1 ≤ m.cycles 0 + D := ht 0
      have e0 : (SD_SPI_Receive8Data m 1).2.2.cycles 0 = m.cycles 0 := rfl
      have e1 : (SD_SPI_Receive8Data m 1).2.2.cycles 1 = m.cycles 1 := rfl
      have e2 : timeoutCycles (SD_SPI_Receive8Data m 1).2.2 = timeoutCycles m := rfl
      rw [e0, e2] at w1
      rw [e1] at w4
      rw [e2] at w3
      apply ih _ _ w2
      · rw [w3]; exact hD
      · rw [w4]; omega
      · rw [w3, w4]; omega
      · omega
      · rw [w3, w4]; omega
    · exact fun h => by cases h

theorem GoToTransferMode_loop_terminates (D c0 : Nat) : ∀ (fuel : Nat) (m : Machine),
    Ticking D m → timeoutCycles m + D < 4294967296 → c0 ≤ m.cycles 0 →
    m.cycles 0 - c0 ≤ timeoutCycles m + D → 1 ≤ fuel →
    timeoutCycles m + 2 ≤ fuel + (m.cycles 0 - c0) →
    (SD_GoToTransferMode_loop (c0 % 4294967296) fuel m).1 ≠ none := by
  intro fuel
  induction fuel with
  | zero => intro m _ _ _ _ h1 _; omega
  | succ n ih =>
    intro m ht hD h1 h2 _ hf
    unfold SD_GoToTransferMode_loop
    simp only []
    split_ifs with a1 a2 a3
    · exact fun h => by cases h
    · exact fun h => by cases h
    · obtain ⟨w1, w2, w3, w4⟩ := Timeout_within D m c0 ht hD h1 h2 a2
      have t0 : m.cycles 0 < m.cycles 1 ∧ m.cycles 1 ≤ m.cycles 0 + D := ht 0
      obtain ⟨s1, s2⟩ := SendACMD_env (DWT_Timeout m SD_TIMEOUT (c0 % 4294967296)).2
        SD_ACMD_41 0 SD_R1_NORMAL_STATE
      have s3 : timeoutCycles (SD_SendACMD (DWT_Timeout m SD_TIMEOUT (c0 % 4294967296)).2
          SD_ACMD_41 0 SD_R1_NORMAL_STATE).2 = timeoutCycles m := by
        rw [← w3]
        unfold timeoutCycles DWT_CyclesInMs
        rw [s2]
      have s4 : Ticking D (SD_SendACMD (DWT_Timeout m SD_TIMEOUT (c0 % 4294967296)).2
          SD_ACMD_41 0 SD_R1_NORMAL_STATE).2 := by
        intro k
        rw [s1]
        exact w2 k
      have s5 : (SD_SendACMD (DWT_Timeout m SD_TIMEOUT (c0 % 4294967296)).2
          SD_ACMD_41 0 SD_R1_NORMAL_STATE).2.cycles 0 = m.cycles 1 := by
        rw [s1]
        exact w4
      apply ih _ s4
      · rw [s3]; exact hD
      · rw [s5]; omega
      · rw [s3, s5]; omega
      · omega
      · rw [s3, s5]; omega
    · exact fun h => by cases h

/-- What `Timely` gives at the start of a time-bounded loop, right after the reading of the
time stamp. -/
theorem Timely.start {fuel : Nat} {m : Machine} (h : Timely fuel m) :
    ∃ D, Ticking D (DWT_GetCycle m).2 ∧ timeoutCycles (DWT_GetCycle m).2 + D < 4294967296 ∧
      m.cycles 0 ≤ (DWT_GetCycle m).2.cycles 0 ∧
      (DWT_GetCycle m).2.cycles 0 - m.cycles 0 ≤ timeoutCycles (DWT_GetCycle m).2 + D ∧
      1 ≤ fuel ∧
      timeoutCycles (DWT_GetCycle m).2 + 2 ≤ fuel + ((DWT_GetCycle m).2.cycles 0 - m.cycles 0) := by
  obtain ⟨D, t, h1, h2⟩ := h
  have t0 : m.cycles 0 < m.cycles 1 ∧ m.cycles 1 ≤ m.cycles 0 + D := t 0
  have e1 : (DWT_GetCycle m).2.cycles 0 = m.cycles 1 := rfl
  have e2 : timeoutCycles (DWT_GetCycle m).2 = timeoutCycles m := rfl
  refine ⟨D, fun k => t (k + 1), ?_, ?_, ?_, ?_, ?_⟩
  · rw [e2]; exact h1
  · rw [e1]; omega
  · rw [e1, e2]; omega
  · omega
  · rw [e1, e2]; omega

theorem WaitForBusy_terminates (fuel : Nat) (m : Machine) (h : Timely fuel m) :
    (SD_WaitForBusy fuel m).1 ≠ none := by
  obtain ⟨D, a1, a2, a3, a4, a5, a6⟩ := h.start
  exact WaitForBusy_loop_terminates D (m.cycles 0) fuel _ 0 a1 a2 a3 a4 a5 a6

theorem StopTransfer_terminates (fuel : Nat) (m : Machine) (h : Timely fuel m) :
    (SD_StopTransfer fuel m).1 ≠ none := by
  have h1 := h.of_ext (clock_SendCMD m m SD_CMD_12 0 SD_R1_NORMAL_STATE (ClockExt.crefl m))
  obtain ⟨D, a1, a2, a3, a4, a5, a6⟩ := h1.start
  exact StopTransfer_loop_terminates D
    ((SD_SendCMD m SD_CMD_12 0 SD_R1_NORMAL_STATE).2.cycles 0) fuel _ 0 a1 a2 a3 a4 a5 a6

theorem WriteData_terminates (fuel : Nat) (m : Machine) (data : List Nat) (len : Nat)
    (h : Timely fuel m) : (SD_WriteData fuel m data len).1 ≠ none := by
  have h1 := h.of_ext (clock_Send16 m m data (len >>> 1) (ClockExt.crefl m))
  obtain ⟨D, a1, a2, a3, a4, a5, a6⟩ := h1.start
  have hl := WriteData_loop_terminates D ((SD_SPI_Send16Data m data (len >>> 1)).2.cycles 0)
    fuel _ 0xFF a1 a2 a3 a4 a5 a6
  have h2 := h1.of_ext (clock_WriteData_loop
    (DWT_GetCycle (SD_SPI_Send16Data m data (len >>> 1)).2).1 fuel _ _ 0xFF
    (clock_GetCycle _ _ (ClockExt.crefl _)))
  have hw := WaitForBusy_terminates fuel _ h2
  unfold SD_WriteData
  simp only []
  generalize SD_SPI_Send16Data m data (len >>> 1) = s at hl hw
  have hl2 : (SD_WriteData_loop (DWT_GetCycle s.2).1 fuel (DWT_GetCycle s.2).2 0xFF).1 ≠ none := hl
  generalize SD_WriteData_loop (DWT_GetCycle s.2).1 fuel (DWT_GetCycle s.2).2 0xFF = l at hl2 hw
  generalize SD_WaitForBusy fuel l.2 = w at hw
  split_ifs
  · exact fun h => by cases h
  · split
    · rename_i hn
      exact absurd hn hl2
    · exact fun h => by cases h
    · split_ifs
      · exact fun h => by cases h
      · exact fun h => by cases h
      · split
        · rename_i hn
          exact absurd hn hw
        · split_ifs <;> exact fun h => by cases h

theorem GoToTransferMode_terminates (fuel : Nat) (m : Machine) (h : Timely fuel m) :
    (SD_GoToTransferMode fuel m).1 ≠ none := by
  rw [GoToTransferMode_eq]
  generalize (if m.sd.version = 2 then 0x40000000 else 0) = a
  have h1 := h.of_ext (clock_SendACMD m m SD_ACMD_41 a SD_R1_IDLE_STATE (ClockExt.crefl m))
  obtain ⟨D, a1, a2, a3, a4, a5, a6⟩ := h1.start
  have hl := GoToTransferMode_loop_terminates D
    ((SD_SendACMD m SD_ACMD_41 a SD_R1_IDLE_STATE).2.cycles 0) fuel _ a1 a2 a3 a4 a5 a6
  generalize SD_SendACMD m SD_ACMD_41 a SD_R1_IDLE_STATE = r at hl
  have hl2 : (SD_GoToTransferMode_loop (DWT_GetCycle r.2).1 fuel (DWT_GetCycle r.2).2).1 ≠ none :=
    hl
  generalize SD_GoToTransferMode_loop (DWT_GetCycle r.2).1 fuel (DWT_GetCycle r.2).2 = l at hl2
  split_ifs
  · exact fun h => by cases h
  · split
    · rename_i hn
      exact absurd hn hl2
    · split_ifs <;> exact fun h => by cases h

/-! ## The public operations return when the cycle counter advances -/

theorem ReadMultipleBlock_terminates (fuel : Nat) (m : Machine) (address : Nat)
    (data : List Nat) (num : Nat) (h : Timely fuel m) :
    (SD_ReadMultipleBlock fuel m address data num).1 ≠ none := by
  unfold SD_ReadMultipleBlock
  simp only []
  generalize (if ((SD_SPI_CS_Reset m).setState SD_STATE_RECEIVE).sd.type = SD_TYPE_SDSC then
    address * ((SD_SPI_CS_Reset m).setState SD_STATE_RECEIVE).sd.blockSize % 4294967296
    else address) = arg
  have e1 := clock_SendCMD m ((SD_SPI_CS_Reset m).setState SD_STATE_RECEIVE) SD_CMD_18 arg
    SD_R1_NORMAL_STATE (clock_setState _ _ _ (clock_CS_Reset _ _ (ClockExt.crefl m)))
  have e2 := clock_ReadMultipleBlock_loop num m _ data 0 e1
  have hs := StopTransfer_terminates fuel _ (h.of_ext e2)
  generalize SD_SendCMD ((SD_SPI_CS_Reset m).setState SD_STATE_RECEIVE) SD_CMD_18 arg
    SD_R1_NORMAL_STATE = r at hs ⊢
  generalize SD_ReadMultipleBlock_loop num r.2 data 0 = l at hs ⊢
  generalize SD_StopTransfer fuel l.2.2 = s at hs ⊢
  split_ifs
  · exact fun h => by cases h
  · exact fun h => by cases h
  · split
    · rename_i hn
      exact absurd hn hs
    · split_ifs <;> exact fun h => by cases h

theorem WriteBlock_terminates (fuel : Nat) (m : Machine) (address : Nat) (data : List Nat)
    (h : Timely fuel m) : (SD_WriteBlock fuel m address data).1 ≠ none := by
  unfold SD_WriteBlock
  simp only []
  generalize (if ((SD_SPI_CS_Reset m).setState SD_STATE_SENDING).sd.type = SD_TYPE_SDSC then
    address * ((SD_SPI_CS_Reset m).setState SD_STATE_SENDING).sd.blockSize % 4294967296
    else address) = arg
  have e1 := clock_SendCMD m ((SD_SPI_CS_Reset m).setState SD_STATE_SENDING) SD_CMD_24 arg
    SD_R1_NORMAL_STATE (clock_setState _ _ _ (clock_CS_Reset _ _ (ClockExt.crefl m)))
  have e2 := clock_SendToken m _ SD_START_RMW_BLOCK_TOKEN e1
  have hw := WriteData_terminates fuel _ data
    (SD_SendToken (SD_SendCMD ((SD_SPI_CS_Reset m).setState SD_STATE_SENDING) SD_CMD_24 arg
      SD_R1_NORMAL_STATE).2 SD_START_RMW_BLOCK_TOKEN).2.sd.blockSize (h.of_ext e2)
  have e3 := clock_WriteData m _ fuel data
    (SD_SendToken (SD_SendCMD ((SD_SPI_CS_Reset m).setState SD_STATE_SENDING) SD_CMD_24 arg
      SD_R1_NORMAL_STATE).2 SD_START_RMW_BLOCK_TOKEN).2.sd.blockSize e2
  have hb := WaitForBusy_terminates fuel _ (h.of_ext e3)
  generalize SD_SendCMD ((SD_SPI_CS_Reset m).setState SD_STATE_SENDING) SD_CMD_24 arg
    SD_R1_NORMAL_STATE = r at hw hb ⊢
  generalize SD_SendToken r.2 SD_START_RMW_BLOCK_TOKEN = t at hw hb ⊢
  generalize SD_WriteData fuel t.2 data t.2.sd.blockSize = w at hw hb ⊢
  generalize SD_WaitForBusy fuel w.2 = b at hb ⊢
  repeat' (first
    | exact Option.some_ne_none _
    | split)
  all_goals (first | exact absurd ‹w.1 = none› hw | exact absurd ‹b.1 = none› hb)

theorem WriteMultipleBlock_loop_terminates (fuel num : Nat) : ∀ (m : Machine) (data : List Nat),
    Timely fuel m → (SD_WriteMultipleBlock_loop fuel num m data).1 ≠ none := by
  induction num with
  | zero => intro m data _; exact fun h => by cases h
  | succ n ih =>
    intro m data h
    have e1 := clock_SendToken m m SD_START_WM_BLOCK_TOKEN (ClockExt.crefl m)
    have hw := WriteData_terminates fuel _ data
      (SD_SendToken m SD_START_WM_BLOCK_TOKEN).2.sd.blockSize (h.of_ext e1)
    have e2 := clock_WriteData m _ fuel data
      (SD_SendToken m SD_START_WM_BLOCK_TOKEN).2.sd.blockSize e1
    have hs := StopTransfer_terminates fuel _ (h.of_ext e2)
    have hi := fun d => ih (SD_WriteData fuel (SD_SendToken m SD_START_WM_BLOCK_TOKEN).2 data
      (SD_SendToken m SD_START_WM_BLOCK_TOKEN).2.sd.blockSize).2 d (h.of_ext e2)
    unfold SD_WriteMultipleBlock_loop
    simp only []
    generalize SD_SendToken m SD_START_WM_BLOCK_TOKEN = t at hw hs hi ⊢
    generalize SD_WriteData fuel t.2 data t.2.sd.blockSize = w at hw hs hi ⊢
    generalize SD_StopTransfer fuel w.2 = s at hs ⊢
    split_ifs
    · exact fun h => by cases h
    · split
      · rename_i hn
        exact absurd hn hw
      · split_ifs
        · exact fun h => by cases h
        · split
          · rename_i hn
            exact absurd hn hs
          · exact fun h => by cases h
        · exact hi _

theorem WriteMultipleBlock_terminates (fuel : Nat) (m : Machine) (address : Nat)
    (data : List Nat) (num : Nat) (h : Timely fuel m) :
    (SD_WriteMultipleBlock fuel m address data num).1 ≠ none := by
  unfold SD_WriteMultipleBlock
  simp only []
  generalize (if ((SD_SPI_CS_Reset m).setState SD_STATE_SENDING).sd.type = SD_TYPE_SDSC then
    address * ((SD_SPI_CS_Reset m).setState SD_STATE_SENDING).sd.blockSize % 4294967296
    else address) = arg
  have e1 := clock_SendCMD m ((SD_SPI_CS_Reset m).setState SD_STATE_SENDING) SD_CMD_25 arg
    SD_R1_NORMAL_STATE (clock_setState _ _ _ (clock_CS_Reset _ _ (ClockExt.crefl m)))
  have e2 := clock_SendDummyByte 1 m _ e1
  have hl := WriteMultipleBlock_loop_terminates fuel num _ data (h.of_ext e2)
  have e3 := clock_WriteMultipleBlock_loop fuel num m _ data e2
  have e4 := clock_SendDummyByte 1 m _ (clock_SendToken m _ SD_STOP_WE_BLOCK_TOKEN e3)
  have hb := WaitForBusy_terminates fuel _ (h.of_ext e4)
  generalize SD_SendCMD ((SD_SPI_CS_Reset m).setState SD_STATE_SENDING) SD_CMD_25 arg
    SD_R1_NORMAL_STATE = r at hl hb ⊢
  generalize SD_SendDummyByte r.2 1 = d at hl hb ⊢
  generalize SD_WriteMultipleBlock_loop fuel num d.2 data = l at hl hb ⊢
  generalize SD_SendToken l.2 SD_STOP_WE_BLOCK_TOKEN = t at hb ⊢
  generalize SD_SendDummyByte t.2 1 = d2 at hb ⊢
  generalize SD_WaitForBusy fuel d2.2 = b at hb ⊢
  repeat' (first
    | exact Option.some_ne_none _
    | split)
  all_goals (first | exact absurd ‹l.1 = none› hl | exact absurd ‹b.1 = none› hb)

theorem Init_modes_terminates (fuel : Nat) (m2 : Machine) (h : Timely fuel m2) :
    (SD_Init_modes fuel m2).1 ≠ none := by
  have e1 := clock_CheckVoltage m2 _ (clock_GoToIdleMode m2 m2 (ClockExt.crefl m2))
  have hg := GoToTransferMode_terminates fuel _ (h.of_ext e1)
  have hr := Init_registers_cases
    (SD_GoToTransferMode fuel (SD_CheckVoltage (SD_GoToIdleMode m2).2).2).2
  unfold SD_Init_modes
  simp only []
  generalize SD_GoToIdleMode m2 = i at hg hr ⊢
  generalize SD_CheckVoltage i.2 = v at hg hr ⊢
  generalize SD_GoToTransferMode fuel v.2 = g at hg hr ⊢
  split_ifs
  · exact fun h => by cases h
  · exact fun h => by cases h
  · split
    · rename_i hn
      exact absurd hn hg
    · split_ifs
      · exact fun h => by cases h
      · rcases hr with hr | hr
        · rw [hr.1]
          exact fun h => by cases h
        · rw [hr.1]
          exact fun h => by cases h

theorem clock_table (m : Machine) (tbl : Nat → Nat) :
    ClockExt m { m with SD_CRC7_Table := tbl } := ⟨rfl, 0, fun _ => rfl⟩

theorem Init_terminates (fuel : Nat) (m : Machine) (h : Timely fuel m) :
    (SD_Init fuel m).1 ≠ none := by
  rw [Init_staged]
  have e1 := clock_SendDummyByte 9 m _ (clock_SetSpeed m _ SD_SPI_INIT_SPEED
    (clock_Config m _ (clock_table m (SD_CRC7_GenTable m.SD_CRC7_Table))))
  generalize (SD_SendDummyByte (SD_SPI_SetSpeed (SD_SPI_Config
    { m with SD_CRC7_Table := SD_CRC7_GenTable m.SD_CRC7_Table }) SD_SPI_INIT_SPEED) 9) = d
    at e1 ⊢
  split_ifs
  · exact fun h => by cases h
  · exact Init_modes_terminates fuel _ (h.of_ext (clock_CS_Reset m _
      (clock_setMode m _ _ (clock_setState m _ _ (clock_setType m _ _ e1)))))

theorem scripted_timely (sd : SD_Parameters_t) (rx8 : List Nat) (rx16 : List (List Nat)) :
    Timely 72000002 (scriptedMachine sd rx8 rx16) := by
  have ht : timeoutCycles (scriptedMachine sd rx8 rx16) = 72000000 := by
    simp only [timeoutCycles, DWT_CyclesInMs, scriptedMachine]
    decide
  refine ⟨1, fun k => ⟨Nat.lt_succ_self k, Nat.le_refl _⟩, ?_, ?_⟩
  · rw [ht]
    decide
  · rw [ht]

/-- C35: each of the seven public operations returns `SD_OK` or `SD_ERROR` and nothing else,
whatever the transport does: `SD_ReadStatus`, `SD_GetWrittenBlocks` and `SD_ReadBlock`
always return one of the two, and whenever `SD_Init`, `SD_ReadMultipleBlock`,
`SD_WriteBlock` or `SD_WriteMultipleBlock` returns, the result is one of the two.  These
four do return when the cycle counter advances with every reading (by a bounded step) and
the fuel covers the polls of one time budget. -/
theorem C35_public_results_ok_or_error (fuel : Nat) (m : Machine) (address : Nat)
    (data : List Nat) (num : Nat) :
    ((SD_ReadStatus m).1 = SD_OK ∨ (SD_ReadStatus m).1 = SD_ERROR) ∧
    ((SD_GetWrittenBlocks m).1 = SD_OK ∨ (SD_GetWrittenBlocks m).1 = SD_ERROR) ∧
    ((SD_ReadBlock m address data).1 = SD_OK ∨ (SD_ReadBlock m address data).1 = SD_ERROR) ∧
    (∀ e, (SD_Init fuel m).1 = some e → e = SD_OK ∨ e = SD_ERROR) ∧
    (∀ e, (SD_ReadMultipleBlock fuel m address data num).1 = some e →
      e = SD_OK ∨ e = SD_ERROR) ∧
    (∀ e, (SD_WriteBlock fuel m address data).1 = some e → e = SD_OK ∨ e = SD_ERROR) ∧
    (∀ e, (SD_WriteMultipleBlock fuel m address data num).1 = some e →
      e = SD_OK ∨ e = SD_ERROR) ∧
    (Timely fuel m →
      (SD_Init fuel m).1 ≠ none ∧
      (SD_ReadMultipleBlock fuel m address data num).1 ≠ none ∧
      (SD_WriteBlock fuel m address data).1 ≠ none ∧
      (SD_WriteMultipleBlock fuel m address data num).1 ≠ none) := by
  refine ⟨?_, ?_, ?_, ?_, ?_, ?_, ?_, fun h => ⟨Init_terminates fuel m h,
    ReadMultipleBlock_terminates fuel m address data num h,
    WriteBlock_terminates fuel m address data h,
    WriteMultipleBlock_terminates fuel m address data num h⟩⟩
  · rcases ReadStatus_result m with h | h
    · exact Or.inl h
    · exact Or.inr h.1
  · rcases GetWrittenBlocks_result m with h | h
    · exact Or.inl h
    · exact Or.inr h.1
  · rcases ReadBlock_result m address data with h | h
    · exact Or.inl h
    · exact Or.inr h.1
  · intro e he
    rcases Init_cases fuel m with h | h | h
    · rw [he] at h; cases h
    · rw [he] at h; cases h.1; exact Or.inr rfl
    · rw [he] at h; cases h.1; exact Or.inl rfl
  · intro e he
    rcases ReadMultipleBlock_result fuel m address data num with h | h | h
    · rw [he] at h; cases h
    · rw [he] at h; cases h; exact Or.inl rfl
    · rw [he] at h; cases h.1; exact Or.inr rfl
  · intro e he
    rcases WriteBlock_result fuel m address data with h | h | h
    · rw [he] at h; cases h
    · rw [he] at h; cases h; exact Or.inl rfl
    · rw [he] at h; cases h.1; exact Or.inr rfl
  · intro e he
    rcases WriteMultipleBlock_result fuel m address data num with h | h | h
    · rw [he] at h; cases h
    · rw [he] at h; cases h; exact Or.inl rfl
    · rw [he] at h; cases h.1; exact Or.inr rfl

theorem C35_public_results_ok_or_error_witness :
    Timely 72000002 machineWriteOneCrc ∧
    (SD_WriteBlock 72000002 machineWriteOneCrc 0 [1, 2, 3, 4]).1 ≠ none ∧
    (SD_WriteBlock 20 machineWriteOneCrc 0 [1, 2, 3, 4]).1 = some SD_ERROR ∧
    (SD_ERROR = SD_OK ∨ SD_ERROR = SD_ERROR) :=
  ⟨scripted_timely _ _ _,
    ((C35_public_results_ok_or_error 72000002 machineWriteOneCrc 0 [1, 2, 3, 4] 1).2.2.2.2.2.2.2
      (scripted_timely _ _ _)).2.2.1,
    by decide!,
    (C35_public_results_ok_or_error 20 machineWriteOneCrc 0 [1, 2, 3, 4] 1).2.2.2.2.2.1
      SD_ERROR (by decide!)⟩

/-- C10: in `SD_WriteMultipleBlock` of `k + 1 + j` blocks, when CMD25 and the first `k`
blocks went through and `SD_WriteData` reports the CRC-error or write-error data response
for block `k + 1`: as soon as the drain loop of `SD_StopTransfer` has ended, be it by a byte
`0xFF`, by a failed read or by time-out, the function returns with mode and state
`INACTIVE`; after that block no further data block is sent, the next frame on the bus is
CMD12, `SD_GetWrittenBlocks` then selects the card and sends CMD55, and when it succeeds it
has sent ACMD22, read the four bytes after the start token, and stored their big-endian
value in `writtenBlocks`.  The drain loop does end within the fuel when the cycle counter
advances with every reading (by a bounded step), and also when a read within the fuel fails
or delivers `0xFF`. -/
theorem C10_write_error_stops_and_counts (fuel : Nat) (m mc md mk mt mw : Machine)
    (address : Nat) (data : List Nat) (k j : Nat) (e : SD_Error_t)
    (hcmd : SD_SendCMD ((SD_SPI_CS_Reset m).setState SD_STATE_SENDING) SD_CMD_25
      (if m.sd.type = SD_TYPE_SDSC then address * m.sd.blockSize % 4294967296 else address)
      SD_R1_NORMAL_STATE = (SD_OK, mc))
    (hdummy : SD_SendDummyByte mc 1 = (SD_OK, md))
    (hfirst : SD_WriteMultipleBlock_loop fuel k md data = (some SD_OK, mk))
    (htoken : SD_SendToken mk SD_START_WM_BLOCK_TOKEN = (SD_OK, mt))
    (hwrite : SD_WriteData fuel mt (data.drop (k * m.sd.blockSize)) m.sd.blockSize = (some e, mw))
    (he : e = SD_CRC_ERROR ∨ e = SD_WRITE_ERROR) :
    (Timely fuel m → (SD_StopTransfer fuel mw).1 ≠ none) ∧
    (∀ n, n + 1 < fuel →
      (((SD_SendCMD mw SD_CMD_12 0 SD_R1_NORMAL_STATE).2.rx8 n).st = SD_SPI_ERROR ∨
        ((SD_SendCMD mw SD_CMD_12 0 SD_R1_NORMAL_STATE).2.rx8 n).item 0 % 256 = 0xFF) →
      (SD_StopTransfer fuel mw).1 ≠ none) ∧
    ((SD_StopTransfer fuel mw).1 ≠ none →
      (SD_WriteMultipleBlock fuel m address data (k + 1 + j)).1 = some SD_ERROR ∧
      (SD_WriteMultipleBlock fuel m address data (k + 1 + j)).2.sd.mode = SD_MODE_INACTIVE ∧
      (SD_WriteMultipleBlock fuel m address data (k + 1 + j)).2.sd.state = SD_STATE_INACTIVE ∧
      (∃ l1 l2, (SD_WriteMultipleBlock fuel m address data (k + 1 + j)).2.log =
          Event.csSet :: (l2 ++
            Event.send8 (SD_SendCMD_frame m.SD_CRC7_Table SD_CMD_55 0)
              ((SD_StopTransfer fuel mw).2.tx8 0) :: Event.csReset :: (l1 ++
            Event.send8 (SD_SendCMD_frame m.SD_CRC7_Table SD_CMD_12 0) (mw.tx8 0) :: mw.log)) ∧
        (∀ ev ∈ l1, ev.isRecv8 = true) ∧ (∀ ev ∈ l2, ev.isSend16 = false)) ∧
      ((SD_GetWrittenBlocks (SD_StopTransfer fuel mw).2).1 = SD_OK →
        ∃ bytes la lb st,
          (SD_WriteMultipleBlock fuel m address data (k + 1 + j)).2.log =
            Event.csSet :: Event.csSet :: Event.recv16 2 SD_SPI_OK bytes :: (lb ++
              Event.send8 (SD_SendCMD_frame m.SD_CRC7_Table SD_ACMD_22 0) st :: (la ++
              Event.send8 (SD_SendCMD_frame m.SD_CRC7_Table SD_CMD_55 0)
                ((SD_StopTransfer fuel mw).2.tx8 0) ::
              Event.csReset :: (SD_StopTransfer fuel mw).2.log)) ∧
          (∀ ev ∈ la, ev.isRecv8 = true) ∧ (∀ ev ∈ lb, ev.isRecv8 = true) ∧
          bytes.length = 4 ∧
          (SD_WriteMultipleBlock fuel m address data (k + 1 + j)).2.sd.writtenBlocks =
            ((bytes.getD 0 0 <<< 24) ||| (bytes.getD 1 0 <<< 16) ||| (bytes.getD 2 0 <<< 8)
              ||| bytes.getD 3 0) % 4294967296)) := by
  refine ⟨fun hclk => ?_, fun n hfuel hdrain => StopTransfer_ends fuel n mw hfuel hdrain,
    fun hs => ?_⟩
  · have e1 := clock_SendCMD m ((SD_SPI_CS_Reset m).setState SD_STATE_SENDING) SD_CMD_25
      (if m.sd.type = SD_TYPE_SDSC then address * m.sd.blockSize % 4294967296 else address)
      SD_R1_NORMAL_STATE (clock_setState _ _ _ (clock_CS_Reset _ _ (ClockExt.crefl m)))
    rw [hcmd] at e1
    have e2 := clock_SendDummyByte 1 m mc e1
    rw [hdummy] at e2
    have e3 := clock_WriteMultipleBlock_loop fuel k m md data e2
    rw [hfirst] at e3
    have e4 := clock_SendToken m mk SD_START_WM_BLOCK_TOKEN e3
    rw [htoken] at e4
    have e5 := clock_WriteData m mt fuel (data.drop (k * m.sd.blockSize)) m.sd.blockSize e4
    rw [hwrite] at e5
    exact StopTransfer_terminates fuel mw (hclk.of_ext e5)
  · obtain ⟨hres, htbl⟩ := WriteMultipleBlock_error_result fuel m mc md mk mt mw address data
      k j e hcmd hdummy hfirst htoken hwrite he hs
    have hst : (SD_StopTransfer fuel mw).2.SD_CRC7_Table = m.SD_CRC7_Table :=
      (StopTransfer_table mw fuel).trans htbl
    rw [hres]
    refine ⟨rfl, rfl, rfl, ?_, ?_⟩
    · obtain ⟨l1, h1, h2⟩ := StopTransfer_reads fuel mw
      obtain ⟨l2, h3, h4⟩ := GetWrittenBlocks_shape (SD_StopTransfer fuel mw).2
      refine ⟨l1, l2, ?_, h2, h4⟩
      show Event.csSet :: (SD_GetWrittenBlocks (SD_StopTransfer fuel mw).2).2.log = _
      rw [h3, h1, hst, htbl]
    · intro hok
      obtain ⟨bytes, la, lb, st, h1, h2, h3, h4, h5, -⟩ :=
        GetWrittenBlocks_ok (SD_StopTransfer fuel mw).2 hok
      refine ⟨bytes, la, lb, st, ?_, h2, h3, h4, h5⟩
      show Event.csSet :: (SD_GetWrittenBlocks (SD_StopTransfer fuel mw).2).2.log = _
      rw [h1, hst]

theorem C10_write_error_stops_and_counts_witness :
    ((SD_WriteMultipleBlock 20 machineWriteCrc 0 (List.range 20) 5).1 = some SD_ERROR ∧
      (SD_WriteMultipleBlock 20 machineWriteCrc 0 (List.range 20) 5).2.sd.mode =
        SD_MODE_INACTIVE ∧
      (SD_WriteMultipleBlock 20 machineWriteCrc 0 (List.range 20) 5).2.sd.state =
        SD_STATE_INACTIVE) ∧
    ((SD_WriteMultipleBlock 20 machineWriteCrcStuck 0 (List.range 20) 5).1 = some SD_ERROR ∧
      (SD_WriteMultipleBlock 20 machineWriteCrcStuck 0 (List.range 20) 5).2.sd.mode =
        SD_MODE_INACTIVE ∧
      (SD_WriteMultipleBlock 20 machineWriteCrcStuck 0 (List.range 20) 5).2.sd.state =
        SD_STATE_INACTIVE) :=
  have h := (C10_write_error_stops_and_counts 20 machineWriteCrc _ _ _ _ _ 0 (List.range 20) 2 2
    SD_CRC_ERROR (Prod.ext (by decide!) rfl) (Prod.ext (by decide!) rfl)
    (Prod.ext (by decide!) rfl) (Prod.ext (by decide!) rfl) (Prod.ext (by decide!) rfl)
    (Or.inl rfl)).2.1 0 (by decide) (Or.inr (by decide!))
  have g := (C10_write_error_stops_and_counts 20 machineWriteCrc _ _ _ _ _ 0 (List.range 20) 2 2
    SD_CRC_ERROR (Prod.ext (by decide!) rfl) (Prod.ext (by decide!) rfl)
    (Prod.ext (by decide!) rfl) (Prod.ext (by decide!) rfl) (Prod.ext (by decide!) rfl)
    (Or.inl rfl)).2.2 h
  have g2 := (C10_write_error_stops_and_counts 20 machineWriteCrcStuck _ _ _ _ _ 0
    (List.range 20) 2 2
    SD_CRC_ERROR (Prod.ext (by decide!) rfl) (Prod.ext (by decide!) rfl)
    (Prod.ext (by decide!) rfl) (Prod.ext (by decide!) rfl) (Prod.ext (by decide!) rfl)
    (Or.inl rfl)).2.2 (by decide!)
  ⟨⟨g.1, g.2.1, g.2.2.1⟩, ⟨g2.1, g2.2.1, g2.2.2.1⟩⟩

/-- The run of `SD_WriteMultipleBlock` on `machineWriteCrcStuck`: the drain loop of
`SD_StopTransfer` makes one read (`0x00`) and ends by time-out; CMD55 and ACMD22 are sent
all the same. -/
theorem machineWriteCrcStuck_run :
    (SD_WriteMultipleBlock 20 machineWriteCrcStuck 0 (List.range 20) 5).1 = some SD_ERROR ∧
    (SD_WriteMultipleBlock 20 machineWriteCrcStuck 0 (List.range 20) 5).2.sd.writtenBlocks =
      65538 ∧
    (SD_WriteMultipleBlock 20 machineWriteCrcStuck 0 (List.range 20) 5).2.log =
      [Event.csSet, Event.csSet,
       Event.recv16 2 SD_SPI_OK [0, 1, 0, 2],
       Event.recv8 1 SD_SPI_OK [0],
       Event.recv8 1 SD_SPI_OK [0],
       Event.send8 [86, 0, 0, 0, 0, 67] SD_SPI_OK,
       Event.recv8 1 SD_SPI_OK [0],
       Event.send8 [119, 0, 0, 0, 0, 101] SD_SPI_OK,
       Event.csReset,
       Event.recv8 1 SD_SPI_OK [0],
       Event.recv8 1 SD_SPI_OK [0],
       Event.send8 [76, 0, 0, 0, 0, 97] SD_SPI_OK,
       Event.recv8 1 SD_SPI_OK [235],
       Event.send16 [8, 9, 10, 11] SD_SPI_OK,
       Event.send8 [252] SD_SPI_OK,
       Event.recv8 1 SD_SPI_OK [255],
       Event.recv8 1 SD_SPI_OK [229],
       Event.send16 [4, 5, 6, 7] SD_SPI_OK,
       Event.send8 [252] SD_SPI_OK,
       Event.recv8 1 SD_SPI_OK [255],
       Event.recv8 1 SD_SPI_OK [229],
       Event.send16 [0, 1, 2, 3] SD_SPI_OK,
       Event.send8 [252] SD_SPI_OK,
       Event.recv8 1 SD_SPI_OK [255],
       Event.recv8 1 SD_SPI_OK [0],
       Event.send8 [89, 0, 0, 0, 0, 3] SD_SPI_OK,
       Event.csReset] := by
  decide!

/-! ## A write on a card that never releases the line -/

theorem WaitForBusy_loop_released (ts : Nat) : ∀ (fuel : Nat) (m : Machine) (busy : Nat),
    (SD_WaitForBusy_loop ts fuel m busy).1 = some SD_OK →
    busy = 0xFF ∨ ∃ k, (m.rx8 k).st = SD_SPI_OK ∧ (m.rx8 k).item 0 % 256 = 0xFF := by
  intro fuel
  induction fuel with
  | zero =>
    intro m busy h
    simp [SD_WaitForBusy_loop] at h
  | succ fuel ih =>
    intro m busy h
    generalize hr : SD_WaitForBusy_loop ts (fuel + 1) m busy = r at h
    rw [SD_WaitForBusy_loop] at hr
    simp only [] at hr
    split_ifs at hr with h1 h2 h3
    · subst hr; simp at h
    · subst hr; simp at h
    · subst hr
      obtain ⟨e1, -⟩ := Recv8_one_logged m h2
      have hst : (m.rx8 0).st = SD_SPI_OK := by
        have : (SD_SPI_Receive8Data m 1).1 = (m.rx8 0).st := rfl
        rw [this] at h2
        cases hc : (m.rx8 0).st
        · rfl
        · exact absurd hc h2
      rw [e1] at h
      simp only [List.headD_cons] at h
      rcases ih _ _ h with hb | ⟨k, hk1, hk2⟩
      · exact Or.inr ⟨0, hst, hb⟩
      · rw [Timeout_rx8] at hk1 hk2
        exact Or.inr ⟨k + 1, hk1, hk2⟩
    · exact Or.inl (not_not.1 h1)

theorem WriteData_loop_rx8 (ts : Nat) : ∀ (fuel : Nat) (m : Machine) (tok : Nat),
    ∃ j, ∀ i, (SD_WriteData_loop ts fuel m tok).2.rx8 i = m.rx8 (i + j) := by
  intro fuel
  induction fuel with
  | zero => intro m tok; exact ⟨0, fun i => rfl⟩
  | succ fuel ih =>
    intro m tok
    rw [SD_WriteData_loop]
    simp only []
    split_ifs with h1 h2 h3
    · exact ⟨1, fun i => rfl⟩
    · exact ⟨1, fun i => by rw [Timeout_rx8]; rfl⟩
    · obtain ⟨j, hj⟩ := ih (DWT_Timeout (SD_SPI_Receive8Data m 1).2.2 SD_TIMEOUT ts).2
        (((SD_SPI_Receive8Data m 1).2.1.headD tok) &&& 0x1F)
      refine ⟨j + 1, fun i => ?_⟩
      rw [hj, Timeout_rx8]
      show m.rx8 (i + j + 1) = _
      rw [Nat.add_assoc]
    · exact ⟨0, fun i => rfl⟩

/-- `SD_WriteData` returns `SD_OK` only after a read has delivered `0xFF`. -/
theorem WriteData_ok_released (fuel : Nat) (m : Machine) (data : List Nat) (len : Nat)
    (h : (SD_WriteData fuel m data len).1 = some SD_OK) :
    ∃ k, (m.rx8 k).st = SD_SPI_OK ∧ (m.rx8 k).item 0 % 256 = 0xFF := by
  obtain ⟨j, hj⟩ := WriteData_loop_rx8 (DWT_GetCycle (SD_SPI_Send16Data m data (len >>> 1)).2).1
    fuel (DWT_GetCycle (SD_SPI_Send16Data m data (len >>> 1)).2).2 0xFF
  have hb := WaitForBusy_loop_released
    (DWT_GetCycle (SD_WriteData_loop (DWT_GetCycle (SD_SPI_Send16Data m data (len >>> 1)).2).1
      fuel (DWT_GetCycle (SD_SPI_Send16Data m data (len >>> 1)).2).2 0xFF).2).1 fuel
    (DWT_GetCycle (SD_WriteData_loop (DWT_GetCycle (SD_SPI_Send16Data m data (len >>> 1)).2).1
      fuel (DWT_GetCycle (SD_SPI_Send16Data m data (len >>> 1)).2).2 0xFF).2).2 0
  have hb2 : (SD_WaitForBusy fuel (SD_WriteData_loop
      (DWT_GetCycle (SD_SPI_Send16Data m data (len >>> 1)).2).1 fuel
      (DWT_GetCycle (SD_SPI_Send16Data m data (len >>> 1)).2).2 0xFF).2).1 = some SD_OK →
      ∃ k, (m.rx8 k).st = SD_SPI_OK ∧ (m.rx8 k).item 0 % 256 = 0xFF := by
    intro hw
    rcases hb hw with h0 | ⟨k, hk1, hk2⟩
    · exact absurd h0 (by decide)
    · have e : (DWT_GetCycle (SD_WriteData_loop
          (DWT_GetCycle (SD_SPI_Send16Data m data (len >>> 1)).2).1 fuel
          (DWT_GetCycle (SD_SPI_Send16Data m data (len >>> 1)).2).2 0xFF).2).2.rx8 k =
          m.rx8 (k + j) := hj k
      rw [e] at hk1 hk2
      exact ⟨k + j, hk1, hk2⟩
  generalize hr : SD_WriteData fuel m data len = r at h
  unfold SD_WriteData at hr
  simp only [] at hr
  generalize SD_SPI_Send16Data m data (len >>> 1) = s at hr hb2
  generalize SD_WriteData_loop (DWT_GetCycle s.2).1 fuel (DWT_GetCycle s.2).2 0xFF = l at hr hb2
  generalize SD_WaitForBusy fuel l.2 = w at hr hb2
  split_ifs at hr with h1
  · subst hr; cases h
  · split at hr
    · subst hr; cases h
    · subst hr; cases h
    · split_ifs at hr with h2 h3
      · subst hr; cases h
      · subst hr; cases h
      · split at hr
        · subst hr; cases h
        · rename_i e he
          split_ifs at hr with h4
          · subst hr; cases h
          · have : e = SD_OK := not_not.1 h4
            rw [this] at he
            exact hb2 he

/-- `SD_WriteBlock` returns `SD_OK` only after a read that follows the CMD24 exchange has
delivered `0xFF`. -/
theorem WriteBlock_ok_released (fuel : Nat) (m : Machine) (address : Nat) (data : List Nat)
    (h : (SD_WriteBlock fuel m address data).1 = some SD_OK) :
    ∃ k, ((SD_SendCMD ((SD_SPI_CS_Reset m).setState SD_STATE_SENDING) SD_CMD_24
        (if m.sd.type = SD_TYPE_SDSC then address * m.sd.blockSize % 4294967296 else address)
        SD_R1_NORMAL_STATE).2.rx8 k).st = SD_SPI_OK ∧
      ((SD_SendCMD ((SD_SPI_CS_Reset m).setState SD_STATE_SENDING) SD_CMD_24
        (if m.sd.type = SD_TYPE_SDSC then address * m.sd.blockSize % 4294967296 else address)
        SD_R1_NORMAL_STATE).2.rx8 k).item 0 % 256 = 0xFF := by
  have harg : (if ((SD_SPI_CS_Reset m).setState SD_STATE_SENDING).sd.type = SD_TYPE_SDSC then
      address * ((SD_SPI_CS_Reset m).setState SD_STATE_SENDING).sd.blockSize % 4294967296
      else address) =
      (if m.sd.type = SD_TYPE_SDSC then address * m.sd.blockSize % 4294967296 else address) :=
    rfl
  generalize (if m.sd.type = SD_TYPE_SDSC then address * m.sd.blockSize % 4294967296
    else address) = arg at harg ⊢
  have hw := fun len => WriteData_ok_released fuel
    (SD_SendToken (SD_SendCMD ((SD_SPI_CS_Reset m).setState SD_STATE_SENDING) SD_CMD_24 arg
      SD_R1_NORMAL_STATE).2 SD_START_RMW_BLOCK_TOKEN).2 data len
  have ht : (SD_SendToken (SD_SendCMD ((SD_SPI_CS_Reset m).setState SD_STATE_SENDING) SD_CMD_24
      arg SD_R1_NORMAL_STATE).2 SD_START_RMW_BLOCK_TOKEN).2.rx8 =
      (SD_SendCMD ((SD_SPI_CS_Reset m).setState SD_STATE_SENDING) SD_CMD_24 arg
        SD_R1_NORMAL_STATE).2.rx8 := by
    unfold SD_SendToken
    simp only []
    split_ifs <;> rfl
  generalize hr : SD_WriteBlock fuel m address data = r at h
  unfold SD_WriteBlock at hr
  simp only [] at hr
  rw [harg] at hr
  generalize SD_SendCMD ((SD_SPI_CS_Reset m).setState SD_STATE_SENDING) SD_CMD_24 arg
    SD_R1_NORMAL_STATE = c at hr hw ht ⊢
  generalize SD_SendToken c.2 SD_START_RMW_BLOCK_TOKEN = t at hr hw ht
  rw [← ht]
  have hw2 := hw t.2.sd.blockSize
  generalize SD_WriteData fuel t.2 data t.2.sd.blockSize = w at hr hw2
  generalize SD_WaitForBusy fuel w.2 = b at hr
  generalize SD_ReadStatus b.2 = s at hr
  generalize SD_ReadStatus w.2 = s2 at hr
  by_cases h1 : c.1 ≠ SD_OK
  · rw [if_pos h1] at hr; subst hr; cases h
  · rw [if_neg h1] at hr
    by_cases h2 : t.1.toNat = SD_SPI_ERROR.toNat
    · rw [if_pos h2] at hr; subst hr; cases h
    · rw [if_neg h2] at hr
      rcases hw1 : w.1 with _ | e
      · simp only [hw1] at hr; subst hr; cases h
      · simp only [hw1] at hr
        by_cases h3 : e ≠ SD_OK
        · rw [if_pos h3] at hr; subst hr; cases h
        · exact hw2 (by rw [hw1, not_not.1 h3])

/-- C22: `SD_WriteBlock` on a card that never releases the line once the CMD24 exchange is
over (no read delivers `0xFF`; a line held at `0x00` is the case in point), with a cycle
counter that advances with every reading (by a step that cannot jump over the part of the
32-bit range beyond the budget) and fuel for the polls of one budget: the function
returns, the result is `SD_ERROR` (not `SD_OK`), and the session is inactive with chip
select deasserted. -/
theorem C22_busy_forever_times_out (fuel : Nat) (m mc : Machine) (address : Nat)
    (data : List Nat) (e : SD_Error_t)
    (hcmd : SD_SendCMD ((SD_SPI_CS_Reset m).setState SD_STATE_SENDING) SD_CMD_24
      (if m.sd.type = SD_TYPE_SDSC then address * m.sd.blockSize % 4294967296 else address)
      SD_R1_NORMAL_STATE = (e, mc))
    (hrx : ∀ k, (mc.rx8 k).st = SD_SPI_OK → (mc.rx8 k).item 0 % 256 ≠ 0xFF)
    (hclk : Timely fuel m) :
    (SD_WriteBlock fuel m address data).1 = some SD_ERROR ∧
    (SD_WriteBlock fuel m address data).1 ≠ some SD_OK ∧
    (SD_WriteBlock fuel m address data).2.sd.mode = SD_MODE_INACTIVE ∧
    (SD_WriteBlock fuel m address data).2.sd.state = SD_STATE_INACTIVE ∧
    (SD_WriteBlock fuel m address data).2.log.head? = some Event.csSet := by
  have hnot : (SD_WriteBlock fuel m address data).1 ≠ some SD_OK := by
    intro hok
    obtain ⟨k, hk1, hk2⟩ := WriteBlock_ok_released fuel m address data hok
    rw [hcmd] at hk1 hk2
    exact hrx k hk1 hk2
  rcases WriteBlock_result fuel m address data with h | h | ⟨h0, h1, h2, h3⟩
  · exact absurd h (WriteBlock_terminates fuel m address data hclk)
  · exact absurd h hnot
  · exact ⟨h0, hnot, h1, h2, h3⟩

theorem timely_of_step (fuel : Nat) (m : Machine) (c : Nat) (hc : 0 < c)
    (hstep : ∀ k, m.cycles k = c * k) (h1 : timeoutCycles m + c < 4294967296)
    (h2 : timeoutCycles m + 2 ≤ fuel) : Timely fuel m := by
  refine ⟨c, fun k => ?_, h1, h2⟩
  rw [hstep, hstep, Nat.mul_succ]
  omega

theorem C22_busy_forever_times_out_witness :
    ((SD_WriteBlock 72000002 machineBusyForever 0 [1, 2, 3, 4]).1 = some SD_ERROR ∧
      (SD_WriteBlock 72000002 machineBusyForever 0 [1, 2, 3, 4]).2.sd.mode =
        SD_MODE_INACTIVE ∧
      (SD_WriteBlock 72000002 machineBusyForever 0 [1, 2, 3, 4]).2.sd.state =
        SD_STATE_INACTIVE) ∧
    ((SD_WriteBlock 72000002 machineBusyAfterAccept 0 [1, 2, 3, 4]).1 = some SD_ERROR ∧
      (SD_WriteBlock 72000002 machineBusyAfterAccept 0 [1, 2, 3, 4]).2.sd.mode =
        SD_MODE_INACTIVE ∧
      (SD_WriteBlock 72000002 machineBusyAfterAccept 0 [1, 2, 3, 4]).2.sd.state =
        SD_STATE_INACTIVE) :=
  have h := C22_busy_forever_times_out 72000002 machineBusyForever _ 0 [1, 2, 3, 4] SD_OK
    (Prod.ext (by decide!) rfl)
    (fun k _ hb => by
      obtain ⟨j, -, hj⟩ := SendCMD_rx8
        ((SD_SPI_CS_Reset machineBusyForever).setState SD_STATE_SENDING) SD_CMD_24
        (if machineBusyForever.sd.type = SD_TYPE_SDSC then
          0 * machineBusyForever.sd.blockSize % 4294967296 else 0) SD_R1_NORMAL_STATE
      have e : (0 : Nat) % 256 = 0xFF :=
        ((congrArg (fun r => RxOutcome.item r 0 % 256) (hj k)).symm.trans hb)
      exact absurd e (by decide))
    (timely_of_step 72000002 machineBusyForever 1 (by decide) (fun k => (Nat.one_mul k).symm)
      (by decide) (by decide))
  have g := C22_busy_forever_times_out 72000002 machineBusyAfterAccept _ 0 [1, 2, 3, 4] SD_OK
    (Prod.ext (by decide!) rfl)
    (fun k _ hb => by
      obtain ⟨j, hj0, hj⟩ := SendCMD_rx8
        ((SD_SPI_CS_Reset machineBusyAfterAccept).setState SD_STATE_SENDING) SD_CMD_24
        (if machineBusyAfterAccept.sd.type = SD_TYPE_SDSC then
          0 * machineBusyAfterAccept.sd.blockSize % 4294967296 else 0) SD_R1_NORMAL_STATE
      have e : ([0x00, 0xE5].getD (k + j) 0x00) % 256 = 0xFF :=
        ((congrArg (fun r => RxOutcome.item r 0 % 256) (hj k)).symm.trans hb)
      rcases Nat.lt_or_ge (k + j) 2 with h2 | h2
      · interval_cases h3 : k + j <;> simp at e
      · rw [List.getD_eq_default _ _ (by simpa using h2)] at e
        exact absurd e (by decide))
    (timely_of_step 72000002 machineBusyAfterAccept 1000 (by decide) (fun k => rfl)
      (by decide) (by decide))
  ⟨⟨h.1, h.2.2.1, h.2.2.2.1⟩, ⟨g.1, g.2.2.1, g.2.2.2.1⟩⟩

/-! ## ACMD41 polls in terms of the card's answers -/

theorem GetR1_answered (m : Machine) (c j b : Nat) (hj : j < 9)
    (h : ∀ i < j, (m.rx8 i).st = SD_SPI_OK ∧ ((m.rx8 i).item 0 % 256) &&& 0x80 ≠ 0)
    (hok : (m.rx8 j).st = SD_SPI_OK) (hb : (m.rx8 j).item 0 % 256 = b) (hlow : b &&& 0x80 = 0) :
    SD_GetR1 m c =
      (if b = c then SD_OK else SD_INCORRECT_RESPONSE, (afterReads m (j + 1)).setLastR1 b) := by
  have hp := GetR1_poll_first_low 10 m 0xFF j b (by decide) (by omega) h hok hb hlow
  have hr : 10 - 1 - j ≠ 0 := by omega
  unfold SD_GetR1
  simp only [hp, hr, if_false]
  by_cases hc : b = c
  · simp [hc]
  · simp [hc]

/-- An answered command: the result says whether the R1 byte is the expected one, the byte
is stored in `lastR1`, and the card's remaining answers are those of the rest of the
list. -/
theorem SendCMD_answered (m : Machine) (cmd a c : Nat) (x : Nat × Nat) (xs : List (Nat × Nat))
    (h : CardAnswers m.tx8 m.rx8 (x :: xs)) :
    (SD_SendCMD m cmd a c).1 = (if x.2 = c then SD_OK else SD_INCORRECT_RESPONSE) ∧
    (SD_SendCMD m cmd a c).2.sd = { m.sd with lastR1 := x.2 } ∧
    (SD_SendCMD m cmd a c).2.cycles = m.cycles ∧
    (SD_SendCMD m cmd a c).2.SystemCoreClock = m.SystemCoreClock ∧
    CardAnswers (SD_SendCMD m cmd a c).2.tx8 (SD_SendCMD m cmd a c).2.rx8 xs := by
  obtain ⟨h1, h2, h3, h4, h5, h6, h7⟩ := h
  have hs : (SD_SPI_Send8Data m (SD_SendCMD_frame m.SD_CRC7_Table cmd a) 6).1 = SD_SPI_OK := h1
  have hg := GetR1_answered (SD_SPI_Send8Data m (SD_SendCMD_frame m.SD_CRC7_Table cmd a) 6).2
    c x.1 x.2 h2 h3 h4 h5 h6
  obtain ⟨f1, -, f3, -⟩ := afterReads_facts
    (SD_SPI_Send8Data m (SD_SendCMD_frame m.SD_CRC7_Table cmd a) 6).2 (x.1 + 1)
  obtain ⟨g1, g2, g3, -⟩ := afterReads_env
    (SD_SPI_Send8Data m (SD_SendCMD_frame m.SD_CRC7_Table cmd a) 6).2 (x.1 + 1)
  have e : SD_SendCMD m cmd a c =
      (if x.2 = c then SD_OK else SD_INCORRECT_RESPONSE,
        (afterReads (SD_SPI_Send8Data m (SD_SendCMD_frame m.SD_CRC7_Table cmd a) 6).2
          (x.1 + 1)).setLastR1 x.2) := by
    unfold SD_SendCMD
    simp only [hs, ne_eq, not_true_eq_false, if_false]
    exact hg
  rw [e]
  refine ⟨rfl, ?_, g1, g2, ?_⟩
  · show { (afterReads _ (x.1 + 1)).sd with lastR1 := x.2 } = _
    rw [f1]
    rfl
  · have t1 : ((afterReads (SD_SPI_Send8Data m (SD_SendCMD_frame m.SD_CRC7_Table cmd a) 6).2
        (x.1 + 1)).setLastR1 x.2).tx8 = fun k => m.tx8 (k + 1) := g3
    have t2 : ((afterReads (SD_SPI_Send8Data m (SD_SendCMD_frame m.SD_CRC7_Table cmd a) 6).2
        (x.1 + 1)).setLastR1 x.2).rx8 = fun k => m.rx8 (k + (x.1 + 1)) := funext f3
    rw [t1, t2]
    exact h7

/-- An answered CMD55/ACMD pair. -/
theorem SendACMD_answered (m : Machine) (acmd a c : Nat) (x y : Nat × Nat)
    (xs : List (Nat × Nat)) (h : CardAnswers m.tx8 m.rx8 (x :: y :: xs)) :
    (SD_SendACMD m acmd a c).1 = (if y.2 = c then SD_OK else SD_INCORRECT_RESPONSE) ∧
    (SD_SendACMD m acmd a c).2.sd.lastR1 = y.2 ∧
    (SD_SendACMD m acmd a c).2.cycles = m.cycles ∧
    (SD_SendACMD m acmd a c).2.SystemCoreClock = m.SystemCoreClock ∧
    CardAnswers (SD_SendACMD m acmd a c).2.tx8 (SD_SendACMD m acmd a c).2.rx8 xs := by
  rw [SendACMD_eq]
  generalize (if m.sd.mode = SD_MODE_TRANSFER then SD_R1_NORMAL_STATE else SD_R1_IDLE_STATE) =
    resp
  obtain ⟨a1, -, a3, a4, a5⟩ := SendCMD_answered m SD_CMD_55 0 resp x (y :: xs) h
  have hne : (SD_SendCMD m SD_CMD_55 0 resp).1 ≠ SD_ERROR := by
    rw [a1]
    split_ifs <;> decide
  rw [if_neg hne]
  obtain ⟨b1, b2, b3, b4, b5⟩ :=
    SendCMD_answered (SD_SendCMD m SD_CMD_55 0 resp).2 acmd a c y xs a5
  refine ⟨b1, ?_, b3.trans a3, b4.trans a4, b5⟩
  rw [b2]

theorem GoToTransferMode_loop_answered (ts : Nat) :
    ∀ (polls : List ((Nat × Nat) × (Nat × Nat))) (fuel : Nat) (m : Machine) (c1 : Nat × Nat)
      (j1 : Nat),
    CardAnswers m.tx8 m.rx8 (pollAnswers polls ++ [c1, (j1, 0x00)]) →
    (∀ i ≤ polls.length, cyclesSince m ts i ≤ timeoutCycles m) →
    polls.length + 1 < fuel →
    (SD_GoToTransferMode_loop ts fuel m).1 = some SD_OK := by
  intro polls
  induction polls with
  | nil =>
    intro fuel m c1 j1 hc hb hf
    obtain ⟨f, rfl⟩ : ∃ f, fuel = f + 1 + 1 := ⟨fuel - 2, by simp at hf; omega⟩
    have hc2 : CardAnswers (DWT_GetCycle m).2.tx8 (DWT_GetCycle m).2.rx8 [c1, (j1, 0x00)] := hc
    obtain ⟨a1, a2, -⟩ := SendACMD_answered (DWT_GetCycle m).2 SD_ACMD_41 0 SD_R1_NORMAL_STATE
      c1 (j1, 0x00) [] hc2
    have hb0 : cyclesSince m ts 0 ≤ timeoutCycles m := hb 0 (Nat.le_refl _)
    rw [SD_GoToTransferMode_loop]
    simp only []
    by_cases h1 : m.sd.lastR1 ≠ SD_R1_NORMAL_STATE
    · have hne : (SD_SendACMD (DWT_GetCycle m).2 SD_ACMD_41 0 SD_R1_NORMAL_STATE).1 ≠
          SD_ERROR := by
        rw [a1]
        exact fun hh => by cases hh
      rw [if_pos h1, Timeout_eq]
      simp only [ge_iff_le, hb0, if_true, ne_eq, not_true_eq_false, if_false]
      rw [if_neg hne, SD_GoToTransferMode_loop]
      have a3 : ¬ (SD_SendACMD (DWT_GetCycle m).2 SD_ACMD_41 0 SD_R1_NORMAL_STATE).2.sd.lastR1 ≠
          SD_R1_NORMAL_STATE := not_not.2 a2
      simp only []
      rw [if_neg a3]
    · rw [if_neg h1]
  | cons p ps ih =>
    intro fuel m c1 j1 hc hb hf
    obtain ⟨f, rfl⟩ : ∃ f, fuel = f + 1 := ⟨fuel - 1, by omega⟩
    have hc2 : CardAnswers (DWT_GetCycle m).2.tx8 (DWT_GetCycle m).2.rx8
        (p.1 :: p.2 :: (pollAnswers ps ++ [c1, (j1, 0x00)])) := hc
    obtain ⟨a1, -, a3, a4, a5⟩ := SendACMD_answered (DWT_GetCycle m).2 SD_ACMD_41 0
      SD_R1_NORMAL_STATE p.1 p.2 _ hc2
    have hb0 : cyclesSince m ts 0 ≤ timeoutCycles m := hb 0 (Nat.zero_le _)
    rw [SD_GoToTransferMode_loop]
    simp only []
    by_cases h1 : m.sd.lastR1 ≠ SD_R1_NORMAL_STATE
    · have hne : (SD_SendACMD (DWT_GetCycle m).2 SD_ACMD_41 0 SD_R1_NORMAL_STATE).1 ≠
          SD_ERROR := by
        rw [a1]
        split_ifs <;> decide
      rw [if_pos h1, Timeout_eq]
      simp only [ge_iff_le, hb0, if_true, ne_eq, not_true_eq_false, if_false]
      rw [if_neg hne]
      apply ih f _ c1 j1 a5
      · intro i hi
        have hT : timeoutCycles (SD_SendACMD (DWT_GetCycle m).2 SD_ACMD_41 0
            SD_R1_NORMAL_STATE).2 = timeoutCycles m := by
          unfold timeoutCycles DWT_CyclesInMs
          rw [a4]
          rfl
        have hC : cyclesSince (SD_SendACMD (DWT_GetCycle m).2 SD_ACMD_41 0
            SD_R1_NORMAL_STATE).2 ts i = cyclesSince m ts (i + 1) := by
          unfold cyclesSince
          rw [a3]
          rfl
        rw [hT, hC]
        exact hb (i + 1) (by simp only [List.length_cons]; omega)
      · simp only [List.length_cons] at hf
        omega
    · rw [if_neg h1]

/-- C29 (amended): the card's R1 answers, each arriving on one of the first nine reads after
its command with no transport call failing, are: any answer to the first CMD55, `0x01` to
the first ACMD41, any answers to the polls in `polls`, and then any answer to CMD55 followed
by `0x00` to ACMD41.  When these polls are issued before the budget has expired (and the
fuel covers them), `SD_GoToTransferMode` returns `SD_OK` with `mode` Transfer and `state`
Standby.  When the first ACMD41 is answered with anything but `0x01`, so also with `0x00`,
the function returns `SD_ERROR`. -/
theorem C29_ready_after_first_poll (fuel : Nat) (m : Machine) (c0 : Nat × Nat) (j0 b0 : Nat)
    (polls : List ((Nat × Nat) × (Nat × Nat))) (c1 : Nat × Nat) (j1 : Nat) :
    (CardAnswers m.tx8 m.rx8
        (c0 :: (j0, 0x01) :: (pollAnswers polls ++ [c1, (j1, 0x00)])) →
      (∀ i ≤ polls.length, cyclesSince m (m.cycles 0) (i + 1) ≤ timeoutCycles m) →
      polls.length + 1 < fuel →
      (SD_GoToTransferMode fuel m).1 = some SD_OK ∧
      (SD_GoToTransferMode fuel m).2.sd.mode = SD_MODE_TRANSFER ∧
      (SD_GoToTransferMode fuel m).2.sd.state = SD_STATE_STANDBY) ∧
    (CardAnswers m.tx8 m.rx8 [c0, (j0, b0)] → b0 ≠ 0x01 →
      (SD_GoToTransferMode fuel m).1 = some SD_ERROR) := by
  constructor
  · intro hc hb hf
    have key : (SD_GoToTransferMode fuel m).1 = some SD_OK := by
      rw [GoToTransferMode_eq]
      generalize (if m.sd.version = 2 then 0x40000000 else 0) = a
      obtain ⟨a1, -, a3, a4, a5⟩ := SendACMD_answered m SD_ACMD_41 a SD_R1_IDLE_STATE c0
        (j0, 0x01) _ hc
      have hfirst : (SD_SendACMD m SD_ACMD_41 a SD_R1_IDLE_STATE).1 = SD_OK := a1
      have hl := GoToTransferMode_loop_answered
        (DWT_GetCycle (SD_SendACMD m SD_ACMD_41 a SD_R1_IDLE_STATE).2).1 polls fuel
        (DWT_GetCycle (SD_SendACMD m SD_ACMD_41 a SD_R1_IDLE_STATE).2).2 c1 j1 a5
        (by
          intro i hi
          have hT : timeoutCycles (DWT_GetCycle (SD_SendACMD m SD_ACMD_41 a
              SD_R1_IDLE_STATE).2).2 = timeoutCycles m := by
            unfold timeoutCycles DWT_CyclesInMs
            show SD_TIMEOUT * ((SD_SendACMD m SD_ACMD_41 a SD_R1_IDLE_STATE).2.SystemCoreClock
              % 4294967296 / 1000) % 4294967296 = _
            rw [a4]
          have hC : cyclesSince (DWT_GetCycle (SD_SendACMD m SD_ACMD_41 a
              SD_R1_IDLE_STATE).2).2
              (DWT_GetCycle (SD_SendACMD m SD_ACMD_41 a SD_R1_IDLE_STATE).2).1 i =
              cyclesSince m (m.cycles 0) (i + 1) := by
            show cyclesSince _ ((SD_SendACMD m SD_ACMD_41 a SD_R1_IDLE_STATE).2.cycles 0
              % 4294967296) i = _
            rw [cyclesSince_mod]
            unfold cyclesSince
            show ((SD_SendACMD m SD_ACMD_41 a SD_R1_IDLE_STATE).2.cycles (i + 1) % 4294967296 +
              _ - (SD_SendACMD m SD_ACMD_41 a SD_R1_IDLE_STATE).2.cycles 0 % _) % _ = _
            rw [a3]
          rw [hT, hC]
          exact hb i hi)
        hf
      rw [if_neg (not_not.2 hfirst)]
      generalize SD_GoToTransferMode_loop
        (DWT_GetCycle (SD_SendACMD m SD_ACMD_41 a SD_R1_IDLE_STATE).2).1 fuel
        (DWT_GetCycle (SD_SendACMD m SD_ACMD_41 a SD_R1_IDLE_STATE).2).2 = l at hl ⊢
      simp only [hl, ne_eq, not_true_eq_false, if_false]
    obtain ⟨h1, h2, -⟩ := GoToTransferMode_ok fuel m key
    exact ⟨key, h1, h2⟩
  · intro hc hne
    obtain ⟨a1, -⟩ := SendACMD_answered m SD_ACMD_41 (if m.sd.version = 2 then 0x40000000 else 0)
      SD_R1_IDLE_STATE c0 (j0, b0) [] hc
    have hfirst : (SD_SendACMD m SD_ACMD_41 (if m.sd.version = 2 then 0x40000000 else 0)
        SD_R1_IDLE_STATE).1 ≠ SD_OK := by
      rw [a1]
      have : ¬ ((j0, b0).2 = SD_R1_IDLE_STATE) := hne
      rw [if_neg this]
      decide
    rw [GoToTransferMode_eq, if_pos hfirst]

theorem C29_ready_after_first_poll_witness :
    (SD_GoToTransferMode 5 machinePollSlow).1 = some SD_OK ∧
    (SD_GoToTransferMode 5 machinePollSlow).2.sd.mode = SD_MODE_TRANSFER ∧
    (SD_GoToTransferMode 5 machinePollSlow).2.sd.state = SD_STATE_STANDBY :=
  (C29_ready_after_first_poll 5 machinePollSlow (2, 0x01) 0 0 [((0, 0x05), (0, 0x01))]
    (0, 0x01) 8).1
    (by simp only [CardAnswers, pollAnswers, List.cons_append, List.nil_append]; decide!)
    (by decide!) (by decide)

/-- The card answers the second ACMD41 with `0x00` on the tenth read after the command, with
no transport call failing and well within the budget: `SD_GetR1` gives up after the tenth
read without looking at it, and `SD_GoToTransferMode` returns `SD_ERROR` with `mode` as
before. -/
theorem GoToTransferMode_answer_on_tenth_read :
    (SD_GoToTransferMode 5 machineReadyOnTenthRead).1 = some SD_ERROR ∧
    (SD_GoToTransferMode 5 machineReadyOnTenthRead).2.sd.mode = SD_MODE_IDENTIFICATION ∧
    (SD_GoToTransferMode 5 machineReadyOnTenthRead).2.log.head? =
      some (Event.recv8 1 SD_SPI_OK [0x00]) := by
  decide!

end SDCard
